import Mathlib

/-!
# sv_authenticator: a shallow embedding and its verified properties

An embedding of the drive authentication code of `sv_authenticator`
(`crypto.c`, `sv_command.c`, `sv_send0_command.c`, `sv_report0_command.c`,
`sv_send2_command.c`, `sv_wm_command.c`, `sv_wm2_command.c`,
`sv_getver_command.c`, `sv_udata_command.c`, `sv_auth.c`) as
executable Lean definitions, followed by theorems about them.

Conventions of the embedding
* a byte is a `Nat` below 256, a `uint32_t` a `Nat` below `2 ^ 32`; byte
  buffers are `List Nat`; the 256-entry AES tables are kept in rows of sixteen
  (`table_get_join` relates this to the flat table);
* a C function writing through a pointer takes the old contents of the
  destination and returns the new contents;
* the C globals (`sv_auth`, `packet_buffer`) and the outside world (the
  `rand()` generator, the drive behind `/dev/sr0`) are fields of `World`;
  what the outside world answers is given by an `Env`;
* the values of the key constants declared in `keys.h` are not part of the
  sources at hand and are taken as a parameter (`Keys`), as is the byte
  order of the host.
-/

namespace SvAuth

/-! ## Buffers -/

/-- The C call `memcpy(dst + doff, src + soff, n)`: the new contents of `dst`. -/
def memcpy (dst : List Nat) (doff : Nat) (src : List Nat) (soff n : Nat) : List Nat :=
  dst.take doff ++ ((src.drop soff).take n ++ dst.drop (doff + n))

/-- The C call `memset(dst + doff, c, n)`: the new contents of `dst`. -/
def memset (dst : List Nat) (doff c n : Nat) : List Nat :=
  dst.take doff ++ (List.replicate n c ++ dst.drop (doff + n))

/-- The C test `memcmp(a + aoff, b + boff, n) == 0`. -/
def memcmp_eq (a : List Nat) (aoff : Nat) (b : List Nat) (boff n : Nat) : Bool :=
  decide ((a.drop aoff).take n = (b.drop boff).take n)

/-- The bytes of a 16-bit value as a native store lays them out. -/
def store16 (big_endian : Bool) (v : Nat) : List Nat :=
  if big_endian then [(v >>> 8) % 256, v % 256] else [v % 256, (v >>> 8) % 256]

/-- The bytes of a 32-bit value as a native store lays them out. -/
def store32 (big_endian : Bool) (v : Nat) : List Nat :=
  if big_endian then [(v >>> 24) % 256, (v >>> 16) % 256, (v >>> 8) % 256, v % 256]
  else [v % 256, (v >>> 8) % 256, (v >>> 16) % 256, (v >>> 24) % 256]

/-! ## AES (crypto.c) -/

def AES_DECRYPT : Int := 0
def AES_ENCRYPT : Int := 1
def AES_BLOCK_SIZE : Nat := 16
def ERROR_INVALID_MODE : Int := -1
def ERROR_INVALID_KEY_SIZE : Int := -2
def ERROR_INVALID_DATA_SIZE : Int := -3

/-- The macro `GET_UINT32_LE(n, b, i)`: the value assigned to `n`. -/
def GET_UINT32_LE (b : List Nat) (i : Nat) : Nat :=
  b.getD i 0 ||| ((b.getD (i + 1) 0 <<< 8) ||| ((b.getD (i + 2) 0 <<< 16) |||
    (b.getD (i + 3) 0 <<< 24)))

/-- The macro `PUT_UINT32_LE(n, b, i)`: the four bytes stored at `b + i`. -/
def PUT_UINT32_LE (n : Nat) : List Nat :=
  [n % 256, (n >>> 8) % 256, (n >>> 16) % 256, (n >>> 24) % 256]

/-- Entry `i` of a 256-entry table kept as sixteen rows of sixteen: the C
expression `t[i]`. -/
def table_get (t : List (List Nat)) (i : Nat) : Nat :=
  (t.getD (i / 16) []).getD (i % 16) 0

/-- Forward S-box (crypto.c, table fsb), in rows of sixteen entries. -/
def fsb : List (List Nat) := [
  [0x63, 0x7C, 0x77, 0x7B, 0xF2, 0x6B, 0x6F, 0xC5, 0x30, 0x01, 0x67, 0x2B, 0xFE, 0xD7, 0xAB, 0x76],
  [0xCA, 0x82, 0xC9, 0x7D, 0xFA, 0x59, 0x47, 0xF0, 0xAD, 0xD4, 0xA2, 0xAF, 0x9C, 0xA4, 0x72, 0xC0],
  [0xB7, 0xFD, 0x93, 0x26, 0x36, 0x3F, 0xF7, 0xCC, 0x34, 0xA5, 0xE5, 0xF1, 0x71, 0xD8, 0x31, 0x15],
  [0x04, 0xC7, 0x23, 0xC3, 0x18, 0x96, 0x05, 0x9A, 0x07, 0x12, 0x80, 0xE2, 0xEB, 0x27, 0xB2, 0x75],
  [0x09, 0x83, 0x2C, 0x1A, 0x1B, 0x6E, 0x5A, 0xA0, 0x52, 0x3B, 0xD6, 0xB3, 0x29, 0xE3, 0x2F, 0x84],
  [0x53, 0xD1, 0x00, 0xED, 0x20, 0xFC, 0xB1, 0x5B, 0x6A, 0xCB, 0xBE, 0x39, 0x4A, 0x4C, 0x58, 0xCF],
  [0xD0, 0xEF, 0xAA, 0xFB, 0x43, 0x4D, 0x33, 0x85, 0x45, 0xF9, 0x02, 0x7F, 0x50, 0x3C, 0x9F, 0xA8],
  [0x51, 0xA3, 0x40, 0x8F, 0x92, 0x9D, 0x38, 0xF5, 0xBC, 0xB6, 0xDA, 0x21, 0x10, 0xFF, 0xF3, 0xD2],
  [0xCD, 0x0C, 0x13, 0xEC, 0x5F, 0x97, 0x44, 0x17, 0xC4, 0xA7, 0x7E, 0x3D, 0x64, 0x5D, 0x19, 0x73],
  [0x60, 0x81, 0x4F, 0xDC, 0x22, 0x2A, 0x90, 0x88, 0x46, 0xEE, 0xB8, 0x14, 0xDE, 0x5E, 0x0B, 0xDB],
  [0xE0, 0x32, 0x3A, 0x0A, 0x49, 0x06, 0x24, 0x5C, 0xC2, 0xD3, 0xAC, 0x62, 0x91, 0x95, 0xE4, 0x79],
  [0xE7, 0xC8, 0x37, 0x6D, 0x8D, 0xD5, 0x4E, 0xA9, 0x6C, 0x56, 0xF4, 0xEA, 0x65, 0x7A, 0xAE, 0x08],
  [0xBA, 0x78, 0x25, 0x2E, 0x1C, 0xA6, 0xB4, 0xC6, 0xE8, 0xDD, 0x74, 0x1F, 0x4B, 0xBD, 0x8B, 0x8A],
  [0x70, 0x3E, 0xB5, 0x66, 0x48, 0x03, 0xF6, 0x0E, 0x61, 0x35, 0x57, 0xB9, 0x86, 0xC1, 0x1D, 0x9E],
  [0xE1, 0xF8, 0x98, 0x11, 0x69, 0xD9, 0x8E, 0x94, 0x9B, 0x1E, 0x87, 0xE9, 0xCE, 0x55, 0x28, 0xDF],
  [0x8C, 0xA1, 0x89, 0x0D, 0xBF, 0xE6, 0x42, 0x68, 0x41, 0x99, 0x2D, 0x0F, 0xB0, 0x54, 0xBB, 0x16]
]

/-- Forward table ft0: the entries of the FT list with the byte order V(a,b,c,d) = 0xabcd, in rows of sixteen entries. -/
def ft0 : List (List Nat) := [
  [0xA56363C6, 0x847C7CF8, 0x997777EE, 0x8D7B7BF6, 0x0DF2F2FF, 0xBD6B6BD6, 0xB16F6FDE, 0x54C5C591,
   0x50303060, 0x03010102, 0xA96767CE, 0x7D2B2B56, 0x19FEFEE7, 0x62D7D7B5, 0xE6ABAB4D, 0x9A7676EC],
  [0x45CACA8F, 0x9D82821F, 0x40C9C989, 0x877D7DFA, 0x15FAFAEF, 0xEB5959B2, 0xC947478E, 0x0BF0F0FB,
   0xECADAD41, 0x67D4D4B3, 0xFDA2A25F, 0xEAAFAF45, 0xBF9C9C23, 0xF7A4A453, 0x967272E4, 0x5BC0C09B],
  [0xC2B7B775, 0x1CFDFDE1, 0xAE93933D, 0x6A26264C, 0x5A36366C, 0x413F3F7E, 0x02F7F7F5, 0x4FCCCC83,
   0x5C343468, 0xF4A5A551, 0x34E5E5D1, 0x08F1F1F9, 0x937171E2, 0x73D8D8AB, 0x53313162, 0x3F15152A],
  [0x0C040408, 0x52C7C795, 0x65232346, 0x5EC3C39D, 0x28181830, 0xA1969637, 0x0F05050A, 0xB59A9A2F,
   0x0907070E, 0x36121224, 0x9B80801B, 0x3DE2E2DF, 0x26EBEBCD, 0x6927274E, 0xCDB2B27F, 0x9F7575EA],
  [0x1B090912, 0x9E83831D, 0x742C2C58, 0x2E1A1A34, 0x2D1B1B36, 0xB26E6EDC, 0xEE5A5AB4, 0xFBA0A05B,
   0xF65252A4, 0x4D3B3B76, 0x61D6D6B7, 0xCEB3B37D, 0x7B292952, 0x3EE3E3DD, 0x712F2F5E, 0x97848413],
  [0xF55353A6, 0x68D1D1B9, 0x00000000, 0x2CEDEDC1, 0x60202040, 0x1FFCFCE3, 0xC8B1B179, 0xED5B5BB6,
   0xBE6A6AD4, 0x46CBCB8D, 0xD9BEBE67, 0x4B393972, 0xDE4A4A94, 0xD44C4C98, 0xE85858B0, 0x4ACFCF85],
  [0x6BD0D0BB, 0x2AEFEFC5, 0xE5AAAA4F, 0x16FBFBED, 0xC5434386, 0xD74D4D9A, 0x55333366, 0x94858511,
   0xCF45458A, 0x10F9F9E9, 0x06020204, 0x817F7FFE, 0xF05050A0, 0x443C3C78, 0xBA9F9F25, 0xE3A8A84B],
  [0xF35151A2, 0xFEA3A35D, 0xC0404080, 0x8A8F8F05, 0xAD92923F, 0xBC9D9D21, 0x48383870, 0x04F5F5F1,
   0xDFBCBC63, 0xC1B6B677, 0x75DADAAF, 0x63212142, 0x30101020, 0x1AFFFFE5, 0x0EF3F3FD, 0x6DD2D2BF],
  [0x4CCDCD81, 0x140C0C18, 0x35131326, 0x2FECECC3, 0xE15F5FBE, 0xA2979735, 0xCC444488, 0x3917172E,
   0x57C4C493, 0xF2A7A755, 0x827E7EFC, 0x473D3D7A, 0xAC6464C8, 0xE75D5DBA, 0x2B191932, 0x957373E6],
  [0xA06060C0, 0x98818119, 0xD14F4F9E, 0x7FDCDCA3, 0x66222244, 0x7E2A2A54, 0xAB90903B, 0x8388880B,
   0xCA46468C, 0x29EEEEC7, 0xD3B8B86B, 0x3C141428, 0x79DEDEA7, 0xE25E5EBC, 0x1D0B0B16, 0x76DBDBAD],
  [0x3BE0E0DB, 0x56323264, 0x4E3A3A74, 0x1E0A0A14, 0xDB494992, 0x0A06060C, 0x6C242448, 0xE45C5CB8,
   0x5DC2C29F, 0x6ED3D3BD, 0xEFACAC43, 0xA66262C4, 0xA8919139, 0xA4959531, 0x37E4E4D3, 0x8B7979F2],
  [0x32E7E7D5, 0x43C8C88B, 0x5937376E, 0xB76D6DDA, 0x8C8D8D01, 0x64D5D5B1, 0xD24E4E9C, 0xE0A9A949,
   0xB46C6CD8, 0xFA5656AC, 0x07F4F4F3, 0x25EAEACF, 0xAF6565CA, 0x8E7A7AF4, 0xE9AEAE47, 0x18080810],
  [0xD5BABA6F, 0x887878F0, 0x6F25254A, 0x722E2E5C, 0x241C1C38, 0xF1A6A657, 0xC7B4B473, 0x51C6C697,
   0x23E8E8CB, 0x7CDDDDA1, 0x9C7474E8, 0x211F1F3E, 0xDD4B4B96, 0xDCBDBD61, 0x868B8B0D, 0x858A8A0F],
  [0x907070E0, 0x423E3E7C, 0xC4B5B571, 0xAA6666CC, 0xD8484890, 0x05030306, 0x01F6F6F7, 0x120E0E1C,
   0xA36161C2, 0x5F35356A, 0xF95757AE, 0xD0B9B969, 0x91868617, 0x58C1C199, 0x271D1D3A, 0xB99E9E27],
  [0x38E1E1D9, 0x13F8F8EB, 0xB398982B, 0x33111122, 0xBB6969D2, 0x70D9D9A9, 0x898E8E07, 0xA7949433,
   0xB69B9B2D, 0x221E1E3C, 0x92878715, 0x20E9E9C9, 0x49CECE87, 0xFF5555AA, 0x78282850, 0x7ADFDFA5],
  [0x8F8C8C03, 0xF8A1A159, 0x80898909, 0x170D0D1A, 0xDABFBF65, 0x31E6E6D7, 0xC6424284, 0xB86868D0,
   0xC3414182, 0xB0999929, 0x772D2D5A, 0x110F0F1E, 0xCBB0B07B, 0xFC5454A8, 0xD6BBBB6D, 0x3A16162C]
]

/-- Forward table ft1: the entries of the FT list with the byte order V(a,b,c,d) = 0xbcda, in rows of sixteen entries. -/
def ft1 : List (List Nat) := [
  [0x6363C6A5, 0x7C7CF884, 0x7777EE99, 0x7B7BF68D, 0xF2F2FF0D, 0x6B6BD6BD, 0x6F6FDEB1, 0xC5C59154,
   0x30306050, 0x01010203, 0x6767CEA9, 0x2B2B567D, 0xFEFEE719, 0xD7D7B562, 0xABAB4DE6, 0x7676EC9A],
  [0xCACA8F45, 0x82821F9D, 0xC9C98940, 0x7D7DFA87, 0xFAFAEF15, 0x5959B2EB, 0x47478EC9, 0xF0F0FB0B,
   0xADAD41EC, 0xD4D4B367, 0xA2A25FFD, 0xAFAF45EA, 0x9C9C23BF, 0xA4A453F7, 0x7272E496, 0xC0C09B5B],
  [0xB7B775C2, 0xFDFDE11C, 0x93933DAE, 0x26264C6A, 0x36366C5A, 0x3F3F7E41, 0xF7F7F502, 0xCCCC834F,
   0x3434685C, 0xA5A551F4, 0xE5E5D134, 0xF1F1F908, 0x7171E293, 0xD8D8AB73, 0x31316253, 0x15152A3F],
  [0x0404080C, 0xC7C79552, 0x23234665, 0xC3C39D5E, 0x18183028, 0x969637A1, 0x05050A0F, 0x9A9A2FB5,
   0x07070E09, 0x12122436, 0x80801B9B, 0xE2E2DF3D, 0xEBEBCD26, 0x27274E69, 0xB2B27FCD, 0x7575EA9F],
  [0x0909121B, 0x83831D9E, 0x2C2C5874, 0x1A1A342E, 0x1B1B362D, 0x6E6EDCB2, 0x5A5AB4EE, 0xA0A05BFB,
   0x5252A4F6, 0x3B3B764D, 0xD6D6B761, 0xB3B37DCE, 0x2929527B, 0xE3E3DD3E, 0x2F2F5E71, 0x84841397],
  [0x5353A6F5, 0xD1D1B968, 0x00000000, 0xEDEDC12C, 0x20204060, 0xFCFCE31F, 0xB1B179C8, 0x5B5BB6ED,
   0x6A6AD4BE, 0xCBCB8D46, 0xBEBE67D9, 0x3939724B, 0x4A4A94DE, 0x4C4C98D4, 0x5858B0E8, 0xCFCF854A],
  [0xD0D0BB6B, 0xEFEFC52A, 0xAAAA4FE5, 0xFBFBED16, 0x434386C5, 0x4D4D9AD7, 0x33336655, 0x85851194,
   0x45458ACF, 0xF9F9E910, 0x02020406, 0x7F7FFE81, 0x5050A0F0, 0x3C3C7844, 0x9F9F25BA, 0xA8A84BE3],
  [0x5151A2F3, 0xA3A35DFE, 0x404080C0, 0x8F8F058A, 0x92923FAD, 0x9D9D21BC, 0x38387048, 0xF5F5F104,
   0xBCBC63DF, 0xB6B677C1, 0xDADAAF75, 0x21214263, 0x10102030, 0xFFFFE51A, 0xF3F3FD0E, 0xD2D2BF6D],
  [0xCDCD814C, 0x0C0C1814, 0x13132635, 0xECECC32F, 0x5F5FBEE1, 0x979735A2, 0x444488CC, 0x17172E39,
   0xC4C49357, 0xA7A755F2, 0x7E7EFC82, 0x3D3D7A47, 0x6464C8AC, 0x5D5DBAE7, 0x1919322B, 0x7373E695],
  [0x6060C0A0, 0x81811998, 0x4F4F9ED1, 0xDCDCA37F, 0x22224466, 0x2A2A547E, 0x90903BAB, 0x88880B83,
   0x46468CCA, 0xEEEEC729, 0xB8B86BD3, 0x1414283C, 0xDEDEA779, 0x5E5EBCE2, 0x0B0B161D, 0xDBDBAD76],
  [0xE0E0DB3B, 0x32326456, 0x3A3A744E, 0x0A0A141E, 0x494992DB, 0x06060C0A, 0x2424486C, 0x5C5CB8E4,
   0xC2C29F5D, 0xD3D3BD6E, 0xACAC43EF, 0x6262C4A6, 0x919139A8, 0x959531A4, 0xE4E4D337, 0x7979F28B],
  [0xE7E7D532, 0xC8C88B43, 0x37376E59, 0x6D6DDAB7, 0x8D8D018C, 0xD5D5B164, 0x4E4E9CD2, 0xA9A949E0,
   0x6C6CD8B4, 0x5656ACFA, 0xF4F4F307, 0xEAEACF25, 0x6565CAAF, 0x7A7AF48E, 0xAEAE47E9, 0x08081018],
  [0xBABA6FD5, 0x7878F088, 0x25254A6F, 0x2E2E5C72, 0x1C1C3824, 0xA6A657F1, 0xB4B473C7, 0xC6C69751,
   0xE8E8CB23, 0xDDDDA17C, 0x7474E89C, 0x1F1F3E21, 0x4B4B96DD, 0xBDBD61DC, 0x8B8B0D86, 0x8A8A0F85],
  [0x7070E090, 0x3E3E7C42, 0xB5B571C4, 0x6666CCAA, 0x484890D8, 0x03030605, 0xF6F6F701, 0x0E0E1C12,
   0x6161C2A3, 0x35356A5F, 0x5757AEF9, 0xB9B969D0, 0x86861791, 0xC1C19958, 0x1D1D3A27, 0x9E9E27B9],
  [0xE1E1D938, 0xF8F8EB13, 0x98982BB3, 0x11112233, 0x6969D2BB, 0xD9D9A970, 0x8E8E0789, 0x949433A7,
   0x9B9B2DB6, 0x1E1E3C22, 0x87871592, 0xE9E9C920, 0xCECE8749, 0x5555AAFF, 0x28285078, 0xDFDFA57A],
  [0x8C8C038F, 0xA1A159F8, 0x89890980, 0x0D0D1A17, 0xBFBF65DA, 0xE6E6D731, 0x424284C6, 0x6868D0B8,
   0x414182C3, 0x999929B0, 0x2D2D5A77, 0x0F0F1E11, 0xB0B07BCB, 0x5454A8FC, 0xBBBB6DD6, 0x16162C3A]
]

/-- Forward table ft2: the entries of the FT list with the byte order V(a,b,c,d) = 0xcdab, in rows of sixteen entries. -/
def ft2 : List (List Nat) := [
  [0x63C6A563, 0x7CF8847C, 0x77EE9977, 0x7BF68D7B, 0xF2FF0DF2, 0x6BD6BD6B, 0x6FDEB16F, 0xC59154C5,
   0x30605030, 0x01020301, 0x67CEA967, 0x2B567D2B, 0xFEE719FE, 0xD7B562D7, 0xAB4DE6AB, 0x76EC9A76],
  [0xCA8F45CA, 0x821F9D82, 0xC98940C9, 0x7DFA877D, 0xFAEF15FA, 0x59B2EB59, 0x478EC947, 0xF0FB0BF0,
   0xAD41ECAD, 0xD4B367D4, 0xA25FFDA2, 0xAF45EAAF, 0x9C23BF9C, 0xA453F7A4, 0x72E49672, 0xC09B5BC0],
  [0xB775C2B7, 0xFDE11CFD, 0x933DAE93, 0x264C6A26, 0x366C5A36, 0x3F7E413F, 0xF7F502F7, 0xCC834FCC,
   0x34685C34, 0xA551F4A5, 0xE5D134E5, 0xF1F908F1, 0x71E29371, 0xD8AB73D8, 0x31625331, 0x152A3F15],
  [0x04080C04, 0xC79552C7, 0x23466523, 0xC39D5EC3, 0x18302818, 0x9637A196, 0x050A0F05, 0x9A2FB59A,
   0x070E0907, 0x12243612, 0x801B9B80, 0xE2DF3DE2, 0xEBCD26EB, 0x274E6927, 0xB27FCDB2, 0x75EA9F75],
  [0x09121B09, 0x831D9E83, 0x2C58742C, 0x1A342E1A, 0x1B362D1B, 0x6EDCB26E, 0x5AB4EE5A, 0xA05BFBA0,
   0x52A4F652, 0x3B764D3B, 0xD6B761D6, 0xB37DCEB3, 0x29527B29, 0xE3DD3EE3, 0x2F5E712F, 0x84139784],
  [0x53A6F553, 0xD1B968D1, 0x00000000, 0xEDC12CED, 0x20406020, 0xFCE31FFC, 0xB179C8B1, 0x5BB6ED5B,
   0x6AD4BE6A, 0xCB8D46CB, 0xBE67D9BE, 0x39724B39, 0x4A94DE4A, 0x4C98D44C, 0x58B0E858, 0xCF854ACF],
  [0xD0BB6BD0, 0xEFC52AEF, 0xAA4FE5AA, 0xFBED16FB, 0x4386C543, 0x4D9AD74D, 0x33665533, 0x85119485,
   0x458ACF45, 0xF9E910F9, 0x02040602, 0x7FFE817F, 0x50A0F050, 0x3C78443C, 0x9F25BA9F, 0xA84BE3A8],
  [0x51A2F351, 0xA35DFEA3, 0x4080C040, 0x8F058A8F, 0x923FAD92, 0x9D21BC9D, 0x38704838, 0xF5F104F5,
   0xBC63DFBC, 0xB677C1B6, 0xDAAF75DA, 0x21426321, 0x10203010, 0xFFE51AFF, 0xF3FD0EF3, 0xD2BF6DD2],
  [0xCD814CCD, 0x0C18140C, 0x13263513, 0xECC32FEC, 0x5FBEE15F, 0x9735A297, 0x4488CC44, 0x172E3917,
   0xC49357C4, 0xA755F2A7, 0x7EFC827E, 0x3D7A473D, 0x64C8AC64, 0x5DBAE75D, 0x19322B19, 0x73E69573],
  [0x60C0A060, 0x81199881, 0x4F9ED14F, 0xDCA37FDC, 0x22446622, 0x2A547E2A, 0x903BAB90, 0x880B8388,
   0x468CCA46, 0xEEC729EE, 0xB86BD3B8, 0x14283C14, 0xDEA779DE, 0x5EBCE25E, 0x0B161D0B, 0xDBAD76DB],
  [0xE0DB3BE0, 0x32645632, 0x3A744E3A, 0x0A141E0A, 0x4992DB49, 0x060C0A06, 0x24486C24, 0x5CB8E45C,
   0xC29F5DC2, 0xD3BD6ED3, 0xAC43EFAC, 0x62C4A662, 0x9139A891, 0x9531A495, 0xE4D337E4, 0x79F28B79],
  [0xE7D532E7, 0xC88B43C8, 0x376E5937, 0x6DDAB76D, 0x8D018C8D, 0xD5B164D5, 0x4E9CD24E, 0xA949E0A9,
   0x6CD8B46C, 0x56ACFA56, 0xF4F307F4, 0xEACF25EA, 0x65CAAF65, 0x7AF48E7A, 0xAE47E9AE, 0x08101808],
  [0xBA6FD5BA, 0x78F08878, 0x254A6F25, 0x2E5C722E, 0x1C38241C, 0xA657F1A6, 0xB473C7B4, 0xC69751C6,
   0xE8CB23E8, 0xDDA17CDD, 0x74E89C74, 0x1F3E211F, 0x4B96DD4B, 0xBD61DCBD, 0x8B0D868B, 0x8A0F858A],
  [0x70E09070, 0x3E7C423E, 0xB571C4B5, 0x66CCAA66, 0x4890D848, 0x03060503, 0xF6F701F6, 0x0E1C120E,
   0x61C2A361, 0x356A5F35, 0x57AEF957, 0xB969D0B9, 0x86179186, 0xC19958C1, 0x1D3A271D, 0x9E27B99E],
  [0xE1D938E1, 0xF8EB13F8, 0x982BB398, 0x11223311, 0x69D2BB69, 0xD9A970D9, 0x8E07898E, 0x9433A794,
   0x9B2DB69B, 0x1E3C221E, 0x87159287, 0xE9C920E9, 0xCE8749CE, 0x55AAFF55, 0x28507828, 0xDFA57ADF],
  [0x8C038F8C, 0xA159F8A1, 0x89098089, 0x0D1A170D, 0xBF65DABF, 0xE6D731E6, 0x4284C642, 0x68D0B868,
   0x4182C341, 0x9929B099, 0x2D5A772D, 0x0F1E110F, 0xB07BCBB0, 0x54A8FC54, 0xBB6DD6BB, 0x162C3A16]
]

/-- Forward table ft3: the entries of the FT list with the byte order V(a,b,c,d) = 0xdabc, in rows of sixteen entries. -/
def ft3 : List (List Nat) := [
  [0xC6A56363, 0xF8847C7C, 0xEE997777, 0xF68D7B7B, 0xFF0DF2F2, 0xD6BD6B6B, 0xDEB16F6F, 0x9154C5C5,
   0x60503030, 0x02030101, 0xCEA96767, 0x567D2B2B, 0xE719FEFE, 0xB562D7D7, 0x4DE6ABAB, 0xEC9A7676],
  [0x8F45CACA, 0x1F9D8282, 0x8940C9C9, 0xFA877D7D, 0xEF15FAFA, 0xB2EB5959, 0x8EC94747, 0xFB0BF0F0,
   0x41ECADAD, 0xB367D4D4, 0x5FFDA2A2, 0x45EAAFAF, 0x23BF9C9C, 0x53F7A4A4, 0xE4967272, 0x9B5BC0C0],
  [0x75C2B7B7, 0xE11CFDFD, 0x3DAE9393, 0x4C6A2626, 0x6C5A3636, 0x7E413F3F, 0xF502F7F7, 0x834FCCCC,
   0x685C3434, 0x51F4A5A5, 0xD134E5E5, 0xF908F1F1, 0xE2937171, 0xAB73D8D8, 0x62533131, 0x2A3F1515],
  [0x080C0404, 0x9552C7C7, 0x46652323, 0x9D5EC3C3, 0x30281818, 0x37A19696, 0x0A0F0505, 0x2FB59A9A,
   0x0E090707, 0x24361212, 0x1B9B8080, 0xDF3DE2E2, 0xCD26EBEB, 0x4E692727, 0x7FCDB2B2, 0xEA9F7575],
  [0x121B0909, 0x1D9E8383, 0x58742C2C, 0x342E1A1A, 0x362D1B1B, 0xDCB26E6E, 0xB4EE5A5A, 0x5BFBA0A0,
   0xA4F65252, 0x764D3B3B, 0xB761D6D6, 0x7DCEB3B3, 0x527B2929, 0xDD3EE3E3, 0x5E712F2F, 0x13978484],
  [0xA6F55353, 0xB968D1D1, 0x00000000, 0xC12CEDED, 0x40602020, 0xE31FFCFC, 0x79C8B1B1, 0xB6ED5B5B,
   0xD4BE6A6A, 0x8D46CBCB, 0x67D9BEBE, 0x724B3939, 0x94DE4A4A, 0x98D44C4C, 0xB0E85858, 0x854ACFCF],
  [0xBB6BD0D0, 0xC52AEFEF, 0x4FE5AAAA, 0xED16FBFB, 0x86C54343, 0x9AD74D4D, 0x66553333, 0x11948585,
   0x8ACF4545, 0xE910F9F9, 0x04060202, 0xFE817F7F, 0xA0F05050, 0x78443C3C, 0x25BA9F9F, 0x4BE3A8A8],
  [0xA2F35151, 0x5DFEA3A3, 0x80C04040, 0x058A8F8F, 0x3FAD9292, 0x21BC9D9D, 0x70483838, 0xF104F5F5,
   0x63DFBCBC, 0x77C1B6B6, 0xAF75DADA, 0x42632121, 0x20301010, 0xE51AFFFF, 0xFD0EF3F3, 0xBF6DD2D2],
  [0x814CCDCD, 0x18140C0C, 0x26351313, 0xC32FECEC, 0xBEE15F5F, 0x35A29797, 0x88CC4444, 0x2E391717,
   0x9357C4C4, 0x55F2A7A7, 0xFC827E7E, 0x7A473D3D, 0xC8AC6464, 0xBAE75D5D, 0x322B1919, 0xE6957373],
  [0xC0A06060, 0x19988181, 0x9ED14F4F, 0xA37FDCDC, 0x44662222, 0x547E2A2A, 0x3BAB9090, 0x0B838888,
   0x8CCA4646, 0xC729EEEE, 0x6BD3B8B8, 0x283C1414, 0xA779DEDE, 0xBCE25E5E, 0x161D0B0B, 0xAD76DBDB],
  [0xDB3BE0E0, 0x64563232, 0x744E3A3A, 0x141E0A0A, 0x92DB4949, 0x0C0A0606, 0x486C2424, 0xB8E45C5C,
   0x9F5DC2C2, 0xBD6ED3D3, 0x43EFACAC, 0xC4A66262, 0x39A89191, 0x31A49595, 0xD337E4E4, 0xF28B7979],
  [0xD532E7E7, 0x8B43C8C8, 0x6E593737, 0xDAB76D6D, 0x018C8D8D, 0xB164D5D5, 0x9CD24E4E, 0x49E0A9A9,
   0xD8B46C6C, 0xACFA5656, 0xF307F4F4, 0xCF25EAEA, 0xCAAF6565, 0xF48E7A7A, 0x47E9AEAE, 0x10180808],
  [0x6FD5BABA, 0xF0887878, 0x4A6F2525, 0x5C722E2E, 0x38241C1C, 0x57F1A6A6, 0x73C7B4B4, 0x9751C6C6,
   0xCB23E8E8, 0xA17CDDDD, 0xE89C7474, 0x3E211F1F, 0x96DD4B4B, 0x61DCBDBD, 0x0D868B8B, 0x0F858A8A],
  [0xE0907070, 0x7C423E3E, 0x71C4B5B5, 0xCCAA6666, 0x90D84848, 0x06050303, 0xF701F6F6, 0x1C120E0E,
   0xC2A36161, 0x6A5F3535, 0xAEF95757, 0x69D0B9B9, 0x17918686, 0x9958C1C1, 0x3A271D1D, 0x27B99E9E],
  [0xD938E1E1, 0xEB13F8F8, 0x2BB39898, 0x22331111, 0xD2BB6969, 0xA970D9D9, 0x07898E8E, 0x33A79494,
   0x2DB69B9B, 0x3C221E1E, 0x15928787, 0xC920E9E9, 0x8749CECE, 0xAAFF5555, 0x50782828, 0xA57ADFDF],
  [0x038F8C8C, 0x59F8A1A1, 0x09808989, 0x1A170D0D, 0x65DABFBF, 0xD731E6E6, 0x84C64242, 0xD0B86868,
   0x82C34141, 0x29B09999, 0x5A772D2D, 0x1E110F0F, 0x7BCBB0B0, 0xA8FC5454, 0x6DD6BBBB, 0x2C3A1616]
]

/-- Reverse S-box (crypto.c, table rsb), in rows of sixteen entries. -/
def rsb : List (List Nat) := [
  [0x52, 0x09, 0x6A, 0xD5, 0x30, 0x36, 0xA5, 0x38, 0xBF, 0x40, 0xA3, 0x9E, 0x81, 0xF3, 0xD7, 0xFB],
  [0x7C, 0xE3, 0x39, 0x82, 0x9B, 0x2F, 0xFF, 0x87, 0x34, 0x8E, 0x43, 0x44, 0xC4, 0xDE, 0xE9, 0xCB],
  [0x54, 0x7B, 0x94, 0x32, 0xA6, 0xC2, 0x23, 0x3D, 0xEE, 0x4C, 0x95, 0x0B, 0x42, 0xFA, 0xC3, 0x4E],
  [0x08, 0x2E, 0xA1, 0x66, 0x28, 0xD9, 0x24, 0xB2, 0x76, 0x5B, 0xA2, 0x49, 0x6D, 0x8B, 0xD1, 0x25],
  [0x72, 0xF8, 0xF6, 0x64, 0x86, 0x68, 0x98, 0x16, 0xD4, 0xA4, 0x5C, 0xCC, 0x5D, 0x65, 0xB6, 0x92],
  [0x6C, 0x70, 0x48, 0x50, 0xFD, 0xED, 0xB9, 0xDA, 0x5E, 0x15, 0x46, 0x57, 0xA7, 0x8D, 0x9D, 0x84],
  [0x90, 0xD8, 0xAB, 0x00, 0x8C, 0xBC, 0xD3, 0x0A, 0xF7, 0xE4, 0x58, 0x05, 0xB8, 0xB3, 0x45, 0x06],
  [0xD0, 0x2C, 0x1E, 0x8F, 0xCA, 0x3F, 0x0F, 0x02, 0xC1, 0xAF, 0xBD, 0x03, 0x01, 0x13, 0x8A, 0x6B],
  [0x3A, 0x91, 0x11, 0x41, 0x4F, 0x67, 0xDC, 0xEA, 0x97, 0xF2, 0xCF, 0xCE, 0xF0, 0xB4, 0xE6, 0x73],
  [0x96, 0xAC, 0x74, 0x22, 0xE7, 0xAD, 0x35, 0x85, 0xE2, 0xF9, 0x37, 0xE8, 0x1C, 0x75, 0xDF, 0x6E],
  [0x47, 0xF1, 0x1A, 0x71, 0x1D, 0x29, 0xC5, 0x89, 0x6F, 0xB7, 0x62, 0x0E, 0xAA, 0x18, 0xBE, 0x1B],
  [0xFC, 0x56, 0x3E, 0x4B, 0xC6, 0xD2, 0x79, 0x20, 0x9A, 0xDB, 0xC0, 0xFE, 0x78, 0xCD, 0x5A, 0xF4],
  [0x1F, 0xDD, 0xA8, 0x33, 0x88, 0x07, 0xC7, 0x31, 0xB1, 0x12, 0x10, 0x59, 0x27, 0x80, 0xEC, 0x5F],
  [0x60, 0x51, 0x7F, 0xA9, 0x19, 0xB5, 0x4A, 0x0D, 0x2D, 0xE5, 0x7A, 0x9F, 0x93, 0xC9, 0x9C, 0xEF],
  [0xA0, 0xE0, 0x3B, 0x4D, 0xAE, 0x2A, 0xF5, 0xB0, 0xC8, 0xEB, 0xBB, 0x3C, 0x83, 0x53, 0x99, 0x61],
  [0x17, 0x2B, 0x04, 0x7E, 0xBA, 0x77, 0xD6, 0x26, 0xE1, 0x69, 0x14, 0x63, 0x55, 0x21, 0x0C, 0x7D]
]

/-- Reverse table rt0: the entries of the RT list with the byte order V(a,b,c,d) = 0xabcd, in rows of sixteen entries. -/
def rt0 : List (List Nat) := [
  [0x50A7F451, 0x5365417E, 0xC3A4171A, 0x965E273A, 0xCB6BAB3B, 0xF1459D1F, 0xAB58FAAC, 0x9303E34B,
   0x55FA3020, 0xF66D76AD, 0x9176CC88, 0x254C02F5, 0xFCD7E54F, 0xD7CB2AC5, 0x80443526, 0x8FA362B5],
  [0x495AB1DE, 0x671BBA25, 0x980EEA45, 0xE1C0FE5D, 0x02752FC3, 0x12F04C81, 0xA397468D, 0xC6F9D36B,
   0xE75F8F03, 0x959C9215, 0xEB7A6DBF, 0xDA595295, 0x2D83BED4, 0xD3217458, 0x2969E049, 0x44C8C98E],
  [0x6A89C275, 0x78798EF4, 0x6B3E5899, 0xDD71B927, 0xB64FE1BE, 0x17AD88F0, 0x66AC20C9, 0xB43ACE7D,
   0x184ADF63, 0x82311AE5, 0x60335197, 0x457F5362, 0xE07764B1, 0x84AE6BBB, 0x1CA081FE, 0x942B08F9],
  [0x58684870, 0x19FD458F, 0x876CDE94, 0xB7F87B52, 0x23D373AB, 0xE2024B72, 0x578F1FE3, 0x2AAB5566,
   0x0728EBB2, 0x03C2B52F, 0x9A7BC586, 0xA50837D3, 0xF2872830, 0xB2A5BF23, 0xBA6A0302, 0x5C8216ED],
  [0x2B1CCF8A, 0x92B479A7, 0xF0F207F3, 0xA1E2694E, 0xCDF4DA65, 0xD5BE0506, 0x1F6234D1, 0x8AFEA6C4,
   0x9D532E34, 0xA055F3A2, 0x32E18A05, 0x75EBF6A4, 0x39EC830B, 0xAAEF6040, 0x069F715E, 0x51106EBD],
  [0xF98A213E, 0x3D06DD96, 0xAE053EDD, 0x46BDE64D, 0xB58D5491, 0x055DC471, 0x6FD40604, 0xFF155060,
   0x24FB9819, 0x97E9BDD6, 0xCC434089, 0x779ED967, 0xBD42E8B0, 0x888B8907, 0x385B19E7, 0xDBEEC879],
  [0x470A7CA1, 0xE90F427C, 0xC91E84F8, 0x00000000, 0x83868009, 0x48ED2B32, 0xAC70111E, 0x4E725A6C,
   0xFBFF0EFD, 0x5638850F, 0x1ED5AE3D, 0x27392D36, 0x64D90F0A, 0x21A65C68, 0xD1545B9B, 0x3A2E3624],
  [0xB1670A0C, 0x0FE75793, 0xD296EEB4, 0x9E919B1B, 0x4FC5C080, 0xA220DC61, 0x694B775A, 0x161A121C,
   0x0ABA93E2, 0xE52AA0C0, 0x43E0223C, 0x1D171B12, 0x0B0D090E, 0xADC78BF2, 0xB9A8B62D, 0xC8A91E14],
  [0x8519F157, 0x4C0775AF, 0xBBDD99EE, 0xFD607FA3, 0x9F2601F7, 0xBCF5725C, 0xC53B6644, 0x347EFB5B,
   0x7629438B, 0xDCC623CB, 0x68FCEDB6, 0x63F1E4B8, 0xCADC31D7, 0x10856342, 0x40229713, 0x2011C684],
  [0x7D244A85, 0xF83DBBD2, 0x1132F9AE, 0x6DA129C7, 0x4B2F9E1D, 0xF330B2DC, 0xEC52860D, 0xD0E3C177,
   0x6C16B32B, 0x99B970A9, 0xFA489411, 0x2264E947, 0xC48CFCA8, 0x1A3FF0A0, 0xD82C7D56, 0xEF903322],
  [0xC74E4987, 0xC1D138D9, 0xFEA2CA8C, 0x360BD498, 0xCF81F5A6, 0x28DE7AA5, 0x268EB7DA, 0xA4BFAD3F,
   0xE49D3A2C, 0x0D927850, 0x9BCC5F6A, 0x62467E54, 0xC2138DF6, 0xE8B8D890, 0x5EF7392E, 0xF5AFC382],
  [0xBE805D9F, 0x7C93D069, 0xA92DD56F, 0xB31225CF, 0x3B99ACC8, 0xA77D1810, 0x6E639CE8, 0x7BBB3BDB,
   0x097826CD, 0xF418596E, 0x01B79AEC, 0xA89A4F83, 0x656E95E6, 0x7EE6FFAA, 0x08CFBC21, 0xE6E815EF],
  [0xD99BE7BA, 0xCE366F4A, 0xD4099FEA, 0xD67CB029, 0xAFB2A431, 0x31233F2A, 0x3094A5C6, 0xC066A235,
   0x37BC4E74, 0xA6CA82FC, 0xB0D090E0, 0x15D8A733, 0x4A9804F1, 0xF7DAEC41, 0x0E50CD7F, 0x2FF69117],
  [0x8DD64D76, 0x4DB0EF43, 0x544DAACC, 0xDF0496E4, 0xE3B5D19E, 0x1B886A4C, 0xB81F2CC1, 0x7F516546,
   0x04EA5E9D, 0x5D358C01, 0x737487FA, 0x2E410BFB, 0x5A1D67B3, 0x52D2DB92, 0x335610E9, 0x1347D66D],
  [0x8C61D79A, 0x7A0CA137, 0x8E14F859, 0x893C13EB, 0xEE27A9CE, 0x35C961B7, 0xEDE51CE1, 0x3CB1477A,
   0x59DFD29C, 0x3F73F255, 0x79CE1418, 0xBF37C773, 0xEACDF753, 0x5BAAFD5F, 0x146F3DDF, 0x86DB4478],
  [0x81F3AFCA, 0x3EC468B9, 0x2C342438, 0x5F40A3C2, 0x72C31D16, 0x0C25E2BC, 0x8B493C28, 0x41950DFF,
   0x7101A839, 0xDEB30C08, 0x9CE4B4D8, 0x90C15664, 0x6184CB7B, 0x70B632D5, 0x745C6C48, 0x4257B8D0]
]

/-- Reverse table rt1: the entries of the RT list with the byte order V(a,b,c,d) = 0xbcda, in rows of sixteen entries. -/
def rt1 : List (List Nat) := [
  [0xA7F45150, 0x65417E53, 0xA4171AC3, 0x5E273A96, 0x6BAB3BCB, 0x459D1FF1, 0x58FAACAB, 0x03E34B93,
   0xFA302055, 0x6D76ADF6, 0x76CC8891, 0x4C02F525, 0xD7E54FFC, 0xCB2AC5D7, 0x44352680, 0xA362B58F],
  [0x5AB1DE49, 0x1BBA2567, 0x0EEA4598, 0xC0FE5DE1, 0x752FC302, 0xF04C8112, 0x97468DA3, 0xF9D36BC6,
   0x5F8F03E7, 0x9C921595, 0x7A6DBFEB, 0x595295DA, 0x83BED42D, 0x217458D3, 0x69E04929, 0xC8C98E44],
  [0x89C2756A, 0x798EF478, 0x3E58996B, 0x71B927DD, 0x4FE1BEB6, 0xAD88F017, 0xAC20C966, 0x3ACE7DB4,
   0x4ADF6318, 0x311AE582, 0x33519760, 0x7F536245, 0x7764B1E0, 0xAE6BBB84, 0xA081FE1C, 0x2B08F994],
  [0x68487058, 0xFD458F19, 0x6CDE9487, 0xF87B52B7, 0xD373AB23, 0x024B72E2, 0x8F1FE357, 0xAB55662A,
   0x28EBB207, 0xC2B52F03, 0x7BC5869A, 0x0837D3A5, 0x872830F2, 0xA5BF23B2, 0x6A0302BA, 0x8216ED5C],
  [0x1CCF8A2B, 0xB479A792, 0xF207F3F0, 0xE2694EA1, 0xF4DA65CD, 0xBE0506D5, 0x6234D11F, 0xFEA6C48A,
   0x532E349D, 0x55F3A2A0, 0xE18A0532, 0xEBF6A475, 0xEC830B39, 0xEF6040AA, 0x9F715E06, 0x106EBD51],
  [0x8A213EF9, 0x06DD963D, 0x053EDDAE, 0xBDE64D46, 0x8D5491B5, 0x5DC47105, 0xD406046F, 0x155060FF,
   0xFB981924, 0xE9BDD697, 0x434089CC, 0x9ED96777, 0x42E8B0BD, 0x8B890788, 0x5B19E738, 0xEEC879DB],
  [0x0A7CA147, 0x0F427CE9, 0x1E84F8C9, 0x00000000, 0x86800983, 0xED2B3248, 0x70111EAC, 0x725A6C4E,
   0xFF0EFDFB, 0x38850F56, 0xD5AE3D1E, 0x392D3627, 0xD90F0A64, 0xA65C6821, 0x545B9BD1, 0x2E36243A],
  [0x670A0CB1, 0xE757930F, 0x96EEB4D2, 0x919B1B9E, 0xC5C0804F, 0x20DC61A2, 0x4B775A69, 0x1A121C16,
   0xBA93E20A, 0x2AA0C0E5, 0xE0223C43, 0x171B121D, 0x0D090E0B, 0xC78BF2AD, 0xA8B62DB9, 0xA91E14C8],
  [0x19F15785, 0x0775AF4C, 0xDD99EEBB, 0x607FA3FD, 0x2601F79F, 0xF5725CBC, 0x3B6644C5, 0x7EFB5B34,
   0x29438B76, 0xC623CBDC, 0xFCEDB668, 0xF1E4B863, 0xDC31D7CA, 0x85634210, 0x22971340, 0x11C68420],
  [0x244A857D, 0x3DBBD2F8, 0x32F9AE11, 0xA129C76D, 0x2F9E1D4B, 0x30B2DCF3, 0x52860DEC, 0xE3C177D0,
   0x16B32B6C, 0xB970A999, 0x489411FA, 0x64E94722, 0x8CFCA8C4, 0x3FF0A01A, 0x2C7D56D8, 0x903322EF],
  [0x4E4987C7, 0xD138D9C1, 0xA2CA8CFE, 0x0BD49836, 0x81F5A6CF, 0xDE7AA528, 0x8EB7DA26, 0xBFAD3FA4,
   0x9D3A2CE4, 0x9278500D, 0xCC5F6A9B, 0x467E5462, 0x138DF6C2, 0xB8D890E8, 0xF7392E5E, 0xAFC382F5],
  [0x805D9FBE, 0x93D0697C, 0x2DD56FA9, 0x1225CFB3, 0x99ACC83B, 0x7D1810A7, 0x639CE86E, 0xBB3BDB7B,
   0x7826CD09, 0x18596EF4, 0xB79AEC01, 0x9A4F83A8, 0x6E95E665, 0xE6FFAA7E, 0xCFBC2108, 0xE815EFE6],
  [0x9BE7BAD9, 0x366F4ACE, 0x099FEAD4, 0x7CB029D6, 0xB2A431AF, 0x233F2A31, 0x94A5C630, 0x66A235C0,
   0xBC4E7437, 0xCA82FCA6, 0xD090E0B0, 0xD8A73315, 0x9804F14A, 0xDAEC41F7, 0x50CD7F0E, 0xF691172F],
  [0xD64D768D, 0xB0EF434D, 0x4DAACC54, 0x0496E4DF, 0xB5D19EE3, 0x886A4C1B, 0x1F2CC1B8, 0x5165467F,
   0xEA5E9D04, 0x358C015D, 0x7487FA73, 0x410BFB2E, 0x1D67B35A, 0xD2DB9252, 0x5610E933, 0x47D66D13],
  [0x61D79A8C, 0x0CA1377A, 0x14F8598E, 0x3C13EB89, 0x27A9CEEE, 0xC961B735, 0xE51CE1ED, 0xB1477A3C,
   0xDFD29C59, 0x73F2553F, 0xCE141879, 0x37C773BF, 0xCDF753EA, 0xAAFD5F5B, 0x6F3DDF14, 0xDB447886],
  [0xF3AFCA81, 0xC468B93E, 0x3424382C, 0x40A3C25F, 0xC31D1672, 0x25E2BC0C, 0x493C288B, 0x950DFF41,
   0x01A83971, 0xB30C08DE, 0xE4B4D89C, 0xC1566490, 0x84CB7B61, 0xB632D570, 0x5C6C4874, 0x57B8D042]
]

/-- Reverse table rt2: the entries of the RT list with the byte order V(a,b,c,d) = 0xcdab, in rows of sixteen entries. -/
def rt2 : List (List Nat) := [
  [0xF45150A7, 0x417E5365, 0x171AC3A4, 0x273A965E, 0xAB3BCB6B, 0x9D1FF145, 0xFAACAB58, 0xE34B9303,
   0x302055FA, 0x76ADF66D, 0xCC889176, 0x02F5254C, 0xE54FFCD7, 0x2AC5D7CB, 0x35268044, 0x62B58FA3],
  [0xB1DE495A, 0xBA25671B, 0xEA45980E, 0xFE5DE1C0, 0x2FC30275, 0x4C8112F0, 0x468DA397, 0xD36BC6F9,
   0x8F03E75F, 0x9215959C, 0x6DBFEB7A, 0x5295DA59, 0xBED42D83, 0x7458D321, 0xE0492969, 0xC98E44C8],
  [0xC2756A89, 0x8EF47879, 0x58996B3E, 0xB927DD71, 0xE1BEB64F, 0x88F017AD, 0x20C966AC, 0xCE7DB43A,
   0xDF63184A, 0x1AE58231, 0x51976033, 0x5362457F, 0x64B1E077, 0x6BBB84AE, 0x81FE1CA0, 0x08F9942B],
  [0x48705868, 0x458F19FD, 0xDE94876C, 0x7B52B7F8, 0x73AB23D3, 0x4B72E202, 0x1FE3578F, 0x55662AAB,
   0xEBB20728, 0xB52F03C2, 0xC5869A7B, 0x37D3A508, 0x2830F287, 0xBF23B2A5, 0x0302BA6A, 0x16ED5C82],
  [0xCF8A2B1C, 0x79A792B4, 0x07F3F0F2, 0x694EA1E2, 0xDA65CDF4, 0x0506D5BE, 0x34D11F62, 0xA6C48AFE,
   0x2E349D53, 0xF3A2A055, 0x8A0532E1, 0xF6A475EB, 0x830B39EC, 0x6040AAEF, 0x715E069F, 0x6EBD5110],
  [0x213EF98A, 0xDD963D06, 0x3EDDAE05, 0xE64D46BD, 0x5491B58D, 0xC471055D, 0x06046FD4, 0x5060FF15,
   0x981924FB, 0xBDD697E9, 0x4089CC43, 0xD967779E, 0xE8B0BD42, 0x8907888B, 0x19E7385B, 0xC879DBEE],
  [0x7CA1470A, 0x427CE90F, 0x84F8C91E, 0x00000000, 0x80098386, 0x2B3248ED, 0x111EAC70, 0x5A6C4E72,
   0x0EFDFBFF, 0x850F5638, 0xAE3D1ED5, 0x2D362739, 0x0F0A64D9, 0x5C6821A6, 0x5B9BD154, 0x36243A2E],
  [0x0A0CB167, 0x57930FE7, 0xEEB4D296, 0x9B1B9E91, 0xC0804FC5, 0xDC61A220, 0x775A694B, 0x121C161A,
   0x93E20ABA, 0xA0C0E52A, 0x223C43E0, 0x1B121D17, 0x090E0B0D, 0x8BF2ADC7, 0xB62DB9A8, 0x1E14C8A9],
  [0xF1578519, 0x75AF4C07, 0x99EEBBDD, 0x7FA3FD60, 0x01F79F26, 0x725CBCF5, 0x6644C53B, 0xFB5B347E,
   0x438B7629, 0x23CBDCC6, 0xEDB668FC, 0xE4B863F1, 0x31D7CADC, 0x63421085, 0x97134022, 0xC6842011],
  [0x4A857D24, 0xBBD2F83D, 0xF9AE1132, 0x29C76DA1, 0x9E1D4B2F, 0xB2DCF330, 0x860DEC52, 0xC177D0E3,
   0xB32B6C16, 0x70A999B9, 0x9411FA48, 0xE9472264, 0xFCA8C48C, 0xF0A01A3F, 0x7D56D82C, 0x3322EF90],
  [0x4987C74E, 0x38D9C1D1, 0xCA8CFEA2, 0xD498360B, 0xF5A6CF81, 0x7AA528DE, 0xB7DA268E, 0xAD3FA4BF,
   0x3A2CE49D, 0x78500D92, 0x5F6A9BCC, 0x7E546246, 0x8DF6C213, 0xD890E8B8, 0x392E5EF7, 0xC382F5AF],
  [0x5D9FBE80, 0xD0697C93, 0xD56FA92D, 0x25CFB312, 0xACC83B99, 0x1810A77D, 0x9CE86E63, 0x3BDB7BBB,
   0x26CD0978, 0x596EF418, 0x9AEC01B7, 0x4F83A89A, 0x95E6656E, 0xFFAA7EE6, 0xBC2108CF, 0x15EFE6E8],
  [0xE7BAD99B, 0x6F4ACE36, 0x9FEAD409, 0xB029D67C, 0xA431AFB2, 0x3F2A3123, 0xA5C63094, 0xA235C066,
   0x4E7437BC, 0x82FCA6CA, 0x90E0B0D0, 0xA73315D8, 0x04F14A98, 0xEC41F7DA, 0xCD7F0E50, 0x91172FF6],
  [0x4D768DD6, 0xEF434DB0, 0xAACC544D, 0x96E4DF04, 0xD19EE3B5, 0x6A4C1B88, 0x2CC1B81F, 0x65467F51,
   0x5E9D04EA, 0x8C015D35, 0x87FA7374, 0x0BFB2E41, 0x67B35A1D, 0xDB9252D2, 0x10E93356, 0xD66D1347],
  [0xD79A8C61, 0xA1377A0C, 0xF8598E14, 0x13EB893C, 0xA9CEEE27, 0x61B735C9, 0x1CE1EDE5, 0x477A3CB1,
   0xD29C59DF, 0xF2553F73, 0x141879CE, 0xC773BF37, 0xF753EACD, 0xFD5F5BAA, 0x3DDF146F, 0x447886DB],
  [0xAFCA81F3, 0x68B93EC4, 0x24382C34, 0xA3C25F40, 0x1D1672C3, 0xE2BC0C25, 0x3C288B49, 0x0DFF4195,
   0xA8397101, 0x0C08DEB3, 0xB4D89CE4, 0x566490C1, 0xCB7B6184, 0x32D570B6, 0x6C48745C, 0xB8D04257]
]

/-- Reverse table rt3: the entries of the RT list with the byte order V(a,b,c,d) = 0xdabc, in rows of sixteen entries. -/
def rt3 : List (List Nat) := [
  [0x5150A7F4, 0x7E536541, 0x1AC3A417, 0x3A965E27, 0x3BCB6BAB, 0x1FF1459D, 0xACAB58FA, 0x4B9303E3,
   0x2055FA30, 0xADF66D76, 0x889176CC, 0xF5254C02, 0x4FFCD7E5, 0xC5D7CB2A, 0x26804435, 0xB58FA362],
  [0xDE495AB1, 0x25671BBA, 0x45980EEA, 0x5DE1C0FE, 0xC302752F, 0x8112F04C, 0x8DA39746, 0x6BC6F9D3,
   0x03E75F8F, 0x15959C92, 0xBFEB7A6D, 0x95DA5952, 0xD42D83BE, 0x58D32174, 0x492969E0, 0x8E44C8C9],
  [0x756A89C2, 0xF478798E, 0x996B3E58, 0x27DD71B9, 0xBEB64FE1, 0xF017AD88, 0xC966AC20, 0x7DB43ACE,
   0x63184ADF, 0xE582311A, 0x97603351, 0x62457F53, 0xB1E07764, 0xBB84AE6B, 0xFE1CA081, 0xF9942B08],
  [0x70586848, 0x8F19FD45, 0x94876CDE, 0x52B7F87B, 0xAB23D373, 0x72E2024B, 0xE3578F1F, 0x662AAB55,
   0xB20728EB, 0x2F03C2B5, 0x869A7BC5, 0xD3A50837, 0x30F28728, 0x23B2A5BF, 0x02BA6A03, 0xED5C8216],
  [0x8A2B1CCF, 0xA792B479, 0xF3F0F207, 0x4EA1E269, 0x65CDF4DA, 0x06D5BE05, 0xD11F6234, 0xC48AFEA6,
   0x349D532E, 0xA2A055F3, 0x0532E18A, 0xA475EBF6, 0x0B39EC83, 0x40AAEF60, 0x5E069F71, 0xBD51106E],
  [0x3EF98A21, 0x963D06DD, 0xDDAE053E, 0x4D46BDE6, 0x91B58D54, 0x71055DC4, 0x046FD406, 0x60FF1550,
   0x1924FB98, 0xD697E9BD, 0x89CC4340, 0x67779ED9, 0xB0BD42E8, 0x07888B89, 0xE7385B19, 0x79DBEEC8],
  [0xA1470A7C, 0x7CE90F42, 0xF8C91E84, 0x00000000, 0x09838680, 0x3248ED2B, 0x1EAC7011, 0x6C4E725A,
   0xFDFBFF0E, 0x0F563885, 0x3D1ED5AE, 0x3627392D, 0x0A64D90F, 0x6821A65C, 0x9BD1545B, 0x243A2E36],
  [0x0CB1670A, 0x930FE757, 0xB4D296EE, 0x1B9E919B, 0x804FC5C0, 0x61A220DC, 0x5A694B77, 0x1C161A12,
   0xE20ABA93, 0xC0E52AA0, 0x3C43E022, 0x121D171B, 0x0E0B0D09, 0xF2ADC78B, 0x2DB9A8B6, 0x14C8A91E],
  [0x578519F1, 0xAF4C0775, 0xEEBBDD99, 0xA3FD607F, 0xF79F2601, 0x5CBCF572, 0x44C53B66, 0x5B347EFB,
   0x8B762943, 0xCBDCC623, 0xB668FCED, 0xB863F1E4, 0xD7CADC31, 0x42108563, 0x13402297, 0x842011C6],
  [0x857D244A, 0xD2F83DBB, 0xAE1132F9, 0xC76DA129, 0x1D4B2F9E, 0xDCF330B2, 0x0DEC5286, 0x77D0E3C1,
   0x2B6C16B3, 0xA999B970, 0x11FA4894, 0x472264E9, 0xA8C48CFC, 0xA01A3FF0, 0x56D82C7D, 0x22EF9033],
  [0x87C74E49, 0xD9C1D138, 0x8CFEA2CA, 0x98360BD4, 0xA6CF81F5, 0xA528DE7A, 0xDA268EB7, 0x3FA4BFAD,
   0x2CE49D3A, 0x500D9278, 0x6A9BCC5F, 0x5462467E, 0xF6C2138D, 0x90E8B8D8, 0x2E5EF739, 0x82F5AFC3],
  [0x9FBE805D, 0x697C93D0, 0x6FA92DD5, 0xCFB31225, 0xC83B99AC, 0x10A77D18, 0xE86E639C, 0xDB7BBB3B,
   0xCD097826, 0x6EF41859, 0xEC01B79A, 0x83A89A4F, 0xE6656E95, 0xAA7EE6FF, 0x2108CFBC, 0xEFE6E815],
  [0xBAD99BE7, 0x4ACE366F, 0xEAD4099F, 0x29D67CB0, 0x31AFB2A4, 0x2A31233F, 0xC63094A5, 0x35C066A2,
   0x7437BC4E, 0xFCA6CA82, 0xE0B0D090, 0x3315D8A7, 0xF14A9804, 0x41F7DAEC, 0x7F0E50CD, 0x172FF691],
  [0x768DD64D, 0x434DB0EF, 0xCC544DAA, 0xE4DF0496, 0x9EE3B5D1, 0x4C1B886A, 0xC1B81F2C, 0x467F5165,
   0x9D04EA5E, 0x015D358C, 0xFA737487, 0xFB2E410B, 0xB35A1D67, 0x9252D2DB, 0xE9335610, 0x6D1347D6],
  [0x9A8C61D7, 0x377A0CA1, 0x598E14F8, 0xEB893C13, 0xCEEE27A9, 0xB735C961, 0xE1EDE51C, 0x7A3CB147,
   0x9C59DFD2, 0x553F73F2, 0x1879CE14, 0x73BF37C7, 0x53EACDF7, 0x5F5BAAFD, 0xDF146F3D, 0x7886DB44],
  [0xCA81F3AF, 0xB93EC468, 0x382C3424, 0xC25F40A3, 0x1672C31D, 0xBC0C25E2, 0x288B493C, 0xFF41950D,
   0x397101A8, 0x08DEB30C, 0xD89CE4B4, 0x6490C156, 0x7B6184CB, 0xD570B632, 0x48745C6C, 0xD04257B8]
]

/-- Round constants (crypto.c, table rcon). -/
def rcon : List Nat := [
  0x00000001, 0x00000002, 0x00000004, 0x00000008,
  0x00000010, 0x00000020, 0x00000040, 0x00000080,
  0x0000001B, 0x00000036
]

/-- The struct `aes_context_t`. The pointer field `rk` always points at
`buf`, so the round keys are read from `buf` directly. -/
structure aes_context_t where
  buf : List Nat
  nr : Nat
  mode : Int
deriving DecidableEq, Repr

/-- A context as declared on the stack, before `aes_init` fills it. -/
def aes_context_new : aes_context_t := { buf := List.replicate 68 0, nr := 0, mode := 0 }

/-- The word `fsb[(w >> 8) & 0xFF] ^ fsb[(w >> 16) & 0xFF] << 8 ^
fsb[(w >> 24) & 0xFF] << 16 ^ fsb[w & 0xFF] << 24` of the key schedule. -/
def aes_sub_rot (w : Nat) : Nat :=
  table_get fsb ((w >>> 8) &&& 0xFF) ^^^ ((table_get fsb ((w >>> 16) &&& 0xFF) <<< 8) ^^^
    ((table_get fsb ((w >>> 24) &&& 0xFF) <<< 16) ^^^ (table_get fsb (w &&& 0xFF) <<< 24)))

/-- The word `fsb[w & 0xFF] ^ fsb[(w >> 8) & 0xFF] << 8 ^ fsb[(w >> 16) & 0xFF] << 16 ^
fsb[(w >> 24) & 0xFF] << 24` of the 256-bit key schedule. -/
def aes_sub (w : Nat) : Nat :=
  table_get fsb (w &&& 0xFF) ^^^ ((table_get fsb ((w >>> 8) &&& 0xFF) <<< 8) ^^^
    ((table_get fsb ((w >>> 16) &&& 0xFF) <<< 16) ^^^ (table_get fsb ((w >>> 24) &&& 0xFF) <<< 24)))

/-- The loop `for (i = 0; i < (key_size >> 5); ++i) GET_UINT32_LE(rk[i], key, i << 2)`,
with `n` iterations left. -/
def aes_load_key (key : List Nat) : Nat → Nat → List Nat → List Nat
  | 0, _, rk => rk
  | n + 1, i, rk => aes_load_key key n (i + 1) (rk.set i (GET_UINT32_LE key (i <<< 2)))

/-- The key expansion loop of `case 10`, with `n` iterations left; `p` is the
offset of the moving pointer `rk` in `buf`. -/
def aes_expand_10 : Nat → Nat → Nat → List Nat → List Nat
  | 0, _, _, rk => rk
  | n + 1, i, p, rk =>
    let rk4 := rk.getD p 0 ^^^ (rcon.getD i 0 ^^^ aes_sub_rot (rk.getD (p + 3) 0))
    let rk5 := rk.getD (p + 1) 0 ^^^ rk4
    let rk6 := rk.getD (p + 2) 0 ^^^ rk5
    let rk7 := rk.getD (p + 3) 0 ^^^ rk6
    aes_expand_10 n (i + 1) (p + 4)
      ((((rk.set (p + 4) rk4).set (p + 5) rk5).set (p + 6) rk6).set (p + 7) rk7)

/-- The key expansion loop of `case 12`, with `n` iterations left. -/
def aes_expand_12 : Nat → Nat → Nat → List Nat → List Nat
  | 0, _, _, rk => rk
  | n + 1, i, p, rk =>
    let rk6 := rk.getD p 0 ^^^ (rcon.getD i 0 ^^^ aes_sub_rot (rk.getD (p + 5) 0))
    let rk7 := rk.getD (p + 1) 0 ^^^ rk6
    let rk8 := rk.getD (p + 2) 0 ^^^ rk7
    let rk9 := rk.getD (p + 3) 0 ^^^ rk8
    let rk10 := rk.getD (p + 4) 0 ^^^ rk9
    let rk11 := rk.getD (p + 5) 0 ^^^ rk10
    aes_expand_12 n (i + 1) (p + 6)
      ((((((rk.set (p + 6) rk6).set (p + 7) rk7).set (p + 8) rk8).set (p + 9) rk9).set
        (p + 10) rk10).set (p + 11) rk11)

/-- The key expansion loop of `case 14`, with `n` iterations left. -/
def aes_expand_14 : Nat → Nat → Nat → List Nat → List Nat
  | 0, _, _, rk => rk
  | n + 1, i, p, rk =>
    let rk8 := rk.getD p 0 ^^^ (rcon.getD i 0 ^^^ aes_sub_rot (rk.getD (p + 7) 0))
    let rk9 := rk.getD (p + 1) 0 ^^^ rk8
    let rk10 := rk.getD (p + 2) 0 ^^^ rk9
    let rk11 := rk.getD (p + 3) 0 ^^^ rk10
    let rk12 := rk.getD (p + 4) 0 ^^^ aes_sub rk11
    let rk13 := rk.getD (p + 5) 0 ^^^ rk12
    let rk14 := rk.getD (p + 6) 0 ^^^ rk13
    let rk15 := rk.getD (p + 7) 0 ^^^ rk14
    aes_expand_14 n (i + 1) (p + 8)
      ((((((((rk.set (p + 8) rk8).set (p + 9) rk9).set (p + 10) rk10).set (p + 11) rk11).set
        (p + 12) rk12).set (p + 13) rk13).set (p + 14) rk14).set (p + 15) rk15)

/-- The number of rounds `aes_init` selects for a key size, if it accepts it. -/
def aes_rounds (key_size : Nat) : Option Nat :=
  if key_size = 128 then some 10
  else if key_size = 192 then some 12
  else if key_size = 256 then some 14
  else none

/-- The encryption branch of `aes_init`: the expanded key. -/
def aes_init_enc (nr : Nat) (key : List Nat) (key_size : Nat) (buf : List Nat) : List Nat :=
  let rk := aes_load_key key (key_size >>> 5) 0 buf
  if nr = 10 then aes_expand_10 10 0 0 rk
  else if nr = 12 then aes_expand_12 8 0 0 rk
  else if nr = 14 then aes_expand_14 7 0 0 rk
  else rk

/-- The word `rt0[fsb[w & 0xFF]] ^ rt1[fsb[(w >> 8) & 0xFF]] ^ rt2[fsb[(w >> 16) & 0xFF]] ^
rt3[fsb[(w >> 24) & 0xFF]]` of the decryption key schedule. -/
def aes_inv_mix (w : Nat) : Nat :=
  table_get rt0 (table_get fsb (w &&& 0xFF)) ^^^ (table_get rt1 (table_get fsb ((w >>> 8) &&& 0xFF)) ^^^
    (table_get rt2 (table_get fsb ((w >>> 16) &&& 0xFF)) ^^^
      table_get rt3 (table_get fsb ((w >>> 24) &&& 0xFF))))

/-- The inner loop `for (j = 0; j < 4; ++j, ++sk) *rk++ = ...` of the decryption branch. -/
def aes_init_dec_inner (tmp : List Nat) : Nat → Nat → Nat → List Nat → List Nat
  | 0, _, _, buf => buf
  | n + 1, rk, sk, buf =>
    aes_init_dec_inner tmp n (rk + 1) (sk + 1) (buf.set rk (aes_inv_mix (tmp.getD sk 0)))

/-- The outer loop `for (i = ctx->nr - 1; i > 0; --i)` of the decryption branch, `i`
iterations left; `rk` and `sk` are the offsets of the two moving pointers. -/
def aes_init_dec_outer (tmp : List Nat) : Nat → Nat → Nat → List Nat → List Nat
  | 0, _, _, buf => buf
  | i + 1, rk, sk, buf =>
    aes_init_dec_outer tmp i (rk + 4) (sk + 4 - 8) (aes_init_dec_inner tmp 4 rk sk buf)

/-- The four assignments `*rk++ = *sk++`. -/
def aes_copy4 (tmp : List Nat) (rk sk : Nat) (buf : List Nat) : List Nat :=
  (((buf.set rk (tmp.getD sk 0)).set (rk + 1) (tmp.getD (sk + 1) 0)).set (rk + 2)
    (tmp.getD (sk + 2) 0)).set (rk + 3) (tmp.getD (sk + 3) 0)

/-- The function `aes_init`: the status and the context. -/
def aes_init (ctx : aes_context_t) (mode : Int) (key : List Nat) (key_size : Nat) :
    Int × aes_context_t :=
  if mode ≠ AES_DECRYPT ∧ mode ≠ AES_ENCRYPT then (ERROR_INVALID_MODE, ctx)
  else
    match aes_rounds key_size with
    | none => (ERROR_INVALID_KEY_SIZE, ctx)
    | some nr =>
      if mode = AES_ENCRYPT then
        (0, { buf := aes_init_enc nr key key_size ctx.buf, nr := nr, mode := mode })
      else
        let tmp := aes_init_enc nr key key_size aes_context_new.buf
        let sk := nr * 4
        let buf := aes_copy4 tmp 0 sk ctx.buf
        let buf := aes_init_dec_outer tmp (nr - 1) 4 (sk + 4 - 8) buf
        let buf := aes_copy4 tmp (4 * nr) 0 buf
        (0, { buf := buf, nr := nr, mode := mode })

/-- Four state words of a round. -/
structure aes_words where
  x0 : Nat
  x1 : Nat
  x2 : Nat
  x3 : Nat
deriving DecidableEq, Repr

/-- The macro `AES_FROUND`: the four words assigned, from the words `y` and the
round key at offset `p`. -/
def AES_FROUND (rk : List Nat) (p : Nat) (y : aes_words) : aes_words :=
  { x0 := rk.getD p 0 ^^^ (table_get ft0 (y.x0 &&& 0xFF) ^^^ (table_get ft1 ((y.x1 >>> 8) &&& 0xFF) ^^^
      (table_get ft2 ((y.x2 >>> 16) &&& 0xFF) ^^^ table_get ft3 ((y.x3 >>> 24) &&& 0xFF))))
    x1 := rk.getD (p + 1) 0 ^^^ (table_get ft0 (y.x1 &&& 0xFF) ^^^
      (table_get ft1 ((y.x2 >>> 8) &&& 0xFF) ^^^
      (table_get ft2 ((y.x3 >>> 16) &&& 0xFF) ^^^ table_get ft3 ((y.x0 >>> 24) &&& 0xFF))))
    x2 := rk.getD (p + 2) 0 ^^^ (table_get ft0 (y.x2 &&& 0xFF) ^^^
      (table_get ft1 ((y.x3 >>> 8) &&& 0xFF) ^^^
      (table_get ft2 ((y.x0 >>> 16) &&& 0xFF) ^^^ table_get ft3 ((y.x1 >>> 24) &&& 0xFF))))
    x3 := rk.getD (p + 3) 0 ^^^ (table_get ft0 (y.x3 &&& 0xFF) ^^^
      (table_get ft1 ((y.x0 >>> 8) &&& 0xFF) ^^^
      (table_get ft2 ((y.x1 >>> 16) &&& 0xFF) ^^^ table_get ft3 ((y.x2 >>> 24) &&& 0xFF)))) }

/-- The macro `AES_RROUND`. -/
def AES_RROUND (rk : List Nat) (p : Nat) (y : aes_words) : aes_words :=
  { x0 := rk.getD p 0 ^^^ (table_get rt0 (y.x0 &&& 0xFF) ^^^ (table_get rt1 ((y.x3 >>> 8) &&& 0xFF) ^^^
      (table_get rt2 ((y.x2 >>> 16) &&& 0xFF) ^^^ table_get rt3 ((y.x1 >>> 24) &&& 0xFF))))
    x1 := rk.getD (p + 1) 0 ^^^ (table_get rt0 (y.x1 &&& 0xFF) ^^^
      (table_get rt1 ((y.x0 >>> 8) &&& 0xFF) ^^^
      (table_get rt2 ((y.x3 >>> 16) &&& 0xFF) ^^^ table_get rt3 ((y.x2 >>> 24) &&& 0xFF))))
    x2 := rk.getD (p + 2) 0 ^^^ (table_get rt0 (y.x2 &&& 0xFF) ^^^
      (table_get rt1 ((y.x1 >>> 8) &&& 0xFF) ^^^
      (table_get rt2 ((y.x0 >>> 16) &&& 0xFF) ^^^ table_get rt3 ((y.x3 >>> 24) &&& 0xFF))))
    x3 := rk.getD (p + 3) 0 ^^^ (table_get rt0 (y.x3 &&& 0xFF) ^^^
      (table_get rt1 ((y.x2 >>> 8) &&& 0xFF) ^^^
      (table_get rt2 ((y.x1 >>> 16) &&& 0xFF) ^^^ table_get rt3 ((y.x0 >>> 24) &&& 0xFF)))) }

/-- The loop `for (i = (ctx->nr >> 1) - 1; i > 0; --i)` of the encryption branch of
`aes_crypt_ecb`, `i` iterations left: the offset reached in the round keys and
the state words. -/
def aes_fround_loop (rk : List Nat) : Nat → Nat → aes_words → Nat × aes_words
  | 0, p, x => (p, x)
  | i + 1, p, x => aes_fround_loop rk i (p + 8) (AES_FROUND rk (p + 4) (AES_FROUND rk p x))

/-- The same loop of the decryption branch. -/
def aes_rround_loop (rk : List Nat) : Nat → Nat → aes_words → Nat × aes_words
  | 0, p, x => (p, x)
  | i + 1, p, x => aes_rround_loop rk i (p + 8) (AES_RROUND rk (p + 4) (AES_RROUND rk p x))

/-- The last round of the encryption branch. -/
def aes_final_f (rk : List Nat) (p : Nat) (y : aes_words) : aes_words :=
  { x0 := rk.getD p 0 ^^^ (table_get fsb (y.x0 &&& 0xFF) ^^^
      ((table_get fsb ((y.x1 >>> 8) &&& 0xFF) <<< 8) ^^^
      ((table_get fsb ((y.x2 >>> 16) &&& 0xFF) <<< 16) ^^^
        (table_get fsb ((y.x3 >>> 24) &&& 0xFF) <<< 24))))
    x1 := rk.getD (p + 1) 0 ^^^ (table_get fsb (y.x1 &&& 0xFF) ^^^
      ((table_get fsb ((y.x2 >>> 8) &&& 0xFF) <<< 8) ^^^
      ((table_get fsb ((y.x3 >>> 16) &&& 0xFF) <<< 16) ^^^
        (table_get fsb ((y.x0 >>> 24) &&& 0xFF) <<< 24))))
    x2 := rk.getD (p + 2) 0 ^^^ (table_get fsb (y.x2 &&& 0xFF) ^^^
      ((table_get fsb ((y.x3 >>> 8) &&& 0xFF) <<< 8) ^^^
      ((table_get fsb ((y.x0 >>> 16) &&& 0xFF) <<< 16) ^^^
        (table_get fsb ((y.x1 >>> 24) &&& 0xFF) <<< 24))))
    x3 := rk.getD (p + 3) 0 ^^^ (table_get fsb (y.x3 &&& 0xFF) ^^^
      ((table_get fsb ((y.x0 >>> 8) &&& 0xFF) <<< 8) ^^^
      ((table_get fsb ((y.x1 >>> 16) &&& 0xFF) <<< 16) ^^^
        (table_get fsb ((y.x2 >>> 24) &&& 0xFF) <<< 24)))) }

/-- The last round of the decryption branch. -/
def aes_final_r (rk : List Nat) (p : Nat) (y : aes_words) : aes_words :=
  { x0 := rk.getD p 0 ^^^ (table_get rsb (y.x0 &&& 0xFF) ^^^
      ((table_get rsb ((y.x3 >>> 8) &&& 0xFF) <<< 8) ^^^
      ((table_get rsb ((y.x2 >>> 16) &&& 0xFF) <<< 16) ^^^
        (table_get rsb ((y.x1 >>> 24) &&& 0xFF) <<< 24))))
    x1 := rk.getD (p + 1) 0 ^^^ (table_get rsb (y.x1 &&& 0xFF) ^^^
      ((table_get rsb ((y.x0 >>> 8) &&& 0xFF) <<< 8) ^^^
      ((table_get rsb ((y.x3 >>> 16) &&& 0xFF) <<< 16) ^^^
        (table_get rsb ((y.x2 >>> 24) &&& 0xFF) <<< 24))))
    x2 := rk.getD (p + 2) 0 ^^^ (table_get rsb (y.x2 &&& 0xFF) ^^^
      ((table_get rsb ((y.x1 >>> 8) &&& 0xFF) <<< 8) ^^^
      ((table_get rsb ((y.x0 >>> 16) &&& 0xFF) <<< 16) ^^^
        (table_get rsb ((y.x3 >>> 24) &&& 0xFF) <<< 24))))
    x3 := rk.getD (p + 3) 0 ^^^ (table_get rsb (y.x3 &&& 0xFF) ^^^
      ((table_get rsb ((y.x2 >>> 8) &&& 0xFF) <<< 8) ^^^
      ((table_get rsb ((y.x1 >>> 16) &&& 0xFF) <<< 16) ^^^
        (table_get rsb ((y.x0 >>> 24) &&& 0xFF) <<< 24)))) }

/-- The function `aes_crypt_ecb`: the sixteen bytes stored in `output` (its status is
always 0). -/
def aes_crypt_ecb (ctx : aes_context_t) (input : List Nat) : List Nat :=
  let rk := ctx.buf
  let x : aes_words :=
    { x0 := GET_UINT32_LE input 0 ^^^ rk.getD 0 0
      x1 := GET_UINT32_LE input 4 ^^^ rk.getD 1 0
      x2 := GET_UINT32_LE input 8 ^^^ rk.getD 2 0
      x3 := GET_UINT32_LE input 12 ^^^ rk.getD 3 0 }
  let x :=
    if ctx.mode = AES_DECRYPT then
      let px := aes_rround_loop rk ((ctx.nr >>> 1) - 1) 4 x
      aes_final_r rk (px.1 + 4) (AES_RROUND rk px.1 px.2)
    else
      let px := aes_fround_loop rk ((ctx.nr >>> 1) - 1) 4 x
      aes_final_f rk (px.1 + 4) (AES_FROUND rk px.1 px.2)
  PUT_UINT32_LE x.x0 ++ (PUT_UINT32_LE x.x1 ++ (PUT_UINT32_LE x.x2 ++ PUT_UINT32_LE x.x3))

/-- The loop body `dst[i] = a[i] ^ b[i]` for `i < AES_BLOCK_SIZE`. -/
def xor_block (a b : List Nat) : List Nat :=
  (List.range AES_BLOCK_SIZE).map (fun i => a.getD i 0 ^^^ b.getD i 0)

/-- The `while (size > 0)` loops of `aes_crypt_cbc`, with `n` blocks left and the
pointers `src` and `dst` at offset `off`: the final `iv` and `output`. -/
def aes_crypt_cbc_loop (ctx : aes_context_t) (input : List Nat) :
    Nat → Nat → List Nat → List Nat → List Nat × List Nat
  | 0, _, iv, output => (iv, output)
  | n + 1, off, iv, output =>
    if ctx.mode = AES_DECRYPT then
      let temp := (input.drop off).take AES_BLOCK_SIZE
      let dst := xor_block (aes_crypt_ecb ctx temp) iv
      aes_crypt_cbc_loop ctx input n (off + AES_BLOCK_SIZE) temp
        (memcpy output off dst 0 AES_BLOCK_SIZE)
    else
      let dst := aes_crypt_ecb ctx (xor_block ((input.drop off).take AES_BLOCK_SIZE) iv)
      aes_crypt_cbc_loop ctx input n (off + AES_BLOCK_SIZE) (dst.take 16)
        (memcpy output off dst 0 AES_BLOCK_SIZE)

/-- The function `aes_crypt_cbc`: the status, the updated `iv` and the new contents
of `output`. -/
def aes_crypt_cbc (ctx : aes_context_t) (iv input output : List Nat) (length : Nat) :
    Int × List Nat × List Nat :=
  if length % AES_BLOCK_SIZE ≠ 0 then (ERROR_INVALID_DATA_SIZE, iv, output)
  else
    let r := aes_crypt_cbc_loop ctx input (length / AES_BLOCK_SIZE) 0 iv output
    (0, r.1, r.2)

/-- The function `aes_encrypt_cbc`: the status and the new contents of `output`. The
caller's `iv` is copied to a local and is not modified. -/
def aes_encrypt_cbc (key : List Nat) (key_size : Nat) (iv input output : List Nat)
    (length : Nat) : Int × List Nat :=
  let r := aes_init aes_context_new AES_ENCRYPT key key_size
  if r.1 ≠ 0 then (r.1, output)
  else
    let temp := memcpy (List.replicate AES_BLOCK_SIZE 0) 0 iv 0 AES_BLOCK_SIZE
    let c := aes_crypt_cbc r.2 temp input output length
    if c.1 ≠ 0 then (c.1, c.2.2) else (0, c.2.2)

/-- The function `aes_decrypt_cbc`: the status and the new contents of `output`. -/
def aes_decrypt_cbc (key : List Nat) (key_size : Nat) (iv input output : List Nat)
    (length : Nat) : Int × List Nat :=
  let r := aes_init aes_context_new AES_DECRYPT key key_size
  if r.1 ≠ 0 then (r.1, output)
  else
    let temp := memcpy (List.replicate AES_BLOCK_SIZE 0) 0 iv 0 AES_BLOCK_SIZE
    let c := aes_crypt_cbc r.2 temp input output length
    if c.1 ≠ 0 then (c.1, c.2.2) else (0, c.2.2)

/-! ## DES and two-key triple DES (crypto.c) -/

def DES_ENCRYPT : Int := 1
def DES_DECRYPT : Int := 0
def POLARSSL_ERR_DES_INVALID_INPUT_LENGTH : Int := -0x32
def DES_KEY_SIZE : Nat := 8

/-- The macro `GET_UINT32_BE(n, b, i)`: the value assigned to `n`. -/
def GET_UINT32_BE (b : List Nat) (i : Nat) : Nat :=
  (b.getD i 0 <<< 24) ||| ((b.getD (i + 1) 0 <<< 16) ||| ((b.getD (i + 2) 0 <<< 8) |||
    b.getD (i + 3) 0))

/-- The macro `PUT_UINT32_BE(n, b, i)`: the four bytes stored at `b + i`. -/
def PUT_UINT32_BE (n : Nat) : List Nat :=
  [(n >>> 24) % 256, (n >>> 16) % 256, (n >>> 8) % 256, n % 256]

/-- The C expression `x << n` on a `uint32_t`. -/
def shl32 (x n : Nat) : Nat := (x <<< n) % 2 ^ 32

/-- Expanded DES S-box SB1 (crypto.c), in rows of sixteen entries. -/
def SB1 : List (List Nat) := [
  [0x01010400, 0x00000000, 0x00010000, 0x01010404, 0x01010004, 0x00010404, 0x00000004, 0x00010000,
   0x00000400, 0x01010400, 0x01010404, 0x00000400, 0x01000404, 0x01010004, 0x01000000, 0x00000004],
  [0x00000404, 0x01000400, 0x01000400, 0x00010400, 0x00010400, 0x01010000, 0x01010000, 0x01000404,
   0x00010004, 0x01000004, 0x01000004, 0x00010004, 0x00000000, 0x00000404, 0x00010404, 0x01000000],
  [0x00010000, 0x01010404, 0x00000004, 0x01010000, 0x01010400, 0x01000000, 0x01000000, 0x00000400,
   0x01010004, 0x00010000, 0x00010400, 0x01000004, 0x00000400, 0x00000004, 0x01000404, 0x00010404],
  [0x01010404, 0x00010004, 0x01010000, 0x01000404, 0x01000004, 0x00000404, 0x00010404, 0x01010400,
   0x00000404, 0x01000400, 0x01000400, 0x00000000, 0x00010004, 0x00010400, 0x00000000, 0x01010004]
]

/-- Expanded DES S-box SB2 (crypto.c), in rows of sixteen entries. -/
def SB2 : List (List Nat) := [
  [0x80108020, 0x80008000, 0x00008000, 0x00108020, 0x00100000, 0x00000020, 0x80100020, 0x80008020,
   0x80000020, 0x80108020, 0x80108000, 0x80000000, 0x80008000, 0x00100000, 0x00000020, 0x80100020],
  [0x00108000, 0x00100020, 0x80008020, 0x00000000, 0x80000000, 0x00008000, 0x00108020, 0x80100000,
   0x00100020, 0x80000020, 0x00000000, 0x00108000, 0x00008020, 0x80108000, 0x80100000, 0x00008020],
  [0x00000000, 0x00108020, 0x80100020, 0x00100000, 0x80008020, 0x80100000, 0x80108000, 0x00008000,
   0x80100000, 0x80008000, 0x00000020, 0x80108020, 0x00108020, 0x00000020, 0x00008000, 0x80000000],
  [0x00008020, 0x80108000, 0x00100000, 0x80000020, 0x00100020, 0x80008020, 0x80000020, 0x00100020,
   0x00108000, 0x00000000, 0x80008000, 0x00008020, 0x80000000, 0x80100020, 0x80108020, 0x00108000]
]

/-- Expanded DES S-box SB3 (crypto.c), in rows of sixteen entries. -/
def SB3 : List (List Nat) := [
  [0x00000208, 0x08020200, 0x00000000, 0x08020008, 0x08000200, 0x00000000, 0x00020208, 0x08000200,
   0x00020008, 0x08000008, 0x08000008, 0x00020000, 0x08020208, 0x00020008, 0x08020000, 0x00000208],
  [0x08000000, 0x00000008, 0x08020200, 0x00000200, 0x00020200, 0x08020000, 0x08020008, 0x00020208,
   0x08000208, 0x00020200, 0x00020000, 0x08000208, 0x00000008, 0x08020208, 0x00000200, 0x08000000],
  [0x08020200, 0x08000000, 0x00020008, 0x00000208, 0x00020000, 0x08020200, 0x08000200, 0x00000000,
   0x00000200, 0x00020008, 0x08020208, 0x08000200, 0x08000008, 0x00000200, 0x00000000, 0x08020008],
  [0x08000208, 0x00020000, 0x08000000, 0x08020208, 0x00000008, 0x00020208, 0x00020200, 0x08000008,
   0x08020000, 0x08000208, 0x00000208, 0x08020000, 0x00020208, 0x00000008, 0x08020008, 0x00020200]
]

/-- Expanded DES S-box SB4 (crypto.c), in rows of sixteen entries. -/
def SB4 : List (List Nat) := [
  [0x00802001, 0x00002081, 0x00002081, 0x00000080, 0x00802080, 0x00800081, 0x00800001, 0x00002001,
   0x00000000, 0x00802000, 0x00802000, 0x00802081, 0x00000081, 0x00000000, 0x00800080, 0x00800001],
  [0x00000001, 0x00002000, 0x00800000, 0x00802001, 0x00000080, 0x00800000, 0x00002001, 0x00002080,
   0x00800081, 0x00000001, 0x00002080, 0x00800080, 0x00002000, 0x00802080, 0x00802081, 0x00000081],
  [0x00800080, 0x00800001, 0x00802000, 0x00802081, 0x00000081, 0x00000000, 0x00000000, 0x00802000,
   0x00002080, 0x00800080, 0x00800081, 0x00000001, 0x00802001, 0x00002081, 0x00002081, 0x00000080],
  [0x00802081, 0x00000081, 0x00000001, 0x00002000, 0x00800001, 0x00002001, 0x00802080, 0x00800081,
   0x00002001, 0x00002080, 0x00800000, 0x00802001, 0x00000080, 0x00800000, 0x00002000, 0x00802080]
]

/-- Expanded DES S-box SB5 (crypto.c), in rows of sixteen entries. -/
def SB5 : List (List Nat) := [
  [0x00000100, 0x02080100, 0x02080000, 0x42000100, 0x00080000, 0x00000100, 0x40000000, 0x02080000,
   0x40080100, 0x00080000, 0x02000100, 0x40080100, 0x42000100, 0x42080000, 0x00080100, 0x40000000],
  [0x02000000, 0x40080000, 0x40080000, 0x00000000, 0x40000100, 0x42080100, 0x42080100, 0x02000100,
   0x42080000, 0x40000100, 0x00000000, 0x42000000, 0x02080100, 0x02000000, 0x42000000, 0x00080100],
  [0x00080000, 0x42000100, 0x00000100, 0x02000000, 0x40000000, 0x02080000, 0x42000100, 0x40080100,
   0x02000100, 0x40000000, 0x42080000, 0x02080100, 0x40080100, 0x00000100, 0x02000000, 0x42080000],
  [0x42080100, 0x00080100, 0x42000000, 0x42080100, 0x02080000, 0x00000000, 0x40080000, 0x42000000,
   0x00080100, 0x02000100, 0x40000100, 0x00080000, 0x00000000, 0x40080000, 0x02080100, 0x40000100]
]

/-- Expanded DES S-box SB6 (crypto.c), in rows of sixteen entries. -/
def SB6 : List (List Nat) := [
  [0x20000010, 0x20400000, 0x00004000, 0x20404010, 0x20400000, 0x00000010, 0x20404010, 0x00400000,
   0x20004000, 0x00404010, 0x00400000, 0x20000010, 0x00400010, 0x20004000, 0x20000000, 0x00004010],
  [0x00000000, 0x00400010, 0x20004010, 0x00004000, 0x00404000, 0x20004010, 0x00000010, 0x20400010,
   0x20400010, 0x00000000, 0x00404010, 0x20404000, 0x00004010, 0x00404000, 0x20404000, 0x20000000],
  [0x20004000, 0x00000010, 0x20400010, 0x00404000, 0x20404010, 0x00400000, 0x00004010, 0x20000010,
   0x00400000, 0x20004000, 0x20000000, 0x00004010, 0x20000010, 0x20404010, 0x00404000, 0x20400000],
  [0x00404010, 0x20404000, 0x00000000, 0x20400010, 0x00000010, 0x00004000, 0x20400000, 0x00404010,
   0x00004000, 0x00400010, 0x20004010, 0x00000000, 0x20404000, 0x20000000, 0x00400010, 0x20004010]
]

/-- Expanded DES S-box SB7 (crypto.c), in rows of sixteen entries. -/
def SB7 : List (List Nat) := [
  [0x00200000, 0x04200002, 0x04000802, 0x00000000, 0x00000800, 0x04000802, 0x00200802, 0x04200800,
   0x04200802, 0x00200000, 0x00000000, 0x04000002, 0x00000002, 0x04000000, 0x04200002, 0x00000802],
  [0x04000800, 0x00200802, 0x00200002, 0x04000800, 0x04000002, 0x04200000, 0x04200800, 0x00200002,
   0x04200000, 0x00000800, 0x00000802, 0x04200802, 0x00200800, 0x00000002, 0x04000000, 0x00200800],
  [0x04000000, 0x00200800, 0x00200000, 0x04000802, 0x04000802, 0x04200002, 0x04200002, 0x00000002,
   0x00200002, 0x04000000, 0x04000800, 0x00200000, 0x04200800, 0x00000802, 0x00200802, 0x04200800],
  [0x00000802, 0x04000002, 0x04200802, 0x04200000, 0x00200800, 0x00000000, 0x00000002, 0x04200802,
   0x00000000, 0x00200802, 0x04200000, 0x00000800, 0x04000002, 0x04000800, 0x00000800, 0x00200002]
]

/-- Expanded DES S-box SB8 (crypto.c), in rows of sixteen entries. -/
def SB8 : List (List Nat) := [
  [0x10001040, 0x00001000, 0x00040000, 0x10041040, 0x10000000, 0x10001040, 0x00000040, 0x10000000,
   0x00040040, 0x10040000, 0x10041040, 0x00041000, 0x10041000, 0x00041040, 0x00001000, 0x00000040],
  [0x10040000, 0x10000040, 0x10001000, 0x00001040, 0x00041000, 0x00040040, 0x10040040, 0x10041000,
   0x00001040, 0x00000000, 0x00000000, 0x10040040, 0x10000040, 0x10001000, 0x00041040, 0x00040000],
  [0x00041040, 0x00040000, 0x10041000, 0x00001000, 0x00000040, 0x10040040, 0x00001000, 0x00041040,
   0x10001000, 0x00000040, 0x10000040, 0x10040000, 0x10040040, 0x10000000, 0x00040000, 0x10001040],
  [0x00000000, 0x10041040, 0x00040040, 0x10000040, 0x10040000, 0x10001000, 0x10001040, 0x00000000,
   0x10041040, 0x00041000, 0x00041000, 0x00001040, 0x00001040, 0x00040040, 0x10000000, 0x10041000]
]

/-- Table LHs (crypto.c): PC1, left half bit-swap. -/
def LHs : List Nat := [
  0x00000000, 0x00000001, 0x00000100, 0x00000101, 0x00010000, 0x00010001, 0x00010100, 0x00010101,
  0x01000000, 0x01000001, 0x01000100, 0x01000101, 0x01010000, 0x01010001, 0x01010100, 0x01010101
]

/-- Table RHs (crypto.c): PC1, right half bit-swap. -/
def RHs : List Nat := [
  0x00000000, 0x01000000, 0x00010000, 0x01010000, 0x00000100, 0x01000100, 0x00010100, 0x01010100,
  0x00000001, 0x01000001, 0x00010001, 0x01010001, 0x00000101, 0x01000101, 0x00010101, 0x01010101
]

/-- The macro `DES_IP(X, Y)`: the new `(X, Y)`. -/
def DES_IP (X Y : Nat) : Nat × Nat :=
  let T := ((X >>> 4) ^^^ Y) &&& 0x0F0F0F0F
  let Y := Y ^^^ T
  let X := X ^^^ shl32 T 4
  let T := ((X >>> 16) ^^^ Y) &&& 0x0000FFFF
  let Y := Y ^^^ T
  let X := X ^^^ shl32 T 16
  let T := ((Y >>> 2) ^^^ X) &&& 0x33333333
  let X := X ^^^ T
  let Y := Y ^^^ shl32 T 2
  let T := ((Y >>> 8) ^^^ X) &&& 0x00FF00FF
  let X := X ^^^ T
  let Y := Y ^^^ shl32 T 8
  let Y := (shl32 Y 1 ||| (Y >>> 31)) &&& 0xFFFFFFFF
  let T := (X ^^^ Y) &&& 0xAAAAAAAA
  let Y := Y ^^^ T
  let X := X ^^^ T
  let X := (shl32 X 1 ||| (X >>> 31)) &&& 0xFFFFFFFF
  (X, Y)

/-- The macro `DES_FP(X, Y)`: the new `(X, Y)`. -/
def DES_FP (X Y : Nat) : Nat × Nat :=
  let X := (shl32 X 31 ||| (X >>> 1)) &&& 0xFFFFFFFF
  let T := (X ^^^ Y) &&& 0xAAAAAAAA
  let X := X ^^^ T
  let Y := Y ^^^ T
  let Y := (shl32 Y 31 ||| (Y >>> 1)) &&& 0xFFFFFFFF
  let T := ((Y >>> 8) ^^^ X) &&& 0x00FF00FF
  let X := X ^^^ T
  let Y := Y ^^^ shl32 T 8
  let T := ((Y >>> 2) ^^^ X) &&& 0x33333333
  let X := X ^^^ T
  let Y := Y ^^^ shl32 T 2
  let T := ((X >>> 16) ^^^ Y) &&& 0x0000FFFF
  let Y := Y ^^^ T
  let X := X ^^^ shl32 T 16
  let T := ((X >>> 4) ^^^ Y) &&& 0x0F0F0F0F
  let Y := Y ^^^ T
  let X := X ^^^ shl32 T 4
  (X, Y)

/-- The macro `DES_ROUND(X, Y)` with the pointer `SK` at offset `p` of `sk`: the new
`Y` (the pointer moves on by two). -/
def DES_ROUND (sk : List Nat) (p X Y : Nat) : Nat :=
  let T := sk.getD p 0 ^^^ X
  let Y := Y ^^^ (table_get SB8 (T &&& 0x3F) ^^^ (table_get SB6 ((T >>> 8) &&& 0x3F) ^^^
    (table_get SB4 ((T >>> 16) &&& 0x3F) ^^^ table_get SB2 ((T >>> 24) &&& 0x3F))))
  let T := sk.getD (p + 1) 0 ^^^ (shl32 X 28 ||| (X >>> 4))
  Y ^^^ (table_get SB7 (T &&& 0x3F) ^^^ (table_get SB5 ((T >>> 8) &&& 0x3F) ^^^
    (table_get SB3 ((T >>> 16) &&& 0x3F) ^^^ table_get SB1 ((T >>> 24) &&& 0x3F))))

/-- The first subkey word `des_setkey` stores in an iteration, from the rotated halves. -/
def des_subkey_a (X Y : Nat) : Nat :=
  (shl32 X 4 &&& 0x24000000) ||| ((shl32 X 28 &&& 0x10000000) |||
  ((shl32 X 14 &&& 0x08000000) ||| ((shl32 X 18 &&& 0x02080000) |||
  ((shl32 X 6 &&& 0x01000000) ||| ((shl32 X 9 &&& 0x00200000) |||
  (((X >>> 1) &&& 0x00100000) ||| ((shl32 X 10 &&& 0x00040000) |||
  ((shl32 X 2 &&& 0x00020000) ||| (((X >>> 10) &&& 0x00010000) |||
  (((Y >>> 13) &&& 0x00002000) ||| (((Y >>> 4) &&& 0x00001000) |||
  ((shl32 Y 6 &&& 0x00000800) ||| (((Y >>> 1) &&& 0x00000400) |||
  (((Y >>> 14) &&& 0x00000200) ||| ((Y &&& 0x00000100) |||
  (((Y >>> 5) &&& 0x00000020) ||| (((Y >>> 10) &&& 0x00000010) |||
  (((Y >>> 3) &&& 0x00000008) ||| (((Y >>> 18) &&& 0x00000004) |||
  (((Y >>> 26) &&& 0x00000002) ||| ((Y >>> 24) &&& 0x00000001)))))))))))))))))))))

/-- The second subkey word `des_setkey` stores in an iteration. -/
def des_subkey_b (X Y : Nat) : Nat :=
  (shl32 X 15 &&& 0x20000000) ||| ((shl32 X 17 &&& 0x10000000) |||
  ((shl32 X 10 &&& 0x08000000) ||| ((shl32 X 22 &&& 0x04000000) |||
  (((X >>> 2) &&& 0x02000000) ||| ((shl32 X 1 &&& 0x01000000) |||
  ((shl32 X 16 &&& 0x00200000) ||| ((shl32 X 11 &&& 0x00100000) |||
  ((shl32 X 3 &&& 0x00080000) ||| (((X >>> 6) &&& 0x00040000) |||
  ((shl32 X 15 &&& 0x00020000) ||| (((X >>> 4) &&& 0x00010000) |||
  (((Y >>> 2) &&& 0x00002000) ||| ((shl32 Y 8 &&& 0x00001000) |||
  (((Y >>> 14) &&& 0x00000808) ||| (((Y >>> 9) &&& 0x00000400) |||
  ((Y &&& 0x00000200) ||| ((shl32 Y 7 &&& 0x00000100) |||
  (((Y >>> 7) &&& 0x00000020) ||| (((Y >>> 3) &&& 0x00000011) |||
  ((shl32 Y 2 &&& 0x00000004) ||| ((Y >>> 21) &&& 0x00000002)))))))))))))))))))))

/-- The loop `for (i = 0; i < 16; i++)` of `des_setkey`, with `n` iterations left and
the pointer `SK` at offset `p`: the new contents of the subkey array. -/
def des_setkey_loop : Nat → Nat → Nat → Nat → Nat → List Nat → List Nat
  | 0, _, _, _, _, SK => SK
  | n + 1, i, p, X, Y, SK =>
    let X' := if i < 2 ∨ i = 8 ∨ i = 15 then (shl32 X 1 ||| (X >>> 27)) &&& 0x0FFFFFFF
      else (shl32 X 2 ||| (X >>> 26)) &&& 0x0FFFFFFF
    let Y' := if i < 2 ∨ i = 8 ∨ i = 15 then (shl32 Y 1 ||| (Y >>> 27)) &&& 0x0FFFFFFF
      else (shl32 Y 2 ||| (Y >>> 26)) &&& 0x0FFFFFFF
    des_setkey_loop n (i + 1) (p + 2) X' Y'
      ((SK.set p (des_subkey_a X' Y')).set (p + 1) (des_subkey_b X' Y'))

/-- The function `des_setkey(SK + off, key + koff)`: the new contents of the array
`SK` points into. -/
def des_setkey (SK : List Nat) (off : Nat) (key : List Nat) (koff : Nat) : List Nat :=
  let X := GET_UINT32_BE key koff
  let Y := GET_UINT32_BE key (koff + 4)
  -- Permuted Choice 1
  let T := ((Y >>> 4) ^^^ X) &&& 0x0F0F0F0F
  let X := X ^^^ T
  let Y := Y ^^^ shl32 T 4
  let T := (Y ^^^ X) &&& 0x10101010
  let X := X ^^^ T
  let Y := Y ^^^ T
  let X := shl32 (LHs.getD (X &&& 0xF) 0) 3 ||| (shl32 (LHs.getD ((X >>> 8) &&& 0xF) 0) 2 |||
    (shl32 (LHs.getD ((X >>> 16) &&& 0xF) 0) 1 ||| (LHs.getD ((X >>> 24) &&& 0xF) 0 |||
    (shl32 (LHs.getD ((X >>> 5) &&& 0xF) 0) 7 ||| (shl32 (LHs.getD ((X >>> 13) &&& 0xF) 0) 6 |||
    (shl32 (LHs.getD ((X >>> 21) &&& 0xF) 0) 5 |||
      shl32 (LHs.getD ((X >>> 29) &&& 0xF) 0) 4))))))
  let Y := shl32 (RHs.getD ((Y >>> 1) &&& 0xF) 0) 3 ||| (shl32 (RHs.getD ((Y >>> 9) &&& 0xF) 0) 2 |||
    (shl32 (RHs.getD ((Y >>> 17) &&& 0xF) 0) 1 ||| (RHs.getD ((Y >>> 25) &&& 0xF) 0 |||
    (shl32 (RHs.getD ((Y >>> 4) &&& 0xF) 0) 7 ||| (shl32 (RHs.getD ((Y >>> 12) &&& 0xF) 0) 6 |||
    (shl32 (RHs.getD ((Y >>> 20) &&& 0xF) 0) 5 |||
      shl32 (RHs.getD ((Y >>> 28) &&& 0xF) 0) 4))))))
  let X := X &&& 0x0FFFFFFF
  let Y := Y &&& 0x0FFFFFFF
  -- calculate subkeys
  des_setkey_loop 16 0 off X Y SK

/-- The loop `for (i = 0; i < 32; i += 2)` of `des3_set2key`, with `n` iterations left:
the new contents of `esk` and `dsk`. -/
def des3_set2key_loop : Nat → Nat → List Nat → List Nat → List Nat × List Nat
  | 0, _, esk, dsk => (esk, dsk)
  | n + 1, i, esk, dsk =>
    let dsk := dsk.set i (esk.getD (30 - i) 0)
    let dsk := dsk.set (i + 1) (esk.getD (31 - i) 0)
    let esk := esk.set (i + 32) (dsk.getD (62 - i) 0)
    let esk := esk.set (i + 33) (dsk.getD (63 - i) 0)
    let esk := esk.set (i + 64) (esk.getD i 0)
    let esk := esk.set (i + 65) (esk.getD (i + 1) 0)
    let dsk := dsk.set (i + 64) (dsk.getD i 0)
    let dsk := dsk.set (i + 65) (dsk.getD (i + 1) 0)
    des3_set2key_loop n (i + 2) esk dsk

/-- The function `des3_set2key(esk, dsk, key)`: the new contents of `esk` and `dsk`. -/
def des3_set2key (esk dsk key : List Nat) : List Nat × List Nat :=
  let esk := des_setkey esk 0 key 0
  let dsk := des_setkey dsk 32 key 8
  des3_set2key_loop 16 0 esk dsk

/-- The struct `des3_context`. -/
structure des3_context where
  mode : Int
  sk : List Nat
deriving DecidableEq, Repr

/-- A `des3_context` as declared on the stack. -/
def des3_context_new : des3_context := { mode := 0, sk := List.replicate 96 0 }

/-- The function `des3_set2key_enc`: the status (always 0) and the context. -/
def des3_set2key_enc (ctx : des3_context) (key : List Nat) : Int × des3_context :=
  let sk := List.replicate 96 0
  let r := des3_set2key ctx.sk sk key
  (0, { ctx with sk := r.1 })

/-- The function `des3_set2key_dec`: the status (always 0) and the context. -/
def des3_set2key_dec (ctx : des3_context) (key : List Nat) : Int × des3_context :=
  let sk := List.replicate 96 0
  let r := des3_set2key sk ctx.sk key
  (0, { ctx with sk := r.2 })

/-- A loop `for (i = 0; i < 8; i++) { DES_ROUND(Y, X); DES_ROUND(X, Y); }` of
`des3_crypt_ecb`, with `n` iterations left and `SK` at offset `p`: the new `(X, Y)`. -/
def des_rounds_yx (sk : List Nat) : Nat → Nat → Nat → Nat → Nat × Nat
  | 0, _, X, Y => (X, Y)
  | n + 1, p, X, Y =>
    let X := DES_ROUND sk p Y X
    let Y := DES_ROUND sk (p + 2) X Y
    des_rounds_yx sk n (p + 4) X Y

/-- A loop `for (i = 0; i < 8; i++) { DES_ROUND(X, Y); DES_ROUND(Y, X); }`. -/
def des_rounds_xy (sk : List Nat) : Nat → Nat → Nat → Nat → Nat × Nat
  | 0, _, X, Y => (X, Y)
  | n + 1, p, X, Y =>
    let Y := DES_ROUND sk p X Y
    let X := DES_ROUND sk (p + 2) Y X
    des_rounds_xy sk n (p + 4) X Y

/-- The function `des3_crypt_ecb`: the eight bytes stored in `output` (its status is
always 0). -/
def des3_crypt_ecb (ctx : des3_context) (input : List Nat) : List Nat :=
  let SK := ctx.sk
  let X := GET_UINT32_BE input 0
  let Y := GET_UINT32_BE input 4
  let ip := DES_IP X Y
  let r := des_rounds_yx SK 8 0 ip.1 ip.2
  let r := des_rounds_xy SK 8 32 r.1 r.2
  let r := des_rounds_yx SK 8 64 r.1 r.2
  let fp := DES_FP r.2 r.1
  -- DES_FP(Y, X): its first result is the new Y, its second the new X
  PUT_UINT32_BE fp.1 ++ PUT_UINT32_BE fp.2

/-- The loop body `output[i] = (unsigned char)(a[i] ^ b[i])` for `i < 8`. -/
def xor_block8 (a b : List Nat) : List Nat :=
  (List.range 8).map (fun i => (a.getD i 0 ^^^ b.getD i 0) % 256)

/-- The `while (length > 0)` loops of `des3_crypt_cbc`, with `n` blocks left and the
pointers `input` and `output` moved on by `off`: the final `iv` and `output`. -/
def des3_crypt_cbc_loop (ctx : des3_context) (mode : Int) (input : List Nat) :
    Nat → Nat → List Nat → List Nat → List Nat × List Nat
  | 0, _, iv, output => (iv, output)
  | n + 1, off, iv, output =>
    if mode = DES_ENCRYPT then
      let out := des3_crypt_ecb ctx (xor_block8 ((input.drop off).take 8) iv)
      des3_crypt_cbc_loop ctx mode input n (off + 8) (out.take 8) (memcpy output off out 0 8)
    else
      let temp := (input.drop off).take 8
      let out := xor_block8 (des3_crypt_ecb ctx temp) iv
      des3_crypt_cbc_loop ctx mode input n (off + 8) temp (memcpy output off out 0 8)

/-- The function `des3_crypt_cbc`: the status, the updated `iv` and the new contents
of `output`. -/
def des3_crypt_cbc (ctx : des3_context) (mode : Int) (length : Nat) (iv input output : List Nat) :
    Int × List Nat × List Nat :=
  if length % 8 ≠ 0 then (POLARSSL_ERR_DES_INVALID_INPUT_LENGTH, iv, output)
  else
    let r := des3_crypt_cbc_loop ctx mode input (length / 8) 0 iv output
    (0, r.1, r.2)

/-- The function `des3_encrypt_cbc`: the status and the new contents of `output`. The
caller's `iv` is copied to a local and is not modified. -/
def des3_encrypt_cbc (key iv input output : List Nat) (length : Nat) : Int × List Nat :=
  let r := des3_set2key_enc des3_context_new key
  if r.1 ≠ 0 then (r.1, output)
  else
    let temp := memcpy (List.replicate 8 0) 0 iv 0 8
    let c := des3_crypt_cbc r.2 DES_ENCRYPT length temp input output
    if c.1 ≠ 0 then (c.1, c.2.2) else (0, c.2.2)

/-- The function `des3_decrypt_cbc`: the status and the new contents of `output`. -/
def des3_decrypt_cbc (key iv input output : List Nat) (length : Nat) : Int × List Nat :=
  let r := des3_set2key_dec des3_context_new key
  if r.1 ≠ 0 then (r.1, output)
  else
    let temp := memcpy (List.replicate 8 0) 0 iv 0 8
    let c := des3_crypt_cbc r.2 DES_DECRYPT length temp input output
    if c.1 ≠ 0 then (c.1, c.2.2) else (0, c.2.2)

/-! ## Keys, session state and the outside world -/

/-- The key constants declared in `keys.h`. Their values are defined outside the
sources embedded here and are a parameter of the development. -/
structure Keys where
  zero_iv : List Nat
  user_param_u0 : List Nat
  user_param_u1 : List Nat
  user_param_u2 : List Nat
  user_param_u3 : List Nat
  user_param_u4 : List Nat
  ivs_3des : List Nat
  ivs_aes : List Nat
  fix1_it : List Nat
  fix2_it : List Nat
  fix1_pn : List Nat
  fix2_pn : List Nat
  Kf1_u0 : List Nat
  Kf2_u0 : List Nat
  Kf1_u1 : List Nat
  Kf2_u1 : List Nat
  Kf1_u2 : List Nat
  Kf2_u2 : List Nat
  Kf1_u3 : List Nat
  Kf2_u3 : List Nat
  Kf1_u4 : List Nat
  Kf2_u4 : List Nat
  giv : List Nat
  kms1 : List Nat
  kms2 : List Nat
  PS3_L_DEBUG_DISC : List Nat
  intikey : List Nat
  Kh : List Nat
  IVh : List Nat
  Kwm : List Nat
  Kdid : List Nat

/-- The struct `sv_auth_t` (sv_auth.h). -/
structure sv_auth_t where
  m_mode : Nat
  m_auth_mode : Nat
  m_retry_flag : Nat
  kf1_eid : List Nat
  kf2_eid : List Nat
  fix1 : List Nat
  fix2 : List Nat
  m_rand1 : List Nat
  m_rand2 : List Nat
  ks1 : List Nat
  ks2 : List Nat
deriving DecidableEq, Repr

def RETRY_FLAG_ALLOW : Nat := 0
def RETRY_FLAG_DENY : Nat := 1
def ALLOW_RETRY_NO : Nat := 0
def ALLOW_RETRY_YES : Nat := 1
def AUTH_MODE_SUPER : Nat := 0
def AUTH_MODE_USER : Nat := 1
def BD_SCE_FUNC_AUTH_SUPER_MODE : Nat := 0
def BD_SCE_FUNC_AUTH_USER_MODE : Nat := 1
def BD_SCE_FUNC_HOST_CHALLENGE : Nat := 2
def BD_SCE_FUNC_DRIVE_CHALLENGE : Nat := 3

/-- The constants `SG_DXFER_TO_DEV` and `SG_DXFER_FROM_DEV` of `scsi/sg.h`. -/
def SG_DXFER_TO_DEV : Int := -2
def SG_DXFER_FROM_DEV : Int := -3

/-- The fields of `struct sg_io_hdr` that `sendrecv` fills before `ioctl(SG_IO)`,
with the bytes the two pointers `cmdp` and `dxferp` point at. -/
structure sg_request where
  dxfer_direction : Int
  cmd_len : Nat
  cmdp : List Nat
  dxfer_len : Nat
  dxferp : List Nat
  timeout : Nat
deriving DecidableEq, Repr

/-- What one `ioctl(SG_IO)` call answers: its return value, the `status` field it
leaves in the header and the bytes the drive transfers to the host. -/
structure sg_reply where
  ret : Int
  status : Nat
  data : List Nat
deriving DecidableEq, Repr

/-- The outside world as the program meets it: the byte order of the host, the key
constants, the value of the n-th call of `rand()`, the descriptor the n-th
`open("/dev/sr0")` returns and the answer to the n-th `ioctl(SG_IO)`. -/
structure Env where
  big_endian : Bool
  keys : Keys
  rand : Nat → Nat
  open_fd : Nat → Int
  ioctl : Nat → sg_request → sg_reply

/-- The state a call works on: the globals `sv_auth` and `packet_buffer`, the number
of `rand()` and `open()` calls made so far and the requests submitted to the drive
so far, oldest first. -/
structure World where
  sv_auth : sv_auth_t
  packet_buffer : List Nat
  rand_calls : Nat
  open_calls : Nat
  io_log : List sg_request
deriving DecidableEq, Repr

/-! ## sv_command.c -/

/-- The loop `buffer[i] = (unsigned char)(rand() & 0xFF)` of `generate_rnd`. -/
def generate_rnd_buffer (E : Env) (rand_calls size : Nat) : List Nat :=
  (List.range size).map (fun i => E.rand (rand_calls + i) &&& 0xFF)

/-- The function `generate_rnd(dest, size)`: the new contents of `dest` and the
number of `rand()` calls made so far. -/
def generate_rnd (E : Env) (rand_calls : Nat) (dest : List Nat) (size : Nat) : List Nat × Nat :=
  (memcpy dest 0 (generate_rnd_buffer E rand_calls size) 0 size, rand_calls + size)

/-- The loop `while (len--) check_code += *data++;` of `generate_check_code`, with
`len` iterations left and the pointer `data` moved on by `i`: the final value of the
`unsigned short` accumulator. -/
def generate_check_code_loop (data : List Nat) : Nat → Nat → Nat → Nat
  | 0, _, check_code => check_code
  | len + 1, i, check_code =>
    generate_check_code_loop data len (i + 1) ((check_code + data.getD i 0) % 2 ^ 16)

/-- The function `generate_check_code(data, len)` for `len >= 0`: the `unsigned char`
that `return (~check_code)` yields, `~` being taken on the promoted 32-bit value. -/
def generate_check_code (data : List Nat) (len : Nat) : Nat :=
  (2 ^ 32 - 1 - generate_check_code_loop data len 0 0) % 256

/-- The struct `atp_io_params_t`. -/
structure atp_io_params_t where
  pkt_len : Nat
  atp_proto : Nat
  direction : Nat
deriving DecidableEq, Repr

/-- The table `atp_io_params` of `get_atp_io_params_by_opcode`. -/
def atp_io_params : List (List Nat) := [
  [0xA1, 0xC, 0, 0], [0x5B, 0xC, 0, 0], [0x35, 0xC, 0, 0], [0x04, 0xC, 1, 1],
  [0x46, 0xC, 1, 1], [0x4A, 0xC, 1, 1], [0xAC, 0xC, 1, 1], [0x12, 0xC, 1, 1],
  [0xA6, 0xC, 0, 0], [0xBD, 0xC, 1, 1], [0x55, 0xC, 2, 0], [0x5A, 0xC, 1, 1],
  [0x4B, 0xC, 0, 0], [0x45, 0xC, 0, 0], [0x47, 0xC, 0, 0], [0x48, 0xC, 0, 0],
  [0xBC, 0xC, 0, 0], [0x1E, 0xC, 0, 0], [0x28, 0xC, 3, 1], [0xA8, 0xC, 3, 1],
  [0x25, 0xC, 1, 1], [0xBE, 0xC, 3, 1], [0xB9, 0xC, 3, 1], [0x51, 0xC, 1, 1],
  [0xAD, 0xC, 1, 1], [0x23, 0xC, 1, 1], [0x44, 0xC, 0, 0], [0x52, 0xC, 1, 1],
  [0x42, 0xC, 1, 1], [0x43, 0xC, 1, 1], [0x58, 0xC, 0, 0], [0xA4, 0xC, 1, 1],
  [0x03, 0xC, 1, 1], [0x53, 0xC, 0, 0], [0xBA, 0xC, 0, 0], [0x2B, 0xC, 0, 0],
  [0xBF, 0xC, 2, 0], [0xA2, 0xC, 0, 0], [0xA3, 0xC, 2, 0], [0x54, 0xC, 2, 0],
  [0xA7, 0xC, 0, 0], [0xB6, 0xC, 2, 0], [0x1B, 0xC, 0, 0], [0x4E, 0xC, 0, 0],
  [0x00, 0xC, 0, 0], [0x2F, 0xC, 0, 0], [0x2A, 0xC, 2, 0], [0xAA, 0xC, 2, 0],
  [0x2E, 0xC, 2, 0], [0xBB, 0xC, 0, 0], [0x48, 0xC, 0, 0], [0xDA, 0xC, 0, 0],
  [0xF6, 0xC, 0, 0], [0xF9, 0xC, 0, 0], [0x3B, 0xC, 2, 0], [0x3C, 0xC, 1, 1],
  [0xD7, 0xC, 1, 1], [0xA5, 0xC, 0, 0], [0x4C, 0xC, 2, 0], [0x4D, 0xC, 1, 1],
  [0xE0, 0xC, 1, 1], [0xE1, 0xC, 2, 0]
]

/-- The function `get_atp_io_params_by_opcode`: the entry of the first row whose
opcode matches (status 0), or nothing (status -1). -/
def get_atp_io_params_by_opcode (opcode : Nat) : Option atp_io_params_t :=
  match atp_io_params.find? (fun row => row.getD 0 0 == opcode) with
  | some row => some { pkt_len := row.getD 1 0, atp_proto := row.getD 2 0, direction := row.getD 3 0 }
  | none => none

/-- The function `sendrecv`. -/
def sendrecv (E : Env) (w : World) : Int × World :=
  let rbd := E.open_fd w.open_calls
  let w := { w with open_calls := w.open_calls + 1 }
  if rbd < 0 then (-1, w)
  else
    let opcode := w.packet_buffer.getD 0x14 0
    let spu_cmd_size := (w.packet_buffer.getD 0x12 0 * 0x100 + w.packet_buffer.getD 0x13 0) % 2 ^ 16
    match get_atp_io_params_by_opcode opcode with
    | none => (-1, w)
    | some atp =>
      let dxfer_direction : Int :=
        if atp.direction = 1 then SG_DXFER_FROM_DEV
        else if atp.direction = 0 then SG_DXFER_TO_DEV
        else 0
      let dxfer_len := (spu_cmd_size + 2 ^ 32 - 0x10) % 2 ^ 32
      let req : sg_request :=
        { dxfer_direction := dxfer_direction
          cmd_len := atp.pkt_len
          cmdp := (w.packet_buffer.drop 0x14).take atp.pkt_len
          dxfer_len := dxfer_len
          dxferp := (w.packet_buffer.drop 0x24).take dxfer_len
          timeout := 20000 }
      let reply := E.ioctl w.io_log.length req
      let w := { w with io_log := w.io_log ++ [req] }
      let w :=
        if dxfer_direction = SG_DXFER_FROM_DEV then
          { w with packet_buffer :=
              memcpy w.packet_buffer 0x24 reply.data 0 (min dxfer_len reply.data.length) }
        else w
      if reply.ret ≠ 0 then (-1, w)
      else if reply.status ≠ 0 then (-1, w)
      else (0, w)

/-! ## sv_send0_command.c, sv_report0_command.c, sv_send2_command.c -/

/-- The function `sv_send0_command_set`. -/
def sv_send0_command_set (E : Env) (w : World) : Int × World :=
  let send0_cmd_buf := List.replicate 0x40 0
  let send0_cmd_buf := memset send0_cmd_buf 0 0 0x38
  let g := generate_rnd E w.rand_calls w.sv_auth.m_rand1 0x10
  let w := { w with sv_auth := { w.sv_auth with m_rand1 := g.1 }, rand_calls := g.2 }
  -- header
  let payload_size := 0x30
  let send0_cmd_buf := memcpy send0_cmd_buf 0 (store32 E.big_endian payload_size) 0 4
  let send0_cmd_buf := memcpy send0_cmd_buf 4 (store32 E.big_endian payload_size) 0 4
  let spu_cmd_id := 0x80
  let spu_cmd_size := 0x24
  let send0_cmd_buf := memcpy send0_cmd_buf 0x10 (store16 E.big_endian spu_cmd_id) 0 2
  let send0_cmd_buf := memcpy send0_cmd_buf 0x12 (store16 E.big_endian spu_cmd_size) 0 2
  -- init cdb
  let cdb := 0x14
  let send0_cmd_buf := memset send0_cmd_buf cdb 0 0x10
  -- fill cdb
  let send0_cmd_buf := send0_cmd_buf.set (cdb + 0) 0xA3
  let send0_cmd_buf := send0_cmd_buf.set (cdb + 7) 0xE0
  let send0_cmd_buf := send0_cmd_buf.set (cdb + 8) 0
  let send0_cmd_buf := send0_cmd_buf.set (cdb + 9) 0x14
  let auth_mode := w.sv_auth.m_auth_mode
  if auth_mode ≠ AUTH_MODE_SUPER ∧ auth_mode ≠ AUTH_MODE_USER then (-1, w)
  else
    let send0_cmd_buf := send0_cmd_buf.set (cdb + 10)
      (if auth_mode = AUTH_MODE_SUPER then BD_SCE_FUNC_AUTH_SUPER_MODE
       else BD_SCE_FUNC_AUTH_USER_MODE)
    -- param list
    let args := 0x24
    let send0_cmd_buf := send0_cmd_buf.set (args + 0) 0
    let send0_cmd_buf := send0_cmd_buf.set (args + 1) 0x10
    -- encrypt m_rand1 using fix1 as aes key and set the result into the param list
    let r := aes_encrypt_cbc w.sv_auth.fix1 128 E.keys.giv w.sv_auth.m_rand1
      (send0_cmd_buf.drop (args + 4)) 0x10
    if r.1 ≠ 0 then (-3, w)
    else
      let send0_cmd_buf := send0_cmd_buf.take (args + 4) ++ r.2
      (0, { w with packet_buffer := memcpy w.packet_buffer 0 send0_cmd_buf 0 0x40 })

/-- The function `sv_report0_command_set`. -/
def sv_report0_command_set (E : Env) (w : World) : Int × World :=
  let report0_cmd_buf := List.replicate 0x50 0
  -- header
  let payload_size := 0x40
  let report0_cmd_buf := memcpy report0_cmd_buf 0 (store32 E.big_endian payload_size) 0 4
  let report0_cmd_buf := memcpy report0_cmd_buf 4 (store32 E.big_endian payload_size) 0 4
  let spu_cmd_id := 0x90
  let spu_cmd_size := 0x34
  let report0_cmd_buf := memcpy report0_cmd_buf 0x10 (store16 E.big_endian spu_cmd_id) 0 2
  let report0_cmd_buf := memcpy report0_cmd_buf 0x12 (store16 E.big_endian spu_cmd_size) 0 2
  -- init cdb
  let cdb := 0x14
  let report0_cmd_buf := memset report0_cmd_buf cdb 0 0x10
  -- fill cdb
  let report0_cmd_buf := report0_cmd_buf.set (cdb + 0) 0xA4
  let report0_cmd_buf := report0_cmd_buf.set (cdb + 7) 0xE0
  let report0_cmd_buf := report0_cmd_buf.set (cdb + 8) 0
  let report0_cmd_buf := report0_cmd_buf.set (cdb + 9) 0x24
  let auth_mode := w.sv_auth.m_auth_mode
  if auth_mode ≠ AUTH_MODE_SUPER ∧ auth_mode ≠ AUTH_MODE_USER then (-1, w)
  else
    let report0_cmd_buf := report0_cmd_buf.set (cdb + 10)
      (if auth_mode = AUTH_MODE_SUPER then BD_SCE_FUNC_AUTH_SUPER_MODE
       else BD_SCE_FUNC_AUTH_USER_MODE)
    -- returned data
    let returned_data := 0x24
    let report0_cmd_buf := report0_cmd_buf.set (returned_data + 0) 0
    let report0_cmd_buf := report0_cmd_buf.set (returned_data + 1) 0x20
    (0, { w with packet_buffer := memcpy w.packet_buffer 0 report0_cmd_buf 0 0x50 })

/-- The function `sv_report0_command_check_recved_data`. The status of the two
`aes_decrypt_cbc` calls is not looked at. -/
def sv_report0_command_check_recved_data (E : Env) (w : World) : Int × World :=
  let enc_rand1 := List.replicate 0x10 0
  let dec_rand1 := List.replicate 0x10 0
  let enc_rand1 := memcpy enc_rand1 0 w.packet_buffer 0x28 0x10
  -- decrypt m_rand1 from the drive
  let dec_rand1 := (aes_decrypt_cbc w.sv_auth.fix2 128 E.keys.giv enc_rand1 dec_rand1 0x10).2
  -- check m_rand1
  if ¬ memcmp_eq dec_rand1 0 w.sv_auth.m_rand1 0 0x10 then (-2, w)
  else
    let enc_rand2 := List.replicate 0x10 0
    let enc_rand2 := memcpy enc_rand2 0 w.packet_buffer 0x38 0x10
    -- decrypt and set m_rand2 from the drive to host
    let m_rand2 :=
      (aes_decrypt_cbc w.sv_auth.fix2 128 E.keys.giv enc_rand2 w.sv_auth.m_rand2 0x10).2
    let w := { w with sv_auth := { w.sv_auth with m_rand2 := m_rand2 } }
    -- check rands, they must not be same
    if memcmp_eq w.sv_auth.m_rand1 0 w.sv_auth.m_rand2 0 0x10 then (-3, w)
    else (0, w)

/-- The function `sv_send2_command_set`. -/
def sv_send2_command_set (E : Env) (w : World) : Int × World :=
  let send2_cmd_buf := List.replicate 0x40 0
  let send2_cmd_buf := memset send2_cmd_buf 0 0 0x38
  -- header
  let payload_size := 0x30
  let send2_cmd_buf := memcpy send2_cmd_buf 0 (store32 E.big_endian payload_size) 0 4
  let send2_cmd_buf := memcpy send2_cmd_buf 4 (store32 E.big_endian payload_size) 0 4
  let spu_cmd_id := 0x82
  let spu_cmd_size := 0x24
  let send2_cmd_buf := memcpy send2_cmd_buf 0x10 (store16 E.big_endian spu_cmd_id) 0 2
  let send2_cmd_buf := memcpy send2_cmd_buf 0x12 (store16 E.big_endian spu_cmd_size) 0 2
  -- init cdb
  let cdb := 0x14
  let send2_cmd_buf := memset send2_cmd_buf cdb 0 0x10
  -- fill cdb
  let send2_cmd_buf := send2_cmd_buf.set (cdb + 0) 0xA3
  let send2_cmd_buf := send2_cmd_buf.set (cdb + 7) 0xE0
  let send2_cmd_buf := send2_cmd_buf.set (cdb + 8) 0
  let send2_cmd_buf := send2_cmd_buf.set (cdb + 9) 0x14
  let auth_mode := w.sv_auth.m_auth_mode
  if auth_mode ≠ AUTH_MODE_SUPER ∧ auth_mode ≠ AUTH_MODE_USER then (-1, w)
  else
    let send2_cmd_buf := send2_cmd_buf.set (cdb + 10)
      (if auth_mode = AUTH_MODE_SUPER then BD_SCE_FUNC_HOST_CHALLENGE
       else BD_SCE_FUNC_DRIVE_CHALLENGE)
    -- param list
    let args := 0x24
    let send2_cmd_buf := send2_cmd_buf.set (args + 0) 0
    let send2_cmd_buf := send2_cmd_buf.set (args + 1) 0x10
    -- encrypt m_rand2 using fix1 as aes key and set the result into the param list
    let r := aes_encrypt_cbc w.sv_auth.fix1 128 E.keys.giv w.sv_auth.m_rand2
      (send2_cmd_buf.drop (args + 4)) 0x10
    if r.1 ≠ 0 then (-3, w)
    else
      let send2_cmd_buf := send2_cmd_buf.take (args + 4) ++ r.2
      (0, { w with packet_buffer := memcpy w.packet_buffer 0 send2_cmd_buf 0 0x40 })

/-- The function `sv_send2_command_check_recved_data`. -/
def sv_send2_command_check_recved_data (E : Env) (w : World) : Int × World :=
  -- copy first 8 bytes of rand1 and second 8 bytes of rand2 to session key1
  let session_key1_buf := List.replicate 0x10 0
  let session_key1_buf := memcpy session_key1_buf 0 w.sv_auth.m_rand1 0 8
  let session_key1_buf := memcpy session_key1_buf 8 w.sv_auth.m_rand2 8 8
  -- copy second 8 bytes of rand1 and first 8 bytes of rand2 to session key2
  let session_key2_buf := List.replicate 0x10 0
  let session_key2_buf := memcpy session_key2_buf 0 w.sv_auth.m_rand1 8 8
  let session_key2_buf := memcpy session_key2_buf 8 w.sv_auth.m_rand2 0 8
  -- encrypt session key1 using kms1 key
  let r1 := aes_encrypt_cbc E.keys.kms1 128 E.keys.giv session_key1_buf w.sv_auth.ks1 0x10
  let w := { w with sv_auth := { w.sv_auth with ks1 := r1.2 } }
  if r1.1 ≠ 0 then (-3, w)
  else
    -- encrypt session key2 using kms2 key
    let r2 := aes_encrypt_cbc E.keys.kms2 128 E.keys.giv session_key2_buf w.sv_auth.ks2 0x10
    let w := { w with sv_auth := { w.sv_auth with ks2 := r2.2 } }
    if r2.1 ≠ 0 then (-3, w)
    else (0, w)

/-! ## sv_auth.c -/

/-- The function `authenticate_common`. The status of the three frame builders is
not looked at. -/
def authenticate_common (E : Env) (auth_mode allow_retry : Nat) (w : World) : Int × World :=
  let w := { w with sv_auth := { w.sv_auth with m_auth_mode := auth_mode } }
  -- check fix values
  let zeroes := List.replicate 0x10 0
  if memcmp_eq w.sv_auth.fix1 0 zeroes 0 0x10 then (-1, w)
  else if memcmp_eq w.sv_auth.fix2 0 zeroes 0 0x10 then (-1, w)
  else
    -- send0
    let w := (sv_send0_command_set E w).2
    let r := sendrecv E w
    if r.1 ≠ 0 then (-1, r.2)
    else
      -- report0
      let w := (sv_report0_command_set E r.2).2
      let r := sendrecv E w
      if r.1 ≠ 0 then (-1, r.2)
      else
        -- check reported data
        let c := sv_report0_command_check_recved_data E r.2
        if c.1 ≠ 0 then
          if allow_retry = ALLOW_RETRY_YES then (-8, c.2) else (-1, c.2)
        else
          -- send2
          let w := (sv_send2_command_set E c.2).2
          let r := sendrecv E w
          if r.1 ≠ 0 then (-1, r.2)
          else
            -- set session keys at this step
            sv_send2_command_check_recved_data E r.2

/-- The two calls `memcpy(sv_auth.fix1, k1, 0x10); memcpy(sv_auth.fix2, k2, 0x10);`. -/
def set_fix (w : World) (k1 k2 : List Nat) : World :=
  { w with sv_auth := { w.sv_auth with
      fix1 := memcpy w.sv_auth.fix1 0 k1 0 0x10
      fix2 := memcpy w.sv_auth.fix2 0 k2 0 0x10 } }

/-- The function `auth_drive_super`. -/
def auth_drive_super (E : Env) (w : World) : Int × World :=
  let w := set_fix w w.sv_auth.kf1_eid w.sv_auth.kf2_eid
  let auth_mode := AUTH_MODE_SUPER
  let allow_retry :=
    if w.sv_auth.m_retry_flag = RETRY_FLAG_ALLOW then ALLOW_RETRY_YES else ALLOW_RETRY_NO
  let r := authenticate_common E auth_mode allow_retry w
  if r.1 = -8 then
    let w := set_fix r.2 E.keys.fix1_it E.keys.fix2_it
    let r := authenticate_common E AUTH_MODE_SUPER ALLOW_RETRY_YES w
    if r.1 = -8 then
      let w := set_fix r.2 E.keys.fix1_pn E.keys.fix2_pn
      authenticate_common E AUTH_MODE_SUPER ALLOW_RETRY_NO w
    else r
  else r

/-- The key pair the `switch (sv_auth.m_mode)` of `auth_drive_user` copies into
`fix1` and `fix2`, or nothing in the `default` case. -/
def auth_drive_user_keys (K : Keys) (m_mode : Nat) : Option (List Nat × List Nat) :=
  if m_mode = 0 then some (K.Kf1_u0, K.Kf2_u0)
  else if m_mode = 1 then some (K.Kf1_u1, K.Kf2_u1)
  else if m_mode = 2 ∨ m_mode = 12 then some (K.Kf1_u2, K.Kf2_u2)
  else if m_mode = 3 ∨ m_mode = 13 ∨ m_mode = 14 then some (K.Kf1_u3, K.Kf2_u3)
  else if m_mode = 4 ∨ m_mode = 20 then some (K.Kf1_u4, K.Kf2_u4)
  else none

/-- The function `auth_drive_user`. -/
def auth_drive_user (E : Env) (w : World) : Int × World :=
  match auth_drive_user_keys E.keys w.sv_auth.m_mode with
  | none => (-15, w)
  | some k =>
    let w := set_fix w k.1 k.2
    let auth_mode := AUTH_MODE_USER
    let allow_retry := ALLOW_RETRY_NO
    authenticate_common E auth_mode allow_retry w

/-! ## sv_wm_command.c, sv_wm2_command.c and the disc-data part of sv_auth.c -/

def ENC_CMD_USERDATA : Nat := 0
def ENC_CMD_PS2DISC : Nat := 2
def ENC_CMD_PS3DISC : Nat := 3
def ENC_CMD_GETVER : Nat := 4
def PS3_DISC_RELEASE_MODE : Nat := 1
def PS3_DISC_DEBUG_MODE : Nat := 2

/-- The function `sv_wm2_command_set(layer, area, lba)`. -/
def sv_wm2_command_set (E : Env) (layer area lba : Nat) (w : World) : Int × World :=
  let wm2_cmd_buf := List.replicate 0x80 0
  -- header
  let payload_size := 0x70
  let wm2_cmd_buf := memcpy wm2_cmd_buf 0 (store32 E.big_endian payload_size) 0 4
  let wm2_cmd_buf := memcpy wm2_cmd_buf 4 (store32 E.big_endian payload_size) 0 4
  let spu_cmd_id := 0xB1
  let spu_cmd_size := 0x54
  let wm2_cmd_buf := memcpy wm2_cmd_buf 0x10 (store16 E.big_endian spu_cmd_id) 0 2
  let wm2_cmd_buf := memcpy wm2_cmd_buf 0x12 (store16 E.big_endian spu_cmd_size) 0 2
  -- init cdb
  let cdb_offset := 0x14
  let wm2_cmd_buf := memset wm2_cmd_buf cdb_offset 0 0x10
  let plain_cdb := List.replicate 4 0
  let plain_cdb := plain_cdb.set 0 0xE0
  let plain_cdb := plain_cdb.set 2 0x44
  let wm2_cmd_buf := memcpy wm2_cmd_buf cdb_offset plain_cdb 0 4
  let encrypted_cdb := List.replicate 8 0
  let encrypted_cdb := encrypted_cdb.set 0 ENC_CMD_PS2DISC
  let encrypted_cdb := encrypted_cdb.set 1 (((lba &&& 0xFF000000) >>> 0x18) % 256)
  let encrypted_cdb := encrypted_cdb.set 2 (((lba &&& 0xFF0000) >>> 0x10) % 256)
  let encrypted_cdb := encrypted_cdb.set 3 (((lba &&& 0xFF00) >>> 8) % 256)
  let encrypted_cdb := encrypted_cdb.set 4 ((lba &&& 0xFF) % 256)
  let encrypted_cdb := encrypted_cdb.set 5 (((area &&& 0xF) ||| (layer <<< 4)) % 256)
  let g := generate_rnd E w.rand_calls (encrypted_cdb.drop 6) 1
  let encrypted_cdb := encrypted_cdb.take 6 ++ g.1
  let w := { w with rand_calls := g.2 }
  let encrypted_cdb := encrypted_cdb.set 7 (generate_check_code encrypted_cdb 7)
  let r := des3_encrypt_cbc w.sv_auth.ks1 E.keys.ivs_3des encrypted_cdb
    (wm2_cmd_buf.drop 0x18) 8
  if r.1 ≠ 0 then (-3, w)
  else
    let wm2_cmd_buf := wm2_cmd_buf.take 0x18 ++ r.2
    -- copy command buffer to "shared LS"
    (0, { w with packet_buffer := memcpy w.packet_buffer 0 wm2_cmd_buf 0 0x80 })

/-- The function `sv_wm2_command_check_recved_data(buf1, buf2)`: the status and the
new contents of `buf1` and `buf2`. -/
def sv_wm2_command_check_recved_data (E : Env) (w : World) (buf1 buf2 : List Nat) :
    Int × List Nat × List Nat :=
  let wm2_buf := List.replicate 0x40 0
  let wm2_buf := memcpy wm2_buf 0 w.packet_buffer 0x28 0x40
  -- remove session key1 encryption layer
  let r := aes_decrypt_cbc w.sv_auth.ks1 128 E.keys.ivs_aes wm2_buf wm2_buf 0x40
  if r.1 ≠ 0 then (-15, buf1, buf2)
  else
    let wm2_buf := r.2
    -- verify check code
    let checkcode := generate_check_code (wm2_buf.drop 1) 0x3F
    if wm2_buf.getD 0 0 ≠ checkcode then (-16, buf1, buf2)
    else
      -- remove session key2 encryption layer
      let r := aes_decrypt_cbc w.sv_auth.ks2 128 E.keys.ivs_aes (wm2_buf.drop 3)
        (wm2_buf.drop 3) 0x10
      if r.1 ≠ 0 then (-17, buf1, buf2)
      else
        let wm2_buf := wm2_buf.take 3 ++ r.2
        let r := aes_decrypt_cbc w.sv_auth.ks2 128 E.keys.ivs_aes (wm2_buf.drop 0x13)
          (wm2_buf.drop 0x13) 0x10
        if r.1 ≠ 0 then (-18, buf1, buf2)
        else
          let wm2_buf := wm2_buf.take 0x13 ++ r.2
          let r := aes_decrypt_cbc w.sv_auth.ks2 128 E.keys.ivs_aes (wm2_buf.drop 0x23)
            (wm2_buf.drop 0x23) 0x10
          if r.1 ≠ 0 then (-19, buf1, buf2)
          else
            let wm2_buf := wm2_buf.take 0x23 ++ r.2
            let r := aes_decrypt_cbc E.keys.Kwm 128 E.keys.giv (wm2_buf.drop 3)
              (wm2_buf.drop 3) 0x10
            if r.1 ≠ 0 then (-17, buf1, buf2)
            else
              let wm2_buf := wm2_buf.take 3 ++ r.2
              let r := aes_decrypt_cbc E.keys.Kwm 128 E.keys.giv (wm2_buf.drop 0x13)
                (wm2_buf.drop 0x13) 0x10
              if r.1 ≠ 0 then (-18, buf1, buf2)
              else
                let wm2_buf := wm2_buf.take 0x13 ++ r.2
                let r := aes_decrypt_cbc E.keys.Kwm 128 E.keys.giv (wm2_buf.drop 0x23)
                  (wm2_buf.drop 0x23) 0x10
                if r.1 ≠ 0 then (-19, buf1, buf2)
                else
                  let wm2_buf := wm2_buf.take 0x23 ++ r.2
                  (0, memcpy buf1 0 wm2_buf 2 1, memcpy buf2 0 wm2_buf 3 0x30)

/-- The function `sv_wm_command_set`. -/
def sv_wm_command_set (E : Env) (w : World) : Int × World :=
  let wm_cmd_buf := List.replicate 0x70 0
  -- header
  let payload_size := 0x60
  let wm_cmd_buf := memcpy wm_cmd_buf 0 (store32 E.big_endian payload_size) 0 4
  let wm_cmd_buf := memcpy wm_cmd_buf 4 (store32 E.big_endian payload_size) 0 4
  let spu_cmd_id := 0xB0
  let spu_cmd_size := 0x44
  let wm_cmd_buf := memcpy wm_cmd_buf 0x10 (store16 E.big_endian spu_cmd_id) 0 2
  let wm_cmd_buf := memcpy wm_cmd_buf 0x12 (store16 E.big_endian spu_cmd_size) 0 2
  -- init cdb
  let cdb_offset := 0x14
  let wm_cmd_buf := memset wm_cmd_buf cdb_offset 0 0x10
  let plain_cdb := List.replicate 4 0
  let plain_cdb := plain_cdb.set 0 0xE0
  let plain_cdb := plain_cdb.set 2 0x34
  let wm_cmd_buf := memcpy wm_cmd_buf cdb_offset plain_cdb 0 4
  let encrypted_cdb := List.replicate 8 0
  let encrypted_cdb := encrypted_cdb.set 0 ENC_CMD_PS3DISC
  let g := generate_rnd E w.rand_calls (encrypted_cdb.drop 6) 1
  let encrypted_cdb := encrypted_cdb.take 6 ++ g.1
  let w := { w with rand_calls := g.2 }
  let encrypted_cdb := encrypted_cdb.set 7 (generate_check_code encrypted_cdb 7)
  let r := des3_encrypt_cbc w.sv_auth.ks1 E.keys.ivs_3des encrypted_cdb
    (wm_cmd_buf.drop 0x18) 8
  if r.1 ≠ 0 then (-3, w)
  else
    let wm_cmd_buf := wm_cmd_buf.take 0x18 ++ r.2
    -- copy command buffer to "shared LS"
    (0, { w with packet_buffer := memcpy w.packet_buffer 0 wm_cmd_buf 0 0x70 })

/-- The function `sv_wm_command_check_recved_data(wm)`: the status and the new
contents of `wm`. -/
def sv_wm_command_check_recved_data (E : Env) (w : World) (wm : List Nat) : Int × List Nat :=
  let wm_buf := List.replicate 0x30 0
  let wm_buf := memcpy wm_buf 0 w.packet_buffer 0x28 0x30
  -- remove session key1 encryption layer
  let r := aes_decrypt_cbc w.sv_auth.ks1 128 E.keys.ivs_aes wm_buf wm_buf 0x30
  if r.1 ≠ 0 then (-3, wm)
  else
    let wm_buf := r.2
    -- verify check code
    let checkcode := generate_check_code (wm_buf.drop 1) 0x2F
    if wm_buf.getD 0 0 ≠ checkcode then (-1, wm)
    else
      -- remove session key2 encryption layer
      let r := aes_decrypt_cbc w.sv_auth.ks2 128 E.keys.ivs_aes (wm_buf.drop 3)
        (wm_buf.drop 3) 0x10
      if r.1 ≠ 0 then (-3, wm)
      else
        let wm_buf := wm_buf.take 3 ++ r.2
        let r := aes_decrypt_cbc w.sv_auth.ks2 128 E.keys.ivs_aes (wm_buf.drop 0x13)
          (wm_buf.drop 0x13) 0x10
        if r.1 ≠ 0 then (-3, wm)
        else
          let wm_buf := wm_buf.take 0x13 ++ r.2
          (0, memcpy wm 0 wm_buf 0 0x30)

/-- The function `set_contents_key(wm3_data1, contents_key, disc_mode)`: the status
and the new contents of `contents_key` and `disc_mode`. -/
def set_contents_key (E : Env) (wm3_data1 contents_key : List Nat) (disc_mode : Nat) :
    Int × List Nat × Nat :=
  if memcmp_eq wm3_data1 0 E.keys.PS3_L_DEBUG_DISC 0 0x10 then
    (0, memcpy contents_key 0 E.keys.intikey 0 0x10, PS3_DISC_DEBUG_MODE)
  else
    let r := aes_encrypt_cbc E.keys.Kh 128 E.keys.IVh wm3_data1 contents_key 0x10
    if r.1 ≠ 0 then (-3, r.2, disc_mode)
    else (0, r.2, PS3_DISC_RELEASE_MODE)

/-- The function `set_misc_wm(wm3_data2, misc_wm)`: the status and the new contents of
`misc_wm`. -/
def set_misc_wm (E : Env) (wm3_data2 misc_wm : List Nat) : Int × List Nat :=
  let r := aes_decrypt_cbc E.keys.Kwm 128 E.keys.giv wm3_data2 misc_wm 0x10
  if r.1 ≠ 0 then (-3, r.2) else (0, r.2)

/-- What `get_wm3` leaves behind: its status, the caller's three buffers and the
state. -/
structure get_wm3_result where
  status : Int
  contents_key : List Nat
  misc_wm : List Nat
  disc_mode : Nat
  world : World
deriving DecidableEq, Repr

/-- The function `get_wm3(contents_key, misc_wm, disc_mode)`. The status of the frame
builder is not looked at. -/
def get_wm3 (E : Env) (w : World) (contents_key misc_wm : List Nat) (disc_mode : Nat) :
    get_wm3_result :=
  let w := (sv_wm_command_set E w).2
  let r := sendrecv E w
  if r.1 ≠ 0 then
    { status := -1, contents_key := contents_key, misc_wm := misc_wm, disc_mode := disc_mode,
      world := r.2 }
  else
    let w := r.2
    let wm_buf := List.replicate 0x30 0
    let c := sv_wm_command_check_recved_data E w wm_buf
    if c.1 ≠ 0 then
      { status := -1, contents_key := contents_key, misc_wm := misc_wm, disc_mode := disc_mode,
        world := w }
    else
      let wm_buf := c.2
      let k := set_contents_key E (wm_buf.drop 3) contents_key disc_mode
      if k.1 ≠ 0 then
        { status := k.1, contents_key := k.2.1, misc_wm := misc_wm, disc_mode := k.2.2,
          world := w }
      else
        let m := set_misc_wm E (wm_buf.drop 0x13) misc_wm
        if m.1 ≠ 0 then
          { status := m.1, contents_key := k.2.1, misc_wm := m.2, disc_mode := k.2.2,
            world := w }
        else
          { status := 0, contents_key := k.2.1, misc_wm := m.2, disc_mode := k.2.2,
            world := w }

/-- What `get_wm2` leaves behind: its status, the caller's two buffers and the state. -/
structure get_wm2_result where
  status : Int
  buf1 : List Nat
  buf2 : List Nat
  world : World
deriving DecidableEq, Repr

/-- The function `get_wm2(layer, area, lba, buf1, buf2)`. Neither the status of the
frame builder nor that of `sv_wm2_command_check_recved_data` is looked at. -/
def get_wm2 (E : Env) (layer area lba : Nat) (w : World) (buf1 buf2 : List Nat) :
    get_wm2_result :=
  let w := (sv_wm2_command_set E layer area lba w).2
  let r := sendrecv E w
  if r.1 ≠ 0 then { status := -1, buf1 := buf1, buf2 := buf2, world := r.2 }
  else
    let c := sv_wm2_command_check_recved_data E r.2 buf1 buf2
    { status := 0, buf1 := c.2.1, buf2 := c.2.2, world := r.2 }

/-! ## sv_getver_command.c, sv_udata_command.c and the rest of sv_auth.c -/

def USER_PARAM_SIZE : Nat := 0x40

/-- The function `sv_getver_command_set`. -/
def sv_getver_command_set (E : Env) (w : World) : Int × World :=
  let getver_cmd_buf := List.replicate 0x90 0
  -- header
  let payload_size := 0x80
  let getver_cmd_buf := memcpy getver_cmd_buf 0 (store32 E.big_endian payload_size) 0 4
  let getver_cmd_buf := memcpy getver_cmd_buf 4 (store32 E.big_endian payload_size) 0 4
  let spu_cmd_id := 0xC0
  let spu_cmd_size := 0x64
  let getver_cmd_buf := memcpy getver_cmd_buf 0x10 (store16 E.big_endian spu_cmd_id) 0 2
  let getver_cmd_buf := memcpy getver_cmd_buf 0x12 (store16 E.big_endian spu_cmd_size) 0 2
  -- plain cdb
  let plain_cdb := List.replicate 4 0
  let plain_cdb := plain_cdb.set 0 0xE0
  let plain_cdb := plain_cdb.set 2 0x54
  let getver_cmd_buf := memcpy getver_cmd_buf 0x14 plain_cdb 0 4
  -- encrypted cdb
  let encrypted_cdb := List.replicate 8 0
  let encrypted_cdb := encrypted_cdb.set 0 ENC_CMD_GETVER
  let g := generate_rnd E w.rand_calls (encrypted_cdb.drop 6) 1
  let encrypted_cdb := encrypted_cdb.take 6 ++ g.1
  let w := { w with rand_calls := g.2 }
  let encrypted_cdb := encrypted_cdb.set 7 (generate_check_code encrypted_cdb 7)
  let r := des3_encrypt_cbc w.sv_auth.ks1 E.keys.ivs_3des encrypted_cdb
    (getver_cmd_buf.drop 0x18) 8
  if r.1 ≠ 0 then (-3, w)
  else
    let getver_cmd_buf := getver_cmd_buf.take 0x18 ++ r.2
    -- copy command buffer to "shared LS"
    (0, { w with packet_buffer := memcpy w.packet_buffer 0 getver_cmd_buf 0 0x90 })

/-- The function `sv_getver_check_recved_data(version)`: the status and the new
contents of `version`. -/
def sv_getver_check_recved_data (E : Env) (w : World) (version : List Nat) :
    Int × List Nat :=
  let version_buf := List.replicate 0x50 0
  let version_buf := memcpy version_buf 0 w.packet_buffer 0x28 0x50
  let r := aes_decrypt_cbc w.sv_auth.ks1 128 E.keys.ivs_aes version_buf version_buf 0x50
  if r.1 ≠ 0 then (-15, version)
  else
    let version_buf := r.2
    -- verify check code
    let checkcode := generate_check_code (version_buf.drop 1) 0x4F
    if version_buf.getD 0 0 ≠ checkcode then (-10, version)
    else
      -- copy 0x40 bytes from decrypted data at offset 2 to the destination
      (0, memcpy version 0 version_buf 2 0x40)

/-- The block the `switch (sv_auth.m_mode)` of `sv_udata_command_set` copies to
`encrypted_arg + 4`, or nothing in the `default` case. -/
def sv_udata_user_param (K : Keys) (m_mode : Nat) : Option (List Nat) :=
  if m_mode = 0 then some K.user_param_u0
  else if m_mode = 1 then some K.user_param_u1
  else if m_mode = 2 ∨ m_mode = 12 then some K.user_param_u2
  else if m_mode = 3 ∨ m_mode = 13 ∨ m_mode = 14 then some K.user_param_u3
  else if m_mode = 4 ∨ m_mode = 20 then some K.user_param_u4
  else none

/-- The function `sv_udata_command_set`. -/
def sv_udata_command_set (E : Env) (w : World) : Int × World :=
  let udata_cmd_buf := List.replicate 0x90 0
  -- header
  let payload_size := 0x70
  let udata_cmd_buf := memcpy udata_cmd_buf 0 (store32 E.big_endian payload_size) 0 4
  let udata_cmd_buf := memcpy udata_cmd_buf 4 (store32 E.big_endian payload_size) 0 4
  let spu_cmd_id := 0xA0
  let spu_cmd_size := 0x64
  let udata_cmd_buf := memcpy udata_cmd_buf 0x10 (store16 E.big_endian spu_cmd_id) 0 2
  let udata_cmd_buf := memcpy udata_cmd_buf 0x12 (store16 E.big_endian spu_cmd_size) 0 2
  let plain_cdb := List.replicate 4 0
  let plain_cdb := plain_cdb.set 0 0xE1
  let plain_cdb := plain_cdb.set 2 0x54
  let udata_cmd_buf := memcpy udata_cmd_buf 0x14 plain_cdb 0 4
  let encrypted_cdb := List.replicate 8 0
  let encrypted_cdb := encrypted_cdb.set 0 ENC_CMD_USERDATA
  let g := generate_rnd E w.rand_calls (encrypted_cdb.drop 6) 1
  let encrypted_cdb := encrypted_cdb.take 6 ++ g.1
  let w := { w with rand_calls := g.2 }
  let encrypted_cdb := encrypted_cdb.set 7 (generate_check_code encrypted_cdb 7)
  let r := des3_encrypt_cbc w.sv_auth.ks1 E.keys.ivs_3des encrypted_cdb
    (udata_cmd_buf.drop 0x18) 8
  if r.1 ≠ 0 then (-15, w)
  else
    let udata_cmd_buf := udata_cmd_buf.take 0x18 ++ r.2
    -- must be encrypted with session key (ks1)
    let encrypted_arg := List.replicate 0x50 0
    match sv_udata_user_param E.keys w.sv_auth.m_mode with
    | none => (-10, w)
    | some user_param =>
      let encrypted_arg := memcpy encrypted_arg 4 user_param 0 USER_PARAM_SIZE
      let g := generate_rnd E w.rand_calls (encrypted_arg.drop 1) 1
      let encrypted_arg := encrypted_arg.take 1 ++ g.1
      let w := { w with rand_calls := g.2 }
      let encrypted_arg := encrypted_arg.set 0 (generate_check_code (encrypted_arg.drop 1) 0x4F)
      let r := aes_encrypt_cbc w.sv_auth.ks1 128 E.keys.ivs_aes encrypted_arg
        (udata_cmd_buf.drop 0x28) 0x50
      if r.1 ≠ 0 then (-11, w)
      else
        let udata_cmd_buf := udata_cmd_buf.take 0x28 ++ r.2
        let plain_arg := List.replicate 4 0
        let plain_arg := plain_arg.set 0 0
        let plain_arg := plain_arg.set 1 0x50
        let udata_cmd_buf := memcpy udata_cmd_buf 0x24 plain_arg 0 4
        -- copy command buffer to "shared LS"
        (0, { w with packet_buffer := memcpy w.packet_buffer 0 udata_cmd_buf 0 0x90 })

/-- The function `set_user_parameter`. The status of the frame builder is not looked
at. -/
def set_user_parameter (E : Env) (w : World) : Int × World :=
  let w := (sv_udata_command_set E w).2
  let r := sendrecv E w
  if r.1 ≠ 0 then (-1, r.2) else (0, r.2)

/-- What `get_version` leaves behind: its status, the caller's buffer and the state. -/
structure get_version_result where
  status : Int
  version : List Nat
  world : World
deriving DecidableEq, Repr

/-- The function `get_version(version)`. The status of the frame builder is not
looked at. -/
def get_version (E : Env) (w : World) (version : List Nat) : get_version_result :=
  let w := (sv_getver_command_set E w).2
  let r := sendrecv E w
  if r.1 ≠ 0 then { status := -1, version := version, world := r.2 }
  else
    let c := sv_getver_check_recved_data E r.2 version
    if c.1 ≠ 0 then { status := -1, version := c.2, world := r.2 }
    else { status := 0, version := c.2, world := r.2 }

/-- The function `get_disc_id(misc_wm, disc_id)`: the status and the new contents of
`disc_id`. -/
def get_disc_id (E : Env) (misc_wm disc_id : List Nat) : Int × List Nat :=
  let buf := List.replicate 0x10 0
  let buf := memcpy buf 0xB misc_wm 0xB 5
  let r := aes_encrypt_cbc E.keys.Kdid 128 E.keys.zero_iv buf disc_id 0x10
  if r.1 ≠ 0 then (-3, r.2) else (0, r.2)

/-! ## Definitions used to state the theorems -/

/-- The sixteen bytes that the call `aes_encrypt_cbc(key, 128, iv, input, output, 0x10)`
stores at `output`. -/
def aes128_cbc_encrypt (key iv input : List Nat) : List Nat :=
  (aes_encrypt_cbc key 128 iv input (List.replicate 0x10 0) 0x10).2.take 0x10

/-- The sixteen bytes that the call `aes_decrypt_cbc(key, 128, iv, input, output, 0x10)`
stores at `output`. -/
def aes128_cbc_decrypt (key iv input : List Nat) : List Nat :=
  (aes_decrypt_cbc key 128 iv input (List.replicate 0x10 0) 0x10).2.take 0x10

/-- Well-formed session state: the eight arrays of `sv_auth_t` hold sixteen bytes each. -/
def sv_auth_t.wf (a : sv_auth_t) : Prop :=
  a.kf1_eid.length = 16 ∧ a.kf2_eid.length = 16 ∧ a.fix1.length = 16 ∧ a.fix2.length = 16 ∧
  a.m_rand1.length = 16 ∧ a.m_rand2.length = 16 ∧ a.ks1.length = 16 ∧ a.ks2.length = 16

instance (a : sv_auth_t) : Decidable a.wf := by unfold sv_auth_t.wf; infer_instance

/-- The state in which `authenticate_common` runs its checks: `m_auth_mode` written. -/
def auth_start (auth_mode : Nat) (w : World) : World :=
  { w with sv_auth := { w.sv_auth with m_auth_mode := auth_mode } }

/-- Round 0 of `authenticate_common`: the send0 frame is built and exchanged. -/
def auth_round0 (E : Env) (auth_mode : Nat) (w : World) : Int × World :=
  sendrecv E (sv_send0_command_set E (auth_start auth_mode w)).2

/-- Round 1 of `authenticate_common`: the report0 frame is built and exchanged. -/
def auth_round1 (E : Env) (auth_mode : Nat) (w : World) : Int × World :=
  sendrecv E (sv_report0_command_set E (auth_round0 E auth_mode w).2).2

/-- The check of the report0 response inside `authenticate_common`. -/
def auth_check1 (E : Env) (auth_mode : Nat) (w : World) : Int × World :=
  sv_report0_command_check_recved_data E (auth_round1 E auth_mode w).2

/-- Round 2 of `authenticate_common`: the send2 frame is built and exchanged. -/
def auth_round2 (E : Env) (auth_mode : Nat) (w : World) : Int × World :=
  sendrecv E (sv_send2_command_set E (auth_check1 E auth_mode w).2).2

/-- The session with the challenge pair `(k1, k2)` loaded into `fix1` and `fix2`. -/
def World.load_fix (w : World) (k1 k2 : List Nat) : World :=
  { w with sv_auth := { w.sv_auth with fix1 := k1, fix2 := k2 } }

/-- The first attempt of `auth_drive_super`: the primary pair `(kf1_eid, kf2_eid)`,
retry allowed when `m_retry_flag` is `RETRY_FLAG_ALLOW`. -/
def super_attempt1 (E : Env) (w : World) : Int × World :=
  authenticate_common E AUTH_MODE_SUPER
    (if w.sv_auth.m_retry_flag = RETRY_FLAG_ALLOW then ALLOW_RETRY_YES else ALLOW_RETRY_NO)
    (set_fix w w.sv_auth.kf1_eid w.sv_auth.kf2_eid)

/-- The second attempt: the pair `(fix1_it, fix2_it)` on the state the first attempt
left, retry allowed. -/
def super_attempt2 (E : Env) (w : World) : Int × World :=
  authenticate_common E AUTH_MODE_SUPER ALLOW_RETRY_YES
    (set_fix (super_attempt1 E w).2 E.keys.fix1_it E.keys.fix2_it)

/-- The third attempt: the pair `(fix1_pn, fix2_pn)` on the state the second attempt
left, retry not allowed. -/
def super_attempt3 (E : Env) (w : World) : Int × World :=
  authenticate_common E AUTH_MODE_SUPER ALLOW_RETRY_NO
    (set_fix (super_attempt2 E w).2 E.keys.fix1_pn E.keys.fix2_pn)

/-- Well-formed key constants: each array has the size `keys.h` declares for it. -/
def Keys.wf (K : Keys) : Prop :=
  K.zero_iv.length = 16 ∧ K.user_param_u0.length = 0x40 ∧ K.user_param_u1.length = 0x40 ∧
  K.user_param_u2.length = 0x40 ∧ K.user_param_u3.length = 0x40 ∧
  K.user_param_u4.length = 0x40 ∧ K.ivs_3des.length = 8 ∧ K.ivs_aes.length = 16 ∧
  K.fix1_it.length = 16 ∧ K.fix2_it.length = 16 ∧ K.fix1_pn.length = 16 ∧
  K.fix2_pn.length = 16 ∧ K.Kf1_u0.length = 16 ∧ K.Kf2_u0.length = 16 ∧
  K.Kf1_u1.length = 16 ∧ K.Kf2_u1.length = 16 ∧ K.Kf1_u2.length = 16 ∧
  K.Kf2_u2.length = 16 ∧ K.Kf1_u3.length = 16 ∧ K.Kf2_u3.length = 16 ∧
  K.Kf1_u4.length = 16 ∧ K.Kf2_u4.length = 16 ∧ K.giv.length = 16 ∧ K.kms1.length = 16 ∧
  K.kms2.length = 16 ∧ K.PS3_L_DEBUG_DISC.length = 16 ∧ K.intikey.length = 16 ∧
  K.Kh.length = 16 ∧ K.IVh.length = 16 ∧ K.Kwm.length = 16 ∧ K.Kdid.length = 16

instance (K : Keys) : Decidable K.wf := by unfold Keys.wf; infer_instance

/-! ## Test fixtures

Concrete keys, session states and drives on which the theorems below are
instantiated. The key bytes are test values. -/

/-- Sixteen test bytes `b, b + 1, ..., b + 15`. -/
def test_block (b : Nat) : List Nat := (List.range 16).map (fun i => (b + i) % 256)

/-- Test key constants. -/
def test_keys : Keys :=
  { zero_iv := List.replicate 16 0
    user_param_u0 := List.replicate 0x40 0x10
    user_param_u1 := List.replicate 0x40 0x11
    user_param_u2 := List.replicate 0x40 0x12
    user_param_u3 := List.replicate 0x40 0x13
    user_param_u4 := List.replicate 0x40 0x14
    ivs_3des := [1, 2, 3, 4, 5, 6, 7, 8]
    ivs_aes := test_block 0x20
    fix1_it := test_block 0x31
    fix2_it := test_block 0x32
    fix1_pn := test_block 0x41
    fix2_pn := test_block 0x42
    Kf1_u0 := test_block 0x50
    Kf2_u0 := test_block 0x58
    Kf1_u1 := test_block 0x51
    Kf2_u1 := test_block 0x59
    Kf1_u2 := test_block 0x52
    Kf2_u2 := test_block 0x5A
    Kf1_u3 := test_block 0x53
    Kf2_u3 := test_block 0x5B
    Kf1_u4 := test_block 0x54
    Kf2_u4 := test_block 0x5C
    giv := test_block 0x60
    kms1 := test_block 0x71
    kms2 := test_block 0x72
    PS3_L_DEBUG_DISC := test_block 0x80
    intikey := test_block 0x90
    Kh := test_block 0xA0
    IVh := test_block 0xA8
    Kwm := test_block 0xB0
    Kdid := test_block 0xC0 }

/-- A test session: the primary pair is stored, everything else is zeroed. -/
def test_auth : sv_auth_t :=
  { m_mode := 0xD
    m_auth_mode := 0
    m_retry_flag := RETRY_FLAG_ALLOW
    kf1_eid := test_block 0x01
    kf2_eid := test_block 0x02
    fix1 := List.replicate 16 0
    fix2 := List.replicate 16 0
    m_rand1 := List.replicate 16 0
    m_rand2 := List.replicate 16 0
    ks1 := List.replicate 16 0
    ks2 := List.replicate 16 0 }

/-- A test state at program start. -/
def test_world : World :=
  { sv_auth := test_auth
    packet_buffer := List.replicate 0x10000 0
    rand_calls := 0
    open_calls := 0
    io_log := [] }

/-- A drive that accepts every request and transfers nothing. -/
def test_env : Env :=
  { big_endian := true
    keys := test_keys
    rand := fun n => 7 * n + 3
    open_fd := fun _ => 3
    ioctl := fun _ _ => { ret := 0, status := 0, data := [] } }

/-- The test session with an `m_mode` that `auth_drive_user` does not map. -/
def test_world_mode5 : World := { test_world with sv_auth := { test_auth with m_mode := 5 } }

/-- The test session with a non-zero challenge pair loaded into `fix1` and `fix2`. -/
def test_world_keys : World :=
  { test_world with sv_auth := { test_auth with fix1 := test_block 0x01, fix2 := test_block 0x02 } }

/-- A drive that answers the n-th request as the script says. -/
def scripted_env (script : Nat → sg_reply) : Env :=
  { test_env with ioctl := fun n _ => script n }

/-- The host nonce the test random source yields for the draw starting at call `n`. -/
def test_nonce (n : Nat) : List Nat := generate_rnd_buffer test_env n 0x10

/-- A report0 response: the four header bytes, then the host nonce `echo` and the drive
nonce `r2`, each encrypted on its own under `fix2` with IV `giv`. -/
def report0_reply (fix2 echo r2 : List Nat) : sg_reply :=
  { ret := 0
    status := 0
    data := [0, 0x20, 0, 0] ++ (aes128_cbc_encrypt fix2 test_keys.giv echo ++
      aes128_cbc_encrypt fix2 test_keys.giv r2) }

/-- An answer that accepts the request and transfers nothing. -/
def empty_reply : sg_reply := { ret := 0, status := 0, data := [] }

/-- An answer with a non-zero device status. -/
def failed_reply : sg_reply := { ret := 0, status := 2, data := [] }

/-- A compliant drive: it echoes the host nonce and supplies its own nonce. -/
def honest_env : Env :=
  scripted_env (fun n =>
    if n = 1 then report0_reply (test_block 0x02) (test_nonce 0) (test_block 0xD0)
    else empty_reply)

/-- A drive that returns the host nonce as its own nonce. -/
def collide_env : Env :=
  scripted_env (fun n =>
    if n = 1 then report0_reply (test_block 0x02) (test_nonce 0) (test_nonce 0)
    else empty_reply)

/-- A drive whose exchange number `k` fails and which is the compliant drive otherwise. -/
def failing_env (k : Nat) : Env :=
  scripted_env (fun n =>
    if n = k then failed_reply
    else if n = 1 then report0_reply (test_block 0x02) (test_nonce 0) (test_block 0xD0)
    else empty_reply)

/-- A drive that knows only the tertiary pair: it rejects the first two attempts of
the cascade and completes the third. -/
def tertiary_env : Env :=
  scripted_env (fun n =>
    if n = 5 then report0_reply test_keys.fix2_pn (test_nonce 32) (test_block 0xD0)
    else empty_reply)

/-- The test session with the retry flag set to `RETRY_FLAG_DENY`. -/
def test_world_deny : World :=
  { test_world with sv_auth := { test_auth with m_retry_flag := RETRY_FLAG_DENY } }

/-- The test session holding the nonces `(r1, r2)`. -/
def test_world_nonces (r1 r2 : List Nat) : World :=
  { test_world with sv_auth := { test_auth with m_rand1 := r1, m_rand2 := r2 } }

/-- A host nonce which, with `equal_keys_drive_nonce`, makes the two session keys
derived under the test keys coincide. -/
def equal_keys_host_nonce : List Nat :=
  [90, 11, 218, 117, 121, 95, 157, 209, 204, 136, 178, 77, 199, 150, 244, 149]

/-- A drive nonce, different from `equal_keys_host_nonce`, which with it makes the two
session keys derived under the test keys coincide. -/
def equal_keys_drive_nonce : List Nat :=
  [195, 242, 8, 202, 2, 76, 115, 105, 143, 166, 137, 20, 4, 82, 238, 67]


/-- The 0x40 bytes that `sv_wm2_command_check_recved_data` holds once the session key 1
layer is removed: the response payload at offset 0x28 of the packet buffer, decrypted
by one chained call. -/
def wm2_plain (E : Env) (w : World) : List Nat :=
  (aes_decrypt_cbc w.sv_auth.ks1 128 E.keys.ivs_aes ((w.packet_buffer.drop 0x28).take 0x40)
    ((w.packet_buffer.drop 0x28).take 0x40) 0x40).2

/-- Sub-field `i` of the plaintext `D` with the session key 2 layer and then the
watermark key layer removed, each by a one-block call that starts from its own IV. -/
def wm2_field (E : Env) (w : World) (D : List Nat) (i : Nat) : List Nat :=
  aes128_cbc_decrypt E.keys.Kwm E.keys.giv
    (aes128_cbc_decrypt w.sv_auth.ks2 E.keys.ivs_aes ((D.drop (3 + 16 * i)).take 16))

/-- The 0x30 bytes that `sv_wm_command_check_recved_data` holds once the session key 1
layer is removed. -/
def wm_plain (E : Env) (w : World) : List Nat :=
  (aes_decrypt_cbc w.sv_auth.ks1 128 E.keys.ivs_aes ((w.packet_buffer.drop 0x28).take 0x30)
    ((w.packet_buffer.drop 0x28).take 0x30) 0x30).2

/-- The state in which `get_wm3` parses the response: the frame was built and the
exchange has run. -/
def wm3_received (E : Env) (w : World) : World := (sendrecv E (sv_wm_command_set E w).2).2

/-- The sixteen bytes at offset `off` of the session key 1 plaintext that `get_wm3`
parses, with the session key 2 layer removed by a one-block call of its own. -/
def wm3_field (E : Env) (w : World) (off : Nat) : List Nat :=
  aes128_cbc_decrypt w.sv_auth.ks2 E.keys.ivs_aes
    (((wm_plain E (wm3_received E w)).drop off).take 16)

/-- The state in which `get_wm2` parses the response. -/
def wm2_received (E : Env) (layer area lba : Nat) (w : World) : World :=
  (sendrecv E (sv_wm2_command_set E layer area lba w).2).2

/-- The test session with session keys in place, as a successful authentication
leaves them. -/
def test_world_session : World :=
  { test_world with
    sv_auth := { test_auth with ks1 := test_block 0x11, ks2 := test_block 0x22 } }

/-- A drive whose every answer is 0x44 zero bytes. -/
def zero_env : Env :=
  scripted_env (fun _ => { ret := 0, status := 0, data := List.replicate 0x44 0 })

/-- A response of `n` payload bytes behind four header bytes: `body` preceded by its
check code, encrypted under `ks1` and the test `ivs_aes` by one chained call. -/
def sealed_reply (ks1 body : List Nat) (n : Nat) : sg_reply :=
  { ret := 0
    status := 0
    data := [0, n, 0, 0] ++ (aes_encrypt_cbc ks1 128 test_keys.ivs_aes
      (generate_check_code body (n - 1) :: body) (List.replicate n 0) n).2 }

/-- The 0x3F bytes behind the check code of a PS2 disc response: a filler byte, the mode
byte 0x5A, three sub-fields and thirteen bytes of padding. -/
def wm2_test_body : List Nat :=
  [0, 0x5A] ++ (test_block 0x10 ++ (test_block 0x30 ++ (test_block 0x50 ++ List.replicate 13 0)))

/-- A drive that answers every request with the sealed PS2 disc response. -/
def wm2_env : Env := scripted_env (fun _ => sealed_reply (test_block 0x11) wm2_test_body 0x40)

/-- The 0x2F bytes behind the check code of a PS3 disc response in which the first
sub-field, as session key 1 leaves it, is the debug marker itself. -/
def wm3_marker_body : List Nat :=
  [0, 0] ++ (test_keys.PS3_L_DEBUG_DISC ++ (test_block 0x30 ++ List.replicate 13 0))

/-- A drive that answers every request with the sealed PS3 disc response. -/
def wm3_marker_env : Env :=
  scripted_env (fun _ => sealed_reply (test_block 0x11) wm3_marker_body 0x30)


/-- The eight bytes that the call `des3_encrypt_cbc(key, iv, input, output, 8)` stores
at `output`. -/
def des3_cbc_encrypt8 (key iv input : List Nat) : List Nat :=
  (des3_encrypt_cbc key iv input (List.replicate 8 0) 8).2.take 8

/-- The blocks that the loops of `aes_crypt_cbc` store one after the other, `n` blocks
from offset `off` of `input` on. -/
def aes_cbc_blocks (ctx : aes_context_t) (input : List Nat) : Nat → Nat → List Nat → List Nat
  | 0, _, _ => []
  | n + 1, off, iv =>
    if ctx.mode = AES_DECRYPT then
      xor_block (aes_crypt_ecb ctx ((input.drop off).take AES_BLOCK_SIZE)) iv ++
        aes_cbc_blocks ctx input n (off + AES_BLOCK_SIZE) ((input.drop off).take AES_BLOCK_SIZE)
    else
      aes_crypt_ecb ctx (xor_block ((input.drop off).take AES_BLOCK_SIZE) iv) ++
        aes_cbc_blocks ctx input n (off + AES_BLOCK_SIZE)
          ((aes_crypt_ecb ctx (xor_block ((input.drop off).take AES_BLOCK_SIZE) iv)).take 16)

/-- The `n` bytes that the call `aes_encrypt_cbc(key, 128, iv, input, output, n)` stores
at `output`, the blocks chained. -/
def aes128_cbc_encrypt_buf (key iv input : List Nat) (n : Nat) : List Nat :=
  (aes_encrypt_cbc key 128 iv input (List.replicate n 0) n).2

/-- The eight-byte plaintext descriptor of an encrypted command: the command type `t`,
the five parameter bytes `p`, the random byte `r` and the check code of these seven
bytes. -/
def cmd_descriptor (t : Nat) (p : List Nat) (r : Nat) : List Nat :=
  (t :: p ++ [r]) ++ [generate_check_code (t :: p ++ [r]) 7]

/-- The byte that the call `generate_rnd(dest, 1)` stores when `n` calls of `rand()` have
been made. -/
def rnd_byte (E : Env) (n : Nat) : Nat := E.rand n &&& 0xFF

/-- The five parameter bytes of the PS2 disc descriptor: `lba` from its high byte to its
low byte, then the byte made of the low nibble of `area` and of `layer` shifted left by
four, cut to eight bits. -/
def wm2_params (layer area lba : Nat) : List Nat :=
  [((lba &&& 0xFF000000) >>> 0x18) % 256, ((lba &&& 0xFF0000) >>> 0x10) % 256,
    ((lba &&& 0xFF00) >>> 8) % 256, (lba &&& 0xFF) % 256,
    ((area &&& 0xF) ||| (layer <<< 4)) % 256]

/-- The 0x50-byte plaintext argument of the user-data command: the check code of the
0x4F bytes behind it, the random byte `r`, two zero bytes, the parameter block and
twelve zero bytes. -/
def udata_arg (user_param : List Nat) (r : Nat) : List Nat :=
  generate_check_code ([r, 0, 0] ++ (user_param ++ List.replicate 12 0)) 0x4F ::
    ([r, 0, 0] ++ (user_param ++ List.replicate 12 0))

/-- The 0x50 bytes that `sv_getver_check_recved_data` holds once the session key 1
layer is removed: the response payload at offset 0x28 of the packet buffer, decrypted
by one chained call. -/
def version_plain (E : Env) (w : World) : List Nat :=
  (aes_decrypt_cbc w.sv_auth.ks1 128 E.keys.ivs_aes ((w.packet_buffer.drop 0x28).take 0x50)
    ((w.packet_buffer.drop 0x28).take 0x50) 0x50).2

/-- The state in which `get_version` parses the response: the frame was built and the
exchange has run. -/
def version_received (E : Env) (w : World) : World :=
  (sendrecv E (sv_getver_command_set E w).2).2

/-- The 0x4F bytes behind the check code of a version response: a filler byte, the
0x40 version bytes `30 31 .. 6F` and fourteen bytes of padding. -/
def getver_test_body : List Nat :=
  [0] ++ ((List.range 0x40).map (fun i => 0x30 + i) ++ List.replicate 14 0)

/-- A drive that answers every request with the sealed version response. -/
def getver_env : Env :=
  scripted_env (fun _ => sealed_reply (test_block 0x11) getver_test_body 0x50)

/-- A session with an `m_mode` that `sv_udata_command_set` does not map, in which the
packet buffer still holds the send2 frame of the authentication that came before. -/
def stale_world : World :=
  (sv_send2_command_set test_env
    { test_world_session with
      sv_auth := { test_world_session.sv_auth with
        m_mode := 5, fix1 := test_block 0x01, fix2 := test_block 0x02 } }).2


/-- Paraphrase of the specification: the index `k` of the parameter block and of the
key pair that the mode `m` selects, 0 -> 0, 1 -> 1, 2 and 12 -> 2, 3, 13 and 14 -> 3,
4 and 20 -> 4, and no index for any other mode. -/
def spec_mode_index (m : Nat) : Option Nat :=
  if m = 0 then some 0
  else if m = 1 then some 1
  else if m = 2 ∨ m = 12 then some 2
  else if m = 3 ∨ m = 13 ∨ m = 14 then some 3
  else if m = 4 ∨ m = 20 then some 4
  else none

/-- The parameter block `user_param_uk` of index `k`. -/
def Keys.user_param (K : Keys) (k : Nat) : List Nat :=
  if k = 0 then K.user_param_u0
  else if k = 1 then K.user_param_u1
  else if k = 2 then K.user_param_u2
  else if k = 3 then K.user_param_u3
  else K.user_param_u4

/-- The key pair `(Kf1_uk, Kf2_uk)` of index `k`. -/
def Keys.Kf (K : Keys) (k : Nat) : List Nat × List Nat :=
  if k = 0 then (K.Kf1_u0, K.Kf2_u0)
  else if k = 1 then (K.Kf1_u1, K.Kf2_u1)
  else if k = 2 then (K.Kf1_u2, K.Kf2_u2)
  else if k = 3 then (K.Kf1_u3, K.Kf2_u3)
  else (K.Kf1_u4, K.Kf2_u4)

/-- The value `sendrecv` reads as `spu_cmd_size`: byte 0x12 of the packet buffer times
0x100 plus byte 0x13, as an `unsigned short`. -/
def decoded_spu_cmd_size (packet_buffer : List Nat) : Nat :=
  (packet_buffer.getD 0x12 0 * 0x100 + packet_buffer.getD 0x13 0) % 2 ^ 16

/-- The size field of a frame round-trips: read back the way `sendrecv` reads it, the
field gives `size` on a big-endian host and `size * 256` on a little-endian one, so it
gives `size` exactly on a big-endian host; bytes `hi` and `lo` of the frame, the length
field of its CDB, hold `size - 0x10`. -/
def size_round_trip (big_endian : Bool) (packet_buffer : List Nat) (size hi lo : Nat) : Prop :=
  decoded_spu_cmd_size packet_buffer = (if big_endian then size else size * 256) ∧
  (decoded_spu_cmd_size packet_buffer = size ↔ big_endian = true) ∧
  packet_buffer.getD hi 0 * 0x100 + packet_buffer.getD lo 0 = size - 0x10


/-- The check that decrypt-mode `aes_crypt_ecb` under `dctx` undoes encrypt-mode
`aes_crypt_ecb` under `ectx` on each of the `n` blocks that CBC encryption of `p` from
offset `off` with chaining value `iv` hands to the block cipher. -/
def ecb_inverts_on (ectx dctx : aes_context_t) (p : List Nat) : Nat → Nat → List Nat → Bool
  | 0, _, _ => true
  | n + 1, off, iv =>
    decide (aes_crypt_ecb dctx
        (aes_crypt_ecb ectx (xor_block ((p.drop off).take AES_BLOCK_SIZE) iv)) =
      xor_block ((p.drop off).take AES_BLOCK_SIZE) iv) &&
    ecb_inverts_on ectx dctx p n (off + AES_BLOCK_SIZE)
      (aes_crypt_ecb ectx (xor_block ((p.drop off).take AES_BLOCK_SIZE) iv))

/-- A two-block plaintext. -/
def test_plain : List Nat := test_block 0x51 ++ test_block 0x61

/-- The call `sendrecv()` on `w` issues one request, with transfer length `len`. -/
def sends_with_length (E : Env) (w : World) (len : Nat) : Prop :=
  ∃ req : sg_request, (sendrecv E w).2.io_log = w.io_log ++ [req] ∧ req.dxfer_len = len

/-- Bytes 0x28..0x38 of the send0 frame that `authenticate_common` builds on `w` for the
role `auth_mode`: the encrypted host nonce. -/
def send0_nonce_field (E : Env) (auth_mode : Nat) (w : World) : List Nat :=
  ((sv_send0_command_set E (auth_start auth_mode w)).2.packet_buffer.drop 0x28).take 0x10
/-! ## Lemmas -/

/-- Reading a table kept in rows of sixteen is reading the flat table. -/
theorem table_get_join (t : List (List Nat)) (h : ∀ r ∈ t, r.length = 16) (i : Nat) :
    table_get t i = t.flatten.getD i 0 := by
  induction t generalizing i with
  | nil => simp [table_get]
  | cons r t ih =>
    have hr : r.length = 16 := h r (List.mem_cons_self _ _)
    have ht : ∀ r' ∈ t, r'.length = 16 := fun r' hr' => h r' (List.mem_cons_of_mem _ hr')
    by_cases hi : i < 16
    · have h0 : i / 16 = 0 := Nat.div_eq_of_lt hi
      have h1 : i % 16 = i := Nat.mod_eq_of_lt hi
      simp only [table_get, h0, h1, List.getD_cons_zero, List.flatten_cons]
      rw [List.getD_append _ _ _ _ (by omega)]
    · have h0 : i / 16 = (i - 16) / 16 + 1 := by omega
      have h1 : i % 16 = (i - 16) % 16 := by omega
      have := ih ht (i - 16)
      simp only [table_get] at this
      simp only [table_get, h0, h1, List.getD_cons_succ, List.flatten_cons, this]
      rw [List.getD_append_right _ _ _ _ (by omega), hr]

set_option maxRecDepth 100000 in
theorem aes_tables_size :
    fsb.flatten.length = 256 ∧ rsb.flatten.length = 256 ∧ ft0.flatten.length = 256 ∧
    ft1.flatten.length = 256 ∧ ft2.flatten.length = 256 ∧ ft3.flatten.length = 256 ∧
    rt0.flatten.length = 256 ∧ rt1.flatten.length = 256 ∧ rt2.flatten.length = 256 ∧
    rt3.flatten.length = 256 := by decide

theorem aes_crypt_ecb_length (ctx : aes_context_t) (input : List Nat) :
    (aes_crypt_ecb ctx input).length = 16 := by
  simp [aes_crypt_ecb, PUT_UINT32_LE]

theorem aes_encrypt_cbc_16 (key iv input output : List Nat) :
    aes_encrypt_cbc key 128 iv input output 0x10 =
      (0, aes128_cbc_encrypt key iv input ++ output.drop 0x10) := by
  have h : ∀ out : List Nat, aes_encrypt_cbc key 128 iv input out 0x10 =
      (0, aes_crypt_ecb (aes_init aes_context_new AES_ENCRYPT key 128).2
        (xor_block ((input.drop 0).take AES_BLOCK_SIZE)
          (memcpy (List.replicate AES_BLOCK_SIZE 0) 0 iv 0 AES_BLOCK_SIZE)) ++ out.drop 0x10) := by
    intro out
    have hi : (aes_init aes_context_new AES_ENCRYPT key 128).1 = 0 := by
      simp [aes_init, AES_ENCRYPT, AES_DECRYPT, aes_rounds]
    have hm : (aes_init aes_context_new AES_ENCRYPT key 128).2.mode = AES_ENCRYPT := by
      simp [aes_init, AES_ENCRYPT, AES_DECRYPT, aes_rounds]
    have hne : AES_ENCRYPT ≠ AES_DECRYPT := by decide
    simp only [aes_encrypt_cbc, hi, aes_crypt_cbc, AES_BLOCK_SIZE]
    simp [aes_crypt_cbc_loop, hm, hne, memcpy, AES_BLOCK_SIZE, aes_crypt_ecb_length]
  rw [aes128_cbc_encrypt, h, h]
  simp [aes_crypt_ecb_length]

theorem aes_decrypt_cbc_16 (key iv input output : List Nat) :
    aes_decrypt_cbc key 128 iv input output 0x10 =
      (0, aes128_cbc_decrypt key iv input ++ output.drop 0x10) := by
  have h : ∀ out : List Nat, aes_decrypt_cbc key 128 iv input out 0x10 =
      (0, xor_block (aes_crypt_ecb (aes_init aes_context_new AES_DECRYPT key 128).2
          ((input.drop 0).take AES_BLOCK_SIZE))
          (memcpy (List.replicate AES_BLOCK_SIZE 0) 0 iv 0 AES_BLOCK_SIZE) ++ out.drop 0x10) := by
    intro out
    have hi : (aes_init aes_context_new AES_DECRYPT key 128).1 = 0 := by
      simp [aes_init, AES_ENCRYPT, AES_DECRYPT, aes_rounds]
    have hm : (aes_init aes_context_new AES_DECRYPT key 128).2.mode = AES_DECRYPT := by
      simp [aes_init, AES_ENCRYPT, AES_DECRYPT, aes_rounds]
    simp only [aes_decrypt_cbc, hi, aes_crypt_cbc, AES_BLOCK_SIZE]
    simp [aes_crypt_cbc_loop, hm, memcpy, AES_BLOCK_SIZE, xor_block]
  rw [aes128_cbc_decrypt, h, h]
  simp [xor_block, AES_BLOCK_SIZE]

theorem aes128_cbc_encrypt_length (key iv input : List Nat) :
    (aes128_cbc_encrypt key iv input).length = 16 := by
  have h := congrArg (fun p => p.2.length) (aes_encrypt_cbc_16 key iv input (List.replicate 0x10 0))
  simp only [aes128_cbc_encrypt, List.length_take] at h ⊢
  simp [aes_encrypt_cbc, aes_init, AES_ENCRYPT, AES_DECRYPT, aes_rounds, aes_crypt_cbc,
    AES_BLOCK_SIZE, aes_crypt_cbc_loop, memcpy, aes_crypt_ecb_length]

theorem aes128_cbc_decrypt_length (key iv input : List Nat) :
    (aes128_cbc_decrypt key iv input).length = 16 := by
  simp [aes128_cbc_decrypt, aes_decrypt_cbc, aes_init, AES_ENCRYPT, AES_DECRYPT, aes_rounds,
    aes_crypt_cbc, AES_BLOCK_SIZE, aes_crypt_cbc_loop, memcpy, xor_block]

theorem sendrecv_sv_auth (E : Env) (w : World) : (sendrecv E w).2.sv_auth = w.sv_auth := by
  unfold sendrecv
  simp only []
  split_ifs <;> try rfl
  all_goals (split <;> try rfl)
  all_goals (split_ifs <;> rfl)

theorem sendrecv_rand_calls (E : Env) (w : World) :
    (sendrecv E w).2.rand_calls = w.rand_calls := by
  unfold sendrecv
  simp only []
  split_ifs <;> try rfl
  all_goals (split <;> try rfl)
  all_goals (split_ifs <;> rfl)

theorem sv_send0_command_set_sv_auth (E : Env) (w : World) :
    (sv_send0_command_set E w).2.sv_auth =
      { w.sv_auth with m_rand1 := (generate_rnd E w.rand_calls w.sv_auth.m_rand1 0x10).1 } := by
  unfold sv_send0_command_set
  simp only []
  split_ifs <;> rfl

theorem sv_report0_command_set_sv_auth (E : Env) (w : World) :
    (sv_report0_command_set E w).2.sv_auth = w.sv_auth := by
  unfold sv_report0_command_set
  simp only []
  split_ifs <;> rfl

theorem sv_send2_command_set_sv_auth (E : Env) (w : World) :
    (sv_send2_command_set E w).2.sv_auth = w.sv_auth := by
  unfold sv_send2_command_set
  simp only []
  split_ifs <;> rfl

theorem sendrecv_io_log_le (E : Env) (w : World) :
    w.io_log.length ≤ (sendrecv E w).2.io_log.length ∧
      (sendrecv E w).2.io_log.length ≤ w.io_log.length + 1 := by
  unfold sendrecv
  simp only []
  split_ifs <;> try simp
  all_goals (split <;> try simp)
  all_goals (split_ifs <;> simp)

theorem sendrecv_io_log_ok (E : Env) (w : World) (h : (sendrecv E w).1 = 0) :
    (sendrecv E w).2.io_log.length = w.io_log.length + 1 := by
  revert h
  unfold sendrecv
  simp only []
  split_ifs <;> try simp
  all_goals (split <;> try simp)
  all_goals (split_ifs <;> simp)

theorem sv_send0_command_set_io_log (E : Env) (w : World) :
    (sv_send0_command_set E w).2.io_log = w.io_log := by
  unfold sv_send0_command_set
  simp only []
  split_ifs <;> rfl

theorem sv_send0_command_set_rand_calls (E : Env) (w : World) :
    (sv_send0_command_set E w).2.rand_calls = w.rand_calls + 16 := by
  unfold sv_send0_command_set
  simp only []
  split_ifs <;> rfl

theorem sv_report0_command_set_io_log (E : Env) (w : World) :
    (sv_report0_command_set E w).2.io_log = w.io_log := by
  unfold sv_report0_command_set
  simp only []
  split_ifs <;> rfl

theorem sv_report0_command_set_rand_calls (E : Env) (w : World) :
    (sv_report0_command_set E w).2.rand_calls = w.rand_calls := by
  unfold sv_report0_command_set
  simp only []
  split_ifs <;> rfl

theorem sv_send2_command_set_io_log (E : Env) (w : World) :
    (sv_send2_command_set E w).2.io_log = w.io_log := by
  unfold sv_send2_command_set
  simp only []
  split_ifs <;> rfl

theorem sv_send2_command_set_rand_calls (E : Env) (w : World) :
    (sv_send2_command_set E w).2.rand_calls = w.rand_calls := by
  unfold sv_send2_command_set
  simp only []
  split_ifs <;> rfl

/-- The check of the report0 response on a well-formed session, in terms of the two
decrypted fields. -/
theorem sv_report0_command_check_recved_data_eq (E : Env) (w : World)
    (h1 : w.sv_auth.m_rand1.length = 16) (h2 : w.sv_auth.m_rand2.length = 16) :
    sv_report0_command_check_recved_data E w =
      if aes128_cbc_decrypt w.sv_auth.fix2 E.keys.giv ((w.packet_buffer.drop 0x28).take 0x10) ≠
          w.sv_auth.m_rand1 then (-2, w)
      else if w.sv_auth.m_rand1 =
          aes128_cbc_decrypt w.sv_auth.fix2 E.keys.giv ((w.packet_buffer.drop 0x38).take 0x10)
        then (-3, { w with sv_auth := { w.sv_auth with
          m_rand2 := aes128_cbc_decrypt w.sv_auth.fix2 E.keys.giv
            ((w.packet_buffer.drop 0x38).take 0x10) } })
      else (0, { w with sv_auth := { w.sv_auth with
          m_rand2 := aes128_cbc_decrypt w.sv_auth.fix2 E.keys.giv
            ((w.packet_buffer.drop 0x38).take 0x10) } }) := by
  have d2 : w.sv_auth.m_rand2.drop 16 = [] := List.drop_eq_nil_of_le h2.le
  have t1 : w.sv_auth.m_rand1.take 16 = w.sv_auth.m_rand1 := List.take_of_length_le h1.le
  have e1 : ∀ x, (aes128_cbc_decrypt w.sv_auth.fix2 E.keys.giv x).take 16 =
      aes128_cbc_decrypt w.sv_auth.fix2 E.keys.giv x :=
    fun x => List.take_of_length_le (aes128_cbc_decrypt_length _ _ _).le
  simp only [sv_report0_command_check_recved_data, aes_decrypt_cbc_16, memcpy, memcmp_eq]
  simp [d2, t1, e1]

theorem sv_send2_command_check_recved_data_fst (E : Env) (w : World) :
    (sv_send2_command_check_recved_data E w).1 = 0 := by
  simp [sv_send2_command_check_recved_data, aes_encrypt_cbc_16]

/-- The body of `authenticate_common`, round by round. -/
theorem authenticate_common_eq (E : Env) (auth_mode allow_retry : Nat) (w : World) :
    authenticate_common E auth_mode allow_retry w =
      if memcmp_eq w.sv_auth.fix1 0 (List.replicate 0x10 0) 0 0x10 then
        (-1, auth_start auth_mode w)
      else if memcmp_eq w.sv_auth.fix2 0 (List.replicate 0x10 0) 0 0x10 then
        (-1, auth_start auth_mode w)
      else if (auth_round0 E auth_mode w).1 ≠ 0 then (-1, (auth_round0 E auth_mode w).2)
      else if (auth_round1 E auth_mode w).1 ≠ 0 then (-1, (auth_round1 E auth_mode w).2)
      else if (auth_check1 E auth_mode w).1 ≠ 0 then
        (if allow_retry = ALLOW_RETRY_YES then (-8, (auth_check1 E auth_mode w).2)
         else (-1, (auth_check1 E auth_mode w).2))
      else if (auth_round2 E auth_mode w).1 ≠ 0 then (-1, (auth_round2 E auth_mode w).2)
      else sv_send2_command_check_recved_data E (auth_round2 E auth_mode w).2 := rfl

theorem memcmp_zero_iff (k : List Nat) (hk : k.length = 16) :
    memcmp_eq k 0 (List.replicate 0x10 0) 0 0x10 = true ↔ k = List.replicate 16 0 := by
  simp [memcmp_eq, List.take_of_length_le hk.le]

theorem generate_rnd_buffer_length (E : Env) (n size : Nat) :
    (generate_rnd_buffer E n size).length = size := by
  simp [generate_rnd_buffer]

theorem generate_rnd_16 (E : Env) (n : Nat) (dest : List Nat) (hd : dest.length = 16) :
    (generate_rnd E n dest 0x10).1 = generate_rnd_buffer E n 0x10 := by
  simp [generate_rnd, memcpy, List.drop_eq_nil_of_le hd.le,
    List.take_of_length_le (generate_rnd_buffer_length E n 16).le]

theorem auth_round0_sv_auth (E : Env) (auth_mode : Nat) (w : World)
    (h1 : w.sv_auth.m_rand1.length = 16) :
    (auth_round0 E auth_mode w).2.sv_auth =
      { w.sv_auth with m_auth_mode := auth_mode,
                       m_rand1 := generate_rnd_buffer E w.rand_calls 0x10 } := by
  simp only [auth_round0, sendrecv_sv_auth, sv_send0_command_set_sv_auth, auth_start]
  rw [generate_rnd_16 E _ _ h1]

theorem auth_round1_sv_auth (E : Env) (auth_mode : Nat) (w : World)
    (h1 : w.sv_auth.m_rand1.length = 16) :
    (auth_round1 E auth_mode w).2.sv_auth =
      { w.sv_auth with m_auth_mode := auth_mode,
                       m_rand1 := generate_rnd_buffer E w.rand_calls 0x10 } := by
  simp only [auth_round1, sendrecv_sv_auth, sv_report0_command_set_sv_auth,
    auth_round0_sv_auth E auth_mode w h1]

theorem auth_round0_rand_calls (E : Env) (auth_mode : Nat) (w : World) :
    (auth_round0 E auth_mode w).2.rand_calls = w.rand_calls + 16 := by
  simp only [auth_round0, sendrecv_rand_calls, sv_send0_command_set_rand_calls, auth_start]

theorem auth_round1_rand_calls (E : Env) (auth_mode : Nat) (w : World) :
    (auth_round1 E auth_mode w).2.rand_calls = w.rand_calls + 16 := by
  simp only [auth_round1, sendrecv_rand_calls, sv_report0_command_set_rand_calls,
    auth_round0_rand_calls]

theorem auth_round0_io_log (E : Env) (auth_mode : Nat) (w : World)
    (h : (auth_round0 E auth_mode w).1 = 0) :
    (auth_round0 E auth_mode w).2.io_log.length = w.io_log.length + 1 := by
  have := sendrecv_io_log_ok E _ h
  simpa only [auth_round0, sv_send0_command_set_io_log, auth_start] using this

theorem auth_round1_io_log (E : Env) (auth_mode : Nat) (w : World)
    (h0 : (auth_round0 E auth_mode w).1 = 0) (h : (auth_round1 E auth_mode w).1 = 0) :
    (auth_round1 E auth_mode w).2.io_log.length = w.io_log.length + 2 := by
  have := sendrecv_io_log_ok E _ h
  rw [sv_report0_command_set_io_log, auth_round0_io_log E auth_mode w h0] at this
  exact this

theorem sv_report0_check_ks (E : Env) (w : World) :
    (sv_report0_command_check_recved_data E w).2.sv_auth.ks1 = w.sv_auth.ks1 ∧
    (sv_report0_command_check_recved_data E w).2.sv_auth.ks2 = w.sv_auth.ks2 := by
  unfold sv_report0_command_check_recved_data
  simp only []
  split_ifs <;> exact ⟨rfl, rfl⟩

theorem auth_round2_ks (E : Env) (auth_mode : Nat) (w : World) :
    (auth_round2 E auth_mode w).2.sv_auth.ks1 = w.sv_auth.ks1 ∧
    (auth_round2 E auth_mode w).2.sv_auth.ks2 = w.sv_auth.ks2 := by
  simp only [auth_round2, sendrecv_sv_auth, sv_send2_command_set_sv_auth, auth_check1,
    sv_report0_check_ks, auth_round1, sv_report0_command_set_sv_auth, auth_round0,
    sv_send0_command_set_sv_auth, auth_start, and_self]

/-- The body of `authenticate_common` once the zero-key check is passed. -/
theorem authenticate_common_rounds (E : Env) (auth_mode allow_retry : Nat) (w : World)
    (hf1 : w.sv_auth.fix1.length = 16) (hf2 : w.sv_auth.fix2.length = 16)
    (hz1 : w.sv_auth.fix1 ≠ List.replicate 16 0) (hz2 : w.sv_auth.fix2 ≠ List.replicate 16 0) :
    authenticate_common E auth_mode allow_retry w =
      if (auth_round0 E auth_mode w).1 ≠ 0 then (-1, (auth_round0 E auth_mode w).2)
      else if (auth_round1 E auth_mode w).1 ≠ 0 then (-1, (auth_round1 E auth_mode w).2)
      else if (auth_check1 E auth_mode w).1 ≠ 0 then
        (if allow_retry = ALLOW_RETRY_YES then (-8, (auth_check1 E auth_mode w).2)
         else (-1, (auth_check1 E auth_mode w).2))
      else if (auth_round2 E auth_mode w).1 ≠ 0 then (-1, (auth_round2 E auth_mode w).2)
      else sv_send2_command_check_recved_data E (auth_round2 E auth_mode w).2 := by
  have z1 : memcmp_eq w.sv_auth.fix1 0 (List.replicate 0x10 0) 0 0x10 = false := by
    rw [Bool.eq_false_iff, Ne, memcmp_zero_iff _ hf1]; exact hz1
  have z2 : memcmp_eq w.sv_auth.fix2 0 (List.replicate 0x10 0) 0 0x10 = false := by
    rw [Bool.eq_false_iff, Ne, memcmp_zero_iff _ hf2]; exact hz2
  rw [authenticate_common_eq]
  simp only [z1, z2, Bool.false_eq_true, if_false]

/-- The derivation step on a well-formed session: status 0, and only `ks1` and `ks2`
change. -/
theorem sv_send2_command_check_recved_data_eq (E : Env) (w : World) (hw : w.sv_auth.wf) :
    sv_send2_command_check_recved_data E w =
      (0, { w with sv_auth := { w.sv_auth with
        ks1 := aes128_cbc_encrypt E.keys.kms1 E.keys.giv
          (w.sv_auth.m_rand1.take 8 ++ w.sv_auth.m_rand2.drop 8)
        ks2 := aes128_cbc_encrypt E.keys.kms2 E.keys.giv
          (w.sv_auth.m_rand1.drop 8 ++ w.sv_auth.m_rand2.take 8) } }) := by
  obtain ⟨_, _, _, _, h1, h2, hk1, hk2⟩ := hw
  have d1 : w.sv_auth.ks1.drop 16 = [] := List.drop_eq_nil_of_le hk1.le
  have d2 : w.sv_auth.ks2.drop 16 = [] := List.drop_eq_nil_of_le hk2.le
  have t2 : (w.sv_auth.m_rand2.drop 8).take 8 = w.sv_auth.m_rand2.drop 8 :=
    List.take_of_length_le (by simp [h2])
  have t1 : (w.sv_auth.m_rand1.drop 8).take 8 = w.sv_auth.m_rand1.drop 8 :=
    List.take_of_length_le (by simp [h1])
  have a1 : ∀ z : List Nat, List.take 8 (List.take 8 w.sv_auth.m_rand1 ++ z) =
      List.take 8 w.sv_auth.m_rand1 := fun z => List.take_left' (by simp [h1])
  have a2 : ∀ z : List Nat, List.take 8 (List.drop 8 w.sv_auth.m_rand1 ++ z) =
      List.drop 8 w.sv_auth.m_rand1 := fun z => List.take_left' (by simp [h1])
  have b1 : List.drop 16 (List.take 8 w.sv_auth.m_rand1 ++ [0, 0, 0, 0, 0, 0, 0, 0]) = [] :=
    List.drop_eq_nil_of_le (by simp [h1])
  have b2 : List.drop 16 (List.drop 8 w.sv_auth.m_rand1 ++ [0, 0, 0, 0, 0, 0, 0, 0]) = [] :=
    List.drop_eq_nil_of_le (by simp [h1])
  simp [sv_send2_command_check_recved_data, aes_encrypt_cbc_16, memcpy, d1, d2, t1, t2, a1, a2,
    b1, b2]

theorem sv_report0_check_world (E : Env) (w : World) :
    (sv_report0_command_check_recved_data E w).2.io_log = w.io_log ∧
    (sv_report0_command_check_recved_data E w).2.rand_calls = w.rand_calls ∧
    (sv_report0_command_check_recved_data E w).2.packet_buffer = w.packet_buffer ∧
    (sv_report0_command_check_recved_data E w).2.open_calls = w.open_calls := by
  unfold sv_report0_command_check_recved_data
  simp only []
  split_ifs <;> exact ⟨rfl, rfl, rfl, rfl⟩

/-- The session after the check of the report0 response: the role and the fresh host
nonce are in place and `m_rand2` holds sixteen bytes. -/
theorem auth_check1_sv_auth (E : Env) (auth_mode : Nat) (w : World) (hw : w.sv_auth.wf) :
    ∃ x : List Nat, x.length = 16 ∧ (auth_check1 E auth_mode w).2.sv_auth =
      { w.sv_auth with m_auth_mode := auth_mode,
                       m_rand1 := generate_rnd_buffer E w.rand_calls 0x10,
                       m_rand2 := x } := by
  obtain ⟨_, _, _, _, hr1, hr2, _, _⟩ := hw
  have hs := auth_round1_sv_auth E auth_mode w hr1
  rw [auth_check1, sv_report0_command_check_recved_data_eq E _ (by simp [hs, generate_rnd_buffer])
    (by simp [hs, hr2])]
  split_ifs
  · exact ⟨w.sv_auth.m_rand2, hr2, by simp [hs]⟩
  · exact ⟨aes128_cbc_decrypt w.sv_auth.fix2 E.keys.giv
      (((auth_round1 E auth_mode w).2.packet_buffer.drop 0x38).take 0x10),
      aes128_cbc_decrypt_length _ _ _, by simp [hs]⟩
  · exact ⟨aes128_cbc_decrypt w.sv_auth.fix2 E.keys.giv
      (((auth_round1 E auth_mode w).2.packet_buffer.drop 0x38).take 0x10),
      aes128_cbc_decrypt_length _ _ _, by simp [hs]⟩

theorem auth_round2_sv_auth (E : Env) (auth_mode : Nat) (w : World) :
    (auth_round2 E auth_mode w).2.sv_auth = (auth_check1 E auth_mode w).2.sv_auth := by
  simp only [auth_round2, sendrecv_sv_auth, sv_send2_command_set_sv_auth]

theorem auth_check1_rand_calls (E : Env) (auth_mode : Nat) (w : World) :
    (auth_check1 E auth_mode w).2.rand_calls = w.rand_calls + 16 := by
  rw [auth_check1, (sv_report0_check_world E _).2.1, auth_round1_rand_calls]

theorem auth_round2_rand_calls (E : Env) (auth_mode : Nat) (w : World) :
    (auth_round2 E auth_mode w).2.rand_calls = w.rand_calls + 16 := by
  simp only [auth_round2, sendrecv_rand_calls, sv_send2_command_set_rand_calls,
    auth_check1_rand_calls]

theorem auth_check1_io_log (E : Env) (auth_mode : Nat) (w : World) :
    (auth_check1 E auth_mode w).2.io_log = (auth_round1 E auth_mode w).2.io_log := by
  rw [auth_check1, (sv_report0_check_world E _).1]

theorem auth_round2_io_log (E : Env) (auth_mode : Nat) (w : World)
    (h0 : (auth_round0 E auth_mode w).1 = 0) (h1 : (auth_round1 E auth_mode w).1 = 0)
    (h : (auth_round2 E auth_mode w).1 = 0) :
    (auth_round2 E auth_mode w).2.io_log.length = w.io_log.length + 3 := by
  have := sendrecv_io_log_ok E _ h
  rw [sv_send2_command_set_io_log, auth_check1_io_log,
    auth_round1_io_log E auth_mode w h0 h1] at this
  exact this

theorem auth_round0_io_log_le (E : Env) (auth_mode : Nat) (w : World) :
    (auth_round0 E auth_mode w).2.io_log.length ≤ w.io_log.length + 1 := by
  have := (sendrecv_io_log_le E (sv_send0_command_set E (auth_start auth_mode w)).2).2
  simpa only [auth_round0, sv_send0_command_set_io_log, auth_start] using this

theorem auth_round1_io_log_le (E : Env) (auth_mode : Nat) (w : World) :
    (auth_round1 E auth_mode w).2.io_log.length ≤ w.io_log.length + 2 := by
  have := (sendrecv_io_log_le E (sv_report0_command_set E (auth_round0 E auth_mode w).2).2).2
  rw [sv_report0_command_set_io_log] at this
  have h0 := auth_round0_io_log_le E auth_mode w
  simp only [auth_round1]
  omega

theorem auth_round2_io_log_le (E : Env) (auth_mode : Nat) (w : World) :
    (auth_round2 E auth_mode w).2.io_log.length ≤ w.io_log.length + 3 := by
  have := (sendrecv_io_log_le E (sv_send2_command_set E (auth_check1 E auth_mode w).2).2).2
  rw [sv_send2_command_set_io_log, auth_check1_io_log] at this
  have h1 := auth_round1_io_log_le E auth_mode w
  simp only [auth_round2]
  omega

/-- What a call of `authenticate_common` on a well-formed session comes to: its
status is 0, -1 or -8, with -8 only under `ALLOW_RETRY_YES`; the session stays
well-formed and keeps the challenge pair, the stored primary pair, the mode and the
retry flag; at most sixteen random bytes are drawn and at most three requests are
submitted; -8 comes after sixteen draws and two requests; 0 comes after sixteen
draws and three requests, with the session keys derived from the nonces in place. -/
theorem authenticate_common_spec (E : Env) (auth_mode allow_retry : Nat) (w : World)
    (hw : w.sv_auth.wf) :
    ((authenticate_common E auth_mode allow_retry w).1 = 0 ∨
      (authenticate_common E auth_mode allow_retry w).1 = -1 ∨
      ((authenticate_common E auth_mode allow_retry w).1 = -8 ∧
        allow_retry = ALLOW_RETRY_YES)) ∧
    (authenticate_common E auth_mode allow_retry w).2.sv_auth.wf ∧
    ((authenticate_common E auth_mode allow_retry w).2.sv_auth.fix1 = w.sv_auth.fix1 ∧
      (authenticate_common E auth_mode allow_retry w).2.sv_auth.fix2 = w.sv_auth.fix2 ∧
      (authenticate_common E auth_mode allow_retry w).2.sv_auth.kf1_eid = w.sv_auth.kf1_eid ∧
      (authenticate_common E auth_mode allow_retry w).2.sv_auth.kf2_eid = w.sv_auth.kf2_eid ∧
      (authenticate_common E auth_mode allow_retry w).2.sv_auth.m_mode = w.sv_auth.m_mode ∧
      (authenticate_common E auth_mode allow_retry w).2.sv_auth.m_retry_flag =
        w.sv_auth.m_retry_flag) ∧
    ((authenticate_common E auth_mode allow_retry w).2.rand_calls ≤ w.rand_calls + 16 ∧
      (authenticate_common E auth_mode allow_retry w).2.io_log.length ≤ w.io_log.length + 3) ∧
    ((authenticate_common E auth_mode allow_retry w).1 = -8 →
      (authenticate_common E auth_mode allow_retry w).2.rand_calls = w.rand_calls + 16 ∧
      (authenticate_common E auth_mode allow_retry w).2.io_log.length = w.io_log.length + 2) ∧
    ((authenticate_common E auth_mode allow_retry w).1 = 0 →
      (authenticate_common E auth_mode allow_retry w).2.rand_calls = w.rand_calls + 16 ∧
      (authenticate_common E auth_mode allow_retry w).2.io_log.length = w.io_log.length + 3 ∧
      (authenticate_common E auth_mode allow_retry w).2.sv_auth.m_rand1 =
        generate_rnd_buffer E w.rand_calls 0x10 ∧
      (authenticate_common E auth_mode allow_retry w).2.sv_auth.ks1 =
        aes128_cbc_encrypt E.keys.kms1 E.keys.giv
          ((authenticate_common E auth_mode allow_retry w).2.sv_auth.m_rand1.take 8 ++
            (authenticate_common E auth_mode allow_retry w).2.sv_auth.m_rand2.drop 8) ∧
      (authenticate_common E auth_mode allow_retry w).2.sv_auth.ks2 =
        aes128_cbc_encrypt E.keys.kms2 E.keys.giv
          ((authenticate_common E auth_mode allow_retry w).2.sv_auth.m_rand1.drop 8 ++
            (authenticate_common E auth_mode allow_retry w).2.sv_auth.m_rand2.take 8)) := by
  obtain ⟨he1, he2, hf1, hf2, hr1, hr2, hk1, hk2⟩ := hw
  have hwf : w.sv_auth.wf := ⟨he1, he2, hf1, hf2, hr1, hr2, hk1, hk2⟩
  rw [authenticate_common_eq]
  have hs0 := auth_round0_sv_auth E auth_mode w hr1
  have hs1 := auth_round1_sv_auth E auth_mode w hr1
  obtain ⟨x, hx, hsc⟩ := auth_check1_sv_auth E auth_mode w hwf
  have hs2 := (auth_round2_sv_auth E auth_mode w).trans hsc
  have hg := generate_rnd_buffer_length E w.rand_calls 16
  split_ifs with c1 c2 c3 c4 c5 c6 c7
  · simp [auth_start, sv_auth_t.wf, *]
  · simp [auth_start, sv_auth_t.wf, *]
  · have := auth_round0_io_log_le E auth_mode w
    simp only [hs0, auth_round0_rand_calls, sv_auth_t.wf]
    simp [*]; omega
  · have := auth_round1_io_log_le E auth_mode w
    simp only [hs1, auth_round1_rand_calls, sv_auth_t.wf]
    simp [*]; omega
  · have h0 : (auth_round0 E auth_mode w).1 = 0 := not_not.mp c3
    have h1 : (auth_round1 E auth_mode w).1 = 0 := not_not.mp c4
    have := auth_round1_io_log E auth_mode w h0 h1
    simp only [hsc, auth_check1_rand_calls, auth_check1_io_log, sv_auth_t.wf]
    simp [*]
  · have := auth_round1_io_log_le E auth_mode w
    simp only [hsc, auth_check1_rand_calls, auth_check1_io_log, sv_auth_t.wf]
    simp [*]; omega
  · have := auth_round2_io_log_le E auth_mode w
    simp only [hs2, auth_round2_rand_calls, sv_auth_t.wf]
    simp [*]
  · have h0 : (auth_round0 E auth_mode w).1 = 0 := not_not.mp c3
    have h1 : (auth_round1 E auth_mode w).1 = 0 := not_not.mp c4
    have h2 : (auth_round2 E auth_mode w).1 = 0 := not_not.mp c7
    have := auth_round2_io_log E auth_mode w h0 h1 h2
    have hwf2 : (auth_round2 E auth_mode w).2.sv_auth.wf := by
      rw [hs2]; exact ⟨he1, he2, hf1, hf2, hg, hx, hk1, hk2⟩
    rw [sv_send2_command_check_recved_data_eq E _ hwf2]
    simp only [hs2, auth_round2_rand_calls, sv_auth_t.wf]
    simp [*, aes128_cbc_encrypt_length]

theorem memcpy_16 (dst src : List Nat) (hd : dst.length = 16) (hs : src.length = 16) :
    memcpy dst 0 src 0 0x10 = src := by
  simp [memcpy, List.take_of_length_le hs.le, List.drop_eq_nil_of_le hd.le]

theorem set_fix_eq (w : World) (k1 k2 : List Nat) (hw : w.sv_auth.wf)
    (h1 : k1.length = 16) (h2 : k2.length = 16) : set_fix w k1 k2 = w.load_fix k1 k2 := by
  obtain ⟨_, _, hf1, hf2, _⟩ := hw
  simp only [set_fix, World.load_fix, memcpy_16 _ _ hf1 h1, memcpy_16 _ _ hf2 h2]

theorem set_fix_wf (w : World) (k1 k2 : List Nat) (hw : w.sv_auth.wf)
    (h1 : k1.length = 16) (h2 : k2.length = 16) : (set_fix w k1 k2).sv_auth.wf := by
  rw [set_fix_eq w k1 k2 hw h1 h2]
  obtain ⟨he1, he2, _, _, hr1, hr2, hk1, hk2⟩ := hw
  exact ⟨he1, he2, h1, h2, hr1, hr2, hk1, hk2⟩

/-- The body of `auth_drive_super`, attempt by attempt. -/
theorem auth_drive_super_eq (E : Env) (w : World) :
    auth_drive_super E w =
      if (super_attempt1 E w).1 = -8 then
        (if (super_attempt2 E w).1 = -8 then super_attempt3 E w else super_attempt2 E w)
      else super_attempt1 E w := rfl

theorem super_attempt1_wf (E : Env) (w : World) (hw : w.sv_auth.wf) :
    (super_attempt1 E w).2.sv_auth.wf :=
  (authenticate_common_spec E _ _ _ (set_fix_wf w _ _ hw hw.1 hw.2.1)).2.1

theorem super_attempt2_wf (E : Env) (w : World) (hw : w.sv_auth.wf) (hK : E.keys.wf) :
    (super_attempt2 E w).2.sv_auth.wf :=
  (authenticate_common_spec E _ _ _
    (set_fix_wf _ _ _ (super_attempt1_wf E w hw) hK.2.2.2.2.2.2.2.2.1
      hK.2.2.2.2.2.2.2.2.2.1)).2.1

theorem generate_check_code_loop_eq (data : List Nat) (len i acc : Nat) (h : acc < 2 ^ 16) :
    generate_check_code_loop data len i acc =
      (acc + ((data.drop i).take len).sum) % 2 ^ 16 := by
  induction len generalizing i acc with
  | zero =>
    simp only [generate_check_code_loop, List.take_zero, List.sum_nil, Nat.add_zero]
    exact (Nat.mod_eq_of_lt h).symm
  | succ n ih =>
    rw [generate_check_code_loop, ih _ _ (Nat.mod_lt _ (by norm_num))]
    by_cases hi : i < data.length
    · have hd : data.drop i = data.getD i 0 :: data.drop (i + 1) := by
        rw [List.getD_eq_getElem _ _ hi]
        exact List.drop_eq_getElem_cons hi
      rw [hd, List.take_succ_cons, List.sum_cons]
      omega
    · have hd : data.drop i = [] := List.drop_eq_nil_of_le (by omega)
      have hd1 : data.drop (i + 1) = [] := List.drop_eq_nil_of_le (by omega)
      have hg : data.getD i 0 = 0 := by
        rw [List.getD_eq_default]; omega
      rw [hg, hd, hd1]
      simp only [List.take_nil, List.sum_nil, Nat.add_zero, Nat.mod_mod]

/-- The check code is 255 minus the low byte of the sum of the bytes covered. -/
theorem generate_check_code_eq (data : List Nat) (len : Nat) :
    generate_check_code data len = 255 - (data.take len).sum % 256 := by
  rw [generate_check_code, generate_check_code_loop_eq _ _ _ _ (by norm_num)]
  simp only [List.drop_zero, Nat.zero_add]
  norm_num
  omega

set_option maxRecDepth 100000 in
theorem byte_complement (x : Nat) (h : x < 256) : 255 - x = x ^^^ 0xFF := by
  revert x
  decide

theorem take8_append_drop8_inj (a b a' b' : List Nat) (ha : a.length = 16)
    (ha' : a'.length = 16) :
    a.take 8 ++ b.drop 8 = a'.take 8 ++ b'.drop 8 ↔ a.take 8 = a'.take 8 ∧ b.drop 8 = b'.drop 8 := by
  constructor
  · intro h
    exact List.append_inj h (by simp [ha, ha'])
  · rintro ⟨h1, h2⟩
    rw [h1, h2]

theorem drop8_append_take8_inj (a b a' b' : List Nat) (ha : a.length = 16)
    (ha' : a'.length = 16) :
    a.drop 8 ++ b.take 8 = a'.drop 8 ++ b'.take 8 ↔ a.drop 8 = a'.drop 8 ∧ b.take 8 = b'.take 8 := by
  constructor
  · intro h
    exact List.append_inj h (by simp [ha, ha'])
  · rintro ⟨h1, h2⟩
    rw [h1, h2]

/-- The derivation step on any session: status 0, `ks1` and `ks2` get their first
sixteen bytes from the two encryptions. -/
theorem sv_send2_command_check_recved_data_raw (E : Env) (w : World) :
    sv_send2_command_check_recved_data E w =
      (0, { w with sv_auth := { w.sv_auth with
        ks1 := aes128_cbc_encrypt E.keys.kms1 E.keys.giv
            (memcpy (memcpy (List.replicate 0x10 0) 0 w.sv_auth.m_rand1 0 8) 8
              w.sv_auth.m_rand2 8 8) ++ w.sv_auth.ks1.drop 0x10
        ks2 := aes128_cbc_encrypt E.keys.kms2 E.keys.giv
            (memcpy (memcpy (List.replicate 0x10 0) 0 w.sv_auth.m_rand1 8 8) 8
              w.sv_auth.m_rand2 0 8) ++ w.sv_auth.ks2.drop 0x10 } }) := by
  simp only [sv_send2_command_check_recved_data, aes_encrypt_cbc_16]
  simp


theorem aes_crypt_cbc_loop_length (ctx : aes_context_t) (input : List Nat) (n off : Nat)
    (iv output : List Nat) (h : off + 16 * n ≤ output.length) :
    (aes_crypt_cbc_loop ctx input n off iv output).2.length = output.length := by
  induction n generalizing off iv output with
  | zero => simp [aes_crypt_cbc_loop]
  | succ n ih =>
    have hx : ∀ a b : List Nat, (xor_block a b).length = 16 := by
      intro a b; simp [xor_block, AES_BLOCK_SIZE]
    have hm : ∀ dst : List Nat, dst.length = 16 →
        (memcpy output off dst 0 AES_BLOCK_SIZE).length = output.length := by
      intro dst hd
      simp only [memcpy, AES_BLOCK_SIZE, List.length_append, List.length_take, List.length_drop,
        List.drop_zero, hd]
      omega
    unfold aes_crypt_cbc_loop
    split
    · rw [ih]
      · exact hm _ (hx _ _)
      · rw [hm _ (hx _ _)]; simp only [AES_BLOCK_SIZE]; omega
    · rw [ih]
      · exact hm _ (aes_crypt_ecb_length _ _)
      · rw [hm _ (aes_crypt_ecb_length _ _)]; simp only [AES_BLOCK_SIZE]; omega

theorem aes_decrypt_cbc_fst (key iv input output : List Nat) (len : Nat) (h : len % 16 = 0) :
    (aes_decrypt_cbc key 128 iv input output len).1 = 0 := by
  have hi : (aes_init aes_context_new AES_DECRYPT key 128).1 = 0 := by
    simp [aes_init, AES_ENCRYPT, AES_DECRYPT, aes_rounds]
  simp [aes_decrypt_cbc, hi, aes_crypt_cbc, AES_BLOCK_SIZE, h]

theorem aes_decrypt_cbc_length (key iv input output : List Nat) (len : Nat)
    (h : len % 16 = 0) (hl : len ≤ output.length) :
    (aes_decrypt_cbc key 128 iv input output len).2.length = output.length := by
  have hi : (aes_init aes_context_new AES_DECRYPT key 128).1 = 0 := by
    simp [aes_init, AES_ENCRYPT, AES_DECRYPT, aes_rounds]
  simp only [aes_decrypt_cbc, hi, aes_crypt_cbc, AES_BLOCK_SIZE, h]
  simp only [ne_eq, not_true_eq_false, if_false]
  apply aes_crypt_cbc_loop_length
  have := Nat.div_mul_cancel (Nat.dvd_of_mod_eq_zero h)
  omega

theorem aes128_cbc_decrypt_append (key iv s t : List Nat) (hs : s.length = 16) :
    aes128_cbc_decrypt key iv (s ++ t) = aes128_cbc_decrypt key iv s := by
  have hi : (aes_init aes_context_new AES_DECRYPT key 128).1 = 0 := by
    simp [aes_init, AES_ENCRYPT, AES_DECRYPT, aes_rounds]
  have hm : (aes_init aes_context_new AES_DECRYPT key 128).2.mode = AES_DECRYPT := by
    simp [aes_init, AES_ENCRYPT, AES_DECRYPT, aes_rounds]
  have ht : (s ++ t).take 16 = s.take 16 := by
    rw [List.take_append_of_le_length (by omega)]
  simp only [aes128_cbc_decrypt, aes_decrypt_cbc, hi, aes_crypt_cbc, AES_BLOCK_SIZE]
  simp [aes_crypt_cbc_loop, hm, AES_BLOCK_SIZE, ht]

theorem aes128_cbc_encrypt_append (key iv s t : List Nat) (hs : s.length = 16) :
    aes128_cbc_encrypt key iv (s ++ t) = aes128_cbc_encrypt key iv s := by
  have hi : (aes_init aes_context_new AES_ENCRYPT key 128).1 = 0 := by
    simp [aes_init, AES_ENCRYPT, AES_DECRYPT, aes_rounds]
  have hm : (aes_init aes_context_new AES_ENCRYPT key 128).2.mode = AES_ENCRYPT := by
    simp [aes_init, AES_ENCRYPT, AES_DECRYPT, aes_rounds]
  have hne : AES_ENCRYPT ≠ AES_DECRYPT := by decide
  have ht : (s ++ t).take 16 = s.take 16 := by
    rw [List.take_append_of_le_length (by omega)]
  simp only [aes128_cbc_encrypt, aes_encrypt_cbc, hi, aes_crypt_cbc, AES_BLOCK_SIZE]
  simp [aes_crypt_cbc_loop, hm, hne, AES_BLOCK_SIZE, ht]


theorem split_fields (D : List Nat) :
    D = D.take 3 ++ ((D.drop 3).take 16 ++ ((D.drop 0x13).take 16 ++
      ((D.drop 0x23).take 16 ++ D.drop 0x33))) := by
  have e1 : D.drop 0x13 = (D.drop 3).drop 16 := by rw [List.drop_drop]
  have e2 : D.drop 0x23 = (D.drop 0x13).drop 16 := by rw [List.drop_drop]
  have e3 : D.drop 0x33 = (D.drop 0x23).drop 16 := by rw [List.drop_drop]
  rw [e3, List.take_append_drop, e2, List.take_append_drop, e1, List.take_append_drop,
    List.take_append_drop]

theorem wm2_layers (k2 iv2 kw ivw a s0 s1 s2 t : List Nat)
    (ha : a.length = 3) (h0 : s0.length = 16) (h1 : s1.length = 16) (h2 : s2.length = 16) :
    let D := a ++ (s0 ++ (s1 ++ (s2 ++ t)))
    let b1 := D.take 3 ++ (aes128_cbc_decrypt k2 iv2 (D.drop 3) ++ (D.drop 3).drop 0x10)
    let b2 := b1.take 0x13 ++ (aes128_cbc_decrypt k2 iv2 (b1.drop 0x13) ++ (b1.drop 0x13).drop 0x10)
    let b3 := b2.take 0x23 ++ (aes128_cbc_decrypt k2 iv2 (b2.drop 0x23) ++ (b2.drop 0x23).drop 0x10)
    let b4 := b3.take 3 ++ (aes128_cbc_decrypt kw ivw (b3.drop 3) ++ (b3.drop 3).drop 0x10)
    let b5 := b4.take 0x13 ++ (aes128_cbc_decrypt kw ivw (b4.drop 0x13) ++ (b4.drop 0x13).drop 0x10)
    let b6 := b5.take 0x23 ++ (aes128_cbc_decrypt kw ivw (b5.drop 0x23) ++ (b5.drop 0x23).drop 0x10)
    b6 = a ++ (aes128_cbc_decrypt kw ivw (aes128_cbc_decrypt k2 iv2 s0) ++
      (aes128_cbc_decrypt kw ivw (aes128_cbc_decrypt k2 iv2 s1) ++
      (aes128_cbc_decrypt kw ivw (aes128_cbc_decrypt k2 iv2 s2) ++ t))) := by
  intro D b1 b2 b3 b4 b5 b6
  have d3 : ∀ (x y : List Nat), x.length = 3 → (x ++ y).drop 3 = y := by
    intro x y h; rw [← h]; exact List.drop_left _ _
  have t3 : ∀ (x y : List Nat), x.length = 3 → (x ++ y).take 3 = x := by
    intro x y h; rw [← h]; exact List.take_left _ _
  have d16 : ∀ (x y : List Nat), x.length = 16 → (x ++ y).drop 16 = y := by
    intro x y h; rw [← h]; exact List.drop_left _ _
  have t16 : ∀ (x y : List Nat), x.length = 16 → (x ++ y).take 16 = x := by
    intro x y h; rw [← h]; exact List.take_left _ _
  have d19 : ∀ (x y z : List Nat), x.length = 3 → y.length = 16 → (x ++ (y ++ z)).drop 0x13 = z := by
    intro x y z h h'
    rw [← List.append_assoc]
    have : (x ++ y).length = 0x13 := by simp [h, h']
    rw [← this]; exact List.drop_left _ _
  have t19 : ∀ (x y z : List Nat), x.length = 3 → y.length = 16 →
      (x ++ (y ++ z)).take 0x13 = x ++ y := by
    intro x y z h h'
    rw [← List.append_assoc]
    have : (x ++ y).length = 0x13 := by simp [h, h']
    rw [← this]; exact List.take_left _ _
  have d35 : ∀ (x y y' z : List Nat), x.length = 3 → y.length = 16 → y'.length = 16 →
      (x ++ (y ++ (y' ++ z))).drop 0x23 = z := by
    intro x y y' z h h' h''
    rw [← List.append_assoc, ← List.append_assoc]
    have : (x ++ y ++ y').length = 0x23 := by simp [h, h', h'']
    rw [← this]; exact List.drop_left _ _
  have t35 : ∀ (x y y' z : List Nat), x.length = 3 → y.length = 16 → y'.length = 16 →
      (x ++ (y ++ (y' ++ z))).take 0x23 = x ++ (y ++ y') := by
    intro x y y' z h h' h''
    rw [← List.append_assoc, ← List.append_assoc]
    have : (x ++ y ++ y').length = 0x23 := by simp [h, h', h'']
    rw [← this, List.take_left, List.append_assoc]
  have L := aes128_cbc_decrypt_length
  have e1 : b1 = a ++ (aes128_cbc_decrypt k2 iv2 s0 ++ (s1 ++ (s2 ++ t))) := by
    simp only [b1, D, d3 _ _ ha, t3 _ _ ha, aes128_cbc_decrypt_append _ _ _ _ h0, d16 _ _ h0]
  have e2 : b2 = a ++ (aes128_cbc_decrypt k2 iv2 s0 ++ (aes128_cbc_decrypt k2 iv2 s1 ++ (s2 ++ t))) := by
    simp only [b2, e1, d19 _ _ _ ha (L _ _ _), t19 _ _ _ ha (L _ _ _),
      aes128_cbc_decrypt_append _ _ _ _ h1, d16 _ _ h1, List.append_assoc]
  have e3 : b3 = a ++ (aes128_cbc_decrypt k2 iv2 s0 ++ (aes128_cbc_decrypt k2 iv2 s1 ++
      (aes128_cbc_decrypt k2 iv2 s2 ++ t))) := by
    simp only [b3, e2, d35 _ _ _ _ ha (L _ _ _) (L _ _ _), t35 _ _ _ _ ha (L _ _ _) (L _ _ _),
      aes128_cbc_decrypt_append _ _ _ _ h2, d16 _ _ h2, List.append_assoc]
  have e4 : b4 = a ++ (aes128_cbc_decrypt kw ivw (aes128_cbc_decrypt k2 iv2 s0) ++
      (aes128_cbc_decrypt k2 iv2 s1 ++ (aes128_cbc_decrypt k2 iv2 s2 ++ t))) := by
    simp only [b4, e3, d3 _ _ ha, t3 _ _ ha, aes128_cbc_decrypt_append _ _ _ _ (L _ _ _),
      d16 _ _ (L _ _ _)]
  have e5 : b5 = a ++ (aes128_cbc_decrypt kw ivw (aes128_cbc_decrypt k2 iv2 s0) ++
      (aes128_cbc_decrypt kw ivw (aes128_cbc_decrypt k2 iv2 s1) ++
      (aes128_cbc_decrypt k2 iv2 s2 ++ t))) := by
    simp only [b5, e4, d19 _ _ _ ha (L _ _ _), t19 _ _ _ ha (L _ _ _),
      aes128_cbc_decrypt_append _ _ _ _ (L _ _ _), d16 _ _ (L _ _ _), List.append_assoc]
  simp only [b6, e5, d35 _ _ _ _ ha (L _ _ _) (L _ _ _), t35 _ _ _ _ ha (L _ _ _) (L _ _ _),
    aes128_cbc_decrypt_append _ _ _ _ (L _ _ _), d16 _ _ (L _ _ _), List.append_assoc]

theorem sv_wm2_command_check_recved_data_eq (E : Env) (w : World) (buf1 buf2 : List Nat)
    (hpb : 0x68 ≤ w.packet_buffer.length)
    (hcc : (wm2_plain E w).getD 0 0 = generate_check_code ((wm2_plain E w).drop 1) 0x3F) :
    sv_wm2_command_check_recved_data E w buf1 buf2 =
      (0, (wm2_plain E w).getD 2 0 :: buf1.drop 1,
        wm2_field E w (wm2_plain E w) 0 ++ (wm2_field E w (wm2_plain E w) 1 ++
          (wm2_field E w (wm2_plain E w) 2 ++ buf2.drop 0x30))) := by
  have hP : ((w.packet_buffer.drop 0x28).take 0x40).length = 0x40 := by
    rw [List.length_take, List.length_drop]; omega
  have hD : (wm2_plain E w).length = 0x40 := by
    rw [wm2_plain, aes_decrypt_cbc_length _ _ _ _ _ (by decide) (by omega), hP]
  have hmem : memcpy (List.replicate 0x40 0) 0 w.packet_buffer 0x28 0x40 =
      (w.packet_buffer.drop 0x28).take 0x40 := by
    simp [memcpy]
  have h1 := aes_decrypt_cbc_fst w.sv_auth.ks1 E.keys.ivs_aes
    ((w.packet_buffer.drop 0x28).take 0x40) ((w.packet_buffer.drop 0x28).take 0x40) 0x40
    (by decide)
  have hfold : (aes_decrypt_cbc w.sv_auth.ks1 128 E.keys.ivs_aes
      ((w.packet_buffer.drop 0x28).take 0x40) ((w.packet_buffer.drop 0x28).take 0x40) 0x40).2 =
      wm2_plain E w := rfl
  simp only [sv_wm2_command_check_recved_data, hmem, h1, hfold, hcc, aes_decrypt_cbc_16,
    ne_eq, not_true_eq_false, if_false]
  generalize wm2_plain E w = D at hD ⊢
  have hf0 : wm2_field E w D 0 = aes128_cbc_decrypt E.keys.Kwm E.keys.giv
      (aes128_cbc_decrypt w.sv_auth.ks2 E.keys.ivs_aes ((D.drop 3).take 16)) := rfl
  have hf1 : wm2_field E w D 1 = aes128_cbc_decrypt E.keys.Kwm E.keys.giv
      (aes128_cbc_decrypt w.sv_auth.ks2 E.keys.ivs_aes ((D.drop 0x13).take 16)) := rfl
  have hf2 : wm2_field E w D 2 = aes128_cbc_decrypt E.keys.Kwm E.keys.giv
      (aes128_cbc_decrypt w.sv_auth.ks2 E.keys.ivs_aes ((D.drop 0x23).take 16)) := rfl
  have hs := split_fields D
  have ha : (D.take 3).length = 3 := by rw [List.length_take]; omega
  have h0 : ((D.drop 3).take 16).length = 16 := by
    rw [List.length_take, List.length_drop]; omega
  have h1 : ((D.drop 0x13).take 16).length = 16 := by
    rw [List.length_take, List.length_drop]; omega
  have h2 : ((D.drop 0x23).take 16).length = 16 := by
    rw [List.length_take, List.length_drop]; omega
  have hl := wm2_layers w.sv_auth.ks2 E.keys.ivs_aes E.keys.Kwm E.keys.giv _ _ _ _
    (D.drop 0x33) ha h0 h1 h2
  simp only [← hs] at hl
  rw [hl, ← hf0, ← hf1, ← hf2]
  have l0 : (wm2_field E w D 0).length = 16 := aes128_cbc_decrypt_length _ _ _
  have l1 : (wm2_field E w D 1).length = 16 := aes128_cbc_decrypt_length _ _ _
  have l2 : (wm2_field E w D 2).length = 16 := aes128_cbc_decrypt_length _ _ _
  clear hl hf0 hf1 hf2 hs
  generalize wm2_field E w D 0 = F0 at l0 ⊢
  generalize wm2_field E w D 1 = F1 at l1 ⊢
  generalize wm2_field E w D 2 = F2 at l2 ⊢
  have hb1 : ((D.take 3 ++ (F0 ++ (F1 ++ (F2 ++ D.drop 0x33)))).drop 2).take 1 =
      [D.getD 2 0] := by
    rw [List.drop_append_of_le_length (by omega), List.take_append_of_le_length]
    · rw [List.drop_take]
      obtain ⟨x, D, rfl⟩ := List.exists_cons_of_length_pos (show 0 < D.length by omega)
      obtain ⟨y, D, rfl⟩ := List.exists_cons_of_length_pos
        (show 0 < D.length by simp at hD; omega)
      obtain ⟨z, D, rfl⟩ := List.exists_cons_of_length_pos
        (show 0 < D.length by simp at hD; omega)
      simp
    · rw [List.length_drop]; omega
  have hb2 : ((D.take 3 ++ (F0 ++ (F1 ++ (F2 ++ D.drop 0x33)))).drop 3).take 0x30 =
      F0 ++ (F1 ++ F2) := by
    rw [List.drop_append_of_le_length (by omega)]
    have : (D.take 3).drop 3 = [] := List.drop_eq_nil_of_le (by omega)
    rw [this, List.nil_append, ← List.append_assoc, ← List.append_assoc]
    have hlen : (F0 ++ F1 ++ F2).length = 0x30 := by
      simp only [List.length_append, l0, l1, l2]
    rw [← hlen, List.take_left, List.append_assoc]
  have m1 : memcpy buf1 0 (D.take 3 ++ (F0 ++ (F1 ++ (F2 ++ D.drop 0x33)))) 2 1 =
      D.getD 2 0 :: buf1.drop 1 := by
    unfold memcpy; rw [hb1]; rfl
  have m2 : memcpy buf2 0 (D.take 3 ++ (F0 ++ (F1 ++ (F2 ++ D.drop 0x33)))) 3 0x30 =
      F0 ++ (F1 ++ (F2 ++ buf2.drop 0x30)) := by
    unfold memcpy; rw [hb2, List.take_zero, List.nil_append, Nat.zero_add, List.append_assoc,
      List.append_assoc]
  rw [m1, m2]

theorem split_fields2 (D : List Nat) :
    D = D.take 3 ++ ((D.drop 3).take 16 ++ ((D.drop 0x13).take 16 ++ D.drop 0x23)) := by
  have e1 : D.drop 0x13 = (D.drop 3).drop 16 := by rw [List.drop_drop]
  have e2 : D.drop 0x23 = (D.drop 0x13).drop 16 := by rw [List.drop_drop]
  rw [e2, List.take_append_drop, e1, List.take_append_drop, List.take_append_drop]

theorem wm_layers (k2 iv2 a s0 s1 t : List Nat)
    (ha : a.length = 3) (h0 : s0.length = 16) (h1 : s1.length = 16) :
    let D := a ++ (s0 ++ (s1 ++ t))
    let b1 := D.take 3 ++ (aes128_cbc_decrypt k2 iv2 (D.drop 3) ++ (D.drop 3).drop 0x10)
    let b2 := b1.take 0x13 ++ (aes128_cbc_decrypt k2 iv2 (b1.drop 0x13) ++ (b1.drop 0x13).drop 0x10)
    b2 = a ++ (aes128_cbc_decrypt k2 iv2 s0 ++ (aes128_cbc_decrypt k2 iv2 s1 ++ t)) := by
  intro D b1 b2
  have d3 : ∀ (x y : List Nat), x.length = 3 → (x ++ y).drop 3 = y := by
    intro x y h; rw [← h]; exact List.drop_left _ _
  have t3 : ∀ (x y : List Nat), x.length = 3 → (x ++ y).take 3 = x := by
    intro x y h; rw [← h]; exact List.take_left _ _
  have d16 : ∀ (x y : List Nat), x.length = 16 → (x ++ y).drop 16 = y := by
    intro x y h; rw [← h]; exact List.drop_left _ _
  have d19 : ∀ (x y z : List Nat), x.length = 3 → y.length = 16 → (x ++ (y ++ z)).drop 0x13 = z := by
    intro x y z h h'
    rw [← List.append_assoc]
    have : (x ++ y).length = 0x13 := by simp [h, h']
    rw [← this]; exact List.drop_left _ _
  have t19 : ∀ (x y z : List Nat), x.length = 3 → y.length = 16 →
      (x ++ (y ++ z)).take 0x13 = x ++ y := by
    intro x y z h h'
    rw [← List.append_assoc]
    have : (x ++ y).length = 0x13 := by simp [h, h']
    rw [← this]; exact List.take_left _ _
  have L := aes128_cbc_decrypt_length
  have e1 : b1 = a ++ (aes128_cbc_decrypt k2 iv2 s0 ++ (s1 ++ t)) := by
    simp only [b1, D, d3 _ _ ha, t3 _ _ ha, aes128_cbc_decrypt_append _ _ _ _ h0, d16 _ _ h0]
  simp only [b2, e1, d19 _ _ _ ha (L _ _ _), t19 _ _ _ ha (L _ _ _),
    aes128_cbc_decrypt_append _ _ _ _ h1, d16 _ _ h1, List.append_assoc]

theorem sv_wm_command_check_recved_data_eq (E : Env) (w : World) (wm : List Nat)
    (hpb : 0x58 ≤ w.packet_buffer.length)
    (hcc : (wm_plain E w).getD 0 0 = generate_check_code ((wm_plain E w).drop 1) 0x2F) :
    sv_wm_command_check_recved_data E w wm =
      (0, (wm_plain E w).take 3 ++
        (aes128_cbc_decrypt w.sv_auth.ks2 E.keys.ivs_aes (((wm_plain E w).drop 3).take 16) ++
        (aes128_cbc_decrypt w.sv_auth.ks2 E.keys.ivs_aes (((wm_plain E w).drop 0x13).take 16) ++
        ((wm_plain E w).drop 0x23 ++ wm.drop 0x30)))) := by
  have hP : ((w.packet_buffer.drop 0x28).take 0x30).length = 0x30 := by
    rw [List.length_take, List.length_drop]; omega
  have hD : (wm_plain E w).length = 0x30 := by
    rw [wm_plain, aes_decrypt_cbc_length _ _ _ _ _ (by decide) (by omega), hP]
  have hmem : memcpy (List.replicate 0x30 0) 0 w.packet_buffer 0x28 0x30 =
      (w.packet_buffer.drop 0x28).take 0x30 := by
    simp [memcpy]
  have h1 := aes_decrypt_cbc_fst w.sv_auth.ks1 E.keys.ivs_aes
    ((w.packet_buffer.drop 0x28).take 0x30) ((w.packet_buffer.drop 0x28).take 0x30) 0x30
    (by decide)
  have hfold : (aes_decrypt_cbc w.sv_auth.ks1 128 E.keys.ivs_aes
      ((w.packet_buffer.drop 0x28).take 0x30) ((w.packet_buffer.drop 0x28).take 0x30) 0x30).2 =
      wm_plain E w := rfl
  simp only [sv_wm_command_check_recved_data, hmem, h1, hfold, hcc, aes_decrypt_cbc_16,
    ne_eq, not_true_eq_false, if_false]
  generalize wm_plain E w = D at hD ⊢
  have hs := split_fields2 D
  have ha : (D.take 3).length = 3 := by rw [List.length_take]; omega
  have h0 : ((D.drop 3).take 16).length = 16 := by
    rw [List.length_take, List.length_drop]; omega
  have h1 : ((D.drop 0x13).take 16).length = 16 := by
    rw [List.length_take, List.length_drop]; omega
  have hl := wm_layers w.sv_auth.ks2 E.keys.ivs_aes _ _ _ (D.drop 0x23) ha h0 h1
  simp only [← hs] at hl
  rw [hl]
  have l0 : (aes128_cbc_decrypt w.sv_auth.ks2 E.keys.ivs_aes ((D.drop 3).take 16)).length = 16 :=
    aes128_cbc_decrypt_length _ _ _
  have l1 : (aes128_cbc_decrypt w.sv_auth.ks2 E.keys.ivs_aes ((D.drop 0x13).take 16)).length
      = 16 := aes128_cbc_decrypt_length _ _ _
  clear hl hs
  generalize aes128_cbc_decrypt w.sv_auth.ks2 E.keys.ivs_aes ((D.drop 3).take 16) = M at l0 ⊢
  generalize aes128_cbc_decrypt w.sv_auth.ks2 E.keys.ivs_aes ((D.drop 0x13).take 16) = N at l1 ⊢
  have hlen : (D.take 3 ++ (M ++ (N ++ D.drop 0x23))).length = 0x30 := by
    simp only [List.length_append, ha, l0, l1, List.length_drop, hD]
  have m1 : memcpy wm 0 (D.take 3 ++ (M ++ (N ++ D.drop 0x23))) 0 0x30 =
      D.take 3 ++ (M ++ (N ++ (D.drop 0x23 ++ wm.drop 0x30))) := by
    unfold memcpy
    rw [List.take_zero, List.nil_append, List.drop_zero,
      List.take_of_length_le (Nat.le_of_eq hlen), Nat.zero_add, List.append_assoc,
      List.append_assoc, List.append_assoc]
  rw [m1]

theorem sv_wm2_command_check_recved_data_bad (E : Env) (w : World) (buf1 buf2 : List Nat)
    (hcc : (wm2_plain E w).getD 0 0 ≠ generate_check_code ((wm2_plain E w).drop 1) 0x3F) :
    sv_wm2_command_check_recved_data E w buf1 buf2 = (-16, buf1, buf2) := by
  have hmem : memcpy (List.replicate 0x40 0) 0 w.packet_buffer 0x28 0x40 =
      (w.packet_buffer.drop 0x28).take 0x40 := by
    simp [memcpy]
  have h1 := aes_decrypt_cbc_fst w.sv_auth.ks1 E.keys.ivs_aes
    ((w.packet_buffer.drop 0x28).take 0x40) ((w.packet_buffer.drop 0x28).take 0x40) 0x40
    (by decide)
  have hfold : (aes_decrypt_cbc w.sv_auth.ks1 128 E.keys.ivs_aes
      ((w.packet_buffer.drop 0x28).take 0x40) ((w.packet_buffer.drop 0x28).take 0x40) 0x40).2 =
      wm2_plain E w := rfl
  simp only [sv_wm2_command_check_recved_data, hmem, h1, hfold, ne_eq, not_true_eq_false,
    if_false]
  rw [if_pos hcc]

theorem get_wm2_eq (E : Env) (layer area lba : Nat) (w : World) (buf1 buf2 : List Nat)
    (ht : (sendrecv E (sv_wm2_command_set E layer area lba w).2).1 = 0) :
    get_wm2 E layer area lba w buf1 buf2 =
      { status := 0
        buf1 := (sv_wm2_command_check_recved_data E (wm2_received E layer area lba w)
          buf1 buf2).2.1
        buf2 := (sv_wm2_command_check_recved_data E (wm2_received E layer area lba w)
          buf1 buf2).2.2
        world := wm2_received E layer area lba w } := by
  simp only [get_wm2, ht, wm2_received, ne_eq, not_true_eq_false, if_false]

theorem memcmp_eq_append (s t m : List Nat) (hs : s.length = 16) :
    memcmp_eq (s ++ t) 0 m 0 0x10 = memcmp_eq s 0 m 0 0x10 := by
  have h : (s ++ t).take 16 = s.take 16 := List.take_append_of_le_length (by omega)
  simp only [memcmp_eq, List.drop_zero, h]

theorem sv_wm_command_set_sv_auth (E : Env) (w : World) :
    (sv_wm_command_set E w).2.sv_auth = w.sv_auth := by
  unfold sv_wm_command_set
  simp only
  split <;> rfl

theorem sv_wm2_command_set_sv_auth (E : Env) (layer area lba : Nat) (w : World) :
    (sv_wm2_command_set E layer area lba w).2.sv_auth = w.sv_auth := by
  unfold sv_wm2_command_set
  simp only
  split <;> rfl

theorem wm3_received_sv_auth (E : Env) (w : World) :
    (wm3_received E w).sv_auth = w.sv_auth := by
  rw [wm3_received, sendrecv_sv_auth, sv_wm_command_set_sv_auth]

theorem payload_present (pb : List Nat) (n : Nat) (hn : 0 < n)
    (h : ((pb.drop 0x28).take n).length = n) :
    0x28 + n ≤ pb.length := by
  rw [List.length_take, List.length_drop] at h
  omega

theorem get_wm3_eq (E : Env) (w : World) (contents_key misc_wm : List Nat) (disc_mode : Nat)
    (ht : (sendrecv E (sv_wm_command_set E w).2).1 = 0)
    (hpb : 0x58 ≤ (wm3_received E w).packet_buffer.length)
    (hcc : (wm_plain E (wm3_received E w)).getD 0 0 =
      generate_check_code ((wm_plain E (wm3_received E w)).drop 1) 0x2F) :
    get_wm3 E w contents_key misc_wm disc_mode =
      { status := 0
        contents_key :=
          if memcmp_eq (wm3_field E w 3) 0 E.keys.PS3_L_DEBUG_DISC 0 0x10 then
            memcpy contents_key 0 E.keys.intikey 0 0x10
          else
            aes128_cbc_encrypt E.keys.Kh E.keys.IVh (wm3_field E w 3) ++ contents_key.drop 0x10
        misc_wm :=
          aes128_cbc_decrypt E.keys.Kwm E.keys.giv (wm3_field E w 0x13) ++ misc_wm.drop 0x10
        disc_mode :=
          if memcmp_eq (wm3_field E w 3) 0 E.keys.PS3_L_DEBUG_DISC 0 0x10 then
            PS3_DISC_DEBUG_MODE
          else PS3_DISC_RELEASE_MODE
        world := wm3_received E w } := by
  have hsa := wm3_received_sv_auth E w
  have hc := sv_wm_command_check_recved_data_eq E (wm3_received E w) (List.replicate 0x30 0)
    hpb hcc
  rw [hsa] at hc
  have hD : (wm_plain E (wm3_received E w)).length = 0x30 := by
    have hP : (((wm3_received E w).packet_buffer.drop 0x28).take 0x30).length = 0x30 := by
      rw [List.length_take, List.length_drop]; omega
    rw [wm_plain, aes_decrypt_cbc_length _ _ _ _ _ (by decide) (by omega), hP]
  have ha : ((wm_plain E (wm3_received E w)).take 3).length = 3 := by
    rw [List.length_take]; omega
  have l0 : (wm3_field E w 3).length = 16 := aes128_cbc_decrypt_length _ _ _
  have l1 : (wm3_field E w 0x13).length = 16 := aes128_cbc_decrypt_length _ _ _
  have f0 : aes128_cbc_decrypt w.sv_auth.ks2 E.keys.ivs_aes
      (((wm_plain E (wm3_received E w)).drop 3).take 16) = wm3_field E w 3 := rfl
  have f1 : aes128_cbc_decrypt w.sv_auth.ks2 E.keys.ivs_aes
      (((wm_plain E (wm3_received E w)).drop 0x13).take 16) = wm3_field E w 0x13 := rfl
  rw [f0, f1] at hc
  generalize wm3_field E w 3 = M at hc l0 ⊢
  generalize wm3_field E w 0x13 = N at hc l1 ⊢
  generalize (wm_plain E (wm3_received E w)).take 3 = a at hc ha
  generalize (wm_plain E (wm3_received E w)).drop 0x23 ++ (List.replicate 0x30 0).drop 0x30 = t
    at hc
  have d3 : (a ++ (M ++ (N ++ t))).drop 3 = M ++ (N ++ t) := by
    rw [← ha]; exact List.drop_left _ _
  have d19 : (a ++ (M ++ (N ++ t))).drop 0x13 = N ++ t := by
    rw [← List.append_assoc]
    have : (a ++ M).length = 0x13 := by simp [ha, l0]
    rw [← this]; exact List.drop_left _ _
  have hw : (sendrecv E (sv_wm_command_set E w).2).2 = wm3_received E w := rfl
  simp only [get_wm3, ht, hw, hc, d3, d19, set_contents_key, set_misc_wm, aes_encrypt_cbc_16,
    aes_decrypt_cbc_16, memcmp_eq_append _ _ _ l0, aes128_cbc_encrypt_append _ _ _ _ l0,
    aes128_cbc_decrypt_append _ _ _ _ l1, ne_eq, not_true_eq_false, if_false]
  split <;> rfl

theorem aes_crypt_cbc_loop_snd (ctx : aes_context_t) (input : List Nat) (n off : Nat)
    (iv output : List Nat) (h : off + 16 * n ≤ output.length) :
    (aes_crypt_cbc_loop ctx input n off iv output).2 =
      output.take off ++ (aes_cbc_blocks ctx input n off iv ++ output.drop (off + 16 * n)) := by
  induction n generalizing off iv output with
  | zero => simp [aes_crypt_cbc_loop, aes_cbc_blocks]
  | succ n ih =>
    have hx : ∀ a b : List Nat, (xor_block a b).length = 16 := by
      intro a b; simp [xor_block, AES_BLOCK_SIZE]
    have hm : ∀ dst : List Nat, dst.length = 16 →
        memcpy output off dst 0 AES_BLOCK_SIZE =
          output.take off ++ (dst ++ output.drop (off + 16)) := by
      intro dst hd
      simp only [memcpy, AES_BLOCK_SIZE, List.drop_zero]
      rw [List.take_of_length_le (Nat.le_of_eq hd)]
    have hstep : ∀ dst : List Nat, dst.length = 16 → ∀ rest : List Nat,
        (output.take off ++ (dst ++ output.drop (off + 16))).take (off + 16) ++
          (rest ++ (output.take off ++ (dst ++ output.drop (off + 16))).drop
            (off + 16 + 16 * n)) =
        output.take off ++ ((dst ++ rest) ++ output.drop (off + 16 * (n + 1))) := by
      intro dst hd rest
      have hl : (output.take off ++ dst).length = off + 16 := by
        rw [List.length_append, List.length_take, hd]; omega
      have e1 : (output.take off ++ (dst ++ output.drop (off + 16))).take (off + 16) =
          output.take off ++ dst := by
        rw [← List.append_assoc, ← hl]; exact List.take_left _ _
      have e2 : (output.take off ++ (dst ++ output.drop (off + 16))).drop
          (off + 16 + 16 * n) = output.drop (off + 16 * (n + 1)) := by
        rw [← List.append_assoc, show off + 16 + 16 * n = (output.take off ++ dst).length +
          16 * n by rw [hl], List.drop_append, List.drop_drop]
        congr 1; omega
      rw [e1, e2]; simp only [List.append_assoc]
    have hlen : ∀ dst : List Nat, dst.length = 16 →
        off + 16 + 16 * n ≤ (output.take off ++ (dst ++ output.drop (off + 16))).length := by
      intro dst hd
      simp only [List.length_append, List.length_take, List.length_drop, hd]; omega
    unfold aes_crypt_cbc_loop aes_cbc_blocks
    split
    · dsimp only
      rw [hm _ (hx _ _), show off + AES_BLOCK_SIZE = off + 16 from rfl, ih _ _ _ (hlen _ (hx _ _))]
      exact hstep _ (hx _ _) _
    · dsimp only
      rw [hm _ (aes_crypt_ecb_length _ _), show off + AES_BLOCK_SIZE = off + 16 from rfl,
        ih _ _ _ (hlen _ (aes_crypt_ecb_length _ _))]
      exact hstep _ (aes_crypt_ecb_length _ _) _

theorem aes_cbc_blocks_length (ctx : aes_context_t) (input : List Nat) (n off : Nat)
    (iv : List Nat) : (aes_cbc_blocks ctx input n off iv).length = 16 * n := by
  induction n generalizing off iv with
  | zero => simp [aes_cbc_blocks]
  | succ n ih =>
    unfold aes_cbc_blocks
    split
    · rw [List.length_append, ih]; simp [xor_block, AES_BLOCK_SIZE]; omega
    · rw [List.length_append, ih, aes_crypt_ecb_length]; omega

theorem aes_encrypt_cbc_fst (key iv input output : List Nat) (len : Nat) (h : len % 16 = 0) :
    (aes_encrypt_cbc key 128 iv input output len).1 = 0 := by
  have hi : (aes_init aes_context_new AES_ENCRYPT key 128).1 = 0 := by
    simp [aes_init, AES_ENCRYPT, AES_DECRYPT, aes_rounds]
  simp [aes_encrypt_cbc, hi, aes_crypt_cbc, AES_BLOCK_SIZE, h]

theorem aes_encrypt_cbc_buf (key iv input output : List Nat) (len : Nat) (h : len % 16 = 0)
    (hl : len ≤ output.length) :
    aes_encrypt_cbc key 128 iv input output len =
      (0, aes128_cbc_encrypt_buf key iv input len ++ output.drop len) := by
  have hi : (aes_init aes_context_new AES_ENCRYPT key 128).1 = 0 := by
    simp [aes_init, AES_ENCRYPT, AES_DECRYPT, aes_rounds]
  have hd : 16 * (len / 16) = len := by omega
  have key_eq : ∀ out : List Nat, len ≤ out.length →
      aes_encrypt_cbc key 128 iv input out len =
        (0, aes_cbc_blocks (aes_init aes_context_new AES_ENCRYPT key 128).2 input (len / 16) 0
          (memcpy (List.replicate AES_BLOCK_SIZE 0) 0 iv 0 AES_BLOCK_SIZE) ++ out.drop len) := by
    intro out ho
    simp only [aes_encrypt_cbc, hi, aes_crypt_cbc, AES_BLOCK_SIZE, h, ne_eq, not_true_eq_false,
      if_false]
    rw [aes_crypt_cbc_loop_snd _ _ _ _ _ _ (by omega)]
    simp only [List.take_zero, List.nil_append, Nat.zero_add, hd]
  rw [key_eq output hl, aes128_cbc_encrypt_buf,
    key_eq (List.replicate len 0) (by rw [List.length_replicate])]
  have : (List.replicate len 0).drop len = ([] : List Nat) :=
    List.drop_eq_nil_of_le (by rw [List.length_replicate])
  rw [this, List.append_nil]

theorem aes128_cbc_encrypt_buf_length (key iv input : List Nat) (len : Nat)
    (h : len % 16 = 0) : (aes128_cbc_encrypt_buf key iv input len).length = len := by
  have hi : (aes_init aes_context_new AES_ENCRYPT key 128).1 = 0 := by
    simp [aes_init, AES_ENCRYPT, AES_DECRYPT, aes_rounds]
  have hd : 16 * (len / 16) = len := by omega
  simp only [aes128_cbc_encrypt_buf, aes_encrypt_cbc, hi, aes_crypt_cbc, AES_BLOCK_SIZE, h, ne_eq,
    not_true_eq_false, if_false]
  rw [aes_crypt_cbc_loop_length _ _ _ _ _ _ (by rw [List.length_replicate]; omega),
    List.length_replicate]

theorem des3_crypt_ecb_length (ctx : des3_context) (input : List Nat) :
    (des3_crypt_ecb ctx input).length = 8 := by
  simp [des3_crypt_ecb, PUT_UINT32_BE]

theorem des3_encrypt_cbc_8 (key iv input output : List Nat) :
    des3_encrypt_cbc key iv input output 8 =
      (0, des3_cbc_encrypt8 key iv input ++ output.drop 8) := by
  have h : ∀ out : List Nat, des3_encrypt_cbc key iv input out 8 =
      (0, des3_crypt_ecb (des3_set2key_enc des3_context_new key).2
        (xor_block8 ((input.drop 0).take 8) (memcpy (List.replicate 8 0) 0 iv 0 8)) ++
          out.drop 8) := by
    intro out
    have hi : (des3_set2key_enc des3_context_new key).1 = 0 := rfl
    have hne : DES_ENCRYPT = DES_ENCRYPT := rfl
    simp only [des3_encrypt_cbc, hi, des3_crypt_cbc]
    simp [des3_crypt_cbc_loop, memcpy, des3_crypt_ecb_length]
  rw [des3_cbc_encrypt8, h, h]
  simp [des3_crypt_ecb_length]

theorem des3_cbc_encrypt8_length (key iv input : List Nat) :
    (des3_cbc_encrypt8 key iv input).length = 8 := by
  have h := congrArg (fun p => p.2.length) (des3_encrypt_cbc_8 key iv input (List.replicate 8 0))
  simp only [List.length_append, List.length_drop, List.length_replicate] at h
  have h2 : (des3_encrypt_cbc key iv input (List.replicate 8 0) 8).2.length = 8 := by
    have hi : (des3_set2key_enc des3_context_new key).1 = 0 := rfl
    simp only [des3_encrypt_cbc, hi, des3_crypt_cbc]
    simp [des3_crypt_cbc_loop, memcpy, des3_crypt_ecb_length]
  omega

theorem generate_rnd_1 (E : Env) (n : Nat) (dest : List Nat) :
    generate_rnd E n dest 1 = (rnd_byte E n :: dest.drop 1, n + 1) := by
  simp [generate_rnd, generate_rnd_buffer, memcpy, rnd_byte, List.range_succ]

theorem generate_check_code_take (data : List Nat) (len : Nat) :
    generate_check_code data len = generate_check_code (data.take len) len := by
  rw [generate_check_code_eq, generate_check_code_eq, List.take_take, Nat.min_self]

theorem descriptor_eq (c : List Nat) (r : Nat) (hc : c.length = 8) :
    (c.take 6 ++ r :: List.drop 1 (c.drop 6)).set 7
        (generate_check_code (c.take 6 ++ r :: List.drop 1 (c.drop 6)) 7) =
      cmd_descriptor (c.getD 0 0) ((c.drop 1).take 5) r := by
  match c, hc with
  | [c0, c1, c2, c3, c4, c5, c6, c7], _ =>
    rw [generate_check_code_take]
    rfl

theorem list_length_8 (X : List Nat) (h : X.length = 8) :
    ∃ x0 x1 x2 x3 x4 x5 x6 x7, X = [x0, x1, x2, x3, x4, x5, x6, x7] := by
  match X, h with
  | [x0, x1, x2, x3, x4, x5, x6, x7], _ => exact ⟨_, _, _, _, _, _, _, _, rfl⟩

theorem sv_wm_command_set_eq (E : Env) (w : World) :
    sv_wm_command_set E w =
      (0, { w with
        rand_calls := w.rand_calls + 1
        packet_buffer :=
          (store32 E.big_endian 0x60 ++ (store32 E.big_endian 0x60 ++ (List.replicate 8 0 ++
            (store16 E.big_endian 0xB0 ++ (store16 E.big_endian 0x44 ++ ([0xE0, 0, 0x34, 0] ++
            (des3_cbc_encrypt8 w.sv_auth.ks1 E.keys.ivs_3des
              (cmd_descriptor ENC_CMD_PS3DISC [0, 0, 0, 0, 0] (rnd_byte E w.rand_calls)) ++
            List.replicate 0x50 0))))))) ++ w.packet_buffer.drop 0x70 }) := by
  have hl := des3_cbc_encrypt8_length w.sv_auth.ks1 E.keys.ivs_3des
    (cmd_descriptor ENC_CMD_PS3DISC [0, 0, 0, 0, 0] (rnd_byte E w.rand_calls))
  have hd := descriptor_eq ((List.replicate 8 0).set 0 ENC_CMD_PS3DISC)
    (rnd_byte E w.rand_calls) rfl
  rw [show ((List.replicate 8 0).set 0 ENC_CMD_PS3DISC).getD 0 0 = ENC_CMD_PS3DISC from rfl,
    show ((((List.replicate 8 0).set 0 ENC_CMD_PS3DISC).drop 1).take 5 : List Nat) =
      [0, 0, 0, 0, 0] from rfl] at hd
  unfold sv_wm_command_set
  simp only [des3_encrypt_cbc_8, generate_rnd_1, hd, ne_eq, not_true_eq_false, if_false]
  generalize des3_cbc_encrypt8 w.sv_auth.ks1 E.keys.ivs_3des
    (cmd_descriptor ENC_CMD_PS3DISC [0, 0, 0, 0, 0] (rnd_byte E w.rand_calls)) = X at hl ⊢
  obtain ⟨x0, x1, x2, x3, x4, x5, x6, x7, rfl⟩ := list_length_8 X hl
  cases E.big_endian <;> simp [store32, store16, memcpy, memset]

theorem list_length_16 (X : List Nat) (h : X.length = 16) :
    ∃ x0 x1 x2 x3 x4 x5 x6 x7 x8 x9 xa xb xc xd xe xf,
      X = [x0, x1, x2, x3, x4, x5, x6, x7, x8, x9, xa, xb, xc, xd, xe, xf] := by
  match X, h with
  | [x0, x1, x2, x3, x4, x5, x6, x7, x8, x9, xa, xb, xc, xd, xe, xf], _ =>
    exact ⟨_, _, _, _, _, _, _, _, _, _, _, _, _, _, _, _, rfl⟩

theorem sv_send0_command_set_eq (E : Env) (w : World)
    (h : w.sv_auth.m_auth_mode = AUTH_MODE_SUPER ∨ w.sv_auth.m_auth_mode = AUTH_MODE_USER) :
    sv_send0_command_set E w =
      (0, { w with
        sv_auth := { w.sv_auth with
          m_rand1 := (generate_rnd E w.rand_calls w.sv_auth.m_rand1 0x10).1 }
        rand_calls := w.rand_calls + 0x10
        packet_buffer :=
          (store32 E.big_endian 0x30 ++ (store32 E.big_endian 0x30 ++ (List.replicate 8 0 ++
            (store16 E.big_endian 0x80 ++ (store16 E.big_endian 0x24 ++
            ([0xA3, 0, 0, 0, 0, 0, 0, 0xE0, 0, 0x14, w.sv_auth.m_auth_mode, 0] ++
            ([0, 0, 0, 0] ++ ([0, 0x10, 0, 0] ++
            (aes128_cbc_encrypt w.sv_auth.fix1 E.keys.giv
              (generate_rnd E w.rand_calls w.sv_auth.m_rand1 0x10).1 ++
            List.replicate 8 0))))))))) ++ w.packet_buffer.drop 0x40 }) := by
  have hl := aes128_cbc_encrypt_length w.sv_auth.fix1 E.keys.giv
    (generate_rnd E w.rand_calls w.sv_auth.m_rand1 0x10).1
  have hr : (generate_rnd E w.rand_calls w.sv_auth.m_rand1 0x10).2 = w.rand_calls + 0x10 := rfl
  unfold sv_send0_command_set
  simp only [aes_encrypt_cbc_16, hr, ne_eq, not_true_eq_false, if_false]
  generalize aes128_cbc_encrypt w.sv_auth.fix1 E.keys.giv
    (generate_rnd E w.rand_calls w.sv_auth.m_rand1 0x10).1 = X at hl ⊢
  obtain ⟨x0, x1, x2, x3, x4, x5, x6, x7, x8, x9, xa, xb, xc, xd, xe, xf, rfl⟩ :=
    list_length_16 X hl
  rcases h with h | h <;> cases E.big_endian <;>
    simp [h, AUTH_MODE_SUPER, AUTH_MODE_USER, BD_SCE_FUNC_AUTH_SUPER_MODE,
      BD_SCE_FUNC_AUTH_USER_MODE, store32, store16, memcpy, memset]

theorem sv_report0_command_set_eq (E : Env) (w : World)
    (h : w.sv_auth.m_auth_mode = AUTH_MODE_SUPER ∨ w.sv_auth.m_auth_mode = AUTH_MODE_USER) :
    sv_report0_command_set E w =
      (0, { w with
        packet_buffer :=
          (store32 E.big_endian 0x40 ++ (store32 E.big_endian 0x40 ++ (List.replicate 8 0 ++
            (store16 E.big_endian 0x90 ++ (store16 E.big_endian 0x34 ++
            ([0xA4, 0, 0, 0, 0, 0, 0, 0xE0, 0, 0x24, w.sv_auth.m_auth_mode, 0] ++
            ([0, 0, 0, 0] ++ ([0, 0x20, 0, 0] ++
            List.replicate 0x28 0)))))))) ++ w.packet_buffer.drop 0x50 }) := by
  unfold sv_report0_command_set
  rcases h with h | h <;> cases E.big_endian <;>
    simp [h, AUTH_MODE_SUPER, AUTH_MODE_USER, BD_SCE_FUNC_AUTH_SUPER_MODE,
      BD_SCE_FUNC_AUTH_USER_MODE, store32, store16, memcpy, memset]

theorem sv_send2_command_set_eq (E : Env) (w : World)
    (h : w.sv_auth.m_auth_mode = AUTH_MODE_SUPER ∨ w.sv_auth.m_auth_mode = AUTH_MODE_USER) :
    sv_send2_command_set E w =
      (0, { w with
        packet_buffer :=
          (store32 E.big_endian 0x30 ++ (store32 E.big_endian 0x30 ++ (List.replicate 8 0 ++
            (store16 E.big_endian 0x82 ++ (store16 E.big_endian 0x24 ++
            ([0xA3, 0, 0, 0, 0, 0, 0, 0xE0, 0, 0x14, 2 + w.sv_auth.m_auth_mode, 0] ++
            ([0, 0, 0, 0] ++ ([0, 0x10, 0, 0] ++
            (aes128_cbc_encrypt w.sv_auth.fix1 E.keys.giv w.sv_auth.m_rand2 ++
            List.replicate 8 0))))))))) ++ w.packet_buffer.drop 0x40 }) := by
  have hl := aes128_cbc_encrypt_length w.sv_auth.fix1 E.keys.giv w.sv_auth.m_rand2
  unfold sv_send2_command_set
  simp only [aes_encrypt_cbc_16, ne_eq, not_true_eq_false, if_false]
  generalize aes128_cbc_encrypt w.sv_auth.fix1 E.keys.giv w.sv_auth.m_rand2 = X at hl ⊢
  obtain ⟨x0, x1, x2, x3, x4, x5, x6, x7, x8, x9, xa, xb, xc, xd, xe, xf, rfl⟩ :=
    list_length_16 X hl
  rcases h with h | h <;> cases E.big_endian <;>
    simp [h, AUTH_MODE_SUPER, AUTH_MODE_USER, BD_SCE_FUNC_HOST_CHALLENGE,
      BD_SCE_FUNC_DRIVE_CHALLENGE, store32, store16, memcpy, memset]

theorem sv_send0_command_set_bad_role (E : Env) (w : World)
    (h0 : w.sv_auth.m_auth_mode ≠ AUTH_MODE_SUPER) (h1 : w.sv_auth.m_auth_mode ≠ AUTH_MODE_USER) :
    sv_send0_command_set E w =
      (-1, { w with
        sv_auth := { w.sv_auth with
          m_rand1 := (generate_rnd E w.rand_calls w.sv_auth.m_rand1 0x10).1 }
        rand_calls := w.rand_calls + 0x10 }) := by
  have hr : (generate_rnd E w.rand_calls w.sv_auth.m_rand1 0x10).2 = w.rand_calls + 0x10 := rfl
  unfold sv_send0_command_set
  simp only [hr]
  rw [if_pos ⟨h0, h1⟩]

theorem sv_report0_command_set_bad_role (E : Env) (w : World)
    (h0 : w.sv_auth.m_auth_mode ≠ AUTH_MODE_SUPER) (h1 : w.sv_auth.m_auth_mode ≠ AUTH_MODE_USER) :
    sv_report0_command_set E w = (-1, w) := by
  unfold sv_report0_command_set
  simp only []
  rw [if_pos ⟨h0, h1⟩]

theorem sv_send2_command_set_bad_role (E : Env) (w : World)
    (h0 : w.sv_auth.m_auth_mode ≠ AUTH_MODE_SUPER) (h1 : w.sv_auth.m_auth_mode ≠ AUTH_MODE_USER) :
    sv_send2_command_set E w = (-1, w) := by
  unfold sv_send2_command_set
  simp only []
  rw [if_pos ⟨h0, h1⟩]

theorem sv_wm2_command_set_eq (E : Env) (layer area lba : Nat) (w : World) :
    sv_wm2_command_set E layer area lba w =
      (0, { w with
        rand_calls := w.rand_calls + 1
        packet_buffer :=
          (store32 E.big_endian 0x70 ++ (store32 E.big_endian 0x70 ++ (List.replicate 8 0 ++
            (store16 E.big_endian 0xB1 ++ (store16 E.big_endian 0x54 ++ ([0xE0, 0, 0x44, 0] ++
            (des3_cbc_encrypt8 w.sv_auth.ks1 E.keys.ivs_3des
              (cmd_descriptor ENC_CMD_PS2DISC (wm2_params layer area lba)
                (rnd_byte E w.rand_calls)) ++
            List.replicate 0x60 0))))))) ++ w.packet_buffer.drop 0x80 }) := by
  have hl := des3_cbc_encrypt8_length w.sv_auth.ks1 E.keys.ivs_3des
    (cmd_descriptor ENC_CMD_PS2DISC (wm2_params layer area lba) (rnd_byte E w.rand_calls))
  have hd := descriptor_eq
    ((((((((List.replicate 8 0).set 0 ENC_CMD_PS2DISC).set 1
      (((lba &&& 0xFF000000) >>> 0x18) % 256)).set 2
      (((lba &&& 0xFF0000) >>> 0x10) % 256)).set 3
      (((lba &&& 0xFF00) >>> 8) % 256)).set 4
      ((lba &&& 0xFF) % 256)).set 5
      (((area &&& 0xF) ||| (layer <<< 4)) % 256)))
    (rnd_byte E w.rand_calls) rfl
  have g0 : ∀ a b c d e : Nat,
      List.getD (((((((List.replicate 8 0).set 0 ENC_CMD_PS2DISC).set 1 a).set 2 b).set 3 c).set
        4 d).set 5 e) 0 0 = ENC_CMD_PS2DISC := fun _ _ _ _ _ => rfl
  have g1 : ∀ a b c d e : Nat,
      List.take 5 (List.drop 1 (((((((List.replicate 8 0).set 0 ENC_CMD_PS2DISC).set 1 a).set 2
        b).set 3 c).set 4 d).set 5 e)) = [a, b, c, d, e] := fun _ _ _ _ _ => rfl
  rw [g0, g1] at hd
  unfold sv_wm2_command_set
  simp only [des3_encrypt_cbc_8, generate_rnd_1, hd, ne_eq, not_true_eq_false, if_false]
  rw [show [((lba &&& 0xFF000000) >>> 0x18) % 256, ((lba &&& 0xFF0000) >>> 0x10) % 256,
    ((lba &&& 0xFF00) >>> 8) % 256, (lba &&& 0xFF) % 256,
    ((area &&& 0xF) ||| (layer <<< 4)) % 256] = wm2_params layer area lba from rfl]
  generalize des3_cbc_encrypt8 w.sv_auth.ks1 E.keys.ivs_3des
    (cmd_descriptor ENC_CMD_PS2DISC (wm2_params layer area lba) (rnd_byte E w.rand_calls)) = X
    at hl ⊢
  obtain ⟨x0, x1, x2, x3, x4, x5, x6, x7, rfl⟩ := list_length_8 X hl
  cases E.big_endian <;> simp [store32, store16, memcpy, memset]

theorem sv_getver_command_set_eq (E : Env) (w : World) :
    sv_getver_command_set E w =
      (0, { w with
        rand_calls := w.rand_calls + 1
        packet_buffer :=
          (store32 E.big_endian 0x80 ++ (store32 E.big_endian 0x80 ++ (List.replicate 8 0 ++
            (store16 E.big_endian 0xC0 ++ (store16 E.big_endian 0x64 ++ ([0xE0, 0, 0x54, 0] ++
            (des3_cbc_encrypt8 w.sv_auth.ks1 E.keys.ivs_3des
              (cmd_descriptor ENC_CMD_GETVER [0, 0, 0, 0, 0] (rnd_byte E w.rand_calls)) ++
            List.replicate 0x70 0))))))) ++ w.packet_buffer.drop 0x90 }) := by
  have hl := des3_cbc_encrypt8_length w.sv_auth.ks1 E.keys.ivs_3des
    (cmd_descriptor ENC_CMD_GETVER [0, 0, 0, 0, 0] (rnd_byte E w.rand_calls))
  have hd := descriptor_eq ((List.replicate 8 0).set 0 ENC_CMD_GETVER)
    (rnd_byte E w.rand_calls) rfl
  rw [show ((List.replicate 8 0).set 0 ENC_CMD_GETVER).getD 0 0 = ENC_CMD_GETVER from rfl,
    show ((((List.replicate 8 0).set 0 ENC_CMD_GETVER).drop 1).take 5 : List Nat) =
      [0, 0, 0, 0, 0] from rfl] at hd
  unfold sv_getver_command_set
  simp only [des3_encrypt_cbc_8, generate_rnd_1, hd, ne_eq, not_true_eq_false, if_false]
  generalize des3_cbc_encrypt8 w.sv_auth.ks1 E.keys.ivs_3des
    (cmd_descriptor ENC_CMD_GETVER [0, 0, 0, 0, 0] (rnd_byte E w.rand_calls)) = X at hl ⊢
  obtain ⟨x0, x1, x2, x3, x4, x5, x6, x7, rfl⟩ := list_length_8 X hl
  cases E.big_endian <;> simp [store32, store16, memcpy, memset]

theorem udata_arg_eq (up : List Nat) (r : Nat) (hu : up.length = 0x40) :
    ((memcpy (List.replicate 0x50 0) 4 up 0 USER_PARAM_SIZE).take 1 ++
        r :: List.drop 1 ((memcpy (List.replicate 0x50 0) 4 up 0 USER_PARAM_SIZE).drop 1)).set 0
      (generate_check_code
        (((memcpy (List.replicate 0x50 0) 4 up 0 USER_PARAM_SIZE).take 1 ++
          r :: List.drop 1 ((memcpy (List.replicate 0x50 0) 4 up 0 USER_PARAM_SIZE).drop 1)).drop
          1) 0x4F) = udata_arg up r := by
  have hm : memcpy (List.replicate 0x50 0) 4 up 0 USER_PARAM_SIZE =
      [0, 0, 0, 0] ++ (up ++ List.replicate 12 0) := by
    simp only [memcpy, USER_PARAM_SIZE, List.drop_zero]
    rw [List.take_of_length_le (Nat.le_of_eq hu)]
    rfl
  rw [hm]
  rfl

theorem sv_udata_command_set_bad_mode (E : Env) (w : World)
    (hm : sv_udata_user_param E.keys w.sv_auth.m_mode = none) :
    sv_udata_command_set E w = (-10, { w with rand_calls := w.rand_calls + 1 }) := by
  unfold sv_udata_command_set
  simp only [des3_encrypt_cbc_8, generate_rnd_1, hm, ne_eq, not_true_eq_false, if_false]

theorem sv_udata_command_set_eq (E : Env) (w : World) (up : List Nat)
    (hm : sv_udata_user_param E.keys w.sv_auth.m_mode = some up) (hu : up.length = 0x40) :
    sv_udata_command_set E w =
      (0, { w with
        rand_calls := w.rand_calls + 1 + 1
        packet_buffer :=
          (store32 E.big_endian 0x70 ++ (store32 E.big_endian 0x70 ++ (List.replicate 8 0 ++
            (store16 E.big_endian 0xA0 ++ (store16 E.big_endian 0x64 ++ ([0xE1, 0, 0x54, 0] ++
            (des3_cbc_encrypt8 w.sv_auth.ks1 E.keys.ivs_3des
              (cmd_descriptor ENC_CMD_USERDATA [0, 0, 0, 0, 0] (rnd_byte E w.rand_calls)) ++
            ([0, 0, 0, 0] ++ ([0, 0x50, 0, 0] ++
            (aes128_cbc_encrypt_buf w.sv_auth.ks1 E.keys.ivs_aes
              (udata_arg up (rnd_byte E (w.rand_calls + 1))) 0x50 ++
            List.replicate 0x18 0)))))))))) ++ w.packet_buffer.drop 0x90 }) := by
  have hl := des3_cbc_encrypt8_length w.sv_auth.ks1 E.keys.ivs_3des
    (cmd_descriptor ENC_CMD_USERDATA [0, 0, 0, 0, 0] (rnd_byte E w.rand_calls))
  have hy := aes128_cbc_encrypt_buf_length w.sv_auth.ks1 E.keys.ivs_aes
    (udata_arg up (rnd_byte E (w.rand_calls + 1))) 0x50 (by decide)
  have hd := descriptor_eq ((List.replicate 8 0).set 0 ENC_CMD_USERDATA)
    (rnd_byte E w.rand_calls) rfl
  rw [show ((List.replicate 8 0).set 0 ENC_CMD_USERDATA).getD 0 0 = ENC_CMD_USERDATA from rfl,
    show ((((List.replicate 8 0).set 0 ENC_CMD_USERDATA).drop 1).take 5 : List Nat) =
      [0, 0, 0, 0, 0] from rfl] at hd
  unfold sv_udata_command_set
  simp only [des3_encrypt_cbc_8, generate_rnd_1, hd, hm, udata_arg_eq up _ hu, ne_eq,
    not_true_eq_false, if_false]
  generalize des3_cbc_encrypt8 w.sv_auth.ks1 E.keys.ivs_3des
    (cmd_descriptor ENC_CMD_USERDATA [0, 0, 0, 0, 0] (rnd_byte E w.rand_calls)) = X at hl ⊢
  obtain ⟨x0, x1, x2, x3, x4, x5, x6, x7, rfl⟩ := list_length_8 X hl
  rw [aes_encrypt_cbc_buf _ _ _ _ 0x50 (by decide)
    (by cases E.big_endian <;> simp [store32, store16, memcpy])]
  simp only [ne_eq, not_true_eq_false, if_false]
  generalize aes128_cbc_encrypt_buf w.sv_auth.ks1 E.keys.ivs_aes
    (udata_arg up (rnd_byte E (w.rand_calls + 1))) 0x50 = Y at hy ⊢
  have e1 : ∀ l : List Nat, (Y ++ l).take 104 = Y ++ l.take 24 := by
    intro l
    rw [List.take_append_eq_append_take, hy, List.take_of_length_le (Nat.le_of_lt (by omega))]
  cases E.big_endian <;> simp [store32, store16, memcpy, e1]

theorem sv_getver_check_recved_data_eq (E : Env) (w : World) (version : List Nat) :
    sv_getver_check_recved_data E w version =
      if (version_plain E w).getD 0 0 ≠ generate_check_code ((version_plain E w).drop 1) 0x4F
      then (-10, version)
      else (0, memcpy version 0 (version_plain E w) 2 0x40) := by
  have hmem : memcpy (List.replicate 0x50 0) 0 w.packet_buffer 0x28 0x50 =
      (w.packet_buffer.drop 0x28).take 0x50 := by
    simp [memcpy]
  have h1 := aes_decrypt_cbc_fst w.sv_auth.ks1 E.keys.ivs_aes
    ((w.packet_buffer.drop 0x28).take 0x50) ((w.packet_buffer.drop 0x28).take 0x50) 0x50
    (by decide)
  have hfold : (aes_decrypt_cbc w.sv_auth.ks1 128 E.keys.ivs_aes
      ((w.packet_buffer.drop 0x28).take 0x50) ((w.packet_buffer.drop 0x28).take 0x50) 0x50).2 =
      version_plain E w := rfl
  simp only [sv_getver_check_recved_data, hmem, h1, hfold, ne_eq, not_true_eq_false, if_false]

theorem get_version_eq (E : Env) (w : World) (version : List Nat) :
    get_version E w version =
      if (sendrecv E (sv_getver_command_set E w).2).1 ≠ 0 then
        { status := -1, version := version, world := version_received E w }
      else if (version_plain E (version_received E w)).getD 0 0 ≠
          generate_check_code ((version_plain E (version_received E w)).drop 1) 0x4F then
        { status := -1, version := version, world := version_received E w }
      else
        { status := 0
          version := memcpy version 0 (version_plain E (version_received E w)) 2 0x40
          world := version_received E w } := by
  have hw : (sendrecv E (sv_getver_command_set E w).2).2 = version_received E w := rfl
  simp only [get_version, hw, sv_getver_check_recved_data_eq]
  split_ifs <;> first | rfl | simp_all

theorem sv_wm_command_check_recved_data_bad (E : Env) (w : World) (wm : List Nat)
    (hcc : (wm_plain E w).getD 0 0 ≠ generate_check_code ((wm_plain E w).drop 1) 0x2F) :
    sv_wm_command_check_recved_data E w wm = (-1, wm) := by
  have hmem : memcpy (List.replicate 0x30 0) 0 w.packet_buffer 0x28 0x30 =
      (w.packet_buffer.drop 0x28).take 0x30 := by
    simp [memcpy]
  have h1 := aes_decrypt_cbc_fst w.sv_auth.ks1 E.keys.ivs_aes
    ((w.packet_buffer.drop 0x28).take 0x30) ((w.packet_buffer.drop 0x28).take 0x30) 0x30
    (by decide)
  have hfold : (aes_decrypt_cbc w.sv_auth.ks1 128 E.keys.ivs_aes
      ((w.packet_buffer.drop 0x28).take 0x30) ((w.packet_buffer.drop 0x28).take 0x30) 0x30).2 =
      wm_plain E w := rfl
  simp only [sv_wm_command_check_recved_data, hmem, h1, hfold, ne_eq, not_true_eq_false,
    if_false]
  rw [if_pos hcc]

theorem get_wm3_fail (E : Env) (w : World) (contents_key misc_wm : List Nat) (disc_mode : Nat)
    (h : (sendrecv E (sv_wm_command_set E w).2).1 ≠ 0 ∨
      (wm_plain E (wm3_received E w)).getD 0 0 ≠
        generate_check_code ((wm_plain E (wm3_received E w)).drop 1) 0x2F) :
    get_wm3 E w contents_key misc_wm disc_mode =
      { status := -1, contents_key := contents_key, misc_wm := misc_wm,
        disc_mode := disc_mode, world := wm3_received E w } := by
  have hw : (sendrecv E (sv_wm_command_set E w).2).2 = wm3_received E w := rfl
  by_cases ht : (sendrecv E (sv_wm_command_set E w).2).1 = 0
  · rcases h with h | h
    · exact absurd ht h
    · simp only [get_wm3, ht, hw, sv_wm_command_check_recved_data_bad _ _ _ h, ne_eq,
        not_true_eq_false, if_false]
      rfl
  · simp only [get_wm3, hw, ne_eq]
    rw [if_pos ht]

theorem set_contents_key_eq (E : Env) (wd contents_key : List Nat) (disc_mode : Nat)
    (hw : wd.length = 16) (hc : contents_key.length = 16)
    (hm : E.keys.PS3_L_DEBUG_DISC.length = 16) (hi : E.keys.intikey.length = 16) :
    set_contents_key E wd contents_key disc_mode =
      if wd = E.keys.PS3_L_DEBUG_DISC then (0, E.keys.intikey, PS3_DISC_DEBUG_MODE)
      else (0, aes128_cbc_encrypt E.keys.Kh E.keys.IVh wd, PS3_DISC_RELEASE_MODE) := by
  have hcmp : memcmp_eq wd 0 E.keys.PS3_L_DEBUG_DISC 0 0x10 = decide (wd = E.keys.PS3_L_DEBUG_DISC) := by
    have t1 : wd.take 0x10 = wd := List.take_of_length_le (Nat.le_of_eq hw)
    have t2 : E.keys.PS3_L_DEBUG_DISC.take 0x10 = E.keys.PS3_L_DEBUG_DISC :=
      List.take_of_length_le (Nat.le_of_eq hm)
    simp only [memcmp_eq, List.drop_zero, t1, t2]
  have hd : contents_key.drop 0x10 = [] := List.drop_eq_nil_of_le (Nat.le_of_eq hc)
  simp only [set_contents_key, hcmp, aes_encrypt_cbc_16, hd, List.append_nil, memcpy_16 _ _ hc hi,
    decide_eq_true_eq, ne_eq, not_true_eq_false, if_false]

theorem get_disc_id_eq (E : Env) (misc_wm disc_id : List Nat) (hm : misc_wm.length = 16)
    (hd : disc_id.length = 16) :
    get_disc_id E misc_wm disc_id =
      (0, aes128_cbc_encrypt E.keys.Kdid E.keys.zero_iv (List.replicate 11 0 ++ misc_wm.drop 11))
    := by
  have hb : memcpy (List.replicate 0x10 0) 0xB misc_wm 0xB 5 =
      List.replicate 11 0 ++ misc_wm.drop 11 := by
    have t : (misc_wm.drop 0xB).take 5 = misc_wm.drop 0xB :=
      List.take_of_length_le (by rw [List.length_drop]; omega)
    simp only [memcpy, t]
    simp
  have hd0 : disc_id.drop 0x10 = [] := List.drop_eq_nil_of_le (Nat.le_of_eq hd)
  simp only [get_disc_id, hb, aes_encrypt_cbc_16, hd0, List.append_nil, ne_eq, not_true_eq_false,
    if_false]

theorem frame_descriptor_slice (be : Bool) (a b c : Nat) (cdb X tail rest : List Nat)
    (hc : cdb.length = 4) (hX : X.length = 8) :
    (((store32 be a ++ (store32 be a ++ (List.replicate 8 0 ++ (store16 be b ++
      (store16 be c ++ (cdb ++ (X ++ tail))))))) ++ rest).drop 0x18).take 8 = X := by
  obtain ⟨x0, x1, x2, x3, x4, x5, x6, x7, rfl⟩ := list_length_8 X hX
  match cdb, hc with
  | [c0, c1, c2, c3], _ => cases be <;> simp [store32, store16]

theorem rnd_byte_lt (E : Env) (n : Nat) : rnd_byte E n < 256 := by
  unfold rnd_byte
  exact Nat.lt_of_le_of_lt Nat.and_le_right (by decide)

theorem cmd_descriptor_layout (t r : Nat) (p : List Nat) (hp : p.length = 5) :
    (cmd_descriptor t p r).length = 8 ∧ (cmd_descriptor t p r).getD 0 0 = t ∧
    ((cmd_descriptor t p r).drop 1).take 5 = p ∧ (cmd_descriptor t p r).getD 6 0 = r ∧
    (cmd_descriptor t p r).getD 7 0 = generate_check_code ((cmd_descriptor t p r).take 7) 7 := by
  match p, hp with
  | [p0, p1, p2, p3, p4], _ => exact ⟨rfl, rfl, rfl, rfl, rfl⟩

theorem wm_descriptor_check_code (r : Nat) (hr : r < 256) :
    (cmd_descriptor ENC_CMD_PS3DISC [0, 0, 0, 0, 0] r).getD 7 0 = (252 + 256 - r) % 256 := by
  have h : (cmd_descriptor ENC_CMD_PS3DISC [0, 0, 0, 0, 0] r).getD 7 0 =
      generate_check_code [ENC_CMD_PS3DISC, 0, 0, 0, 0, 0, r] 7 := rfl
  rw [h, generate_check_code_eq]
  simp [ENC_CMD_PS3DISC]
  omega

theorem sv_udata_user_param_length (K : Keys) (hK : K.wf) (m : Nat) (up : List Nat)
    (h : sv_udata_user_param K m = some up) : up.length = 0x40 := by
  unfold sv_udata_user_param at h
  obtain ⟨_, h0, h1, h2, h3, h4, _⟩ := hK
  split_ifs at h <;> simp at h <;> subst h <;> assumption

theorem sv_udata_user_param_mapped (K : Keys) (m : Nat) :
    sv_udata_user_param K m ≠ none ↔ m ∈ [0, 1, 2, 3, 4, 12, 13, 14, 20] := by
  unfold sv_udata_user_param
  split_ifs <;> simp <;> omega

theorem udata_arg_layout (up : List Nat) (r : Nat) (hu : up.length = 0x40) :
    (udata_arg up r).length = 0x50 ∧ (udata_arg up r).getD 1 0 = r ∧
    ((udata_arg up r).drop 2).take 2 = [0, 0] ∧ ((udata_arg up r).drop 4).take 0x40 = up ∧
    (udata_arg up r).drop 0x44 = List.replicate 12 0 ∧
    (udata_arg up r).getD 0 0 = generate_check_code ((udata_arg up r).drop 1) 0x4F := by
  have e1 : ∀ l : List Nat, (up ++ l).take 0x40 = up := by
    intro l; rw [← hu]; exact List.take_left _ _
  have e2 : ∀ l : List Nat, (up ++ l).drop 0x40 = l := by
    intro l; rw [← hu]; exact List.drop_left _ _
  refine ⟨?_, rfl, rfl, ?_, ?_, rfl⟩
  · simp [udata_arg, hu]
  · exact e1 _
  · exact e2 _

theorem udata_frame_slices (be : Bool) (a b c : Nat) (cdb X Y tail rest : List Nat)
    (hc : cdb.length = 4) (hX : X.length = 8) (hY : Y.length = 0x50) :
    (((store32 be a ++ (store32 be a ++ (List.replicate 8 0 ++ (store16 be b ++
      (store16 be c ++ (cdb ++ (X ++ ([0, 0, 0, 0] ++ ([0, 0x50, 0, 0] ++
      (Y ++ tail)))))))))) ++ rest).drop 0x24).take 4 = [0, 0x50, 0, 0] ∧
    (((store32 be a ++ (store32 be a ++ (List.replicate 8 0 ++ (store16 be b ++
      (store16 be c ++ (cdb ++ (X ++ ([0, 0, 0, 0] ++ ([0, 0x50, 0, 0] ++
      (Y ++ tail)))))))))) ++ rest).drop 0x28).take 0x50 = Y := by
  have e1 : ∀ l : List Nat, (Y ++ l).take 0x50 = Y := by
    intro l; rw [← hY]; exact List.take_left _ _
  obtain ⟨x0, x1, x2, x3, x4, x5, x6, x7, rfl⟩ := list_length_8 X hX
  match cdb, hc with
  | [c0, c1, c2, c3], _ => cases be <;> simp [store32, store16, e1]

theorem key_frame_code (be : Bool) (a b c : Nat) (cdb mid hdr X tail rest : List Nat)
    (hc : cdb.length = 12) (hm : mid.length = 4) (hh : hdr.length = 4) (hX : X.length = 16) :
    ((store32 be a ++ (store32 be a ++ (List.replicate 8 0 ++ (store16 be b ++
      (store16 be c ++ (cdb ++ (mid ++ (hdr ++ (X ++ tail))))))))) ++ rest).getD 0x1E 0 =
      cdb.getD 10 0 := by
  obtain ⟨x0, x1, x2, x3, x4, x5, x6, x7, x8, x9, xa, xb, xc, xd, xe, xf, rfl⟩ :=
    list_length_16 X hX
  match cdb, hc, mid, hm, hdr, hh with
  | [c0, c1, c2, c3, c4, c5, c6, c7, c8, c9, ca, cb], _, [m0, m1, m2, m3], _,
    [h0, h1, h2, h3], _ => cases be <;> simp [store32, store16]

theorem key_frame_data (be : Bool) (a b c : Nat) (cdb mid hdr X tail rest : List Nat)
    (hc : cdb.length = 12) (hm : mid.length = 4) (hh : hdr.length = 4) (hX : X.length = 16) :
    (((store32 be a ++ (store32 be a ++ (List.replicate 8 0 ++ (store16 be b ++
      (store16 be c ++ (cdb ++ (mid ++ (hdr ++ (X ++ tail))))))))) ++ rest).drop 0x28).take
      0x10 = X := by
  obtain ⟨x0, x1, x2, x3, x4, x5, x6, x7, x8, x9, xa, xb, xc, xd, xe, xf, rfl⟩ :=
    list_length_16 X hX
  match cdb, hc, mid, hm, hdr, hh with
  | [c0, c1, c2, c3, c4, c5, c6, c7, c8, c9, ca, cb], _, [m0, m1, m2, m3], _,
    [h0, h1, h2, h3], _ => cases be <;> simp [store32, store16]

theorem sendrecv_open_calls (E : Env) (w : World) :
    (sendrecv E w).2.open_calls = w.open_calls + 1 := by
  unfold sendrecv
  simp only []
  split_ifs <;> try rfl
  all_goals (split <;> try rfl)
  all_goals (split_ifs <;> rfl)

theorem secure_opcodes :
    get_atp_io_params_by_opcode 0xE0 = some { pkt_len := 0xC, atp_proto := 1, direction := 1 } ∧
    get_atp_io_params_by_opcode 0xE1 = some { pkt_len := 0xC, atp_proto := 2, direction := 0 } := by
  decide

theorem set_user_parameter_status (E : Env) (w : World) :
    (set_user_parameter E w).1 = 0 ↔ (sendrecv E (sv_udata_command_set E w).2).1 = 0 := by
  have hne : (-1 : Int) ≠ 0 := by decide
  unfold set_user_parameter
  simp only []
  split_ifs with h
  · exact ⟨fun h' => absurd h' hne, fun h' => absurd h' h⟩
  · exact ⟨fun _ => not_not.mp h, fun _ => rfl⟩

theorem set_user_parameter_world (E : Env) (w : World) :
    (set_user_parameter E w).2 = (sendrecv E (sv_udata_command_set E w).2).2 := by
  unfold set_user_parameter
  simp only []
  split_ifs <;> rfl

theorem sv_report0_check_auth_mode (E : Env) (w : World) :
    (sv_report0_command_check_recved_data E w).2.sv_auth.m_auth_mode = w.sv_auth.m_auth_mode := by
  unfold sv_report0_command_check_recved_data
  simp only []
  split_ifs <;> rfl

theorem authenticate_common_codes (E : Env) (auth_mode allow_retry : Nat) (w : World) :
    (authenticate_common E auth_mode allow_retry w).1 = 0 ∨
    (authenticate_common E auth_mode allow_retry w).1 = -1 ∨
    ((authenticate_common E auth_mode allow_retry w).1 = -8 ∧ allow_retry = ALLOW_RETRY_YES) := by
  rw [authenticate_common_eq]
  split_ifs with c1 c2 c3 c4 c5 c6
  · exact Or.inr (Or.inl rfl)
  · exact Or.inr (Or.inl rfl)
  · exact Or.inr (Or.inl rfl)
  · exact Or.inr (Or.inl rfl)
  · exact Or.inr (Or.inr ⟨rfl, c6⟩)
  · exact Or.inr (Or.inl rfl)
  · exact Or.inr (Or.inl rfl)
  · exact Or.inl (sv_send2_command_check_recved_data_fst E _)

theorem authenticate_common_no_retry (E : Env) (auth_mode : Nat) (w : World) :
    (authenticate_common E auth_mode ALLOW_RETRY_NO w).1 = 0 ∨
    (authenticate_common E auth_mode ALLOW_RETRY_NO w).1 = -1 := by
  rcases authenticate_common_codes E auth_mode ALLOW_RETRY_NO w with h | h | ⟨_, h⟩
  · exact Or.inl h
  · exact Or.inr h
  · exact absurd h (by decide)

theorem auth_drive_super_codes (E : Env) (w : World) :
    (auth_drive_super E w).1 = 0 ∨ (auth_drive_super E w).1 = -1 := by
  rw [auth_drive_super_eq]
  split_ifs with h1 h2
  · exact authenticate_common_no_retry E _ _
  · rcases authenticate_common_codes E AUTH_MODE_SUPER ALLOW_RETRY_YES
      (set_fix (super_attempt1 E w).2 E.keys.fix1_it E.keys.fix2_it) with h | h | ⟨h, _⟩
    · exact Or.inl h
    · exact Or.inr h
    · exact absurd h h2
  · rcases authenticate_common_codes E AUTH_MODE_SUPER
      (if w.sv_auth.m_retry_flag = RETRY_FLAG_ALLOW then ALLOW_RETRY_YES else ALLOW_RETRY_NO)
      (set_fix w w.sv_auth.kf1_eid w.sv_auth.kf2_eid) with h | h | ⟨h, _⟩
    · exact Or.inl h
    · exact Or.inr h
    · exact absurd h h1

theorem auth_drive_user_eq (E : Env) (w : World) :
    (∀ k : List Nat × List Nat, auth_drive_user_keys E.keys w.sv_auth.m_mode = some k →
      auth_drive_user E w =
        authenticate_common E AUTH_MODE_USER ALLOW_RETRY_NO (set_fix w k.1 k.2)) ∧
    (auth_drive_user_keys E.keys w.sv_auth.m_mode = none → auth_drive_user E w = (-15, w)) := by
  constructor
  · intro k hk; simp only [auth_drive_user, hk]
  · intro hk; simp only [auth_drive_user, hk]

theorem auth_drive_user_codes (E : Env) (w : World) :
    ((auth_drive_user E w).1 = 0 ∨ (auth_drive_user E w).1 = -1 ∨
      (auth_drive_user E w).1 = -15) ∧
    ((auth_drive_user E w).1 = -15 ↔ auth_drive_user_keys E.keys w.sv_auth.m_mode = none) := by
  cases hk : auth_drive_user_keys E.keys w.sv_auth.m_mode with
  | none =>
    rw [(auth_drive_user_eq E w).2 hk]
    exact ⟨Or.inr (Or.inr rfl), fun _ => rfl, fun _ => rfl⟩
  | some k =>
    rw [(auth_drive_user_eq E w).1 k hk]
    rcases authenticate_common_no_retry E AUTH_MODE_USER (set_fix w k.1 k.2) with h | h
    · rw [h]; exact ⟨Or.inl rfl, fun h' => absurd h' (by decide), fun h' => by simp at h'⟩
    · rw [h]; exact ⟨Or.inr (Or.inl rfl), fun h' => absurd h' (by decide), fun h' => by simp at h'⟩

theorem authenticate_common_ks (E : Env) (auth_mode allow_retry : Nat) (w : World)
    (h : (authenticate_common E auth_mode allow_retry w).1 ≠ 0) :
    (authenticate_common E auth_mode allow_retry w).2.sv_auth.ks1 = w.sv_auth.ks1 ∧
    (authenticate_common E auth_mode allow_retry w).2.sv_auth.ks2 = w.sv_auth.ks2 := by
  have k0 : (auth_round0 E auth_mode w).2.sv_auth.ks1 = w.sv_auth.ks1 ∧
      (auth_round0 E auth_mode w).2.sv_auth.ks2 = w.sv_auth.ks2 := by
    simp only [auth_round0, sendrecv_sv_auth, sv_send0_command_set_sv_auth, auth_start, and_self]
  have k1 : (auth_round1 E auth_mode w).2.sv_auth.ks1 = w.sv_auth.ks1 ∧
      (auth_round1 E auth_mode w).2.sv_auth.ks2 = w.sv_auth.ks2 := by
    simp only [auth_round1, sendrecv_sv_auth, sv_report0_command_set_sv_auth, auth_round0,
      sv_send0_command_set_sv_auth, auth_start, and_self]
  have kc : (auth_check1 E auth_mode w).2.sv_auth.ks1 = w.sv_auth.ks1 ∧
      (auth_check1 E auth_mode w).2.sv_auth.ks2 = w.sv_auth.ks2 := by
    simp only [auth_check1, sv_report0_check_ks, auth_round1, sendrecv_sv_auth,
      sv_report0_command_set_sv_auth, auth_round0, sv_send0_command_set_sv_auth, auth_start,
      and_self]
  have k2 := auth_round2_ks E auth_mode w
  revert h
  rw [authenticate_common_eq]
  split_ifs with c1 c2 c3 c4 c5 c6
  · intro _; exact ⟨rfl, rfl⟩
  · intro _; exact ⟨rfl, rfl⟩
  · intro _; exact k0
  · intro _; exact k1
  · intro _; exact kc
  · intro _; exact kc
  · intro _; exact k2
  · intro h; exact absurd (sv_send2_command_check_recved_data_fst E _) h

theorem des3_encrypt_cbc_fst (key iv input output : List Nat) (len : Nat) (h : len % 8 = 0) :
    (des3_encrypt_cbc key iv input output len).1 = 0 := by
  have hi : (des3_set2key_enc des3_context_new key).1 = 0 := rfl
  simp [des3_encrypt_cbc, hi, des3_crypt_cbc, h]

theorem sv_send0_command_set_codes (E : Env) (w : World) :
    (sv_send0_command_set E w).1 = 0 ∨ (sv_send0_command_set E w).1 = -1 := by
  by_cases h : w.sv_auth.m_auth_mode = AUTH_MODE_SUPER ∨ w.sv_auth.m_auth_mode = AUTH_MODE_USER
  · rw [sv_send0_command_set_eq E w h]; exact Or.inl rfl
  · rw [sv_send0_command_set_bad_role E w (fun h' => h (Or.inl h')) (fun h' => h (Or.inr h'))]
    exact Or.inr rfl

theorem sv_report0_command_set_codes (E : Env) (w : World) :
    (sv_report0_command_set E w).1 = 0 ∨ (sv_report0_command_set E w).1 = -1 := by
  by_cases h : w.sv_auth.m_auth_mode = AUTH_MODE_SUPER ∨ w.sv_auth.m_auth_mode = AUTH_MODE_USER
  · rw [sv_report0_command_set_eq E w h]; exact Or.inl rfl
  · rw [sv_report0_command_set_bad_role E w (fun h' => h (Or.inl h')) (fun h' => h (Or.inr h'))]
    exact Or.inr rfl

theorem sv_send2_command_set_codes (E : Env) (w : World) :
    (sv_send2_command_set E w).1 = 0 ∨ (sv_send2_command_set E w).1 = -1 := by
  by_cases h : w.sv_auth.m_auth_mode = AUTH_MODE_SUPER ∨ w.sv_auth.m_auth_mode = AUTH_MODE_USER
  · rw [sv_send2_command_set_eq E w h]; exact Or.inl rfl
  · rw [sv_send2_command_set_bad_role E w (fun h' => h (Or.inl h')) (fun h' => h (Or.inr h'))]
    exact Or.inr rfl

theorem sv_udata_command_set_codes (E : Env) (w : World) :
    ((sv_udata_command_set E w).1 = 0 ∨ (sv_udata_command_set E w).1 = -10) ∧
    ((sv_udata_command_set E w).1 = -10 ↔ sv_udata_user_param E.keys w.sv_auth.m_mode = none) := by
  have hd := descriptor_eq ((List.replicate 8 0).set 0 ENC_CMD_USERDATA)
    (rnd_byte E w.rand_calls) rfl
  cases hm : sv_udata_user_param E.keys w.sv_auth.m_mode with
  | none =>
    rw [sv_udata_command_set_bad_mode E w hm]
    exact ⟨Or.inr rfl, fun _ => rfl, fun _ => rfl⟩
  | some up =>
    have h0 : (sv_udata_command_set E w).1 = 0 := by
      unfold sv_udata_command_set
      simp only [des3_encrypt_cbc_8, generate_rnd_1, hm, aes_encrypt_cbc_fst _ _ _ _ 0x50 rfl,
        ne_eq, not_true_eq_false, if_false]
    rw [h0]
    exact ⟨Or.inl rfl, fun h' => absurd h' (by decide), fun h' => by simp at h'⟩

theorem sv_wm_command_check_recved_data_codes (E : Env) (w : World) (wm : List Nat) :
    (sv_wm_command_check_recved_data E w wm).1 = 0 ∨
    (sv_wm_command_check_recved_data E w wm).1 = -1 := by
  have h1 := aes_decrypt_cbc_fst w.sv_auth.ks1 E.keys.ivs_aes
    (memcpy (List.replicate 0x30 0) 0 w.packet_buffer 0x28 0x30)
    (memcpy (List.replicate 0x30 0) 0 w.packet_buffer 0x28 0x30) 0x30 (by decide)
  simp only [sv_wm_command_check_recved_data, h1, aes_decrypt_cbc_16, ne_eq, not_true_eq_false,
    if_false]
  split_ifs <;> simp

theorem sv_wm2_command_check_recved_data_codes (E : Env) (w : World) (buf1 buf2 : List Nat) :
    (sv_wm2_command_check_recved_data E w buf1 buf2).1 = 0 ∨
    (sv_wm2_command_check_recved_data E w buf1 buf2).1 = -16 := by
  have h1 := aes_decrypt_cbc_fst w.sv_auth.ks1 E.keys.ivs_aes
    (memcpy (List.replicate 0x40 0) 0 w.packet_buffer 0x28 0x40)
    (memcpy (List.replicate 0x40 0) 0 w.packet_buffer 0x28 0x40) 0x40 (by decide)
  simp only [sv_wm2_command_check_recved_data, h1, aes_decrypt_cbc_16, ne_eq,
    not_true_eq_false, if_false]
  split_ifs <;> simp

theorem sv_getver_check_recved_data_codes (E : Env) (w : World) (version : List Nat) :
    (sv_getver_check_recved_data E w version).1 = 0 ∨
    (sv_getver_check_recved_data E w version).1 = -10 := by
  rw [sv_getver_check_recved_data_eq]
  split_ifs
  · exact Or.inr rfl
  · exact Or.inl rfl

theorem set_contents_key_fst (E : Env) (wd contents_key : List Nat) (disc_mode : Nat) :
    (set_contents_key E wd contents_key disc_mode).1 = 0 := by
  simp only [set_contents_key, aes_encrypt_cbc_16, ne_eq, not_true_eq_false, if_false]
  split_ifs <;> rfl

theorem set_misc_wm_fst (E : Env) (wd misc_wm : List Nat) :
    (set_misc_wm E wd misc_wm).1 = 0 := by
  simp only [set_misc_wm, aes_decrypt_cbc_16, ne_eq, not_true_eq_false, if_false]

theorem get_disc_id_fst (E : Env) (misc_wm disc_id : List Nat) :
    (get_disc_id E misc_wm disc_id).1 = 0 := by
  simp only [get_disc_id, aes_encrypt_cbc_16, ne_eq, not_true_eq_false, if_false]

theorem mode_tables (K : Keys) (m : Nat) :
    sv_udata_user_param K m = (spec_mode_index m).map K.user_param ∧
    auth_drive_user_keys K m = (spec_mode_index m).map K.Kf ∧
    (∀ k, spec_mode_index m = some k → k < 5) := by
  unfold sv_udata_user_param auth_drive_user_keys spec_mode_index
  split_ifs <;> simp [Keys.user_param, Keys.Kf]

theorem get_wm3_codes (E : Env) (w : World) (contents_key misc_wm : List Nat) (disc_mode : Nat) :
    (get_wm3 E w contents_key misc_wm disc_mode).status = 0 ∨
    (get_wm3 E w contents_key misc_wm disc_mode).status = -1 := by
  have hk := set_contents_key_fst E
  have hm := set_misc_wm_fst E
  simp only [get_wm3, hk, hm, ne_eq, not_true_eq_false, if_false]
  split_ifs <;> simp

theorem sendrecv_request_len (E : Env) (w : World) (atp : atp_io_params_t)
    (h1 : 0 ≤ E.open_fd w.open_calls)
    (h2 : get_atp_io_params_by_opcode (w.packet_buffer.getD 0x14 0) = some atp) :
    ∃ req : sg_request, (sendrecv E w).2.io_log = w.io_log ++ [req] ∧
      req.dxfer_len = (decoded_spu_cmd_size w.packet_buffer + 2 ^ 32 - 0x10) % 2 ^ 32 := by
  unfold sendrecv
  simp only [h2, not_lt.mpr h1, if_false]
  split_ifs <;> exact ⟨_, rfl, rfl⟩

theorem key_frame_size (be : Bool) (a b c x f : Nat) (tail rest : List Nat)
    (hc : c < 256) (hc16 : 0x10 ≤ c) (hx : x = c - 0x10) (op : Nat) :
    size_round_trip be
      ((store32 be a ++ (store32 be a ++ (List.replicate 8 0 ++ (store16 be b ++
        (store16 be c ++ ([op, 0, 0, 0, 0, 0, 0, 0xE0, 0, x, f, 0] ++ tail)))))) ++ rest)
      c 0x1C 0x1D := by
  subst hx
  have h8 : c >>> 8 = 0 := by rw [Nat.shiftRight_eq_div_pow]; omega
  cases be <;> simp [size_round_trip, decoded_spu_cmd_size, store32, store16, h8] <;> omega

theorem secure_frame_size (be : Bool) (a b c x : Nat) (tail rest : List Nat)
    (hc : c < 256) (hc16 : 0x10 ≤ c) (hx : x = c - 0x10) (op : Nat) :
    size_round_trip be
      ((store32 be a ++ (store32 be a ++ (List.replicate 8 0 ++ (store16 be b ++
        (store16 be c ++ ([op, 0, x, 0] ++ tail)))))) ++ rest)
      c 0x15 0x16 := by
  subst hx
  have h8 : c >>> 8 = 0 := by rw [Nat.shiftRight_eq_div_pow]; omega
  cases be <;> simp [size_round_trip, decoded_spu_cmd_size, store32, store16, h8] <;> omega

theorem and_shiftRight_distrib (a b i : Nat) : (a &&& b) >>> i = (a >>> i) &&& (b >>> i) := by
  apply Nat.eq_of_testBit_eq
  intro j
  simp only [Nat.testBit_shiftRight, Nat.testBit_and]

theorem wm2_params_lba (layer area lba : Nat) (hl : lba < 2 ^ 32) :
    (wm2_params layer area lba).getD 0 0 * 2 ^ 24 + (wm2_params layer area lba).getD 1 0 * 2 ^ 16 +
      (wm2_params layer area lba).getD 2 0 * 2 ^ 8 + (wm2_params layer area lba).getD 3 0 = lba ∧
    (wm2_params layer area lba).take 4 =
      [lba / 2 ^ 24 % 256, lba / 2 ^ 16 % 256, lba / 2 ^ 8 % 256, lba % 256] := by
  have m : ∀ x : Nat, x &&& 0xFF = x % 256 := fun x => Nat.and_pow_two_sub_one_eq_mod x 8
  have e1 : (lba &&& 0xFF000000) >>> 0x18 = lba / 2 ^ 24 % 256 := by
    rw [and_shiftRight_distrib, show (0xFF000000 : Nat) >>> 0x18 = 0xFF from rfl, m,
      Nat.shiftRight_eq_div_pow]
  have e2 : (lba &&& 0xFF0000) >>> 0x10 = lba / 2 ^ 16 % 256 := by
    rw [and_shiftRight_distrib, show (0xFF0000 : Nat) >>> 0x10 = 0xFF from rfl, m,
      Nat.shiftRight_eq_div_pow]
  have e3 : (lba &&& 0xFF00) >>> 8 = lba / 2 ^ 8 % 256 := by
    rw [and_shiftRight_distrib, show (0xFF00 : Nat) >>> 8 = 0xFF from rfl, m,
      Nat.shiftRight_eq_div_pow]
  have e4 : lba &&& 0xFF = lba % 256 := m lba
  simp only [wm2_params, List.getD_cons_zero, List.getD_cons_succ, e1, e2, e3, e4, List.take,
    Nat.mod_mod]
  refine ⟨?_, trivial⟩
  norm_num at hl ⊢
  omega

theorem wm2_params_nibbles (layer area lba : Nat) :
    (wm2_params layer area lba).getD 4 0 = 16 * (layer % 16) + area % 16 := by
  have e1 : area &&& 0xF = area % 16 := Nat.and_pow_two_sub_one_eq_mod area 4
  have e2 : layer <<< 4 = 2 ^ 4 * layer := by rw [Nat.shiftLeft_eq, Nat.mul_comm]
  have e3 : (area % 16) ||| (2 ^ 4 * layer) = 2 ^ 4 * layer + area % 16 := by
    rw [Nat.lor_comm]
    exact (Nat.mul_add_lt_is_or (Nat.mod_lt _ (by norm_num)) layer).symm
  simp only [wm2_params, List.getD_cons_zero, List.getD_cons_succ, e1, e2, e3]
  omega

theorem xor_block_cancel (a b : List Nat) (ha : a.length = 16) :
    xor_block (xor_block a b) b = a := by
  obtain ⟨a0, a1, a2, a3, a4, a5, a6, a7, a8, a9, a10, a11, a12, a13, a14, a15, rfl⟩ :=
    list_length_16 a ha
  simp [xor_block, AES_BLOCK_SIZE, List.range, List.range.loop, Nat.xor_assoc]

theorem ecb_inverts_on_of_forall (ectx dctx : aes_context_t) (p : List Nat)
    (h : ∀ x : List Nat, aes_crypt_ecb dctx (aes_crypt_ecb ectx x) = x) (n off : Nat)
    (iv : List Nat) : ecb_inverts_on ectx dctx p n off iv = true := by
  induction n generalizing off iv with
  | zero => rfl
  | succ n ih => simp [ecb_inverts_on, h, ih]

/-- CBC decryption of the blocks CBC encryption produced gives the plaintext back, when the
block cipher is inverted on the blocks met. -/
theorem aes_cbc_blocks_round_trip (ectx dctx : aes_context_t) (he : ectx.mode ≠ AES_DECRYPT)
    (hd : dctx.mode = AES_DECRYPT) (p : List Nat) (n off : Nat) (iv pre suf : List Nat)
    (hp : off + 16 * n ≤ p.length) (hpre : pre.length = off)
    (H : ecb_inverts_on ectx dctx p n off iv = true) :
    aes_cbc_blocks dctx (pre ++ (aes_cbc_blocks ectx p n off iv ++ suf)) n off iv =
      (p.drop off).take (16 * n) := by
  induction n generalizing off iv pre with
  | zero => simp [aes_cbc_blocks]
  | succ n ih =>
    simp only [ecb_inverts_on, Bool.and_eq_true, decide_eq_true_eq, AES_BLOCK_SIZE] at H
    obtain ⟨H0, H1⟩ := H
    have hP : ((p.drop off).take 16).length = 16 := by
      rw [List.length_take, List.length_drop]; omega
    have hC := aes_crypt_ecb_length ectx (xor_block ((p.drop off).take 16) iv)
    have e1 : aes_cbc_blocks ectx p (n + 1) off iv =
        aes_crypt_ecb ectx (xor_block ((p.drop off).take 16) iv) ++
          aes_cbc_blocks ectx p n (off + 16)
            (aes_crypt_ecb ectx (xor_block ((p.drop off).take 16) iv)) := by
      rw [aes_cbc_blocks, if_neg he]
      simp only [AES_BLOCK_SIZE]
      rw [List.take_of_length_le (Nat.le_of_eq hC)]
    rw [e1]
    generalize aes_crypt_ecb ectx (xor_block ((p.drop off).take 16) iv) = C at H0 H1 hC ⊢
    have hin : ((pre ++ (C ++ aes_cbc_blocks ectx p n (off + 16) C ++ suf)).drop off).take 16 =
        C := by
      rw [List.drop_append_of_le_length (Nat.le_of_eq hpre.symm), ← hpre, List.drop_length,
        List.nil_append, List.append_assoc, List.take_append_of_le_length (Nat.le_of_eq hC.symm),
        List.take_of_length_le (Nat.le_of_eq hC)]
    rw [aes_cbc_blocks, if_pos hd]
    simp only [AES_BLOCK_SIZE]
    rw [hin, H0, xor_block_cancel _ _ hP]
    have hre : pre ++ (C ++ aes_cbc_blocks ectx p n (off + 16) C ++ suf) =
        (pre ++ C) ++ (aes_cbc_blocks ectx p n (off + 16) C ++ suf) := by
      simp only [List.append_assoc]
    rw [hre, ih (off + 16) C (pre ++ C) (by omega) (by rw [List.length_append, hpre, hC]) H1]
    rw [show 16 * (n + 1) = 16 + 16 * n from by omega, List.take_add, List.drop_drop]

theorem aes_encrypt_cbc_blocks (key iv input output : List Nat) (len : Nat) (h : len % 16 = 0)
    (hl : len ≤ output.length) :
    aes_encrypt_cbc key 128 iv input output len =
      (0, aes_cbc_blocks (aes_init aes_context_new AES_ENCRYPT key 128).2 input (len / 16) 0
        (memcpy (List.replicate AES_BLOCK_SIZE 0) 0 iv 0 AES_BLOCK_SIZE) ++ output.drop len) := by
  have hi : (aes_init aes_context_new AES_ENCRYPT key 128).1 = 0 := by
    simp [aes_init, AES_ENCRYPT, AES_DECRYPT, aes_rounds]
  have hd : 16 * (len / 16) = len := by omega
  simp only [aes_encrypt_cbc, hi, aes_crypt_cbc, AES_BLOCK_SIZE, h, ne_eq, not_true_eq_false,
    if_false]
  rw [aes_crypt_cbc_loop_snd _ _ _ _ _ _ (by omega)]
  simp only [List.take_zero, List.nil_append, Nat.zero_add, hd]

theorem aes_decrypt_cbc_blocks (key iv input output : List Nat) (len : Nat) (h : len % 16 = 0)
    (hl : len ≤ output.length) :
    aes_decrypt_cbc key 128 iv input output len =
      (0, aes_cbc_blocks (aes_init aes_context_new AES_DECRYPT key 128).2 input (len / 16) 0
        (memcpy (List.replicate AES_BLOCK_SIZE 0) 0 iv 0 AES_BLOCK_SIZE) ++ output.drop len) := by
  have hi : (aes_init aes_context_new AES_DECRYPT key 128).1 = 0 := by
    simp [aes_init, AES_ENCRYPT, AES_DECRYPT, aes_rounds]
  have hd : 16 * (len / 16) = len := by omega
  simp only [aes_decrypt_cbc, hi, aes_crypt_cbc, AES_BLOCK_SIZE, h, ne_eq, not_true_eq_false,
    if_false]
  rw [aes_crypt_cbc_loop_snd _ _ _ _ _ _ (by omega)]
  simp only [List.take_zero, List.nil_append, Nat.zero_add, hd]

theorem aes_init_mode (key : List Nat) :
    (aes_init aes_context_new AES_ENCRYPT key 128).2.mode ≠ AES_DECRYPT ∧
    (aes_init aes_context_new AES_DECRYPT key 128).2.mode = AES_DECRYPT := by
  constructor
  · simp [aes_init, AES_ENCRYPT, AES_DECRYPT, aes_rounds]
  · simp [aes_init, AES_ENCRYPT, AES_DECRYPT, aes_rounds]

theorem frame_opcode (be : Bool) (a b c : Nat) (cdb tail rest : List Nat) (hne : cdb ≠ []) :
    ((store32 be a ++ (store32 be a ++ (List.replicate 8 0 ++ (store16 be b ++
      (store16 be c ++ (cdb ++ tail)))))) ++ rest).getD 0x14 0 = cdb.getD 0 0 := by
  match cdb, hne with
  | c0 :: t, _ => cases be <;> simp [store32, store16]

theorem key_opcodes :
    get_atp_io_params_by_opcode 0xA3 = some { pkt_len := 0xC, atp_proto := 2, direction := 0 } ∧
    get_atp_io_params_by_opcode 0xA4 = some { pkt_len := 0xC, atp_proto := 1, direction := 1 } := by
  decide

/-- The transfer length `sendrecv` derives from a frame whose size field was stored
natively. -/
theorem frame_transfer (E : Env) (w : World) (size hi lo : Nat) (atp : atp_io_params_t)
    (hs : size_round_trip E.big_endian w.packet_buffer size hi lo)
    (hopen : 0 ≤ E.open_fd w.open_calls)
    (hop : get_atp_io_params_by_opcode (w.packet_buffer.getD 0x14 0) = some atp)
    (h16 : 0x10 ≤ size) (hlt : size < 256) :
    sends_with_length E w (if E.big_endian then size - 0x10 else size * 256 - 0x10) := by
  obtain ⟨req, h1, h2⟩ := sendrecv_request_len E w atp hopen hop
  refine ⟨req, h1, ?_⟩
  rw [h2, hs.1]
  cases E.big_endian
  · simp only [Bool.false_eq_true, if_false]
    omega
  · simp only [if_true]
    omega

/-- A call of `authenticate_common` that passes the zero-key check leaves in `m_rand1` the
sixteen bytes drawn at the call, whatever its outcome. -/
theorem authenticate_common_nonce (E : Env) (auth_mode allow_retry : Nat) (w : World)
    (hw : w.sv_auth.wf)
    (hz1 : w.sv_auth.fix1 ≠ List.replicate 16 0) (hz2 : w.sv_auth.fix2 ≠ List.replicate 16 0) :
    (authenticate_common E auth_mode allow_retry w).2.sv_auth.m_rand1 =
      generate_rnd_buffer E w.rand_calls 0x10 ∧
    (authenticate_common E auth_mode allow_retry w).2.rand_calls = w.rand_calls + 16 := by
  have h0 := auth_round0_sv_auth E auth_mode w hw.2.2.2.2.1
  have h1 := auth_round1_sv_auth E auth_mode w hw.2.2.2.2.1
  obtain ⟨x, _, h2⟩ := auth_check1_sv_auth E auth_mode w hw
  have h3 := auth_round2_sv_auth E auth_mode w
  rw [authenticate_common_rounds E auth_mode allow_retry w hw.2.2.1 hw.2.2.2.1 hz1 hz2]
  split_ifs
  · exact ⟨by rw [h0], auth_round0_rand_calls E auth_mode w⟩
  · exact ⟨by rw [h1], auth_round1_rand_calls E auth_mode w⟩
  · exact ⟨by rw [h2], auth_check1_rand_calls E auth_mode w⟩
  · exact ⟨by rw [h2], auth_check1_rand_calls E auth_mode w⟩
  · exact ⟨by rw [h3, h2], auth_round2_rand_calls E auth_mode w⟩
  · rw [sv_send2_command_check_recved_data_raw]
    exact ⟨by show (auth_round2 E auth_mode w).2.sv_auth.m_rand1 = _; rw [h3, h2],
      auth_round2_rand_calls E auth_mode w⟩

theorem send0_nonce_field_eq (E : Env) (auth_mode : Nat) (w : World)
    (h : auth_mode = AUTH_MODE_SUPER ∨ auth_mode = AUTH_MODE_USER)
    (h1 : w.sv_auth.m_rand1.length = 16) :
    send0_nonce_field E auth_mode w =
      aes128_cbc_encrypt w.sv_auth.fix1 E.keys.giv (generate_rnd_buffer E w.rand_calls 0x10) ∧
    (sv_send0_command_set E (auth_start auth_mode w)).2.sv_auth.m_rand1 =
      generate_rnd_buffer E w.rand_calls 0x10 := by
  have g := generate_rnd_16 E w.rand_calls w.sv_auth.m_rand1 h1
  constructor
  · unfold send0_nonce_field
    rw [sv_send0_command_set_eq E (auth_start auth_mode w) h]
    have g' : (generate_rnd E (auth_start auth_mode w).rand_calls
        (auth_start auth_mode w).sv_auth.m_rand1 0x10).1 =
        generate_rnd_buffer E w.rand_calls 0x10 := g
    rw [g']
    exact key_frame_data _ _ _ _ _ _ _ _ _ _ rfl rfl rfl (aes128_cbc_encrypt_length _ _ _)
  · rw [sv_send0_command_set_sv_auth]
    exact g

/-- One attempt of a cascade: the pair `(k1, k2)` is loaded and `authenticate_common` runs.
The attempt draws the sixteen bytes at `w.rand_calls`, encrypts them in its send0 frame
and leaves them in `m_rand1`. -/
theorem attempt_nonce (E : Env) (auth_mode allow_retry : Nat) (w : World) (k1 k2 : List Nat)
    (hw : w.sv_auth.wf) (h1 : k1.length = 16) (h2 : k2.length = 16)
    (hz1 : k1 ≠ List.replicate 16 0) (hz2 : k2 ≠ List.replicate 16 0)
    (hr : auth_mode = AUTH_MODE_SUPER ∨ auth_mode = AUTH_MODE_USER) :
    (authenticate_common E auth_mode allow_retry (set_fix w k1 k2)).2.sv_auth.m_rand1 =
      generate_rnd_buffer E w.rand_calls 0x10 ∧
    (authenticate_common E auth_mode allow_retry (set_fix w k1 k2)).2.rand_calls =
      w.rand_calls + 16 ∧
    (authenticate_common E auth_mode allow_retry (set_fix w k1 k2)).2.sv_auth.wf ∧
    send0_nonce_field E auth_mode (set_fix w k1 k2) =
      aes128_cbc_encrypt k1 E.keys.giv (generate_rnd_buffer E w.rand_calls 0x10) := by
  have hs := set_fix_wf w k1 k2 hw h1 h2
  have he := set_fix_eq w k1 k2 hw h1 h2
  have f1 : (set_fix w k1 k2).sv_auth.fix1 = k1 := by rw [he]; rfl
  have f2 : (set_fix w k1 k2).sv_auth.fix2 = k2 := by rw [he]; rfl
  have rc : (set_fix w k1 k2).rand_calls = w.rand_calls := rfl
  have n := authenticate_common_nonce E auth_mode allow_retry (set_fix w k1 k2) hs
    (by rw [f1]; exact hz1) (by rw [f2]; exact hz2)
  have s := (send0_nonce_field_eq E auth_mode (set_fix w k1 k2) hr hs.2.2.2.2.1).1
  rw [rc] at n
  rw [rc, f1] at s
  exact ⟨n.1, n.2, (authenticate_common_spec E _ _ _ hs).2.1, s⟩

/-- An attempt of the cascade made after an attempt that ended in -8: its draw starts
sixteen calls after the draw of that attempt. -/
theorem attempt_after_retry (E : Env) (ar ar' : Nat) (w : World) (k1 k2 : List Nat)
    (hw : w.sv_auth.wf) (h1 : k1.length = 16) (h2 : k2.length = 16)
    (hz1 : k1 ≠ List.replicate 16 0) (hz2 : k2 ≠ List.replicate 16 0)
    (hres : (authenticate_common E AUTH_MODE_SUPER ar w).1 = -8) :
    (authenticate_common E AUTH_MODE_SUPER ar'
      (set_fix (authenticate_common E AUTH_MODE_SUPER ar w).2 k1 k2)).2.sv_auth.m_rand1 =
      generate_rnd_buffer E (w.rand_calls + 16) 0x10 ∧
    (authenticate_common E AUTH_MODE_SUPER ar'
      (set_fix (authenticate_common E AUTH_MODE_SUPER ar w).2 k1 k2)).2.rand_calls =
      w.rand_calls + 16 + 16 ∧
    send0_nonce_field E AUTH_MODE_SUPER
        (set_fix (authenticate_common E AUTH_MODE_SUPER ar w).2 k1 k2) =
      aes128_cbc_encrypt k1 E.keys.giv (generate_rnd_buffer E (w.rand_calls + 16) 0x10) := by
  have s := authenticate_common_spec E AUTH_MODE_SUPER ar w hw
  have q := (s.2.2.2.2.1 hres).1
  have a := attempt_nonce E AUTH_MODE_SUPER ar' (authenticate_common E AUTH_MODE_SUPER ar w).2
    k1 k2 s.2.1 h1 h2 hz1 hz2 (Or.inl rfl)
  rw [q] at a
  exact ⟨a.1, a.2.1, a.2.2.2⟩
/-! ## The claims -/

/-- C1. End-to-end success of `authenticate_common`: for every role and retry policy
and every non-zero challenge pair, when the three exchanges succeed and the report0
response holds at 0x28..0x38 the encryption (key `fix2`, IV `giv`) of the fresh
`m_rand1` and at 0x38..0x48 the encryption of a sixteen-byte `r2` different from
`m_rand1`, then `authenticate_common` returns 0 with `m_rand2 = r2`, and `ks1`, `ks2`
are the keys `sv_send2_command_check_recved_data` derives from `(m_rand1, r2)`. The
hypothesis on the cipher is that decryption under `fix2` and `giv` gives back the
two blocks encrypted under them. -/
theorem C1_end_to_end_success (E : Env) (auth_mode allow_retry : Nat) (w : World)
    (r2 : List Nat) (hw : w.sv_auth.wf) (hr : r2.length = 16)
    (hz1 : w.sv_auth.fix1 ≠ List.replicate 16 0) (hz2 : w.sv_auth.fix2 ≠ List.replicate 16 0)
    (h0 : (auth_round0 E auth_mode w).1 = 0) (h1 : (auth_round1 E auth_mode w).1 = 0)
    (h2 : (auth_round2 E auth_mode w).1 = 0)
    (hecho : ((auth_round1 E auth_mode w).2.packet_buffer.drop 0x28).take 0x10 =
      aes128_cbc_encrypt w.sv_auth.fix2 E.keys.giv (generate_rnd_buffer E w.rand_calls 0x10))
    (hdrive : ((auth_round1 E auth_mode w).2.packet_buffer.drop 0x38).take 0x10 =
      aes128_cbc_encrypt w.sv_auth.fix2 E.keys.giv r2)
    (hne : r2 ≠ generate_rnd_buffer E w.rand_calls 0x10)
    (hinv1 : aes128_cbc_decrypt w.sv_auth.fix2 E.keys.giv
      (aes128_cbc_encrypt w.sv_auth.fix2 E.keys.giv (generate_rnd_buffer E w.rand_calls 0x10)) =
        generate_rnd_buffer E w.rand_calls 0x10)
    (hinv2 : aes128_cbc_decrypt w.sv_auth.fix2 E.keys.giv
      (aes128_cbc_encrypt w.sv_auth.fix2 E.keys.giv r2) = r2) :
    (authenticate_common E auth_mode allow_retry w).1 = 0 ∧
    (authenticate_common E auth_mode allow_retry w).2.sv_auth.m_rand1 =
      generate_rnd_buffer E w.rand_calls 0x10 ∧
    (authenticate_common E auth_mode allow_retry w).2.sv_auth.m_rand2 = r2 ∧
    (authenticate_common E auth_mode allow_retry w).2.sv_auth.ks1 =
      aes128_cbc_encrypt E.keys.kms1 E.keys.giv
        ((generate_rnd_buffer E w.rand_calls 0x10).take 8 ++ r2.drop 8) ∧
    (authenticate_common E auth_mode allow_retry w).2.sv_auth.ks2 =
      aes128_cbc_encrypt E.keys.kms2 E.keys.giv
        ((generate_rnd_buffer E w.rand_calls 0x10).drop 8 ++ r2.take 8) ∧
    (∀ v : World, v.sv_auth.wf →
      v.sv_auth.m_rand1 = generate_rnd_buffer E w.rand_calls 0x10 → v.sv_auth.m_rand2 = r2 →
      (sv_send2_command_check_recved_data E v).2.sv_auth.ks1 =
        (authenticate_common E auth_mode allow_retry w).2.sv_auth.ks1 ∧
      (sv_send2_command_check_recved_data E v).2.sv_auth.ks2 =
        (authenticate_common E auth_mode allow_retry w).2.sv_auth.ks2) := by
  obtain ⟨he1, he2, hf1, hf2, hr1, hr2, hk1, hk2⟩ := hw
  have hR := authenticate_common_rounds E auth_mode allow_retry w hf1 hf2 hz1 hz2
  have hs := auth_round1_sv_auth E auth_mode w hr1
  have hc : auth_check1 E auth_mode w =
      (0, { (auth_round1 E auth_mode w).2 with sv_auth :=
        { (auth_round1 E auth_mode w).2.sv_auth with m_rand2 := r2 } }) := by
    rw [auth_check1, sv_report0_command_check_recved_data_eq E _ (by simp [hs, generate_rnd_buffer])
      (by simp [hs, hr2])]
    simp [hs, hecho, hdrive, hinv1, hinv2, Ne.symm hne]
  have hs2 : (auth_round2 E auth_mode w).2.sv_auth =
      { w.sv_auth with m_auth_mode := auth_mode,
                       m_rand1 := generate_rnd_buffer E w.rand_calls 0x10,
                       m_rand2 := r2 } := by
    simp only [auth_round2, sendrecv_sv_auth, sv_send2_command_set_sv_auth, hc, hs]
  have hwf2 : (auth_round2 E auth_mode w).2.sv_auth.wf := by
    rw [hs2]
    exact ⟨he1, he2, hf1, hf2, generate_rnd_buffer_length E _ _, hr, hk1, hk2⟩
  have e : authenticate_common E auth_mode allow_retry w =
      sv_send2_command_check_recved_data E (auth_round2 E auth_mode w).2 := by
    rw [hR]; simp [h0, h1, h2, hc]
  rw [e, sv_send2_command_check_recved_data_eq E _ hwf2]
  refine ⟨rfl, by simp [hs2], by simp [hs2], by simp [hs2], by simp [hs2], ?_⟩
  intro v hv hv1 hv2
  rw [sv_send2_command_check_recved_data_eq E v hv]
  simp [hs2, hv1, hv2]

set_option maxRecDepth 1000000 in
/-- Witness of C1: the compliant test drive. -/
theorem C1_end_to_end_success_witness :
    test_world_keys.sv_auth.wf ∧
    (auth_round0 honest_env AUTH_MODE_SUPER test_world_keys).1 = 0 ∧
    (auth_round1 honest_env AUTH_MODE_SUPER test_world_keys).1 = 0 ∧
    (auth_round2 honest_env AUTH_MODE_SUPER test_world_keys).1 = 0 ∧
    test_block 0xD0 ≠ generate_rnd_buffer honest_env test_world_keys.rand_calls 0x10 ∧
    (authenticate_common honest_env AUTH_MODE_SUPER ALLOW_RETRY_YES test_world_keys).1 = 0 ∧
    (authenticate_common honest_env AUTH_MODE_SUPER ALLOW_RETRY_YES
      test_world_keys).2.sv_auth.m_rand2 = test_block 0xD0 :=
  have hw : test_world_keys.sv_auth.wf := by decide
  have h0 : (auth_round0 honest_env AUTH_MODE_SUPER test_world_keys).1 = 0 := by decide
  have h1 : (auth_round1 honest_env AUTH_MODE_SUPER test_world_keys).1 = 0 := by decide
  have h2 : (auth_round2 honest_env AUTH_MODE_SUPER test_world_keys).1 = 0 := by decide
  have hne : test_block 0xD0 ≠ generate_rnd_buffer honest_env test_world_keys.rand_calls 0x10 := by
    decide
  have h := C1_end_to_end_success honest_env AUTH_MODE_SUPER ALLOW_RETRY_YES test_world_keys
    (test_block 0xD0) hw (by decide) (by decide) (by decide) h0 h1 h2 (by decide) (by decide)
    hne (by decide) (by decide)
  ⟨hw, h0, h1, h2, hne, h.1, h.2.2.1⟩

/-- C2. Session-key derivation: on a well-formed session,
`sv_send2_command_check_recved_data` returns 0 and changes nothing but `ks1` and
`ks2`, which become the AES-128-CBC encryptions, under `kms1` resp. `kms2` with IV
`giv`, of `m_rand1[0..8] ‖ m_rand2[8..16]` resp. `m_rand1[8..16] ‖ m_rand2[0..8]`. -/
theorem C2_session_key_derivation (E : Env) (w : World) (hw : w.sv_auth.wf) :
    sv_send2_command_check_recved_data E w =
      (0, { w with sv_auth := { w.sv_auth with
        ks1 := aes128_cbc_encrypt E.keys.kms1 E.keys.giv
          (w.sv_auth.m_rand1.take 8 ++ w.sv_auth.m_rand2.drop 8)
        ks2 := aes128_cbc_encrypt E.keys.kms2 E.keys.giv
          (w.sv_auth.m_rand1.drop 8 ++ w.sv_auth.m_rand2.take 8) } }) := by
  exact sv_send2_command_check_recved_data_eq E w hw

/-- Witness of C2 on the test session. -/
theorem C2_session_key_derivation_witness :
    test_world.sv_auth.wf ∧
    sv_send2_command_check_recved_data test_env test_world =
      (0, { test_world with sv_auth := { test_world.sv_auth with
        ks1 := aes128_cbc_encrypt test_env.keys.kms1 test_env.keys.giv
          (test_world.sv_auth.m_rand1.take 8 ++ test_world.sv_auth.m_rand2.drop 8)
        ks2 := aes128_cbc_encrypt test_env.keys.kms2 test_env.keys.giv
          (test_world.sv_auth.m_rand1.drop 8 ++ test_world.sv_auth.m_rand2.take 8) } }) :=
  ⟨by decide, C2_session_key_derivation test_env test_world (by decide)⟩

/-- C3. Echo mismatch outcome: with a non-zero challenge pair, when the send0 and
report0 exchanges succeed and response bytes 0x28..0x38, decrypted with `fix2` and
`giv`, differ from the fresh `m_rand1`, `authenticate_common` returns -8 if
`allow_retry` is `ALLOW_RETRY_YES` and -1 otherwise. It stops in the state the
report0 exchange left: exactly two requests were submitted and no send2 frame has
been written to `packet_buffer`. -/
theorem C3_echo_mismatch_outcome (E : Env) (auth_mode allow_retry : Nat) (w : World)
    (hw : w.sv_auth.wf) (hz1 : w.sv_auth.fix1 ≠ List.replicate 16 0)
    (hz2 : w.sv_auth.fix2 ≠ List.replicate 16 0)
    (h0 : (auth_round0 E auth_mode w).1 = 0) (h1 : (auth_round1 E auth_mode w).1 = 0)
    (hmis : aes128_cbc_decrypt w.sv_auth.fix2 E.keys.giv
      (((auth_round1 E auth_mode w).2.packet_buffer.drop 0x28).take 0x10) ≠
        generate_rnd_buffer E w.rand_calls 0x10) :
    authenticate_common E auth_mode allow_retry w =
      (if allow_retry = ALLOW_RETRY_YES then -8 else -1, (auth_round1 E auth_mode w).2) ∧
    (auth_round1 E auth_mode w).2.sv_auth.m_rand1 = generate_rnd_buffer E w.rand_calls 0x10 ∧
    (authenticate_common E auth_mode allow_retry w).2.io_log.length = w.io_log.length + 2 := by
  obtain ⟨_, _, hf1, hf2, hr1, hr2, _, _⟩ := hw
  have hR := authenticate_common_rounds E auth_mode allow_retry w hf1 hf2 hz1 hz2
  have hs := auth_round1_sv_auth E auth_mode w hr1
  have hc : auth_check1 E auth_mode w = (-2, (auth_round1 E auth_mode w).2) := by
    rw [auth_check1, sv_report0_command_check_recved_data_eq E _ (by simp [hs, generate_rnd_buffer])
      (by simp [hs, hr2])]
    simp [hs, hmis]
  have e : authenticate_common E auth_mode allow_retry w =
      (if allow_retry = ALLOW_RETRY_YES then -8 else -1, (auth_round1 E auth_mode w).2) := by
    rw [hR]
    by_cases ha : allow_retry = ALLOW_RETRY_YES <;> simp [h0, h1, hc, ha]
  refine ⟨e, by simp [hs], ?_⟩
  rw [e]
  exact auth_round1_io_log E auth_mode w h0 h1

set_option maxRecDepth 1000000 in
/-- Witness of C3: a drive that transfers nothing, so that the echo field is zero. -/
theorem C3_echo_mismatch_outcome_witness :
    test_world_keys.sv_auth.wf ∧
    test_world_keys.sv_auth.fix1 ≠ List.replicate 16 0 ∧
    test_world_keys.sv_auth.fix2 ≠ List.replicate 16 0 ∧
    (auth_round0 test_env AUTH_MODE_SUPER test_world_keys).1 = 0 ∧
    (auth_round1 test_env AUTH_MODE_SUPER test_world_keys).1 = 0 ∧
    aes128_cbc_decrypt test_world_keys.sv_auth.fix2 test_env.keys.giv
      (((auth_round1 test_env AUTH_MODE_SUPER test_world_keys).2.packet_buffer.drop 0x28).take
        0x10) ≠ generate_rnd_buffer test_env test_world_keys.rand_calls 0x10 ∧
    (authenticate_common test_env AUTH_MODE_SUPER ALLOW_RETRY_YES test_world_keys).1 = -8 :=
  have hw : test_world_keys.sv_auth.wf := by decide
  have z1 : test_world_keys.sv_auth.fix1 ≠ List.replicate 16 0 := by decide
  have z2 : test_world_keys.sv_auth.fix2 ≠ List.replicate 16 0 := by decide
  have h0 : (auth_round0 test_env AUTH_MODE_SUPER test_world_keys).1 = 0 := by decide
  have h1 : (auth_round1 test_env AUTH_MODE_SUPER test_world_keys).1 = 0 := by decide
  have hm : aes128_cbc_decrypt test_world_keys.sv_auth.fix2 test_env.keys.giv
      (((auth_round1 test_env AUTH_MODE_SUPER test_world_keys).2.packet_buffer.drop 0x28).take
        0x10) ≠ generate_rnd_buffer test_env test_world_keys.rand_calls 0x10 := by decide
  ⟨hw, z1, z2, h0, h1, hm,
    congrArg Prod.fst
      (C3_echo_mismatch_outcome test_env AUTH_MODE_SUPER ALLOW_RETRY_YES test_world_keys
        hw z1 z2 h0 h1 hm).1⟩

/-- C4, as the code has it. Nonce collision: with a non-zero challenge pair, when
the send0 and report0 exchanges succeed and both response fields decrypt to the
fresh `m_rand1`, `sv_report0_command_check_recved_data` returns -3 (an echo mismatch
gives -2), and `authenticate_common` fails with -8 if `allow_retry` is
`ALLOW_RETRY_YES` and with -1 otherwise, as it does on an echo mismatch; the drive
nonce has been stored in `m_rand2`, two requests were submitted and no send2 frame
was built. -/
theorem C4_nonce_collision_amended (E : Env) (auth_mode allow_retry : Nat) (w : World)
    (hw : w.sv_auth.wf) (hz1 : w.sv_auth.fix1 ≠ List.replicate 16 0)
    (hz2 : w.sv_auth.fix2 ≠ List.replicate 16 0)
    (h0 : (auth_round0 E auth_mode w).1 = 0) (h1 : (auth_round1 E auth_mode w).1 = 0)
    (hecho : aes128_cbc_decrypt w.sv_auth.fix2 E.keys.giv
      (((auth_round1 E auth_mode w).2.packet_buffer.drop 0x28).take 0x10) =
        generate_rnd_buffer E w.rand_calls 0x10)
    (hcol : aes128_cbc_decrypt w.sv_auth.fix2 E.keys.giv
      (((auth_round1 E auth_mode w).2.packet_buffer.drop 0x38).take 0x10) =
        generate_rnd_buffer E w.rand_calls 0x10) :
    (auth_check1 E auth_mode w).1 = -3 ∧
    (authenticate_common E auth_mode allow_retry w).1 =
      (if allow_retry = ALLOW_RETRY_YES then -8 else -1) ∧
    (authenticate_common E auth_mode allow_retry w).2 = (auth_check1 E auth_mode w).2 ∧
    (authenticate_common E auth_mode allow_retry w).2.sv_auth.m_rand2 =
      generate_rnd_buffer E w.rand_calls 0x10 ∧
    (authenticate_common E auth_mode allow_retry w).2.packet_buffer =
      (auth_round1 E auth_mode w).2.packet_buffer ∧
    (authenticate_common E auth_mode allow_retry w).2.io_log.length = w.io_log.length + 2 := by
  obtain ⟨_, _, hf1, hf2, hr1, hr2, _, _⟩ := hw
  have hR := authenticate_common_rounds E auth_mode allow_retry w hf1 hf2 hz1 hz2
  have hs := auth_round1_sv_auth E auth_mode w hr1
  have hc : auth_check1 E auth_mode w =
      (-3, { (auth_round1 E auth_mode w).2 with sv_auth :=
        { (auth_round1 E auth_mode w).2.sv_auth with
          m_rand2 := generate_rnd_buffer E w.rand_calls 0x10 } }) := by
    rw [auth_check1, sv_report0_command_check_recved_data_eq E _ (by simp [hs, generate_rnd_buffer])
      (by simp [hs, hr2])]
    simp [hs, hecho, hcol]
  have e : authenticate_common E auth_mode allow_retry w =
      (if allow_retry = ALLOW_RETRY_YES then -8 else -1, (auth_check1 E auth_mode w).2) := by
    rw [hR]
    by_cases ha : allow_retry = ALLOW_RETRY_YES <;> simp [h0, h1, hc, ha]
  refine ⟨by rw [hc], by rw [e], by rw [e], by rw [e, hc], by rw [e, hc], ?_⟩
  rw [e, hc]
  exact auth_round1_io_log E auth_mode w h0 h1

set_option maxRecDepth 1000000 in
/-- Witness of the amended C4: a drive that returns the host nonce as its own. -/
theorem C4_nonce_collision_amended_witness :
    test_world_keys.sv_auth.wf ∧
    (auth_round0 collide_env AUTH_MODE_SUPER test_world_keys).1 = 0 ∧
    (auth_round1 collide_env AUTH_MODE_SUPER test_world_keys).1 = 0 ∧
    (auth_check1 collide_env AUTH_MODE_SUPER test_world_keys).1 = -3 ∧
    (authenticate_common collide_env AUTH_MODE_SUPER ALLOW_RETRY_NO test_world_keys).1 = -1 :=
  have hw : test_world_keys.sv_auth.wf := by decide
  have h0 : (auth_round0 collide_env AUTH_MODE_SUPER test_world_keys).1 = 0 := by decide
  have h1 : (auth_round1 collide_env AUTH_MODE_SUPER test_world_keys).1 = 0 := by decide
  have h := C4_nonce_collision_amended collide_env AUTH_MODE_SUPER ALLOW_RETRY_NO
    test_world_keys hw (by decide) (by decide) h0 h1 (by decide) (by decide)
  ⟨hw, h0, h1, h.1, h.2.1⟩

set_option maxRecDepth 1000000 in
/-- C4 fails as stated: a drive answers the report0 request with a correct echo and
with the host nonce as its own nonce; with `ALLOW_RETRY_YES`, `authenticate_common`
returns the retry code -8, the value it also returns when the echo is wrong. -/
theorem C4_nonce_collision_counterexample :
    aes128_cbc_decrypt test_world_keys.sv_auth.fix2 collide_env.keys.giv
      (((auth_round1 collide_env AUTH_MODE_SUPER test_world_keys).2.packet_buffer.drop 0x28).take
        0x10) = (auth_round1 collide_env AUTH_MODE_SUPER test_world_keys).2.sv_auth.m_rand1 ∧
    aes128_cbc_decrypt test_world_keys.sv_auth.fix2 collide_env.keys.giv
      (((auth_round1 collide_env AUTH_MODE_SUPER test_world_keys).2.packet_buffer.drop 0x38).take
        0x10) = (auth_round1 collide_env AUTH_MODE_SUPER test_world_keys).2.sv_auth.m_rand1 ∧
    (authenticate_common collide_env AUTH_MODE_SUPER ALLOW_RETRY_YES test_world_keys).1 = -8 ∧
    (authenticate_common test_env AUTH_MODE_SUPER ALLOW_RETRY_YES test_world_keys).1 = -8 := by
  decide

/-- C5. The cascade reaches the tertiary pair: when the attempt with
`(kf1_eid, kf2_eid)` and the attempt with `(fix1_it, fix2_it)` both end in -8 and the
attempt with `(fix1_pn, fix2_pn)` returns 0, `auth_drive_super` returns 0 and its
final state is that of the third attempt, made after the two others in that order.
Retry was allowed (`m_retry_flag = RETRY_FLAG_ALLOW`); at return `fix1 = fix1_pn`
and `fix2 = fix2_pn`; the three attempts drew 48 random bytes and submitted 7
requests; `m_rand1` is the third draw and `ks1`, `ks2` are derived from the nonces
of the third attempt. -/
theorem C5_cascade_reaches_tertiary (E : Env) (w : World) (hw : w.sv_auth.wf)
    (hK : E.keys.wf) (h1 : (super_attempt1 E w).1 = -8) (h2 : (super_attempt2 E w).1 = -8)
    (h3 : (super_attempt3 E w).1 = 0) :
    auth_drive_super E w = super_attempt3 E w ∧
    (auth_drive_super E w).1 = 0 ∧
    w.sv_auth.m_retry_flag = RETRY_FLAG_ALLOW ∧
    (auth_drive_super E w).2.sv_auth.fix1 = E.keys.fix1_pn ∧
    (auth_drive_super E w).2.sv_auth.fix2 = E.keys.fix2_pn ∧
    (auth_drive_super E w).2.rand_calls = w.rand_calls + 48 ∧
    (auth_drive_super E w).2.io_log.length = w.io_log.length + 7 ∧
    (auth_drive_super E w).2.sv_auth.m_rand1 = generate_rnd_buffer E (w.rand_calls + 32) 0x10 ∧
    (auth_drive_super E w).2.sv_auth.ks1 =
      aes128_cbc_encrypt E.keys.kms1 E.keys.giv
        ((auth_drive_super E w).2.sv_auth.m_rand1.take 8 ++
          (auth_drive_super E w).2.sv_auth.m_rand2.drop 8) ∧
    (auth_drive_super E w).2.sv_auth.ks2 =
      aes128_cbc_encrypt E.keys.kms2 E.keys.giv
        ((auth_drive_super E w).2.sv_auth.m_rand1.drop 8 ++
          (auth_drive_super E w).2.sv_auth.m_rand2.take 8) := by
  have e : auth_drive_super E w = super_attempt3 E w := by
    rw [auth_drive_super_eq]; simp [h1, h2]
  have hit1 := hK.2.2.2.2.2.2.2.2.1
  have hit2 := hK.2.2.2.2.2.2.2.2.2.1
  have hpn1 := hK.2.2.2.2.2.2.2.2.2.2.1
  have hpn2 := hK.2.2.2.2.2.2.2.2.2.2.2.1
  have w0 := set_fix_wf w _ _ hw hw.1 hw.2.1
  have w1 := super_attempt1_wf E w hw
  have w1' := set_fix_wf _ _ _ w1 hit1 hit2
  have w2 := super_attempt2_wf E w hw hK
  have w2' := set_fix_wf _ _ _ w2 hpn1 hpn2
  have s1 := authenticate_common_spec E AUTH_MODE_SUPER
    (if w.sv_auth.m_retry_flag = RETRY_FLAG_ALLOW then ALLOW_RETRY_YES else ALLOW_RETRY_NO)
    _ w0
  have s2 := authenticate_common_spec E AUTH_MODE_SUPER ALLOW_RETRY_YES _ w1'
  have s3 := authenticate_common_spec E AUTH_MODE_SUPER ALLOW_RETRY_NO _ w2'
  have c1 := s1.2.2.2.2.1 h1
  have c2 := s2.2.2.2.2.1 h2
  have c3 := s3.2.2.2.2.2 h3
  have hflag : w.sv_auth.m_retry_flag = RETRY_FLAG_ALLOW := by
    rcases s1.1 with h | h | ⟨_, h⟩
    · rw [show (authenticate_common E AUTH_MODE_SUPER _ _).1 = (super_attempt1 E w).1 from rfl,
        h1] at h
      exact absurd h (by decide)
    · rw [show (authenticate_common E AUTH_MODE_SUPER _ _).1 = (super_attempt1 E w).1 from rfl,
        h1] at h
      exact absurd h (by decide)
    · by_contra hne
      simp [set_fix, hne, ALLOW_RETRY_NO, ALLOW_RETRY_YES] at h
  have g1 : (super_attempt3 E w).2.sv_auth.fix1 = E.keys.fix1_pn :=
    (show (super_attempt3 E w).2.sv_auth.fix1 = _ from s3.2.2.1.1).trans
      (by rw [set_fix_eq _ _ _ w2 hpn1 hpn2]; rfl)
  have g2 : (super_attempt3 E w).2.sv_auth.fix2 = E.keys.fix2_pn :=
    (show (super_attempt3 E w).2.sv_auth.fix2 = _ from s3.2.2.1.2.1).trans
      (by rw [set_fix_eq _ _ _ w2 hpn1 hpn2]; rfl)
  have r1 : (set_fix w w.sv_auth.kf1_eid w.sv_auth.kf2_eid).rand_calls = w.rand_calls := rfl
  have r2 : (set_fix (super_attempt1 E w).2 E.keys.fix1_it E.keys.fix2_it).rand_calls =
      (super_attempt1 E w).2.rand_calls := rfl
  have r3 : (set_fix (super_attempt2 E w).2 E.keys.fix1_pn E.keys.fix2_pn).rand_calls =
      (super_attempt2 E w).2.rand_calls := rfl
  have l1 : (set_fix w w.sv_auth.kf1_eid w.sv_auth.kf2_eid).io_log = w.io_log := rfl
  have l2 : (set_fix (super_attempt1 E w).2 E.keys.fix1_it E.keys.fix2_it).io_log =
      (super_attempt1 E w).2.io_log := rfl
  have l3 : (set_fix (super_attempt2 E w).2 E.keys.fix1_pn E.keys.fix2_pn).io_log =
      (super_attempt2 E w).2.io_log := rfl
  have q1 : (super_attempt1 E w).2.rand_calls = w.rand_calls + 16 := c1.1
  have q2 : (super_attempt2 E w).2.rand_calls = w.rand_calls + 32 := by
    have := c2.1; rw [r2, q1] at this; exact this
  have q3 : (super_attempt3 E w).2.rand_calls = w.rand_calls + 48 := by
    have := c3.1; rw [r3, q2] at this; exact this
  have p1 : (super_attempt1 E w).2.io_log.length = w.io_log.length + 2 := c1.2
  have p2 : (super_attempt2 E w).2.io_log.length = w.io_log.length + 4 := by
    have := c2.2; rw [l2, p1] at this; exact this
  have p3 : (super_attempt3 E w).2.io_log.length = w.io_log.length + 7 := by
    have := c3.2.1; rw [l3, p2] at this; exact this
  have n3 : (super_attempt3 E w).2.sv_auth.m_rand1 =
      generate_rnd_buffer E (w.rand_calls + 32) 0x10 := by
    have := c3.2.2.1; rw [r3, q2] at this; exact this
  rw [e]
  exact ⟨rfl, h3, hflag, g1, g2, q3, p3, n3, c3.2.2.2.1, c3.2.2.2.2⟩

set_option maxRecDepth 1000000 in
/-- Witness of C5: the test drive that knows only the tertiary pair. -/
theorem C5_cascade_reaches_tertiary_witness :
    test_world.sv_auth.wf ∧ tertiary_env.keys.wf ∧
    (super_attempt1 tertiary_env test_world).1 = -8 ∧
    (super_attempt2 tertiary_env test_world).1 = -8 ∧
    (super_attempt3 tertiary_env test_world).1 = 0 ∧
    (auth_drive_super tertiary_env test_world).1 = 0 ∧
    (auth_drive_super tertiary_env test_world).2.sv_auth.fix1 = tertiary_env.keys.fix1_pn :=
  have hw : test_world.sv_auth.wf := by decide
  have hK : tertiary_env.keys.wf := by decide
  have h1 : (super_attempt1 tertiary_env test_world).1 = -8 := by decide
  have h2 : (super_attempt2 tertiary_env test_world).1 = -8 := by decide
  have h3 : (super_attempt3 tertiary_env test_world).1 = 0 := by decide
  have h := C5_cascade_reaches_tertiary tertiary_env test_world hw hK h1 h2 h3
  ⟨hw, hK, h1, h2, h3, h.2.1, h.2.2.2.1⟩

/-- C6. Cascade termination: whatever the drive answers, `auth_drive_super` ends
with its first, second or third `authenticate_common` attempt (there is no fourth),
having drawn at most 48 random bytes and submitted at most 9 requests. When the
first two attempts end in -8, it returns what the third attempt returns, and that
is 0 or the terminal failure -1, never -8: a third attempt that does not succeed
gives -1. -/
theorem C6_cascade_termination (E : Env) (w : World) (hw : w.sv_auth.wf) (hK : E.keys.wf) :
    (auth_drive_super E w = super_attempt1 E w ∨ auth_drive_super E w = super_attempt2 E w ∨
      auth_drive_super E w = super_attempt3 E w) ∧
    (auth_drive_super E w).2.rand_calls ≤ w.rand_calls + 48 ∧
    (auth_drive_super E w).2.io_log.length ≤ w.io_log.length + 9 ∧
    ((super_attempt1 E w).1 = -8 → (super_attempt2 E w).1 = -8 →
      auth_drive_super E w = super_attempt3 E w ∧
      (auth_drive_super E w).1 ≠ -8 ∧
      ((auth_drive_super E w).1 = 0 ∨ (auth_drive_super E w).1 = -1) ∧
      ((super_attempt3 E w).1 ≠ 0 → (auth_drive_super E w).1 = -1)) := by
  have hit1 := hK.2.2.2.2.2.2.2.2.1
  have hit2 := hK.2.2.2.2.2.2.2.2.2.1
  have hpn1 := hK.2.2.2.2.2.2.2.2.2.2.1
  have hpn2 := hK.2.2.2.2.2.2.2.2.2.2.2.1
  have w0 := set_fix_wf w _ _ hw hw.1 hw.2.1
  have w1 := super_attempt1_wf E w hw
  have w1' := set_fix_wf _ _ _ w1 hit1 hit2
  have w2 := super_attempt2_wf E w hw hK
  have w2' := set_fix_wf _ _ _ w2 hpn1 hpn2
  have s1 := authenticate_common_spec E AUTH_MODE_SUPER
    (if w.sv_auth.m_retry_flag = RETRY_FLAG_ALLOW then ALLOW_RETRY_YES else ALLOW_RETRY_NO)
    _ w0
  have s2 := authenticate_common_spec E AUTH_MODE_SUPER ALLOW_RETRY_YES _ w1'
  have s3 := authenticate_common_spec E AUTH_MODE_SUPER ALLOW_RETRY_NO _ w2'
  have b1 : (super_attempt1 E w).2.rand_calls ≤ w.rand_calls + 16 ∧
      (super_attempt1 E w).2.io_log.length ≤ w.io_log.length + 3 := s1.2.2.2.1
  have b2 : (super_attempt2 E w).2.rand_calls ≤ (super_attempt1 E w).2.rand_calls + 16 ∧
      (super_attempt2 E w).2.io_log.length ≤ (super_attempt1 E w).2.io_log.length + 3 :=
    s2.2.2.2.1
  have b3 : (super_attempt3 E w).2.rand_calls ≤ (super_attempt2 E w).2.rand_calls + 16 ∧
      (super_attempt3 E w).2.io_log.length ≤ (super_attempt2 E w).2.io_log.length + 3 :=
    s3.2.2.2.1
  have v3 : (super_attempt3 E w).1 = 0 ∨ (super_attempt3 E w).1 = -1 := by
    rcases s3.1 with h | h | ⟨_, h⟩
    · exact Or.inl h
    · exact Or.inr h
    · exact absurd h (by decide)
  rw [auth_drive_super_eq]
  refine ⟨?_, ?_, ?_, ?_⟩
  · split_ifs <;> simp
  · split_ifs <;> omega
  · split_ifs <;> omega
  · intro h1 h2
    simp only [h1, h2, if_true]
    refine ⟨trivial, ?_, v3, ?_⟩
    · rcases v3 with h | h <;> rw [h] <;> decide
    · intro h
      rcases v3 with h' | h'
      · exact absurd h' h
      · exact h'

set_option maxRecDepth 1000000 in
/-- Witness of C6: a drive that never echoes the host nonce; all three attempts are
made and the result is -1. -/
theorem C6_cascade_termination_witness :
    test_world.sv_auth.wf ∧ test_env.keys.wf ∧
    (super_attempt1 test_env test_world).1 = -8 ∧
    (super_attempt2 test_env test_world).1 = -8 ∧
    (super_attempt3 test_env test_world).1 ≠ 0 ∧
    (auth_drive_super test_env test_world).1 = -1 :=
  have hw : test_world.sv_auth.wf := by decide
  have hK : test_env.keys.wf := by decide
  have h1 : (super_attempt1 test_env test_world).1 = -8 := by decide
  have h2 : (super_attempt2 test_env test_world).1 = -8 := by decide
  have h3 : (super_attempt3 test_env test_world).1 ≠ 0 := by decide
  ⟨hw, hK, h1, h2, h3, ((C6_cascade_termination test_env test_world hw hK).2.2.2 h1 h2).2.2.2 h3⟩

/-- C7. No fallback on other outcomes: when the first attempt of `auth_drive_super`
returns anything but -8, that attempt is the whole call, its value is returned and
`fix1`, `fix2` hold the primary pair; when the first attempt returns -8 and the
second returns anything but -8, the call ends with the second attempt, returns its
value and `fix1`, `fix2` hold `(fix1_it, fix2_it)`. -/
theorem C7_no_fallback_on_other_outcomes (E : Env) (w : World) (hw : w.sv_auth.wf)
    (hK : E.keys.wf) :
    ((super_attempt1 E w).1 ≠ -8 →
      auth_drive_super E w = super_attempt1 E w ∧
      (auth_drive_super E w).2.sv_auth.fix1 = w.sv_auth.kf1_eid ∧
      (auth_drive_super E w).2.sv_auth.fix2 = w.sv_auth.kf2_eid ∧
      (auth_drive_super E w).2.rand_calls ≤ w.rand_calls + 16 ∧
      (auth_drive_super E w).2.io_log.length ≤ w.io_log.length + 3) ∧
    ((super_attempt1 E w).1 = -8 → (super_attempt2 E w).1 ≠ -8 →
      auth_drive_super E w = super_attempt2 E w ∧
      (auth_drive_super E w).2.sv_auth.fix1 = E.keys.fix1_it ∧
      (auth_drive_super E w).2.sv_auth.fix2 = E.keys.fix2_it ∧
      (auth_drive_super E w).2.rand_calls ≤ w.rand_calls + 32 ∧
      (auth_drive_super E w).2.io_log.length ≤ w.io_log.length + 6) := by
  have hit1 := hK.2.2.2.2.2.2.2.2.1
  have hit2 := hK.2.2.2.2.2.2.2.2.2.1
  have w0 := set_fix_wf w _ _ hw hw.1 hw.2.1
  have w1 := super_attempt1_wf E w hw
  have w1' := set_fix_wf _ _ _ w1 hit1 hit2
  have s1 := authenticate_common_spec E AUTH_MODE_SUPER
    (if w.sv_auth.m_retry_flag = RETRY_FLAG_ALLOW then ALLOW_RETRY_YES else ALLOW_RETRY_NO)
    _ w0
  have s2 := authenticate_common_spec E AUTH_MODE_SUPER ALLOW_RETRY_YES _ w1'
  have b1 : (super_attempt1 E w).2.rand_calls ≤ w.rand_calls + 16 ∧
      (super_attempt1 E w).2.io_log.length ≤ w.io_log.length + 3 := s1.2.2.2.1
  have b2 : (super_attempt2 E w).2.rand_calls ≤ (super_attempt1 E w).2.rand_calls + 16 ∧
      (super_attempt2 E w).2.io_log.length ≤ (super_attempt1 E w).2.io_log.length + 3 :=
    s2.2.2.2.1
  have g1 : (super_attempt1 E w).2.sv_auth.fix1 = w.sv_auth.kf1_eid :=
    (show (super_attempt1 E w).2.sv_auth.fix1 = _ from s1.2.2.1.1).trans
      (by rw [set_fix_eq _ _ _ hw hw.1 hw.2.1]; rfl)
  have g2 : (super_attempt1 E w).2.sv_auth.fix2 = w.sv_auth.kf2_eid :=
    (show (super_attempt1 E w).2.sv_auth.fix2 = _ from s1.2.2.1.2.1).trans
      (by rw [set_fix_eq _ _ _ hw hw.1 hw.2.1]; rfl)
  have g3 : (super_attempt2 E w).2.sv_auth.fix1 = E.keys.fix1_it :=
    (show (super_attempt2 E w).2.sv_auth.fix1 = _ from s2.2.2.1.1).trans
      (by rw [set_fix_eq _ _ _ w1 hit1 hit2]; rfl)
  have g4 : (super_attempt2 E w).2.sv_auth.fix2 = E.keys.fix2_it :=
    (show (super_attempt2 E w).2.sv_auth.fix2 = _ from s2.2.2.1.2.1).trans
      (by rw [set_fix_eq _ _ _ w1 hit1 hit2]; rfl)
  rw [auth_drive_super_eq]
  refine ⟨?_, ?_⟩
  · intro h
    simp only [h, if_false]
    exact ⟨trivial, g1, g2, b1.1, b1.2⟩
  · intro h1 h2
    simp only [h1, h2, if_true, if_false]
    exact ⟨trivial, g3, g4, by omega, by omega⟩

set_option maxRecDepth 1000000 in
/-- Witness of C7: a drive whose first exchange fails; the first attempt returns -1
and is the whole call. -/
theorem C7_no_fallback_on_other_outcomes_witness :
    test_world.sv_auth.wf ∧ (failing_env 0).keys.wf ∧
    (super_attempt1 (failing_env 0) test_world).1 ≠ -8 ∧
    (auth_drive_super (failing_env 0) test_world).1 = -1 ∧
    (auth_drive_super (failing_env 0) test_world).2.sv_auth.fix1 = test_world.sv_auth.kf1_eid :=
  have hw : test_world.sv_auth.wf := by decide
  have hK : (failing_env 0).keys.wf := by decide
  have h1 : (super_attempt1 (failing_env 0) test_world).1 ≠ -8 := by decide
  have hv : (super_attempt1 (failing_env 0) test_world).1 = -1 := by decide
  have h := (C7_no_fallback_on_other_outcomes (failing_env 0) test_world hw hK).1 h1
  ⟨hw, hK, h1, (congrArg Prod.fst h.1).trans hv, h.2.1⟩

/-- C8. Zero-key precondition: when `fix1` or `fix2` is sixteen zero bytes,
`authenticate_common` returns -1 and the only change to the state is that
`m_auth_mode` has been written: no random byte is drawn, `packet_buffer` holds no
new frame, nothing is opened or sent, and the nonces and session keys are kept. -/
theorem C8_zero_key_precondition (E : Env) (auth_mode allow_retry : Nat) (w : World)
    (h : w.sv_auth.fix1 = List.replicate 16 0 ∨ w.sv_auth.fix2 = List.replicate 16 0) :
    authenticate_common E auth_mode allow_retry w =
      (-1, { w with sv_auth := { w.sv_auth with m_auth_mode := auth_mode } }) ∧
    (authenticate_common E auth_mode allow_retry w).2.rand_calls = w.rand_calls ∧
    (authenticate_common E auth_mode allow_retry w).2.packet_buffer = w.packet_buffer ∧
    (authenticate_common E auth_mode allow_retry w).2.open_calls = w.open_calls ∧
    (authenticate_common E auth_mode allow_retry w).2.io_log = w.io_log ∧
    (authenticate_common E auth_mode allow_retry w).2.sv_auth.m_rand1 = w.sv_auth.m_rand1 ∧
    (authenticate_common E auth_mode allow_retry w).2.sv_auth.m_rand2 = w.sv_auth.m_rand2 ∧
    (authenticate_common E auth_mode allow_retry w).2.sv_auth.ks1 = w.sv_auth.ks1 ∧
    (authenticate_common E auth_mode allow_retry w).2.sv_auth.ks2 = w.sv_auth.ks2 := by
  have key : authenticate_common E auth_mode allow_retry w =
      (-1, { w with sv_auth := { w.sv_auth with m_auth_mode := auth_mode } }) := by
    rcases h with h | h
    · simp [authenticate_common, memcmp_eq, h]
    · by_cases h1 : w.sv_auth.fix1 = List.replicate 16 0
      · simp [authenticate_common, memcmp_eq, h1]
      · simp [authenticate_common, memcmp_eq, h]
  simp [key]

/-- Witness of C8 on the test session, whose `fix1` and `fix2` are zero. -/
theorem C8_zero_key_precondition_witness :
    (test_world.sv_auth.fix1 = List.replicate 16 0 ∨
      test_world.sv_auth.fix2 = List.replicate 16 0) ∧
    authenticate_common test_env AUTH_MODE_SUPER ALLOW_RETRY_YES test_world =
      (-1, { test_world with sv_auth :=
        { test_world.sv_auth with m_auth_mode := AUTH_MODE_SUPER } }) :=
  ⟨Or.inl rfl,
    (C8_zero_key_precondition test_env AUTH_MODE_SUPER ALLOW_RETRY_YES test_world (Or.inl rfl)).1⟩

/-- C9. Transport failure is terminal at every round: with a non-zero challenge
pair, when the exchange of round 0 (send0), round 1 (report0) or round 2 (send2)
fails, `authenticate_common` returns -1 whatever `allow_retry` is, and stops in the
state that exchange left, so no later round runs; when the send2 exchange fails,
`ks1` and `ks2` are still those of the start. -/
theorem C9_transport_failure_terminal (E : Env) (auth_mode allow_retry : Nat) (w : World)
    (hw : w.sv_auth.wf) (hz1 : w.sv_auth.fix1 ≠ List.replicate 16 0)
    (hz2 : w.sv_auth.fix2 ≠ List.replicate 16 0) :
    ((auth_round0 E auth_mode w).1 ≠ 0 →
      authenticate_common E auth_mode allow_retry w = (-1, (auth_round0 E auth_mode w).2)) ∧
    ((auth_round0 E auth_mode w).1 = 0 → (auth_round1 E auth_mode w).1 ≠ 0 →
      authenticate_common E auth_mode allow_retry w = (-1, (auth_round1 E auth_mode w).2)) ∧
    ((auth_round0 E auth_mode w).1 = 0 → (auth_round1 E auth_mode w).1 = 0 →
      (auth_check1 E auth_mode w).1 = 0 → (auth_round2 E auth_mode w).1 ≠ 0 →
      authenticate_common E auth_mode allow_retry w = (-1, (auth_round2 E auth_mode w).2) ∧
      (authenticate_common E auth_mode allow_retry w).2.sv_auth.ks1 = w.sv_auth.ks1 ∧
      (authenticate_common E auth_mode allow_retry w).2.sv_auth.ks2 = w.sv_auth.ks2) := by
  obtain ⟨_, _, hf1, hf2, _⟩ := hw
  have hR := authenticate_common_rounds E auth_mode allow_retry w hf1 hf2 hz1 hz2
  refine ⟨?_, ?_, ?_⟩
  · intro h
    simp [hR, h]
  · intro h0 h
    simp [hR, h0, h]
  · intro h0 h1 hc h
    have e : authenticate_common E auth_mode allow_retry w =
        (-1, (auth_round2 E auth_mode w).2) := by
      simp [hR, h0, h1, hc, h]
    rw [e]
    exact ⟨rfl, auth_round2_ks E auth_mode w⟩

set_option maxRecDepth 1000000 in
/-- Witness of C9: a drive that fails the send2 exchange. -/
theorem C9_transport_failure_terminal_witness :
    test_world_keys.sv_auth.wf ∧
    test_world_keys.sv_auth.fix1 ≠ List.replicate 16 0 ∧
    test_world_keys.sv_auth.fix2 ≠ List.replicate 16 0 ∧
    (auth_round0 (failing_env 2) AUTH_MODE_SUPER test_world_keys).1 = 0 ∧
    (auth_round1 (failing_env 2) AUTH_MODE_SUPER test_world_keys).1 = 0 ∧
    (auth_check1 (failing_env 2) AUTH_MODE_SUPER test_world_keys).1 = 0 ∧
    (auth_round2 (failing_env 2) AUTH_MODE_SUPER test_world_keys).1 ≠ 0 ∧
    (authenticate_common (failing_env 2) AUTH_MODE_SUPER ALLOW_RETRY_YES test_world_keys).1 = -1 :=
  have hw : test_world_keys.sv_auth.wf := by decide
  have z1 : test_world_keys.sv_auth.fix1 ≠ List.replicate 16 0 := by decide
  have z2 : test_world_keys.sv_auth.fix2 ≠ List.replicate 16 0 := by decide
  have h0 : (auth_round0 (failing_env 2) AUTH_MODE_SUPER test_world_keys).1 = 0 := by decide
  have h1 : (auth_round1 (failing_env 2) AUTH_MODE_SUPER test_world_keys).1 = 0 := by decide
  have hc : (auth_check1 (failing_env 2) AUTH_MODE_SUPER test_world_keys).1 = 0 := by decide
  have h2 : (auth_round2 (failing_env 2) AUTH_MODE_SUPER test_world_keys).1 ≠ 0 := by decide
  ⟨hw, z1, z2, h0, h1, hc, h2,
    congrArg Prod.fst
      ((C9_transport_failure_terminal (failing_env 2) AUTH_MODE_SUPER ALLOW_RETRY_YES
        test_world_keys hw z1 z2).2.2 h0 h1 hc h2).1⟩

/-- C10. User key-pair mapping: `auth_drive_user` picks the challenge pair from
`m_mode` alone (0 -> u0, 1 -> u1, 2 and 12 -> u2, 3, 13 and 14 -> u3, 4 and 20 -> u4)
and runs `authenticate_common` once with role USER and retry disabled; for every
other `m_mode` it returns -15 and leaves the whole state as it was, so nothing is
sent and no field of `sv_auth` changes. -/
theorem C10_user_key_pair_mapping (E : Env) (w : World) (hw : w.sv_auth.wf)
    (hK : E.keys.wf) :
    (w.sv_auth.m_mode = 0 → auth_drive_user E w =
      authenticate_common E AUTH_MODE_USER ALLOW_RETRY_NO
        (w.load_fix E.keys.Kf1_u0 E.keys.Kf2_u0)) ∧
    (w.sv_auth.m_mode = 1 → auth_drive_user E w =
      authenticate_common E AUTH_MODE_USER ALLOW_RETRY_NO
        (w.load_fix E.keys.Kf1_u1 E.keys.Kf2_u1)) ∧
    (w.sv_auth.m_mode = 2 ∨ w.sv_auth.m_mode = 12 → auth_drive_user E w =
      authenticate_common E AUTH_MODE_USER ALLOW_RETRY_NO
        (w.load_fix E.keys.Kf1_u2 E.keys.Kf2_u2)) ∧
    (w.sv_auth.m_mode = 3 ∨ w.sv_auth.m_mode = 13 ∨ w.sv_auth.m_mode = 14 →
      auth_drive_user E w =
      authenticate_common E AUTH_MODE_USER ALLOW_RETRY_NO
        (w.load_fix E.keys.Kf1_u3 E.keys.Kf2_u3)) ∧
    (w.sv_auth.m_mode = 4 ∨ w.sv_auth.m_mode = 20 → auth_drive_user E w =
      authenticate_common E AUTH_MODE_USER ALLOW_RETRY_NO
        (w.load_fix E.keys.Kf1_u4 E.keys.Kf2_u4)) ∧
    (w.sv_auth.m_mode ∉ [0, 1, 2, 3, 4, 12, 13, 14, 20] → auth_drive_user E w = (-15, w)) := by
  obtain ⟨_, _, hf1, hf2, _⟩ := hw
  obtain ⟨_, _, _, _, _, _, _, _, _, _, _, _, h10, h20, h11, h21, h12, h22, h13, h23, h14, h24, _⟩ :=
    hK
  refine ⟨?_, ?_, ?_, ?_, ?_, ?_⟩
  · intro h
    simp [auth_drive_user, auth_drive_user_keys, h, World.load_fix, set_fix, memcpy_16, hf1, hf2, h10, h20]
  · intro h
    simp [auth_drive_user, auth_drive_user_keys, h, World.load_fix, set_fix, memcpy_16, hf1, hf2, h11, h21]
  · rintro (h | h) <;>
      simp [auth_drive_user, auth_drive_user_keys, h, World.load_fix, set_fix, memcpy_16, hf1, hf2, h12,
        h22]
  · rintro (h | h | h) <;>
      simp [auth_drive_user, auth_drive_user_keys, h, World.load_fix, set_fix, memcpy_16, hf1, hf2, h13,
        h23]
  · rintro (h | h) <;>
      simp [auth_drive_user, auth_drive_user_keys, h, World.load_fix, set_fix, memcpy_16, hf1, hf2, h14,
        h24]
  · intro h
    simp only [List.mem_cons, List.mem_singleton, List.not_mem_nil, or_false, not_or] at h
    obtain ⟨h0, h1, h2, h3, h4, h5, h6, h7, h8⟩ := h
    simp [auth_drive_user, auth_drive_user_keys, h0, h1, h2, h3, h4, h5, h6, h7, h8]

/-- Witness of C10 on a test session whose `m_mode` is 5 (not mapped). -/
theorem C10_user_key_pair_mapping_witness :
    test_world_mode5.sv_auth.wf ∧ test_env.keys.wf ∧
      auth_drive_user test_env test_world_mode5 = (-15, test_world_mode5) :=
  ⟨by decide, by decide,
    (C10_user_key_pair_mapping test_env test_world_mode5 (by decide) (by decide)).2.2.2.2.2
      (by decide)⟩

/-- C11. The retry policy gates the cascade: when `m_retry_flag` is not
`RETRY_FLAG_ALLOW`, `auth_drive_super` is one `authenticate_common` attempt, made with
role SUPER, retry disabled and the primary pair `(kf1_eid, kf2_eid)`, and it returns
that attempt's result, which is never -8; the other two pairs are not loaded:
`fix1`, `fix2` still hold the primary pair, at most 16 random bytes are drawn and at
most 3 requests are submitted. -/
theorem C11_retry_policy_gates_cascade (E : Env) (w : World) (hw : w.sv_auth.wf)
    (hflag : w.sv_auth.m_retry_flag ≠ RETRY_FLAG_ALLOW) :
    auth_drive_super E w =
      authenticate_common E AUTH_MODE_SUPER ALLOW_RETRY_NO
        (w.load_fix w.sv_auth.kf1_eid w.sv_auth.kf2_eid) ∧
    (auth_drive_super E w).1 ≠ -8 ∧
    (auth_drive_super E w).2.sv_auth.fix1 = w.sv_auth.kf1_eid ∧
    (auth_drive_super E w).2.sv_auth.fix2 = w.sv_auth.kf2_eid ∧
    (auth_drive_super E w).2.rand_calls ≤ w.rand_calls + 16 ∧
    (auth_drive_super E w).2.io_log.length ≤ w.io_log.length + 3 := by
  have w0 := set_fix_wf w _ _ hw hw.1 hw.2.1
  have e0 := set_fix_eq w _ _ hw hw.1 hw.2.1
  have a1 : super_attempt1 E w = authenticate_common E AUTH_MODE_SUPER ALLOW_RETRY_NO
      (w.load_fix w.sv_auth.kf1_eid w.sv_auth.kf2_eid) := by
    rw [super_attempt1, if_neg hflag, e0]
  have s1 := authenticate_common_spec E AUTH_MODE_SUPER ALLOW_RETRY_NO _ w0
  rw [e0] at s1
  have hne : (super_attempt1 E w).1 ≠ -8 := by
    rw [a1]
    rcases s1.1 with h | h | ⟨_, h⟩
    · rw [h]; decide
    · rw [h]; decide
    · exact absurd h (by decide)
  have e : auth_drive_super E w = super_attempt1 E w := by
    rw [auth_drive_super_eq, if_neg hne]
  rw [e, a1] at *
  exact ⟨rfl, hne, s1.2.2.1.1, s1.2.2.1.2.1, s1.2.2.2.1.1, s1.2.2.2.1.2⟩

set_option maxRecDepth 1000000 in
/-- Witness of C11: the test session with `RETRY_FLAG_DENY` and a drive that never
echoes the host nonce; the single attempt ends in -1. -/
theorem C11_retry_policy_gates_cascade_witness :
    test_world_deny.sv_auth.wf ∧
    test_world_deny.sv_auth.m_retry_flag ≠ RETRY_FLAG_ALLOW ∧
    (auth_drive_super test_env test_world_deny).1 = -1 ∧
    (auth_drive_super test_env test_world_deny).2.io_log.length = 2 :=
  have hw : test_world_deny.sv_auth.wf := by decide
  have hf : test_world_deny.sv_auth.m_retry_flag ≠ RETRY_FLAG_ALLOW := by decide
  have h := C11_retry_policy_gates_cascade test_env test_world_deny hw hf
  ⟨hw, hf, (congrArg Prod.fst h.1).trans (by decide),
    (congrArg (fun r => r.2.io_log.length) h.1).trans (by decide)⟩

/-- C12. Check-code definition: for every buffer and every `len >= 0`,
`generate_check_code(data, len)` is 255 minus the sum of the first `len` bytes taken
modulo 256, which is the bitwise complement of the low byte of that sum; the sum on
the right is the exact one, so the wrap-around of the 16-bit accumulator does not
show in the result. -/
theorem C12_check_code_definition (data : List Nat) (len : Nat) :
    generate_check_code data len = 255 - (data.take len).sum % 256 ∧
    generate_check_code data len = ((data.take len).sum % 256) ^^^ 0xFF := by
  have h := generate_check_code_eq data len
  exact ⟨h, h.trans (byte_complement _ (Nat.mod_lt _ (by norm_num)))⟩

/-- C13. Check-code round trip: a buffer made of a byte sequence `b` and its check code
validates, in the leading form the response parsers test
(`buf[0] == generate_check_code(buf + 1, n - 1)` for `buf = code ‖ b`) and in the
trailing form of the command descriptors (`d[n] == generate_check_code(d, n)` for
`d = b ‖ code`, with `n = 7` there). -/
theorem C13_check_code_round_trip (b : List Nat) :
    (generate_check_code b b.length :: b).getD 0 0 =
      generate_check_code ((generate_check_code b b.length :: b).drop 1)
        ((generate_check_code b b.length :: b).length - 1) ∧
    (b ++ [generate_check_code b b.length]).getD b.length 0 =
      generate_check_code (b ++ [generate_check_code b b.length]) b.length := by
  refine ⟨by simp, ?_⟩
  rw [List.getD_append_right _ _ _ _ (le_refl _)]
  simp [generate_check_code_eq]

set_option maxRecDepth 1000000 in
/-- C14. Single-bit corruption is detected: flipping one bit (bit `k < 8`) of one
byte (position `i`) of a byte sequence `b` changes its check code, so the code
computed for `b` does not validate the corrupted sequence. -/
theorem C14_single_bit_corruption_detected (b : List Nat) (i k : Nat) (hi : i < b.length)
    (hk : k < 8) (hb : b.getD i 0 < 256) :
    generate_check_code (b.set i (b.getD i 0 ^^^ 2 ^ k)) b.length ≠
      generate_check_code b b.length := by
  have hx : ∀ x, x < 256 → ∀ k, k < 8 → (x ^^^ 2 ^ k) < 256 ∧ (x ^^^ 2 ^ k) ≠ x := by decide
  obtain ⟨h1, h2⟩ := hx _ hb k hk
  rw [generate_check_code_eq, generate_check_code_eq]
  have hl : (b.set i (b.getD i 0 ^^^ 2 ^ k)).length = b.length := List.length_set _ _ _
  rw [List.take_of_length_le hl.le, List.take_of_length_le (le_refl _)]
  have hs : b = b.take i ++ b.getD i 0 :: b.drop (i + 1) := by
    rw [List.getD_eq_getElem _ _ hi]
    exact (List.take_append_drop i b).symm.trans (by rw [List.drop_eq_getElem_cons hi])
  have hs' : b.set i (b.getD i 0 ^^^ 2 ^ k) =
      b.take i ++ (b.getD i 0 ^^^ 2 ^ k) :: b.drop (i + 1) := by
    rw [List.set_eq_take_append_cons_drop, if_pos hi]
  rw [hs']
  conv_rhs => rw [hs]
  simp only [List.sum_append, List.sum_cons]
  omega

/-- Witness of C14: bit 0 of the second of two bytes. -/
theorem C14_single_bit_corruption_detected_witness :
    generate_check_code ([0x12, 0x34].set 1 (([0x12, 0x34] : List Nat).getD 1 0 ^^^ 2 ^ 0)) 2 ≠
      generate_check_code [0x12, 0x34] 2 :=
  C14_single_bit_corruption_detected [0x12, 0x34] 1 0 (by decide) (by decide) (by decide)

set_option maxRecDepth 1000000 in
/-- C15 fails as stated: under the test keys (`kms1 ≠ kms2`) the two different nonces
`equal_keys_host_nonce` and `equal_keys_drive_nonce` give `ks1 = ks2`
(both are 00 01 .. 0F). -/
theorem C15_distinct_session_keys_counterexample :
    equal_keys_host_nonce.length = 16 ∧ equal_keys_drive_nonce.length = 16 ∧
    equal_keys_host_nonce ≠ equal_keys_drive_nonce ∧
    test_env.keys.kms1 ≠ test_env.keys.kms2 ∧
    (sv_send2_command_check_recved_data test_env
      (test_world_nonces equal_keys_host_nonce equal_keys_drive_nonce)).2.sv_auth.ks1 =
    (sv_send2_command_check_recved_data test_env
      (test_world_nonces equal_keys_host_nonce equal_keys_drive_nonce)).2.sv_auth.ks2 := by
  decide

/-- C15, as the code has it. On a well-formed session the derived `ks1` and `ks2` are
equal exactly when the encryption under `kms1` of `m_rand1[0..8] ‖ m_rand2[8..16]` equals
the encryption under `kms2` of `m_rand1[8..16] ‖ m_rand2[0..8]` (both AES-128-CBC with IV
`giv`); so they differ whenever the second block is not the decryption under `kms2` of
the encryption under `kms1` of the first block. The hypothesis on the cipher, for the
second part, is that decryption under `kms2` and `giv` gives back the second block from
its encryption. -/
theorem C15_distinct_session_keys_amended (E : Env) (w : World) (hw : w.sv_auth.wf) :
    ((sv_send2_command_check_recved_data E w).2.sv_auth.ks1 =
        (sv_send2_command_check_recved_data E w).2.sv_auth.ks2 ↔
      aes128_cbc_encrypt E.keys.kms1 E.keys.giv
          (w.sv_auth.m_rand1.take 8 ++ w.sv_auth.m_rand2.drop 8) =
        aes128_cbc_encrypt E.keys.kms2 E.keys.giv
          (w.sv_auth.m_rand1.drop 8 ++ w.sv_auth.m_rand2.take 8)) ∧
    (aes128_cbc_decrypt E.keys.kms2 E.keys.giv
        (aes128_cbc_encrypt E.keys.kms2 E.keys.giv
          (w.sv_auth.m_rand1.drop 8 ++ w.sv_auth.m_rand2.take 8)) =
        w.sv_auth.m_rand1.drop 8 ++ w.sv_auth.m_rand2.take 8 →
      aes128_cbc_decrypt E.keys.kms2 E.keys.giv
        (aes128_cbc_encrypt E.keys.kms1 E.keys.giv
          (w.sv_auth.m_rand1.take 8 ++ w.sv_auth.m_rand2.drop 8)) ≠
        w.sv_auth.m_rand1.drop 8 ++ w.sv_auth.m_rand2.take 8 →
      (sv_send2_command_check_recved_data E w).2.sv_auth.ks1 ≠
        (sv_send2_command_check_recved_data E w).2.sv_auth.ks2) := by
  rw [sv_send2_command_check_recved_data_eq E w hw]
  refine ⟨Iff.rfl, ?_⟩
  intro hinv hne h
  apply hne
  have h' : aes128_cbc_encrypt E.keys.kms1 E.keys.giv
      (w.sv_auth.m_rand1.take 8 ++ w.sv_auth.m_rand2.drop 8) =
      aes128_cbc_encrypt E.keys.kms2 E.keys.giv
        (w.sv_auth.m_rand1.drop 8 ++ w.sv_auth.m_rand2.take 8) := h
  rw [h']
  exact hinv

set_option maxRecDepth 1000000 in
/-- Witness of the amended C15: the test session with two test nonces, on which the
cipher hypothesis holds and the second block is not the decryption in question. -/
theorem C15_distinct_session_keys_amended_witness :
    (test_world_nonces (test_block 0x10) (test_block 0x30)).sv_auth.wf ∧
    (sv_send2_command_check_recved_data test_env
      (test_world_nonces (test_block 0x10) (test_block 0x30))).2.sv_auth.ks1 ≠
    (sv_send2_command_check_recved_data test_env
      (test_world_nonces (test_block 0x10) (test_block 0x30))).2.sv_auth.ks2 :=
  have hw : (test_world_nonces (test_block 0x10) (test_block 0x30)).sv_auth.wf := by decide
  ⟨hw, (C15_distinct_session_keys_amended test_env
    (test_world_nonces (test_block 0x10) (test_block 0x30)) hw).2 (by decide) (by decide)⟩

/-- C16. Both parties contribute to each session key: take two well-formed sessions
`w`, `w'` (same keys and `giv`). If `m_rand1[0..8]` or `m_rand2[8..16]` differs
between them, the derived `ks1` differs; if `m_rand1[8..16]` or `m_rand2[0..8]`
differs, the derived `ks2` differs; hence equal `(ks1, ks2)` force equal
`(m_rand1, m_rand2)`, and with one nonce kept and the other changed in the half
that enters a key, that key changes. The hypothesis on the cipher is injectivity of
the single-block encryption under `kms1` (resp. `kms2`) on the two blocks compared. -/
theorem C16_both_parties_contribute (E : Env) (w w' : World) (hw : w.sv_auth.wf)
    (hw' : w'.sv_auth.wf)
    (hinj1 : aes128_cbc_encrypt E.keys.kms1 E.keys.giv
        (w.sv_auth.m_rand1.take 8 ++ w.sv_auth.m_rand2.drop 8) =
      aes128_cbc_encrypt E.keys.kms1 E.keys.giv
        (w'.sv_auth.m_rand1.take 8 ++ w'.sv_auth.m_rand2.drop 8) →
      w.sv_auth.m_rand1.take 8 ++ w.sv_auth.m_rand2.drop 8 =
        w'.sv_auth.m_rand1.take 8 ++ w'.sv_auth.m_rand2.drop 8)
    (hinj2 : aes128_cbc_encrypt E.keys.kms2 E.keys.giv
        (w.sv_auth.m_rand1.drop 8 ++ w.sv_auth.m_rand2.take 8) =
      aes128_cbc_encrypt E.keys.kms2 E.keys.giv
        (w'.sv_auth.m_rand1.drop 8 ++ w'.sv_auth.m_rand2.take 8) →
      w.sv_auth.m_rand1.drop 8 ++ w.sv_auth.m_rand2.take 8 =
        w'.sv_auth.m_rand1.drop 8 ++ w'.sv_auth.m_rand2.take 8) :
    ((w.sv_auth.m_rand1.take 8 ≠ w'.sv_auth.m_rand1.take 8 ∨
        w.sv_auth.m_rand2.drop 8 ≠ w'.sv_auth.m_rand2.drop 8) →
      (sv_send2_command_check_recved_data E w).2.sv_auth.ks1 ≠
        (sv_send2_command_check_recved_data E w').2.sv_auth.ks1) ∧
    ((w.sv_auth.m_rand1.drop 8 ≠ w'.sv_auth.m_rand1.drop 8 ∨
        w.sv_auth.m_rand2.take 8 ≠ w'.sv_auth.m_rand2.take 8) →
      (sv_send2_command_check_recved_data E w).2.sv_auth.ks2 ≠
        (sv_send2_command_check_recved_data E w').2.sv_auth.ks2) ∧
    ((sv_send2_command_check_recved_data E w).2.sv_auth.ks1 =
        (sv_send2_command_check_recved_data E w').2.sv_auth.ks1 →
      (sv_send2_command_check_recved_data E w).2.sv_auth.ks2 =
        (sv_send2_command_check_recved_data E w').2.sv_auth.ks2 →
      w.sv_auth.m_rand1 = w'.sv_auth.m_rand1 ∧ w.sv_auth.m_rand2 = w'.sv_auth.m_rand2) := by
  have h1 := hw.2.2.2.2.1
  have h1' := hw'.2.2.2.2.1
  have h2 := hw.2.2.2.2.2.1
  have h2' := hw'.2.2.2.2.2.1
  rw [sv_send2_command_check_recved_data_eq E w hw,
    sv_send2_command_check_recved_data_eq E w' hw']
  have k1 : aes128_cbc_encrypt E.keys.kms1 E.keys.giv
        (w.sv_auth.m_rand1.take 8 ++ w.sv_auth.m_rand2.drop 8) =
      aes128_cbc_encrypt E.keys.kms1 E.keys.giv
        (w'.sv_auth.m_rand1.take 8 ++ w'.sv_auth.m_rand2.drop 8) →
      w.sv_auth.m_rand1.take 8 = w'.sv_auth.m_rand1.take 8 ∧
        w.sv_auth.m_rand2.drop 8 = w'.sv_auth.m_rand2.drop 8 :=
    fun h => (take8_append_drop8_inj _ _ _ _ h1 h1').mp (hinj1 h)
  have k2 : aes128_cbc_encrypt E.keys.kms2 E.keys.giv
        (w.sv_auth.m_rand1.drop 8 ++ w.sv_auth.m_rand2.take 8) =
      aes128_cbc_encrypt E.keys.kms2 E.keys.giv
        (w'.sv_auth.m_rand1.drop 8 ++ w'.sv_auth.m_rand2.take 8) →
      w.sv_auth.m_rand1.drop 8 = w'.sv_auth.m_rand1.drop 8 ∧
        w.sv_auth.m_rand2.take 8 = w'.sv_auth.m_rand2.take 8 :=
    fun h => (drop8_append_take8_inj _ _ _ _ h1 h1').mp (hinj2 h)
  refine ⟨?_, ?_, ?_⟩
  · intro hd he
    have := k1 he
    rcases hd with hd | hd
    · exact hd this.1
    · exact hd this.2
  · intro hd he
    have := k2 he
    rcases hd with hd | hd
    · exact hd this.1
    · exact hd this.2
  · intro e1 e2
    have a := k1 e1
    have b := k2 e2
    constructor
    · rw [← List.take_append_drop 8 w.sv_auth.m_rand1,
        ← List.take_append_drop 8 w'.sv_auth.m_rand1, a.1, b.1]
    · rw [← List.take_append_drop 8 w.sv_auth.m_rand2,
        ← List.take_append_drop 8 w'.sv_auth.m_rand2, a.2, b.2]

set_option maxRecDepth 1000000 in
/-- Witness of C16: two test sessions with the same host nonce and drive nonces that
differ in both halves; both session keys differ. -/
theorem C16_both_parties_contribute_witness :
    (test_world_nonces (test_block 0x10) (test_block 0x30)).sv_auth.wf ∧
    (test_world_nonces (test_block 0x10) (test_block 0x31)).sv_auth.wf ∧
    (sv_send2_command_check_recved_data test_env
      (test_world_nonces (test_block 0x10) (test_block 0x30))).2.sv_auth.ks1 ≠
    (sv_send2_command_check_recved_data test_env
      (test_world_nonces (test_block 0x10) (test_block 0x31))).2.sv_auth.ks1 :=
  have hw : (test_world_nonces (test_block 0x10) (test_block 0x30)).sv_auth.wf := by decide
  have hw' : (test_world_nonces (test_block 0x10) (test_block 0x31)).sv_auth.wf := by decide
  ⟨hw, hw', (C16_both_parties_contribute test_env
    (test_world_nonces (test_block 0x10) (test_block 0x30))
    (test_world_nonces (test_block 0x10) (test_block 0x31)) hw hw' (by decide) (by decide)).1
    (Or.inr (by decide))⟩

/-- C17. The derivation is a function of the two nonces only: two runs of
`sv_send2_command_check_recved_data` on states that agree on `m_rand1` and `m_rand2`
(and whose `ks1`, `ks2` are sixteen-byte arrays), whatever their other fields and
`packet_buffer` hold, both return 0 and end with the same `ks1` and the same `ks2`. -/
theorem C17_derivation_depends_on_nonces_only (E : Env) (w w' : World)
    (hk : w.sv_auth.ks1.length = 16 ∧ w.sv_auth.ks2.length = 16)
    (hk' : w'.sv_auth.ks1.length = 16 ∧ w'.sv_auth.ks2.length = 16)
    (h1 : w.sv_auth.m_rand1 = w'.sv_auth.m_rand1)
    (h2 : w.sv_auth.m_rand2 = w'.sv_auth.m_rand2) :
    (sv_send2_command_check_recved_data E w).1 = 0 ∧
    (sv_send2_command_check_recved_data E w').1 = 0 ∧
    (sv_send2_command_check_recved_data E w).2.sv_auth.ks1 =
      (sv_send2_command_check_recved_data E w').2.sv_auth.ks1 ∧
    (sv_send2_command_check_recved_data E w).2.sv_auth.ks2 =
      (sv_send2_command_check_recved_data E w').2.sv_auth.ks2 := by
  rw [sv_send2_command_check_recved_data_raw E w, sv_send2_command_check_recved_data_raw E w']
  simp only [h1, h2, List.drop_eq_nil_of_le hk.1.le, List.drop_eq_nil_of_le hk.2.le,
    List.drop_eq_nil_of_le hk'.1.le, List.drop_eq_nil_of_le hk'.2.le, and_self]

/-- Witness of C17: the test session with and without a challenge pair loaded and
with different stored session keys. -/
theorem C17_derivation_depends_on_nonces_only_witness :
    (sv_send2_command_check_recved_data test_env test_world).2.sv_auth.ks1 =
      (sv_send2_command_check_recved_data test_env
        { test_world_keys with sv_auth :=
          { test_world_keys.sv_auth with ks1 := test_block 7, ks2 := test_block 9 } }).2.sv_auth.ks1 :=
  (C17_derivation_depends_on_nonces_only test_env test_world
    { test_world_keys with sv_auth :=
      { test_world_keys.sv_auth with ks1 := test_block 7, ks2 := test_block 9 } }
    (by decide) (by decide) (by decide) (by decide)).2.2.1


set_option maxRecDepth 1000000 in
/-- C18 (the code departs from the claim): a PS2 disc response whose check code is wrong
is reported as success. The session holds its two session keys and the drive answers
the request with 0x44 zero bytes; the exchange succeeds, byte 0 of the session key 1
plaintext is not the check code of bytes 1..0x3F,
`sv_wm2_command_check_recved_data` returns -16, and `get_wm2` returns 0 with `buf1`
and `buf2` as the caller passed them. -/
theorem C18_bad_check_code_reported_as_success :
    (sendrecv zero_env (sv_wm2_command_set zero_env 0 0 1 test_world_session).2).1 = 0 ∧
    (wm2_plain zero_env (wm2_received zero_env 0 0 1 test_world_session)).getD 0 0 ≠
      generate_check_code
        ((wm2_plain zero_env (wm2_received zero_env 0 0 1 test_world_session)).drop 1) 0x3F ∧
    (sv_wm2_command_check_recved_data zero_env (wm2_received zero_env 0 0 1 test_world_session)
      [0] (List.replicate 0x30 0)).1 = -16 ∧
    (get_wm2 zero_env 0 0 1 test_world_session [0] (List.replicate 0x30 0)).status = 0 ∧
    (get_wm2 zero_env 0 0 1 test_world_session [0] (List.replicate 0x30 0)).buf1 = [0] ∧
    (get_wm2 zero_env 0 0 1 test_world_session [0] (List.replicate 0x30 0)).buf2 =
      List.replicate 0x30 0 := by
  have ht : (sendrecv zero_env (sv_wm2_command_set zero_env 0 0 1 test_world_session).2).1 = 0 := by
    decide
  have hcc : (wm2_plain zero_env (wm2_received zero_env 0 0 1 test_world_session)).getD 0 0 ≠
      generate_check_code
        ((wm2_plain zero_env (wm2_received zero_env 0 0 1 test_world_session)).drop 1) 0x3F := by
    decide
  have hb := sv_wm2_command_check_recved_data_bad zero_env
    (wm2_received zero_env 0 0 1 test_world_session) [0] (List.replicate 0x30 0) hcc
  have hg := get_wm2_eq zero_env 0 0 1 test_world_session [0] (List.replicate 0x30 0) ht
  refine ⟨ht, hcc, ?_, ?_, ?_, ?_⟩
  · rw [hb]
  · rw [hg]
  · rw [hg, hb]
  · rw [hg, hb]

/-- C19: layered decryption of the PS2 disc response. Let `D` be the 0x40 bytes at
offset 0x28 of the packet buffer decrypted by one chained AES-128-CBC call under `ks1`
and `ivs_aes`. When `D[0]` is the check code of `D[1..0x40]`,
`sv_wm2_command_check_recved_data` returns 0, stores `D[2]` in `buf1[0]` and, for
`i = 0, 1, 2`, stores in `buf2[16i..16i+16]` the decryption under `Kwm` and `giv` of
the decryption under `ks2` and `ivs_aes` of `D[3+16i..19+16i]`, every sub-field by
one-block calls that start from the IV constant; the rest of `buf1` and `buf2` is left
as it was. -/
theorem C19_wm2_layered_decryption (E : Env) (w : World) (buf1 buf2 : List Nat)
    (hpb : ((w.packet_buffer.drop 0x28).take 0x40).length = 0x40)
    (hcc : (wm2_plain E w).getD 0 0 = generate_check_code ((wm2_plain E w).drop 1) 0x3F) :
    (wm2_plain E w).length = 0x40 ∧
    (sv_wm2_command_check_recved_data E w buf1 buf2).1 = 0 ∧
    (sv_wm2_command_check_recved_data E w buf1 buf2).2.1 =
      (wm2_plain E w).getD 2 0 :: buf1.drop 1 ∧
    (∀ i, i < 3 →
      ((sv_wm2_command_check_recved_data E w buf1 buf2).2.2.drop (16 * i)).take 16 =
        aes128_cbc_decrypt E.keys.Kwm E.keys.giv
          (aes128_cbc_decrypt w.sv_auth.ks2 E.keys.ivs_aes
            (((wm2_plain E w).drop (3 + 16 * i)).take 16))) ∧
    (sv_wm2_command_check_recved_data E w buf1 buf2).2.2.drop 0x30 = buf2.drop 0x30 := by
  have hlen : 0x68 ≤ w.packet_buffer.length := payload_present _ 0x40 (by decide) hpb
  have hD : (wm2_plain E w).length = 0x40 := by
    rw [wm2_plain, aes_decrypt_cbc_length _ _ _ _ _ (by decide) (by omega), hpb]
  have l0 : (wm2_field E w (wm2_plain E w) 0).length = 16 := aes128_cbc_decrypt_length _ _ _
  have l1 : (wm2_field E w (wm2_plain E w) 1).length = 16 := aes128_cbc_decrypt_length _ _ _
  have l2 : (wm2_field E w (wm2_plain E w) 2).length = 16 := aes128_cbc_decrypt_length _ _ _
  have hf : ∀ i, aes128_cbc_decrypt E.keys.Kwm E.keys.giv
      (aes128_cbc_decrypt w.sv_auth.ks2 E.keys.ivs_aes
        (((wm2_plain E w).drop (3 + 16 * i)).take 16)) = wm2_field E w (wm2_plain E w) i :=
    fun _ => rfl
  rw [sv_wm2_command_check_recved_data_eq E w buf1 buf2 hlen hcc]
  refine ⟨hD, rfl, rfl, ?_, ?_⟩
  · intro i hi
    rw [hf]
    have d16 : ∀ (x y : List Nat), x.length = 16 → (x ++ y).drop 16 = y := by
      intro x y h; rw [← h]; exact List.drop_left _ _
    have t16 : ∀ (x y : List Nat), x.length = 16 → (x ++ y).take 16 = x := by
      intro x y h; rw [← h]; exact List.take_left _ _
    have d32 : ∀ (x y z : List Nat), x.length = 16 → y.length = 16 →
        (x ++ (y ++ z)).drop 32 = z := by
      intro x y z h h'
      have e : (x ++ (y ++ z)).drop 32 = ((x ++ (y ++ z)).drop 16).drop 16 := by
        rw [List.drop_drop]
      rw [e, d16 _ _ h, d16 _ _ h']
    have hi3 : i = 0 ∨ i = 1 ∨ i = 2 := by omega
    rcases hi3 with rfl | rfl | rfl
    · rw [Nat.mul_zero, List.drop_zero, t16 _ _ l0]
    · rw [Nat.mul_one, d16 _ _ l0, t16 _ _ l1]
    · rw [show 16 * 2 = 32 from rfl, d32 _ _ _ l0 l1, t16 _ _ l2]
  · show (wm2_field E w (wm2_plain E w) 0 ++ (wm2_field E w (wm2_plain E w) 1 ++
      (wm2_field E w (wm2_plain E w) 2 ++ buf2.drop 0x30))).drop 0x30 = buf2.drop 0x30
    rw [← List.append_assoc, ← List.append_assoc]
    have : (wm2_field E w (wm2_plain E w) 0 ++ wm2_field E w (wm2_plain E w) 1 ++
        wm2_field E w (wm2_plain E w) 2).length = 0x30 := by
      simp only [List.length_append, l0, l1, l2]
    rw [← this]; exact List.drop_left _ _

set_option maxRecDepth 1000000 in
/-- Witness for C19: the test session receives the sealed PS2 disc response; the mode
byte 0x5A reaches `buf1`. -/
theorem C19_wm2_layered_decryption_witness :
    (((wm2_received wm2_env 0 0 1 test_world_session).packet_buffer.drop 0x28).take 0x40).length
      = 0x40 ∧
    (wm2_plain wm2_env (wm2_received wm2_env 0 0 1 test_world_session)).getD 0 0 =
      generate_check_code
        ((wm2_plain wm2_env (wm2_received wm2_env 0 0 1 test_world_session)).drop 1) 0x3F ∧
    (wm2_plain wm2_env (wm2_received wm2_env 0 0 1 test_world_session)).getD 2 0 = 0x5A ∧
    (sv_wm2_command_check_recved_data wm2_env (wm2_received wm2_env 0 0 1 test_world_session)
      [0] (List.replicate 0x30 0)).1 = 0 ∧
    (sv_wm2_command_check_recved_data wm2_env (wm2_received wm2_env 0 0 1 test_world_session)
      [0] (List.replicate 0x30 0)).2.1 =
      (wm2_plain wm2_env (wm2_received wm2_env 0 0 1 test_world_session)).getD 2 0 ::
        List.drop 1 [0] ∧
    (∀ i, i < 3 →
      ((sv_wm2_command_check_recved_data wm2_env
          (wm2_received wm2_env 0 0 1 test_world_session) [0]
          (List.replicate 0x30 0)).2.2.drop (16 * i)).take 16 =
        aes128_cbc_decrypt wm2_env.keys.Kwm wm2_env.keys.giv
          (aes128_cbc_decrypt (wm2_received wm2_env 0 0 1 test_world_session).sv_auth.ks2
            wm2_env.keys.ivs_aes
            (((wm2_plain wm2_env (wm2_received wm2_env 0 0 1 test_world_session)).drop
              (3 + 16 * i)).take 16))) :=
  have hpb : (((wm2_received wm2_env 0 0 1 test_world_session).packet_buffer.drop 0x28).take
      0x40).length = 0x40 := by decide
  have hcc : (wm2_plain wm2_env (wm2_received wm2_env 0 0 1 test_world_session)).getD 0 0 =
      generate_check_code
        ((wm2_plain wm2_env (wm2_received wm2_env 0 0 1 test_world_session)).drop 1) 0x3F := by
    decide
  have h := C19_wm2_layered_decryption wm2_env (wm2_received wm2_env 0 0 1 test_world_session)
    [0] (List.replicate 0x30 0) hpb hcc
  ⟨hpb, hcc, by decide, h.2.1, h.2.2.1, h.2.2.2.1⟩

set_option maxRecDepth 1000000 in
/-- C20 (the claim as written fails): the test session receives a PS3 disc response
whose session key 1 plaintext has a correct check code and carries the debug marker
itself in bytes 3..0x13. Were those bytes the ones compared, the disc would be a debug
disc; `get_wm3` succeeds with the release mode, a content key that is not `intikey`,
and a `misc_wm` that is not the `Kwm` decryption of bytes 0x13..0x23 of that
plaintext. -/
theorem C20_wm3_layers_counterexample :
    (sendrecv wm3_marker_env (sv_wm_command_set wm3_marker_env test_world_session).2).1 = 0 ∧
    (wm_plain wm3_marker_env (wm3_received wm3_marker_env test_world_session)).getD 0 0 =
      generate_check_code
        ((wm_plain wm3_marker_env (wm3_received wm3_marker_env test_world_session)).drop 1)
        0x2F ∧
    ((wm_plain wm3_marker_env (wm3_received wm3_marker_env test_world_session)).drop 3).take 16
      = wm3_marker_env.keys.PS3_L_DEBUG_DISC ∧
    (get_wm3 wm3_marker_env test_world_session (List.replicate 16 0) (List.replicate 16 0)
      0).status = 0 ∧
    (get_wm3 wm3_marker_env test_world_session (List.replicate 16 0) (List.replicate 16 0)
      0).disc_mode = PS3_DISC_RELEASE_MODE ∧
    (get_wm3 wm3_marker_env test_world_session (List.replicate 16 0) (List.replicate 16 0)
      0).contents_key ≠ wm3_marker_env.keys.intikey ∧
    (get_wm3 wm3_marker_env test_world_session (List.replicate 16 0) (List.replicate 16 0)
      0).misc_wm ≠
      aes128_cbc_decrypt wm3_marker_env.keys.Kwm wm3_marker_env.keys.giv
        (((wm_plain wm3_marker_env (wm3_received wm3_marker_env test_world_session)).drop
          0x13).take 16) := by
  have ht : (sendrecv wm3_marker_env
      (sv_wm_command_set wm3_marker_env test_world_session).2).1 = 0 := by decide
  have hpb : (((wm3_received wm3_marker_env test_world_session).packet_buffer.drop 0x28).take
      0x30).length = 0x30 := by decide
  have hcc : (wm_plain wm3_marker_env (wm3_received wm3_marker_env test_world_session)).getD
      0 0 = generate_check_code
        ((wm_plain wm3_marker_env (wm3_received wm3_marker_env test_world_session)).drop 1)
        0x2F := by decide
  have hg := get_wm3_eq wm3_marker_env test_world_session (List.replicate 16 0)
    (List.replicate 16 0) 0 ht (payload_present _ 0x30 (by decide) hpb) hcc
  have hm : memcmp_eq (wm3_field wm3_marker_env test_world_session 3) 0
      wm3_marker_env.keys.PS3_L_DEBUG_DISC 0 0x10 = false := by decide
  refine ⟨ht, hcc, by decide, ?_, ?_, ?_, ?_⟩
  · rw [hg]
  · rw [hg]; simp only [hm]; rfl
  · rw [hg]; simp only [hm]; decide
  · rw [hg]; decide

/-- C20 (amended): `get_wm3` removes two session-key layers. When the exchange succeeds
and the 0x30 bytes at offset 0x28 of the packet buffer, decrypted by one chained
AES-128-CBC call under `ks1` and `ivs_aes`, start with the check code of the 0x2F bytes
that follow, bytes 3..0x13 and bytes 0x13..0x23 of that plaintext are each decrypted
once more, on their own, under `ks2` and `ivs_aes`. The first result is what is
compared with the debug marker (equal: `intikey` and the debug mode) and what is
encrypted under `Kh` and `IVh` into the content key otherwise (release mode); `misc_wm`
is the decryption under `Kwm` and `giv` of the second result. The call returns 0 and
the session state is the one the exchange started from. -/
theorem C20_wm3_layers_amended (E : Env) (w : World) (contents_key misc_wm : List Nat)
    (disc_mode : Nat)
    (ht : (sendrecv E (sv_wm_command_set E w).2).1 = 0)
    (hpb : (((wm3_received E w).packet_buffer.drop 0x28).take 0x30).length = 0x30)
    (hcc : (wm_plain E (wm3_received E w)).getD 0 0 =
      generate_check_code ((wm_plain E (wm3_received E w)).drop 1) 0x2F) :
    (get_wm3 E w contents_key misc_wm disc_mode).status = 0 ∧
    (get_wm3 E w contents_key misc_wm disc_mode).world.sv_auth = w.sv_auth ∧
    (memcmp_eq (aes128_cbc_decrypt w.sv_auth.ks2 E.keys.ivs_aes
        (((wm_plain E (wm3_received E w)).drop 3).take 16)) 0 E.keys.PS3_L_DEBUG_DISC 0 0x10
        = true →
      (get_wm3 E w contents_key misc_wm disc_mode).disc_mode = PS3_DISC_DEBUG_MODE ∧
      (get_wm3 E w contents_key misc_wm disc_mode).contents_key =
        memcpy contents_key 0 E.keys.intikey 0 0x10) ∧
    (memcmp_eq (aes128_cbc_decrypt w.sv_auth.ks2 E.keys.ivs_aes
        (((wm_plain E (wm3_received E w)).drop 3).take 16)) 0 E.keys.PS3_L_DEBUG_DISC 0 0x10
        = false →
      (get_wm3 E w contents_key misc_wm disc_mode).disc_mode = PS3_DISC_RELEASE_MODE ∧
      (get_wm3 E w contents_key misc_wm disc_mode).contents_key =
        aes128_cbc_encrypt E.keys.Kh E.keys.IVh
          (aes128_cbc_decrypt w.sv_auth.ks2 E.keys.ivs_aes
            (((wm_plain E (wm3_received E w)).drop 3).take 16)) ++ contents_key.drop 0x10) ∧
    (get_wm3 E w contents_key misc_wm disc_mode).misc_wm =
      aes128_cbc_decrypt E.keys.Kwm E.keys.giv
        (aes128_cbc_decrypt w.sv_auth.ks2 E.keys.ivs_aes
          (((wm_plain E (wm3_received E w)).drop 0x13).take 16)) ++ misc_wm.drop 0x10 := by
  have hg := get_wm3_eq E w contents_key misc_wm disc_mode ht
    (payload_present _ 0x30 (by decide) hpb) hcc
  have f0 : aes128_cbc_decrypt w.sv_auth.ks2 E.keys.ivs_aes
      (((wm_plain E (wm3_received E w)).drop 3).take 16) = wm3_field E w 3 := rfl
  have f1 : aes128_cbc_decrypt w.sv_auth.ks2 E.keys.ivs_aes
      (((wm_plain E (wm3_received E w)).drop 0x13).take 16) = wm3_field E w 0x13 := rfl
  rw [hg, f0, f1]
  refine ⟨rfl, wm3_received_sv_auth E w, ?_, ?_, rfl⟩
  · intro h
    show (if memcmp_eq (wm3_field E w 3) 0 E.keys.PS3_L_DEBUG_DISC 0 0x10 = true then
        PS3_DISC_DEBUG_MODE else PS3_DISC_RELEASE_MODE) = PS3_DISC_DEBUG_MODE ∧
      (if memcmp_eq (wm3_field E w 3) 0 E.keys.PS3_L_DEBUG_DISC 0 0x10 = true then
        memcpy contents_key 0 E.keys.intikey 0 0x10
      else aes128_cbc_encrypt E.keys.Kh E.keys.IVh (wm3_field E w 3) ++
        contents_key.drop 0x10) = memcpy contents_key 0 E.keys.intikey 0 0x10
    rw [if_pos h, if_pos h]
    exact ⟨rfl, rfl⟩
  · intro h
    have hn : ¬ (memcmp_eq (wm3_field E w 3) 0 E.keys.PS3_L_DEBUG_DISC 0 0x10 = true) := by
      rw [h]; exact Bool.false_ne_true
    show (if memcmp_eq (wm3_field E w 3) 0 E.keys.PS3_L_DEBUG_DISC 0 0x10 = true then
        PS3_DISC_DEBUG_MODE else PS3_DISC_RELEASE_MODE) = PS3_DISC_RELEASE_MODE ∧
      (if memcmp_eq (wm3_field E w 3) 0 E.keys.PS3_L_DEBUG_DISC 0 0x10 = true then
        memcpy contents_key 0 E.keys.intikey 0 0x10
      else aes128_cbc_encrypt E.keys.Kh E.keys.IVh (wm3_field E w 3) ++
        contents_key.drop 0x10) = aes128_cbc_encrypt E.keys.Kh E.keys.IVh (wm3_field E w 3) ++
        contents_key.drop 0x10
    rw [if_neg hn, if_neg hn]
    exact ⟨rfl, rfl⟩

set_option maxRecDepth 1000000 in
/-- Witness for C20 (amended): the test session and the sealed PS3 disc response. -/
theorem C20_wm3_layers_amended_witness :
    (sendrecv wm3_marker_env (sv_wm_command_set wm3_marker_env test_world_session).2).1 = 0 ∧
    (((wm3_received wm3_marker_env test_world_session).packet_buffer.drop 0x28).take
      0x30).length = 0x30 ∧
    (wm_plain wm3_marker_env (wm3_received wm3_marker_env test_world_session)).getD 0 0 =
      generate_check_code
        ((wm_plain wm3_marker_env (wm3_received wm3_marker_env test_world_session)).drop 1)
        0x2F ∧
    (get_wm3 wm3_marker_env test_world_session (List.replicate 16 0) (List.replicate 16 0)
      0).status = 0 ∧
    (get_wm3 wm3_marker_env test_world_session (List.replicate 16 0) (List.replicate 16 0)
      0).misc_wm =
      aes128_cbc_decrypt wm3_marker_env.keys.Kwm wm3_marker_env.keys.giv
        (aes128_cbc_decrypt test_world_session.sv_auth.ks2 wm3_marker_env.keys.ivs_aes
          (((wm_plain wm3_marker_env (wm3_received wm3_marker_env test_world_session)).drop
            0x13).take 16)) ++ (List.replicate 16 0).drop 0x10 :=
  have ht : (sendrecv wm3_marker_env
      (sv_wm_command_set wm3_marker_env test_world_session).2).1 = 0 := by decide
  have hpb : (((wm3_received wm3_marker_env test_world_session).packet_buffer.drop 0x28).take
      0x30).length = 0x30 := by decide
  have hcc : (wm_plain wm3_marker_env (wm3_received wm3_marker_env test_world_session)).getD
      0 0 = generate_check_code
        ((wm_plain wm3_marker_env (wm3_received wm3_marker_env test_world_session)).drop 1)
        0x2F := by decide
  have h := C20_wm3_layers_amended wm3_marker_env test_world_session (List.replicate 16 0)
    (List.replicate 16 0) 0 ht hpb hcc
  ⟨ht, hpb, hcc, h.1, h.2.2.2.2⟩

/-- C21. `get_wm3` fails atomically: if the exchange fails, or byte 0 of the 0x30-byte
response decrypted under session key 1 is not the check code of its bytes 1..0x2F,
`get_wm3` returns -1 and `contents_key`, `misc_wm` and `disc_mode` hold what the caller
passed. -/
theorem C21_wm3_fails_atomically (E : Env) (w : World) (contents_key misc_wm : List Nat)
    (disc_mode : Nat)
    (h : (sendrecv E (sv_wm_command_set E w).2).1 ≠ 0 ∨
      (wm_plain E (wm3_received E w)).getD 0 0 ≠
        generate_check_code ((wm_plain E (wm3_received E w)).drop 1) 0x2F) :
    (get_wm3 E w contents_key misc_wm disc_mode).status = -1 ∧
    (get_wm3 E w contents_key misc_wm disc_mode).contents_key = contents_key ∧
    (get_wm3 E w contents_key misc_wm disc_mode).misc_wm = misc_wm ∧
    (get_wm3 E w contents_key misc_wm disc_mode).disc_mode = disc_mode := by
  rw [get_wm3_fail E w contents_key misc_wm disc_mode h]
  exact ⟨rfl, rfl, rfl, rfl⟩

set_option maxRecDepth 1000000 in
/-- Witness of C21: the exchange succeeds and the drive transfers zero bytes, whose
plaintext under session key 1 starts with 0x07 where the check code is 0x37. -/
theorem C21_wm3_fails_atomically_witness :
    (sendrecv zero_env (sv_wm_command_set zero_env test_world_session).2).1 = 0 ∧
    (wm_plain zero_env (wm3_received zero_env test_world_session)).getD 0 0 ≠
      generate_check_code
        ((wm_plain zero_env (wm3_received zero_env test_world_session)).drop 1) 0x2F ∧
    (get_wm3 zero_env test_world_session (test_block 0x40) (test_block 0x50) 7).status = -1 ∧
    (get_wm3 zero_env test_world_session (test_block 0x40) (test_block 0x50) 7).contents_key =
      test_block 0x40 ∧
    (get_wm3 zero_env test_world_session (test_block 0x40) (test_block 0x50) 7).misc_wm =
      test_block 0x50 ∧
    (get_wm3 zero_env test_world_session (test_block 0x40) (test_block 0x50) 7).disc_mode = 7 :=
  have hcc : (wm_plain zero_env (wm3_received zero_env test_world_session)).getD 0 0 ≠
      generate_check_code
        ((wm_plain zero_env (wm3_received zero_env test_world_session)).drop 1) 0x2F := by
    decide
  ⟨by decide, hcc,
    C21_wm3_fails_atomically zero_env test_world_session (test_block 0x40) (test_block 0x50) 7
      (Or.inr hcc)⟩

/-- C22. Content-key selection: for every 16-byte value `wd`, `set_contents_key` returns
0; it yields `intikey` and `PS3_DISC_DEBUG_MODE` (2) when `wd` is `PS3_L_DEBUG_DISC`, and
the AES-128-CBC encryption of `wd` under `Kh` and `IVh` together with
`PS3_DISC_RELEASE_MODE` (1) otherwise. -/
theorem C22_content_key_selection (E : Env) (wd contents_key : List Nat) (disc_mode : Nat)
    (hK : E.keys.wf) (hw : wd.length = 16) (hc : contents_key.length = 16) :
    (set_contents_key E wd contents_key disc_mode).1 = 0 ∧
    (wd = E.keys.PS3_L_DEBUG_DISC →
      set_contents_key E wd contents_key disc_mode =
        (0, E.keys.intikey, PS3_DISC_DEBUG_MODE)) ∧
    (wd ≠ E.keys.PS3_L_DEBUG_DISC →
      set_contents_key E wd contents_key disc_mode =
        (0, aes128_cbc_encrypt E.keys.Kh E.keys.IVh wd, PS3_DISC_RELEASE_MODE)) ∧
    PS3_DISC_DEBUG_MODE = 2 ∧ PS3_DISC_RELEASE_MODE = 1 := by
  have hm : E.keys.PS3_L_DEBUG_DISC.length = 16 := hK.2.2.2.2.2.2.2.2.2.2.2.2.2.2.2.2.2.2.2.2.2.2.2.2.2.1
  have hi : E.keys.intikey.length = 16 := hK.2.2.2.2.2.2.2.2.2.2.2.2.2.2.2.2.2.2.2.2.2.2.2.2.2.2.1
  rw [set_contents_key_eq E wd contents_key disc_mode hw hc hm hi]
  refine ⟨?_, ?_, ?_, rfl, rfl⟩
  · split <;> rfl
  · intro h; rw [if_pos h]
  · intro h; rw [if_neg h]

set_option maxRecDepth 1000000 in
/-- Witness of C22: under the test keys, the marker gives the debug key and the block
`00 01 .. 0F` gives a release key. -/
theorem C22_content_key_selection_witness :
    test_env.keys.wf ∧
    set_contents_key test_env test_env.keys.PS3_L_DEBUG_DISC (List.replicate 16 0) 0 =
      (0, test_env.keys.intikey, PS3_DISC_DEBUG_MODE) ∧
    set_contents_key test_env (test_block 0) (List.replicate 16 0) 0 =
      (0, aes128_cbc_encrypt test_env.keys.Kh test_env.keys.IVh (test_block 0),
        PS3_DISC_RELEASE_MODE) :=
  have hK : test_env.keys.wf := by decide
  ⟨hK,
    (C22_content_key_selection test_env test_env.keys.PS3_L_DEBUG_DISC (List.replicate 16 0) 0
      hK (by decide) (by decide)).2.1 rfl,
    (C22_content_key_selection test_env (test_block 0) (List.replicate 16 0) 0
      hK (by decide) (by decide)).2.2.1 (by decide)⟩

/-- C23. Disc id: for every 16-byte `misc_wm`, `get_disc_id` returns 0 and `disc_id` is
the AES-128-CBC encryption under `Kdid` and `zero_iv` of the block made of eleven zero
bytes followed by `misc_wm[11..16]`; two values of `misc_wm` that agree on bytes 11..15
give the same `disc_id`. -/
theorem C23_disc_id (E : Env) (misc_wm disc_id : List Nat) (hm : misc_wm.length = 16)
    (hd : disc_id.length = 16) :
    get_disc_id E misc_wm disc_id =
      (0, aes128_cbc_encrypt E.keys.Kdid E.keys.zero_iv
        (List.replicate 11 0 ++ misc_wm.drop 11)) ∧
    (misc_wm.drop 11).length = 5 ∧
    ∀ misc_wm' : List Nat, misc_wm'.length = 16 → misc_wm'.drop 11 = misc_wm.drop 11 →
      get_disc_id E misc_wm' disc_id = get_disc_id E misc_wm disc_id := by
  refine ⟨get_disc_id_eq E misc_wm disc_id hm hd, by rw [List.length_drop]; omega, ?_⟩
  intro m' hm' he
  rw [get_disc_id_eq E m' disc_id hm' hd, get_disc_id_eq E misc_wm disc_id hm hd, he]

/-- Witness of C23: a test block as `misc_wm`. -/
theorem C23_disc_id_witness :
    get_disc_id test_env (test_block 0x40) (List.replicate 16 0) =
      (0, aes128_cbc_encrypt test_env.keys.Kdid test_env.keys.zero_iv
        (List.replicate 11 0 ++ (test_block 0x40).drop 11)) :=
  (C23_disc_id test_env (test_block 0x40) (List.replicate 16 0) (by decide) (by decide)).1

/-- C24. `get_version`: let `D` be the 0x50 bytes at offset 0x28 of the packet buffer
after the exchange, decrypted by one chained AES-128-CBC call under `ks1` and `ivs_aes`.
`get_version` returns 0 exactly when the exchange succeeds and `D[0]` is the check code
of `D[1..0x50)`, and then `version` is `D[2..0x42)`; in every other case it returns -1
and `version` holds what the caller passed. -/
theorem C24_get_version (E : Env) (w : World) (version : List Nat)
    (hv : version.length = 0x40)
    (hpb : (((version_received E w).packet_buffer.drop 0x28).take 0x50).length = 0x50) :
    (version_plain E (version_received E w)).length = 0x50 ∧
    ((get_version E w version).status = 0 ↔
      ((sendrecv E (sv_getver_command_set E w).2).1 = 0 ∧
        (version_plain E (version_received E w)).getD 0 0 =
          generate_check_code ((version_plain E (version_received E w)).drop 1) 0x4F)) ∧
    ((get_version E w version).status = 0 →
      (get_version E w version).version =
        ((version_plain E (version_received E w)).drop 2).take 0x40 ∧
      (get_version E w version).version.length = 0x40) ∧
    ((get_version E w version).status ≠ 0 →
      (get_version E w version).status = -1 ∧ (get_version E w version).version = version) := by
  have hD : (version_plain E (version_received E w)).length = 0x50 := by
    rw [version_plain, aes_decrypt_cbc_length _ _ _ _ _ (by decide) (by omega), hpb]
  have hcopy : memcpy version 0 (version_plain E (version_received E w)) 2 0x40 =
      ((version_plain E (version_received E w)).drop 2).take 0x40 := by
    simp only [memcpy, List.take_zero, List.nil_append, Nat.zero_add]
    rw [List.drop_eq_nil_of_le (Nat.le_of_eq hv), List.append_nil]
  have hlen : (((version_plain E (version_received E w)).drop 2).take 0x40).length = 0x40 := by
    rw [List.length_take, List.length_drop, hD]; rfl
  have hne : (-1 : Int) ≠ 0 := by decide
  rw [get_version_eq, hcopy]
  refine ⟨hD, ?_, ?_, ?_⟩
  · split_ifs with h1 h2
    · exact ⟨fun h => absurd h hne, fun h => absurd h.1 h1⟩
    · exact ⟨fun h => absurd h hne, fun h => absurd h.2 h2⟩
    · exact ⟨fun _ => ⟨not_not.mp h1, not_not.mp h2⟩, fun _ => rfl⟩
  · split_ifs with h1 h2
    · intro h; exact absurd h hne
    · intro h; exact absurd h hne
    · intro _; exact ⟨rfl, hlen⟩
  · split_ifs with h1 h2
    · intro _; exact ⟨rfl, rfl⟩
    · intro _; exact ⟨rfl, rfl⟩
    · intro h; exact absurd rfl h

set_option maxRecDepth 1000000 in
/-- Witness of C24: the test session receives the sealed version response and obtains
the bytes `30 31 .. 6F`. -/
theorem C24_get_version_witness :
    (List.replicate 0x40 0).length = 0x40 ∧
    (((version_received getver_env test_world_session).packet_buffer.drop 0x28).take
      0x50).length = 0x50 ∧
    (get_version getver_env test_world_session (List.replicate 0x40 0)).status = 0 ∧
    (get_version getver_env test_world_session (List.replicate 0x40 0)).version =
      ((version_plain getver_env (version_received getver_env test_world_session)).drop 2).take
        0x40 ∧
    ((version_plain getver_env (version_received getver_env test_world_session)).drop 2).take
      0x40 = (List.range 0x40).map (fun i => 0x30 + i) :=
  have hv : (List.replicate 0x40 0).length = 0x40 := by decide
  have hpb : (((version_received getver_env test_world_session).packet_buffer.drop 0x28).take
      0x50).length = 0x50 := by decide
  have h := C24_get_version getver_env test_world_session (List.replicate 0x40 0) hv hpb
  have hs : (get_version getver_env test_world_session (List.replicate 0x40 0)).status = 0 :=
    h.2.1.mpr ⟨by decide, by decide⟩
  ⟨hv, hpb, hs, (h.2.2.1 hs).1, by decide⟩

/-- C25. Encrypted descriptor layout: in the frame each of `sv_wm_command_set`,
`sv_wm2_command_set` and `sv_getver_command_set` writes, in every session, and in the frame
`sv_udata_command_set` writes for a mapped `m_mode` (the only case in which it writes one),
bytes 0x18..0x20 are the two-key 3DES-CBC encryption under `ks1` and `ivs_3des` of an
eight-byte plaintext `d` with `d[0]` the command type (0, 3, 2, 4), `d[1..6)` the
parameters (zero except for wm2), `d[6]` one random byte and `d[7]` the check code of
`d[0..7)`; for wm, `d[7] = (252 - d[6]) mod 256`. For an unmapped `m_mode`
`sv_udata_command_set` returns -10 and leaves the packet buffer as it was. -/
theorem C25_encrypted_descriptor_layout (E : Env) (w : World) (layer area lba : Nat) :
    (E.keys.wf → sv_udata_user_param E.keys w.sv_auth.m_mode ≠ none →
      ((sv_udata_command_set E w).2.packet_buffer.drop 0x18).take 8 =
        des3_cbc_encrypt8 w.sv_auth.ks1 E.keys.ivs_3des
          (cmd_descriptor 0 [0, 0, 0, 0, 0] (rnd_byte E w.rand_calls))) ∧
    (((sv_wm_command_set E w).2.packet_buffer.drop 0x18).take 8 =
      des3_cbc_encrypt8 w.sv_auth.ks1 E.keys.ivs_3des
        (cmd_descriptor 3 [0, 0, 0, 0, 0] (rnd_byte E w.rand_calls))) ∧
    (((sv_wm2_command_set E layer area lba w).2.packet_buffer.drop 0x18).take 8 =
      des3_cbc_encrypt8 w.sv_auth.ks1 E.keys.ivs_3des
        (cmd_descriptor 2 (wm2_params layer area lba) (rnd_byte E w.rand_calls))) ∧
    (((sv_getver_command_set E w).2.packet_buffer.drop 0x18).take 8 =
      des3_cbc_encrypt8 w.sv_auth.ks1 E.keys.ivs_3des
        (cmd_descriptor 4 [0, 0, 0, 0, 0] (rnd_byte E w.rand_calls))) ∧
    (∀ (t r : Nat) (p : List Nat), p.length = 5 →
      (cmd_descriptor t p r).length = 8 ∧ (cmd_descriptor t p r).getD 0 0 = t ∧
      ((cmd_descriptor t p r).drop 1).take 5 = p ∧ (cmd_descriptor t p r).getD 6 0 = r ∧
      (cmd_descriptor t p r).getD 7 0 =
        generate_check_code ((cmd_descriptor t p r).take 7) 7) ∧
    (wm2_params layer area lba).length = 5 ∧
    rnd_byte E w.rand_calls = E.rand w.rand_calls &&& 0xFF ∧
    (cmd_descriptor 3 [0, 0, 0, 0, 0] (rnd_byte E w.rand_calls)).getD 7 0 =
      (252 + 256 - rnd_byte E w.rand_calls) % 256 ∧
    (sv_udata_user_param E.keys w.sv_auth.m_mode = none →
      (sv_udata_command_set E w).1 = -10 ∧
      (sv_udata_command_set E w).2.packet_buffer = w.packet_buffer) := by
  have L := des3_cbc_encrypt8_length
  refine ⟨?_, ?_, ?_, ?_, fun t r p hp => cmd_descriptor_layout t r p hp, rfl, rfl,
    wm_descriptor_check_code _ (rnd_byte_lt E w.rand_calls), ?_⟩
  rotate_right
  · intro hm
    rw [sv_udata_command_set_bad_mode E w hm]
    exact ⟨rfl, rfl⟩
  · intro hK hm
    obtain ⟨up, hup⟩ := Option.ne_none_iff_exists'.mp hm
    have hu := sv_udata_user_param_length E.keys hK _ up hup
    rw [sv_udata_command_set_eq E w up hup hu]
    exact frame_descriptor_slice _ _ _ _ _ _ _ _ rfl (L _ _ _)
  · rw [sv_wm_command_set_eq]
    exact frame_descriptor_slice _ _ _ _ _ _ _ _ rfl (L _ _ _)
  · rw [sv_wm2_command_set_eq]
    exact frame_descriptor_slice _ _ _ _ _ _ _ _ rfl (L _ _ _)
  · rw [sv_getver_command_set_eq]
    exact frame_descriptor_slice _ _ _ _ _ _ _ _ rfl (L _ _ _)

/-- Witness of C25: the user-data frame of the test session, whose `m_mode` 0xD is a
mapped one. -/
theorem C25_encrypted_descriptor_layout_witness :
    (test_env.keys.wf ∧
      sv_udata_user_param test_env.keys test_world_session.sv_auth.m_mode ≠ none) ∧
    ((sv_udata_command_set test_env test_world_session).2.packet_buffer.drop 0x18).take 8 =
      des3_cbc_encrypt8 test_world_session.sv_auth.ks1 test_env.keys.ivs_3des
        (cmd_descriptor 0 [0, 0, 0, 0, 0] (rnd_byte test_env test_world_session.rand_calls)) :=
  have hK : test_env.keys.wf := by decide
  have hm : sv_udata_user_param test_env.keys test_world_session.sv_auth.m_mode ≠ none := by
    decide
  ⟨⟨hK, hm⟩, (C25_encrypted_descriptor_layout test_env test_world_session 0 0 1).1 hK hm⟩

/-- C26. User-parameter argument block: for a mapped `m_mode` (0, 1, 2, 3, 4, 12, 13, 14,
20) `sv_udata_command_set` returns 0 and builds a 0x50-byte plaintext `A` with `A[1]` one
random byte, `A[2..4)` zero, `A[4..0x44)` the 0x40-byte block of the mode,
`A[0x44..0x50)` zero and `A[0]` the check code of `A[1..0x50)`, the random byte in place;
frame bytes 0x28..0x78 are the chained AES-128-CBC encryption of `A` under `ks1` and
`ivs_aes`, and bytes 0x24..0x28 are 00 50 00 00. -/
theorem C26_user_parameter_argument (E : Env) (w : World) (up : List Nat) (hK : E.keys.wf)
    (hm : sv_udata_user_param E.keys w.sv_auth.m_mode = some up) :
    (sv_udata_command_set E w).1 = 0 ∧
    ((sv_udata_command_set E w).2.packet_buffer.drop 0x28).take 0x50 =
      aes128_cbc_encrypt_buf w.sv_auth.ks1 E.keys.ivs_aes
        (udata_arg up (rnd_byte E (w.rand_calls + 1))) 0x50 ∧
    ((sv_udata_command_set E w).2.packet_buffer.drop 0x24).take 4 = [0, 0x50, 0, 0] ∧
    (udata_arg up (rnd_byte E (w.rand_calls + 1))).length = 0x50 ∧
    (udata_arg up (rnd_byte E (w.rand_calls + 1))).getD 1 0 = rnd_byte E (w.rand_calls + 1) ∧
    ((udata_arg up (rnd_byte E (w.rand_calls + 1))).drop 2).take 2 = [0, 0] ∧
    ((udata_arg up (rnd_byte E (w.rand_calls + 1))).drop 4).take 0x40 = up ∧
    (udata_arg up (rnd_byte E (w.rand_calls + 1))).drop 0x44 = List.replicate 12 0 ∧
    (udata_arg up (rnd_byte E (w.rand_calls + 1))).getD 0 0 =
      generate_check_code ((udata_arg up (rnd_byte E (w.rand_calls + 1))).drop 1) 0x4F ∧
    up.length = 0x40 ∧
    (∀ m : Nat, sv_udata_user_param E.keys m ≠ none ↔ m ∈ [0, 1, 2, 3, 4, 12, 13, 14, 20]) := by
  have hu := sv_udata_user_param_length E.keys hK _ up hm
  have hs := udata_frame_slices E.big_endian 0x70 0xA0 0x64 [0xE1, 0, 0x54, 0]
    (des3_cbc_encrypt8 w.sv_auth.ks1 E.keys.ivs_3des
      (cmd_descriptor ENC_CMD_USERDATA [0, 0, 0, 0, 0] (rnd_byte E w.rand_calls)))
    (aes128_cbc_encrypt_buf w.sv_auth.ks1 E.keys.ivs_aes
      (udata_arg up (rnd_byte E (w.rand_calls + 1))) 0x50)
    (List.replicate 0x18 0) (w.packet_buffer.drop 0x90) rfl (des3_cbc_encrypt8_length _ _ _)
    (aes128_cbc_encrypt_buf_length _ _ _ 0x50 (by decide))
  have hl := udata_arg_layout up (rnd_byte E (w.rand_calls + 1)) hu
  rw [sv_udata_command_set_eq E w up hm hu]
  exact ⟨rfl, hs.2, hs.1, hl.1, hl.2.1, hl.2.2.1, hl.2.2.2.1, hl.2.2.2.2.1, hl.2.2.2.2.2, hu,
    fun m => sv_udata_user_param_mapped E.keys m⟩

/-- Witness of C26: the test session, whose `m_mode` 0xD selects `user_param_u3`. -/
theorem C26_user_parameter_argument_witness :
    test_env.keys.wf ∧
    sv_udata_user_param test_env.keys test_world_session.sv_auth.m_mode =
      some test_env.keys.user_param_u3 ∧
    (sv_udata_command_set test_env test_world_session).1 = 0 ∧
    ((sv_udata_command_set test_env test_world_session).2.packet_buffer.drop 0x24).take 4 =
      [0, 0x50, 0, 0] :=
  have hK : test_env.keys.wf := by decide
  have hm : sv_udata_user_param test_env.keys test_world_session.sv_auth.m_mode =
      some test_env.keys.user_param_u3 := by decide
  have h := C26_user_parameter_argument test_env test_world_session
    test_env.keys.user_param_u3 hK hm
  ⟨hK, hm, h.1, h.2.2.1⟩

/-- C29. Function code by round and role: byte 0x1E of the frame is
`BD_SCE_FUNC_AUTH_SUPER_MODE` (0) for SUPER and `BD_SCE_FUNC_AUTH_USER_MODE` (1) for
USER in the send0 and in the report0 frame, and `BD_SCE_FUNC_HOST_CHALLENGE` (2) for
SUPER and `BD_SCE_FUNC_DRIVE_CHALLENGE` (3) for USER in the send2 frame; the four values
are pairwise distinct; the send2 frame carries the AES-128-CBC encryption of `m_rand2`
under `fix1` and `giv` at 0x28..0x38. -/
theorem C29_function_code_by_round_and_role (E : Env) (w : World)
    (h : w.sv_auth.m_auth_mode = AUTH_MODE_SUPER ∨ w.sv_auth.m_auth_mode = AUTH_MODE_USER) :
    (sv_send0_command_set E w).2.packet_buffer.getD 0x1E 0 =
      (if w.sv_auth.m_auth_mode = AUTH_MODE_SUPER then BD_SCE_FUNC_AUTH_SUPER_MODE
       else BD_SCE_FUNC_AUTH_USER_MODE) ∧
    (sv_report0_command_set E w).2.packet_buffer.getD 0x1E 0 =
      (if w.sv_auth.m_auth_mode = AUTH_MODE_SUPER then BD_SCE_FUNC_AUTH_SUPER_MODE
       else BD_SCE_FUNC_AUTH_USER_MODE) ∧
    (sv_send2_command_set E w).2.packet_buffer.getD 0x1E 0 =
      (if w.sv_auth.m_auth_mode = AUTH_MODE_SUPER then BD_SCE_FUNC_HOST_CHALLENGE
       else BD_SCE_FUNC_DRIVE_CHALLENGE) ∧
    ((sv_send2_command_set E w).2.packet_buffer.drop 0x28).take 0x10 =
      aes128_cbc_encrypt w.sv_auth.fix1 E.keys.giv w.sv_auth.m_rand2 ∧
    [BD_SCE_FUNC_AUTH_SUPER_MODE, BD_SCE_FUNC_AUTH_USER_MODE, BD_SCE_FUNC_HOST_CHALLENGE,
      BD_SCE_FUNC_DRIVE_CHALLENGE] = [0, 1, 2, 3] := by
  have L := aes128_cbc_encrypt_length
  have hz : (List.replicate 0x28 0 : List Nat) = List.replicate 0x10 0 ++ List.replicate 0x18 0 :=
    by decide
  have hf : (if w.sv_auth.m_auth_mode = AUTH_MODE_SUPER then BD_SCE_FUNC_AUTH_SUPER_MODE
      else BD_SCE_FUNC_AUTH_USER_MODE) = w.sv_auth.m_auth_mode := by
    rcases h with h | h <;> rw [h] <;> rfl
  have hg : (if w.sv_auth.m_auth_mode = AUTH_MODE_SUPER then BD_SCE_FUNC_HOST_CHALLENGE
      else BD_SCE_FUNC_DRIVE_CHALLENGE) = 2 + w.sv_auth.m_auth_mode := by
    rcases h with h | h <;> rw [h] <;> rfl
  rw [sv_send0_command_set_eq E w h, sv_report0_command_set_eq E w h,
    sv_send2_command_set_eq E w h, hf, hg, hz]
  exact ⟨key_frame_code _ _ _ _ _ _ _ _ _ _ rfl rfl rfl (L _ _ _),
    key_frame_code _ _ _ _ _ _ _ _ _ _ rfl rfl rfl (by decide),
    key_frame_code _ _ _ _ _ _ _ _ _ _ rfl rfl rfl (L _ _ _),
    key_frame_data _ _ _ _ _ _ _ _ _ _ rfl rfl rfl (L _ _ _), rfl⟩

/-- Witness of C29: the test session in the USER role. -/
theorem C29_function_code_by_round_and_role_witness :
    (sv_send0_command_set test_env (auth_start AUTH_MODE_USER test_world_keys)).2.packet_buffer.getD
      0x1E 0 = 1 ∧
    (sv_send2_command_set test_env (auth_start AUTH_MODE_USER test_world_keys)).2.packet_buffer.getD
      0x1E 0 = 3 :=
  have h := C29_function_code_by_round_and_role test_env
    (auth_start AUTH_MODE_USER test_world_keys) (Or.inr rfl)
  ⟨h.1, h.2.2.1⟩

set_option maxRecDepth 1000000 in
/-- C27 (the claim as written fails): the session has an `m_mode` (5) that
`sv_udata_command_set` does not map and the packet buffer still holds a send2 frame.
The builder returns -10, yet `set_user_parameter` returns 0 and one request has gone
to the drive, whose CDB is the SEND KEY descriptor of the old frame. -/
theorem C27_builder_errors_counterexample :
    (sv_udata_command_set test_env stale_world).1 = -10 ∧
    (set_user_parameter test_env stale_world).1 = 0 ∧
    (set_user_parameter test_env stale_world).2.io_log.map (fun r => r.cmdp) =
      [[0xA3, 0, 0, 0, 0, 0, 0, 0xE0, 0, 0x14, 2, 0]] := by
  decide

/-- C27 (amended): builder errors do not propagate. `sv_wm_command_set`,
`sv_wm2_command_set` and `sv_getver_command_set` always return 0. For an unmapped
`m_mode`, `sv_udata_command_set` returns -10 having drawn one random byte and left the
packet buffer alone, and `set_user_parameter` runs the exchange on that state: it returns
0 exactly when the exchange of the old buffer contents succeeds. For a role outside
SUPER and USER the send0, report0 and send2 builders return -1 and leave the packet
buffer alone (send0 having drawn a fresh `m_rand1`), and each round of
`authenticate_common` is the exchange of what the packet buffer held before. -/
theorem C27_builder_errors_amended (E : Env) (w : World) (layer area lba auth_mode : Nat) :
    ((sv_wm_command_set E w).1 = 0 ∧ (sv_wm2_command_set E layer area lba w).1 = 0 ∧
      (sv_getver_command_set E w).1 = 0) ∧
    (sv_udata_user_param E.keys w.sv_auth.m_mode = none →
      sv_udata_command_set E w = (-10, { w with rand_calls := w.rand_calls + 1 }) ∧
      ((set_user_parameter E w).1 = 0 ↔
        (sendrecv E { w with rand_calls := w.rand_calls + 1 }).1 = 0) ∧
      (set_user_parameter E w).2 = (sendrecv E { w with rand_calls := w.rand_calls + 1 }).2) ∧
    (w.sv_auth.m_auth_mode ≠ AUTH_MODE_SUPER → w.sv_auth.m_auth_mode ≠ AUTH_MODE_USER →
      (sv_send0_command_set E w).1 = -1 ∧
      (sv_send0_command_set E w).2.packet_buffer = w.packet_buffer ∧
      sv_report0_command_set E w = (-1, w) ∧ sv_send2_command_set E w = (-1, w)) ∧
    (auth_mode ≠ AUTH_MODE_SUPER → auth_mode ≠ AUTH_MODE_USER →
      auth_round0 E auth_mode w =
        sendrecv E { w with
          sv_auth := { w.sv_auth with
            m_auth_mode := auth_mode
            m_rand1 := (generate_rnd E w.rand_calls w.sv_auth.m_rand1 0x10).1 }
          rand_calls := w.rand_calls + 0x10 } ∧
      auth_round1 E auth_mode w = sendrecv E (auth_round0 E auth_mode w).2 ∧
      auth_round2 E auth_mode w = sendrecv E (auth_check1 E auth_mode w).2) := by
  refine ⟨⟨?_, ?_, ?_⟩, ?_, ?_, ?_⟩
  · rw [sv_wm_command_set_eq]
  · rw [sv_wm2_command_set_eq]
  · rw [sv_getver_command_set_eq]
  · intro hm
    have hb := sv_udata_command_set_bad_mode E w hm
    refine ⟨hb, ?_, ?_⟩
    · rw [set_user_parameter_status, hb]
    · rw [set_user_parameter_world, hb]
  · intro h0 h1
    rw [sv_send0_command_set_bad_role E w h0 h1]
    exact ⟨rfl, rfl, sv_report0_command_set_bad_role E w h0 h1,
      sv_send2_command_set_bad_role E w h0 h1⟩
  · intro h0 h1
    have e0 : auth_round0 E auth_mode w =
        sendrecv E { w with
          sv_auth := { w.sv_auth with
            m_auth_mode := auth_mode
            m_rand1 := (generate_rnd E w.rand_calls w.sv_auth.m_rand1 0x10).1 }
          rand_calls := w.rand_calls + 0x10 } := by
      rw [auth_round0, sv_send0_command_set_bad_role E (auth_start auth_mode w) h0 h1]
      rfl
    have m0 : (auth_round0 E auth_mode w).2.sv_auth.m_auth_mode = auth_mode := by
      rw [e0, sendrecv_sv_auth]
    have a0 : (auth_round0 E auth_mode w).2.sv_auth.m_auth_mode ≠ AUTH_MODE_SUPER := by
      rw [m0]; exact h0
    have a1 : (auth_round0 E auth_mode w).2.sv_auth.m_auth_mode ≠ AUTH_MODE_USER := by
      rw [m0]; exact h1
    have e1 : auth_round1 E auth_mode w = sendrecv E (auth_round0 E auth_mode w).2 := by
      rw [auth_round1, sv_report0_command_set_bad_role E _ a0 a1]
    have m1 : (auth_check1 E auth_mode w).2.sv_auth.m_auth_mode = auth_mode := by
      rw [auth_check1, sv_report0_check_auth_mode, e1, sendrecv_sv_auth, m0]
    have b0 : (auth_check1 E auth_mode w).2.sv_auth.m_auth_mode ≠ AUTH_MODE_SUPER := by
      rw [m1]; exact h0
    have b1 : (auth_check1 E auth_mode w).2.sv_auth.m_auth_mode ≠ AUTH_MODE_USER := by
      rw [m1]; exact h1
    refine ⟨e0, e1, ?_⟩
    rw [auth_round2, sv_send2_command_set_bad_role E _ b0 b1]

/-- Witness of C27 (amended): the session with the unmapped mode 5 and the old send2
frame; the outcome of `set_user_parameter` is that of the exchange of the old buffer. -/
theorem C27_builder_errors_amended_witness :
    sv_udata_user_param test_env.keys stale_world.sv_auth.m_mode = none ∧
    sv_udata_command_set test_env stale_world =
      (-10, { stale_world with rand_calls := stale_world.rand_calls + 1 }) ∧
    (set_user_parameter test_env stale_world).2 =
      (sendrecv test_env { stale_world with rand_calls := stale_world.rand_calls + 1 }).2 :=
  have hm : sv_udata_user_param test_env.keys stale_world.sv_auth.m_mode = none := by decide
  have h := (C27_builder_errors_amended test_env stale_world 0 0 1 2).2.1 hm
  ⟨hm, h.1, h.2.2⟩

/-- C31. Fresh host nonce per attempt: with the random source a stream of bytes
`rand() & 0xFF`, a call of `authenticate_common` that passes the zero-key check draws the
next sixteen bytes of the stream into `m_rand1` before the send0 frame is built, the frame
encrypts that draw, and `m_rand1` holds it at return whatever the outcome. In the cascade
of `auth_drive_super` the first attempt draws at the current position, an attempt made
after a -8 draws sixteen positions further, so the three send0 frames encrypt three
disjoint stretches of the stream. -/
theorem C31_fresh_host_nonce (E : Env) (auth_mode allow_retry : Nat) (w : World)
    (hw : w.sv_auth.wf) (hK : E.keys.wf) :
    (∀ n i : Nat, i < 16 →
      (generate_rnd_buffer E n 0x10).getD i 0 = E.rand (n + i) &&& 0xFF) ∧
    (∀ n : Nat, (generate_rnd_buffer E n 0x10).length = 16) ∧
    (sv_send0_command_set E (auth_start auth_mode w)).2.sv_auth.m_rand1 =
      generate_rnd_buffer E w.rand_calls 0x10 ∧
    (auth_mode = AUTH_MODE_SUPER ∨ auth_mode = AUTH_MODE_USER →
      send0_nonce_field E auth_mode w =
        aes128_cbc_encrypt w.sv_auth.fix1 E.keys.giv (generate_rnd_buffer E w.rand_calls 0x10)) ∧
    (w.sv_auth.fix1 ≠ List.replicate 16 0 → w.sv_auth.fix2 ≠ List.replicate 16 0 →
      (authenticate_common E auth_mode allow_retry w).2.sv_auth.m_rand1 =
        generate_rnd_buffer E w.rand_calls 0x10 ∧
      (authenticate_common E auth_mode allow_retry w).2.rand_calls = w.rand_calls + 16) ∧
    (auth_drive_super E w =
      if (super_attempt1 E w).1 = -8 then
        (if (super_attempt2 E w).1 = -8 then super_attempt3 E w else super_attempt2 E w)
      else super_attempt1 E w) ∧
    (w.sv_auth.kf1_eid ≠ List.replicate 16 0 → w.sv_auth.kf2_eid ≠ List.replicate 16 0 →
      (super_attempt1 E w).2.sv_auth.m_rand1 = generate_rnd_buffer E w.rand_calls 0x10 ∧
      send0_nonce_field E AUTH_MODE_SUPER (set_fix w w.sv_auth.kf1_eid w.sv_auth.kf2_eid) =
        aes128_cbc_encrypt w.sv_auth.kf1_eid E.keys.giv
          (generate_rnd_buffer E w.rand_calls 0x10)) ∧
    ((super_attempt1 E w).1 = -8 →
      E.keys.fix1_it ≠ List.replicate 16 0 → E.keys.fix2_it ≠ List.replicate 16 0 →
      (super_attempt2 E w).2.sv_auth.m_rand1 = generate_rnd_buffer E (w.rand_calls + 16) 0x10 ∧
      send0_nonce_field E AUTH_MODE_SUPER
          (set_fix (super_attempt1 E w).2 E.keys.fix1_it E.keys.fix2_it) =
        aes128_cbc_encrypt E.keys.fix1_it E.keys.giv
          (generate_rnd_buffer E (w.rand_calls + 16) 0x10)) ∧
    ((super_attempt1 E w).1 = -8 → (super_attempt2 E w).1 = -8 →
      E.keys.fix1_pn ≠ List.replicate 16 0 → E.keys.fix2_pn ≠ List.replicate 16 0 →
      (super_attempt3 E w).2.sv_auth.m_rand1 = generate_rnd_buffer E (w.rand_calls + 32) 0x10 ∧
      send0_nonce_field E AUTH_MODE_SUPER
          (set_fix (super_attempt2 E w).2 E.keys.fix1_pn E.keys.fix2_pn) =
        aes128_cbc_encrypt E.keys.fix1_pn E.keys.giv
          (generate_rnd_buffer E (w.rand_calls + 32) 0x10)) := by
  have hit1 := hK.2.2.2.2.2.2.2.2.1
  have hit2 := hK.2.2.2.2.2.2.2.2.2.1
  have hpn1 := hK.2.2.2.2.2.2.2.2.2.2.1
  have hpn2 := hK.2.2.2.2.2.2.2.2.2.2.2.1
  have w0 := set_fix_wf w _ _ hw hw.1 hw.2.1
  have w1 := super_attempt1_wf E w hw
  have w1' := set_fix_wf _ _ _ w1 hit1 hit2
  refine ⟨?_, fun n => generate_rnd_buffer_length E n 16, ?_, ?_, ?_, rfl, ?_, ?_, ?_⟩
  · intro n i hi
    simp [generate_rnd_buffer, List.getD_eq_getElem?_getD, hi]
  · rw [sv_send0_command_set_sv_auth]
    exact generate_rnd_16 E w.rand_calls w.sv_auth.m_rand1 hw.2.2.2.2.1
  · intro hr
    exact (send0_nonce_field_eq E auth_mode w hr hw.2.2.2.2.1).1
  · intro hz1 hz2
    exact authenticate_common_nonce E auth_mode allow_retry w hw hz1 hz2
  · intro hz1 hz2
    have a := attempt_nonce E AUTH_MODE_SUPER
      (if w.sv_auth.m_retry_flag = RETRY_FLAG_ALLOW then ALLOW_RETRY_YES else ALLOW_RETRY_NO)
      w _ _ hw hw.1 hw.2.1 hz1 hz2 (Or.inl rfl)
    exact ⟨a.1, a.2.2.2⟩
  · intro h1 hz1 hz2
    have a := attempt_after_retry E _ ALLOW_RETRY_YES _ _ _ w0 hit1 hit2 hz1 hz2 h1
    exact ⟨a.1, a.2.2⟩
  · intro h1 h2 hz1 hz2
    have a := attempt_after_retry E ALLOW_RETRY_YES ALLOW_RETRY_NO
      (set_fix (super_attempt1 E w).2 E.keys.fix1_it E.keys.fix2_it) _ _ w1' hpn1 hpn2 hz1 hz2 h2
    have q : (set_fix (super_attempt1 E w).2 E.keys.fix1_it E.keys.fix2_it).rand_calls =
        w.rand_calls + 16 :=
      ((authenticate_common_spec E AUTH_MODE_SUPER _ _ w0).2.2.2.2.1 h1).1
    have e : w.rand_calls + 16 + 16 = w.rand_calls + 32 := by omega
    rw [q, e] at a
    exact ⟨a.1, a.2.2⟩

set_option maxRecDepth 1000000 in
/-- Witness of C31: the drive that knows only the tertiary pair rejects the first attempt
with -8, and the second attempt draws the stream positions 16..31. -/
theorem C31_fresh_host_nonce_witness :
    (test_world.sv_auth.wf ∧ tertiary_env.keys.wf ∧
      (super_attempt1 tertiary_env test_world).1 = -8 ∧
      tertiary_env.keys.fix1_it ≠ List.replicate 16 0 ∧
      tertiary_env.keys.fix2_it ≠ List.replicate 16 0) ∧
    (super_attempt2 tertiary_env test_world).2.sv_auth.m_rand1 =
      generate_rnd_buffer tertiary_env (test_world.rand_calls + 16) 0x10 ∧
    send0_nonce_field tertiary_env AUTH_MODE_SUPER
        (set_fix (super_attempt1 tertiary_env test_world).2 tertiary_env.keys.fix1_it
          tertiary_env.keys.fix2_it) =
      aes128_cbc_encrypt tertiary_env.keys.fix1_it tertiary_env.keys.giv
        (generate_rnd_buffer tertiary_env (test_world.rand_calls + 16) 0x10) :=
  have hw : test_world.sv_auth.wf := by decide
  have hK : tertiary_env.keys.wf := by decide
  have h1 : (super_attempt1 tertiary_env test_world).1 = -8 := by decide
  have z1 : tertiary_env.keys.fix1_it ≠ List.replicate 16 0 := by decide
  have z2 : tertiary_env.keys.fix2_it ≠ List.replicate 16 0 := by decide
  ⟨⟨hw, hK, h1, z1, z2⟩,
    (C31_fresh_host_nonce tertiary_env AUTH_MODE_SUPER ALLOW_RETRY_YES test_world hw
      hK).2.2.2.2.2.2.2.1 h1 z1 z2⟩

/-- C32. Report check order and codes: `sv_report0_command_check_recved_data` decrypts
response bytes 0x28..0x38 and 0x38..0x48 each by its own call of `aes_decrypt_cbc` with key
`fix2` and IV `giv`. It returns -2 and leaves the state, `m_rand2` included, unchanged iff
the first plaintext differs from `m_rand1`; otherwise it stores the second plaintext in
`m_rand2` and returns -3 iff `m_rand2` then equals `m_rand1`, else 0. -/
theorem C32_report_check_order_and_codes (E : Env) (w : World)
    (h1 : w.sv_auth.m_rand1.length = 16) (h2 : w.sv_auth.m_rand2.length = 16) :
    (aes128_cbc_decrypt w.sv_auth.fix2 E.keys.giv ((w.packet_buffer.drop 0x28).take 0x10) =
      (aes_decrypt_cbc w.sv_auth.fix2 128 E.keys.giv ((w.packet_buffer.drop 0x28).take 0x10)
        (List.replicate 0x10 0) 0x10).2.take 0x10) ∧
    (aes128_cbc_decrypt w.sv_auth.fix2 E.keys.giv ((w.packet_buffer.drop 0x38).take 0x10) =
      (aes_decrypt_cbc w.sv_auth.fix2 128 E.keys.giv ((w.packet_buffer.drop 0x38).take 0x10)
        (List.replicate 0x10 0) 0x10).2.take 0x10) ∧
    ((sv_report0_command_check_recved_data E w).1 = -2 ↔
      aes128_cbc_decrypt w.sv_auth.fix2 E.keys.giv ((w.packet_buffer.drop 0x28).take 0x10) ≠
        w.sv_auth.m_rand1) ∧
    ((sv_report0_command_check_recved_data E w).1 = -2 →
      (sv_report0_command_check_recved_data E w).2 = w) ∧
    ((sv_report0_command_check_recved_data E w).1 ≠ -2 →
      (sv_report0_command_check_recved_data E w).2 =
        { w with sv_auth := { w.sv_auth with
          m_rand2 := aes128_cbc_decrypt w.sv_auth.fix2 E.keys.giv
            ((w.packet_buffer.drop 0x38).take 0x10) } } ∧
      ((sv_report0_command_check_recved_data E w).1 = -3 ↔
        (sv_report0_command_check_recved_data E w).2.sv_auth.m_rand2 =
          (sv_report0_command_check_recved_data E w).2.sv_auth.m_rand1) ∧
      ((sv_report0_command_check_recved_data E w).1 ≠ -3 →
        (sv_report0_command_check_recved_data E w).1 = 0)) := by
  rw [sv_report0_command_check_recved_data_eq E w h1 h2]
  refine ⟨rfl, rfl, ?_, ?_, ?_⟩
  · split_ifs <;> simp_all
  · split_ifs <;> simp_all
  · split_ifs with a b
    · simp
    · simp [b]
    · simp
      exact fun h => b h.symm

/-- Witness of C32: the initial test session, whose nonces hold sixteen bytes each. -/
theorem C32_report_check_order_and_codes_witness :
    (test_world.sv_auth.m_rand1.length = 16 ∧ test_world.sv_auth.m_rand2.length = 16) ∧
    ((sv_report0_command_check_recved_data test_env test_world).1 = -2 ↔
      aes128_cbc_decrypt test_world.sv_auth.fix2 test_env.keys.giv
        ((test_world.packet_buffer.drop 0x28).take 0x10) ≠ test_world.sv_auth.m_rand1) :=
  ⟨by decide,
    (C32_report_check_order_and_codes test_env test_world (by decide) (by decide)).2.2.1⟩

/-- C33. wm2 descriptor parameter encoding: bytes 0x18..0x20 of the frame written by
`sv_wm2_command_set` encrypt the plaintext descriptor `d` whose `d[1..5)` are, for a 32-bit
`lba`, the big-endian bytes of `lba` (they recombine to `lba`), and whose
`d[5] = 16 * (layer mod 16) + area mod 16`; so `layer` and `area` are read back from the two
nibbles of `d[5]` exactly when both are below 16, and otherwise `d[5]` is the byte of their
low nibbles. -/
theorem C33_wm2_parameter_encoding (E : Env) (w : World) (layer area lba : Nat)
    (hlba : lba < 2 ^ 32) (hlayer : layer < 256) (harea : area < 256) :
    (((sv_wm2_command_set E layer area lba w).2.packet_buffer.drop 0x18).take 8 =
      des3_cbc_encrypt8 w.sv_auth.ks1 E.keys.ivs_3des
        (cmd_descriptor ENC_CMD_PS2DISC (wm2_params layer area lba) (rnd_byte E w.rand_calls))) ∧
    ((cmd_descriptor ENC_CMD_PS2DISC (wm2_params layer area lba) (rnd_byte E w.rand_calls)).drop
        1).take 4 =
      [lba / 2 ^ 24 % 256, lba / 2 ^ 16 % 256, lba / 2 ^ 8 % 256, lba % 256] ∧
    (cmd_descriptor ENC_CMD_PS2DISC (wm2_params layer area lba) (rnd_byte E w.rand_calls)).getD 1 0
        * 2 ^ 24 +
      (cmd_descriptor ENC_CMD_PS2DISC (wm2_params layer area lba) (rnd_byte E w.rand_calls)).getD
        2 0 * 2 ^ 16 +
      (cmd_descriptor ENC_CMD_PS2DISC (wm2_params layer area lba) (rnd_byte E w.rand_calls)).getD
        3 0 * 2 ^ 8 +
      (cmd_descriptor ENC_CMD_PS2DISC (wm2_params layer area lba) (rnd_byte E w.rand_calls)).getD
        4 0 = lba ∧
    (cmd_descriptor ENC_CMD_PS2DISC (wm2_params layer area lba) (rnd_byte E w.rand_calls)).getD 5 0
      = 16 * (layer % 16) + area % 16 ∧
    (((cmd_descriptor ENC_CMD_PS2DISC (wm2_params layer area lba)
          (rnd_byte E w.rand_calls)).getD 5 0 / 16 = layer ∧
        (cmd_descriptor ENC_CMD_PS2DISC (wm2_params layer area lba)
          (rnd_byte E w.rand_calls)).getD 5 0 % 16 = area) ↔ (layer < 16 ∧ area < 16)) ∧
    (cmd_descriptor ENC_CMD_PS2DISC (wm2_params layer area lba) (rnd_byte E w.rand_calls)).getD 5 0
      = (cmd_descriptor ENC_CMD_PS2DISC (wm2_params (layer % 16) (area % 16) lba)
          (rnd_byte E w.rand_calls)).getD 5 0 := by
  have h1 := wm2_params_lba layer area lba hlba
  have h5 := wm2_params_nibbles layer area lba
  have h5m := wm2_params_nibbles (layer % 16) (area % 16) lba
  have g : ∀ (p : List Nat) (r : Nat), p.length = 5 →
      ((cmd_descriptor ENC_CMD_PS2DISC p r).drop 1).take 4 = p.take 4 ∧
      (cmd_descriptor ENC_CMD_PS2DISC p r).getD 1 0 = p.getD 0 0 ∧
      (cmd_descriptor ENC_CMD_PS2DISC p r).getD 2 0 = p.getD 1 0 ∧
      (cmd_descriptor ENC_CMD_PS2DISC p r).getD 3 0 = p.getD 2 0 ∧
      (cmd_descriptor ENC_CMD_PS2DISC p r).getD 4 0 = p.getD 3 0 ∧
      (cmd_descriptor ENC_CMD_PS2DISC p r).getD 5 0 = p.getD 4 0 := by
    intro p r hp
    match p, hp with
    | [p0, p1, p2, p3, p4], _ => exact ⟨rfl, rfl, rfl, rfl, rfl, rfl⟩
  obtain ⟨g0, g1, g2, g3, g4, g5⟩ := g (wm2_params layer area lba) (rnd_byte E w.rand_calls) rfl
  have g5m := (g (wm2_params (layer % 16) (area % 16) lba) (rnd_byte E w.rand_calls) rfl).2.2.2.2.2
  refine ⟨?_, ?_, ?_, ?_, ?_, ?_⟩
  · rw [sv_wm2_command_set_eq]
    exact frame_descriptor_slice _ _ _ _ _ _ _ _ rfl (des3_cbc_encrypt8_length _ _ _)
  · rw [g0]
    exact h1.2
  · rw [g1, g2, g3, g4]
    exact h1.1
  · rw [g5]
    exact h5
  · rw [g5, h5]
    constructor
    · intro h
      omega
    · intro h
      omega
  · rw [g5, g5m, h5, h5m]
    omega

/-- Witness of C33: layer 1, area 2 and block address 0x12345678 in the test session. -/
theorem C33_wm2_parameter_encoding_witness :
    (0x12345678 < 2 ^ 32 ∧ 1 < 256 ∧ 2 < 256) ∧
    (cmd_descriptor ENC_CMD_PS2DISC (wm2_params 1 2 0x12345678)
      (rnd_byte test_env test_world_session.rand_calls)).getD 5 0 = 16 * (1 % 16) + 2 % 16 :=
  ⟨by decide,
    (C33_wm2_parameter_encoding test_env test_world_session 1 2 0x12345678 (by decide) (by decide)
      (by decide)).2.2.2.1⟩

/-- C34. CBC round trip: for a key, a 16-byte `iv` and a plaintext `p` whose length `len` is
a multiple of 16, `aes_encrypt_cbc` and `aes_decrypt_cbc` both return 0 and decrypting the
encryption of `p` under the same key and `iv` stores `p` again; each wrapper is the call of
`aes_crypt_cbc` on a local copy of `iv`, so the caller's `iv` is not among the buffers
written. Hypothesis: decrypt-mode `aes_crypt_ecb` inverts encrypt-mode `aes_crypt_ecb` for
this key, needed only on the blocks the encryption meets. -/
theorem C34_cbc_round_trip (key iv p c0 q0 : List Nat) (len : Nat)
    (hiv : iv.length = 16) (hp : p.length = len) (hlen : len % 16 = 0)
    (hc : len ≤ c0.length) (hq : len ≤ q0.length)
    (H : ecb_inverts_on (aes_init aes_context_new AES_ENCRYPT key 128).2
      (aes_init aes_context_new AES_DECRYPT key 128).2 p (len / 16) 0 iv = true) :
    (aes_encrypt_cbc key 128 iv p c0 len).1 = 0 ∧
    (aes_decrypt_cbc key 128 iv (aes_encrypt_cbc key 128 iv p c0 len).2 q0 len).1 = 0 ∧
    (aes_decrypt_cbc key 128 iv (aes_encrypt_cbc key 128 iv p c0 len).2 q0 len).2 =
      p ++ q0.drop len ∧
    aes_encrypt_cbc key 128 iv p c0 len =
      (0, (aes_crypt_cbc (aes_init aes_context_new AES_ENCRYPT key 128).2
        (memcpy (List.replicate AES_BLOCK_SIZE 0) 0 iv 0 AES_BLOCK_SIZE) p c0 len).2.2) ∧
    aes_decrypt_cbc key 128 iv (aes_encrypt_cbc key 128 iv p c0 len).2 q0 len =
      (0, (aes_crypt_cbc (aes_init aes_context_new AES_DECRYPT key 128).2
        (memcpy (List.replicate AES_BLOCK_SIZE 0) 0 iv 0 AES_BLOCK_SIZE)
        (aes_encrypt_cbc key 128 iv p c0 len).2 q0 len).2.2) ∧
    memcpy (List.replicate AES_BLOCK_SIZE 0) 0 iv 0 AES_BLOCK_SIZE = iv := by
  have hie : (aes_init aes_context_new AES_ENCRYPT key 128).1 = 0 := by
    simp [aes_init, AES_ENCRYPT, AES_DECRYPT, aes_rounds]
  have hid : (aes_init aes_context_new AES_DECRYPT key 128).1 = 0 := by
    simp [aes_init, AES_ENCRYPT, AES_DECRYPT, aes_rounds]
  have ht : memcpy (List.replicate AES_BLOCK_SIZE 0) 0 iv 0 AES_BLOCK_SIZE = iv :=
    memcpy_16 _ _ (by simp [AES_BLOCK_SIZE]) hiv
  have hn : 16 * (len / 16) = len := by omega
  have hr := aes_cbc_blocks_round_trip (aes_init aes_context_new AES_ENCRYPT key 128).2
    (aes_init aes_context_new AES_DECRYPT key 128).2 (aes_init_mode key).1 (aes_init_mode key).2
    p (len / 16) 0 iv [] (c0.drop len) (by omega) rfl H
  rw [List.nil_append, List.drop_zero, hn, List.take_of_length_le (Nat.le_of_eq hp)] at hr
  refine ⟨aes_encrypt_cbc_fst _ _ _ _ _ hlen, aes_decrypt_cbc_fst _ _ _ _ _ hlen, ?_, ?_, ?_, ht⟩
  · rw [aes_encrypt_cbc_blocks _ _ _ _ _ hlen hc, aes_decrypt_cbc_blocks _ _ _ _ _ hlen hq, ht]
    show aes_cbc_blocks _ _ _ _ _ ++ _ = _
    rw [hr]
  · simp [aes_encrypt_cbc, hie, aes_crypt_cbc, AES_BLOCK_SIZE, hlen]
  · simp [aes_decrypt_cbc, hid, aes_crypt_cbc, AES_BLOCK_SIZE, hlen]

set_option maxRecDepth 1000000 in
/-- Witness of C34: the two-block test plaintext under the key `test_block 0x01` and the
IV `test_block 0x20`, with zeroed output buffers. -/
theorem C34_cbc_round_trip_witness :
    (aes_decrypt_cbc (test_block 0x01) 128 (test_block 0x20)
      (aes_encrypt_cbc (test_block 0x01) 128 (test_block 0x20) test_plain
        (List.replicate 0x20 0) 0x20).2 (List.replicate 0x20 0) 0x20).2 =
      test_plain ++ (List.replicate 0x20 0).drop 0x20 :=
  (C34_cbc_round_trip (test_block 0x01) (test_block 0x20) test_plain (List.replicate 0x20 0)
    (List.replicate 0x20 0) 0x20 (by decide) (by decide) (by decide) (by decide) (by decide)
    (by decide)).2.2.1

/-- C35. Session keys are untouched on failure: whatever the session and the drive,
when `authenticate_common` returns a non-zero value `ks1` and `ks2` hold what they held
before the call. -/
theorem C35_session_keys_untouched_on_failure (E : Env) (auth_mode allow_retry : Nat)
    (w : World) (h : (authenticate_common E auth_mode allow_retry w).1 ≠ 0) :
    (authenticate_common E auth_mode allow_retry w).2.sv_auth.ks1 = w.sv_auth.ks1 ∧
    (authenticate_common E auth_mode allow_retry w).2.sv_auth.ks2 = w.sv_auth.ks2 :=
  authenticate_common_ks E auth_mode allow_retry w h

set_option maxRecDepth 1000000 in
/-- Witness of C35: the drive does not echo the host nonce; the attempt ends in -8 and
the stored session keys are the ones the session started with. -/
theorem C35_session_keys_untouched_on_failure_witness :
    (authenticate_common test_env AUTH_MODE_SUPER ALLOW_RETRY_YES test_world_keys).1 = -8 ∧
    (authenticate_common test_env AUTH_MODE_SUPER ALLOW_RETRY_YES
      test_world_keys).2.sv_auth.ks1 = test_world_keys.sv_auth.ks1 ∧
    (authenticate_common test_env AUTH_MODE_SUPER ALLOW_RETRY_YES
      test_world_keys).2.sv_auth.ks2 = test_world_keys.sv_auth.ks2 :=
  have h : (authenticate_common test_env AUTH_MODE_SUPER ALLOW_RETRY_YES test_world_keys).1 =
      -8 := by decide
  ⟨h, C35_session_keys_untouched_on_failure test_env AUTH_MODE_SUPER ALLOW_RETRY_YES
    test_world_keys (by rw [h]; decide)⟩

/-- C36. The retry code never escapes the public operations: whatever the session and
the drive, `auth_drive_super` returns 0 or -1 and `auth_drive_user` returns 0, -1 or
-15; neither returns -8. For a mapped mode `auth_drive_user` is one call of
`authenticate_common` with role USER and retry disabled, and for any other mode it
returns -15 at once. -/
theorem C36_retry_code_never_escapes (E : Env) (w : World) :
    ((auth_drive_super E w).1 = 0 ∨ (auth_drive_super E w).1 = -1) ∧
    ((auth_drive_user E w).1 = 0 ∨ (auth_drive_user E w).1 = -1 ∨
      (auth_drive_user E w).1 = -15) ∧
    (auth_drive_super E w).1 ≠ -8 ∧ (auth_drive_user E w).1 ≠ -8 ∧
    (∀ k : List Nat × List Nat, auth_drive_user_keys E.keys w.sv_auth.m_mode = some k →
      auth_drive_user E w =
        authenticate_common E AUTH_MODE_USER ALLOW_RETRY_NO (set_fix w k.1 k.2)) ∧
    (auth_drive_user_keys E.keys w.sv_auth.m_mode = none → auth_drive_user E w = (-15, w)) := by
  have hs := auth_drive_super_codes E w
  have hu := (auth_drive_user_codes E w).1
  refine ⟨hs, hu, ?_, ?_, (auth_drive_user_eq E w).1, (auth_drive_user_eq E w).2⟩
  · rcases hs with h | h <;> rw [h] <;> decide
  · rcases hu with h | h | h <;> rw [h] <;> decide

/-- C37. Cipher-failure branches are unreachable: with key size 128 and the lengths the
protocol layer passes (AES: 0x10, 0x30, 0x40, 0x50; 3DES: 8) `aes_encrypt_cbc`,
`aes_decrypt_cbc` and `des3_encrypt_cbc` return 0, so the error returns that stand for a
cipher failure do not occur: `sv_send2_command_check_recved_data`, `set_contents_key`,
`set_misc_wm` and `get_disc_id` always return 0, the wm, wm2 and getver builders always
return 0, and the other builders and parsers return only 0 or their own non-cipher
code (-1 for a bad role or a bad check code in wm, -10 for an unmapped mode or a bad
check code in getver, -16 for a bad check code in wm2). -/
theorem C37_cipher_failure_unreachable (E : Env) (w : World) (key iv input output : List Nat)
    (layer area lba disc_mode : Nat)
    (wm buf1 buf2 version wd contents_key misc_wm disc_id : List Nat) :
    (∀ len : Nat, len ∈ [0x10, 0x30, 0x40, 0x50] →
      (aes_encrypt_cbc key 128 iv input output len).1 = 0 ∧
      (aes_decrypt_cbc key 128 iv input output len).1 = 0) ∧
    (des3_encrypt_cbc key iv input output 8).1 = 0 ∧
    (sv_send2_command_check_recved_data E w).1 = 0 ∧
    (set_contents_key E wd contents_key disc_mode).1 = 0 ∧
    (set_misc_wm E wd misc_wm).1 = 0 ∧
    (get_disc_id E misc_wm disc_id).1 = 0 ∧
    (sv_wm_command_set E w).1 = 0 ∧
    (sv_wm2_command_set E layer area lba w).1 = 0 ∧
    (sv_getver_command_set E w).1 = 0 ∧
    ((sv_send0_command_set E w).1 = 0 ∨ (sv_send0_command_set E w).1 = -1) ∧
    ((sv_send2_command_set E w).1 = 0 ∨ (sv_send2_command_set E w).1 = -1) ∧
    ((sv_udata_command_set E w).1 = 0 ∨ (sv_udata_command_set E w).1 = -10) ∧
    ((sv_wm_command_check_recved_data E w wm).1 = 0 ∨
      (sv_wm_command_check_recved_data E w wm).1 = -1) ∧
    ((sv_wm2_command_check_recved_data E w buf1 buf2).1 = 0 ∨
      (sv_wm2_command_check_recved_data E w buf1 buf2).1 = -16) ∧
    ((sv_getver_check_recved_data E w version).1 = 0 ∨
      (sv_getver_check_recved_data E w version).1 = -10) ∧
    ((get_wm3 E w contents_key misc_wm disc_mode).status = 0 ∨
      (get_wm3 E w contents_key misc_wm disc_mode).status = -1) := by
  refine ⟨?_, des3_encrypt_cbc_fst _ _ _ _ 8 rfl, sv_send2_command_check_recved_data_fst E w,
    set_contents_key_fst _ _ _ _, set_misc_wm_fst _ _ _, get_disc_id_fst _ _ _, ?_, ?_, ?_,
    sv_send0_command_set_codes E w, sv_send2_command_set_codes E w,
    (sv_udata_command_set_codes E w).1, sv_wm_command_check_recved_data_codes E w wm,
    sv_wm2_command_check_recved_data_codes E w buf1 buf2,
    sv_getver_check_recved_data_codes E w version, get_wm3_codes E w _ _ _⟩
  · intro len hl
    have h16 : len % 16 = 0 := by
      simp only [List.mem_cons, List.mem_singleton, List.mem_nil_iff, or_false] at hl
      rcases hl with h | h | h | h <;> rw [h]
    exact ⟨aes_encrypt_cbc_fst _ _ _ _ len h16, aes_decrypt_cbc_fst _ _ _ _ len h16⟩
  · rw [sv_wm_command_set_eq]
  · rw [sv_wm2_command_set_eq]
  · rw [sv_getver_command_set_eq]

/-- C38. The two mode tables agree: for every mode `m`, the switch of
`sv_udata_command_set` and the switch of `auth_drive_user` select the block
`user_param_uk` and the pair `(Kf1_uk, Kf2_uk)` of the same index `k` (0 -> 0, 1 -> 1,
2 and 12 -> 2, 3, 13 and 14 -> 3, 4 and 20 -> 4, `k < 5`), or both select nothing; and
`sv_udata_command_set` returns -10 exactly when `auth_drive_user` returns -15. -/
theorem C38_mode_tables_agree (E : Env) (w : World) (m : Nat) :
    sv_udata_user_param E.keys m = (spec_mode_index m).map E.keys.user_param ∧
    auth_drive_user_keys E.keys m = (spec_mode_index m).map E.keys.Kf ∧
    (∀ k, spec_mode_index m = some k → k < 5) ∧
    (sv_udata_user_param E.keys m = none ↔ auth_drive_user_keys E.keys m = none) ∧
    ((sv_udata_command_set E w).1 = -10 ↔ (auth_drive_user E w).1 = -15) := by
  obtain ⟨h1, h2, h3⟩ := mode_tables E.keys m
  obtain ⟨g1, g2, _⟩ := mode_tables E.keys w.sv_auth.m_mode
  refine ⟨h1, h2, h3, ?_, ?_⟩
  · rw [h1, h2, Option.map_eq_none', Option.map_eq_none']
  · rw [(sv_udata_command_set_codes E w).2, (auth_drive_user_codes E w).2, g1, g2,
      Option.map_eq_none', Option.map_eq_none']

/-- C39. Size-field round trip between builders and transport: each of the seven frame
builders stores `spu_cmd_size` natively at offset 0x12 and `sendrecv` decodes it as
`packet_buffer[0x12] * 256 + packet_buffer[0x13]`. For every builder the decoded value is
the stored size on a big-endian host and 256 times the stored size on a little-endian one,
so it equals the stored size iff the store is big-endian; the length field of the frame's
CDB is the stored size minus 0x10 (0x14 for send0 and send2, 0x24 for report0, 0x54 for
udata and getver, 0x34 for wm, 0x44 for wm2), and, when the device node opens, the
transfer length `sendrecv` requests is the decoded value minus 0x10. The wm, wm2 and getver
builders write their frame in every session; send0, report0 and send2 write one for the
role SUPER or USER and the udata builder for a mapped `m_mode`, and otherwise leave the
packet buffer as it was. -/
theorem C39_size_field_round_trip (E : Env) (w : World) (layer area lba : Nat) :
    (w.sv_auth.m_auth_mode = AUTH_MODE_SUPER ∨ w.sv_auth.m_auth_mode = AUTH_MODE_USER →
      size_round_trip E.big_endian (sv_send0_command_set E w).2.packet_buffer 0x24 0x1C 0x1D ∧
      size_round_trip E.big_endian (sv_report0_command_set E w).2.packet_buffer 0x34 0x1C 0x1D ∧
      size_round_trip E.big_endian (sv_send2_command_set E w).2.packet_buffer 0x24 0x1C 0x1D ∧
      (0 ≤ E.open_fd w.open_calls →
        sends_with_length E (sv_send0_command_set E w).2
          (if E.big_endian then 0x14 else 0x24 * 256 - 0x10) ∧
        sends_with_length E (sv_report0_command_set E w).2
          (if E.big_endian then 0x24 else 0x34 * 256 - 0x10) ∧
        sends_with_length E (sv_send2_command_set E w).2
          (if E.big_endian then 0x14 else 0x24 * 256 - 0x10))) ∧
    (E.keys.wf → sv_udata_user_param E.keys w.sv_auth.m_mode ≠ none →
      size_round_trip E.big_endian (sv_udata_command_set E w).2.packet_buffer 0x64 0x15 0x16 ∧
      (0 ≤ E.open_fd w.open_calls →
        sends_with_length E (sv_udata_command_set E w).2
          (if E.big_endian then 0x54 else 0x64 * 256 - 0x10))) ∧
    size_round_trip E.big_endian (sv_getver_command_set E w).2.packet_buffer 0x64 0x15 0x16 ∧
    size_round_trip E.big_endian (sv_wm_command_set E w).2.packet_buffer 0x44 0x15 0x16 ∧
    size_round_trip E.big_endian (sv_wm2_command_set E layer area lba w).2.packet_buffer 0x54
      0x15 0x16 ∧
    (0 ≤ E.open_fd w.open_calls →
      sends_with_length E (sv_getver_command_set E w).2
        (if E.big_endian then 0x54 else 0x64 * 256 - 0x10) ∧
      sends_with_length E (sv_wm_command_set E w).2
        (if E.big_endian then 0x34 else 0x44 * 256 - 0x10) ∧
      sends_with_length E (sv_wm2_command_set E layer area lba w).2
        (if E.big_endian then 0x44 else 0x54 * 256 - 0x10)) ∧
    (w.sv_auth.m_auth_mode ≠ AUTH_MODE_SUPER → w.sv_auth.m_auth_mode ≠ AUTH_MODE_USER →
      (sv_send0_command_set E w).2.packet_buffer = w.packet_buffer ∧
      (sv_report0_command_set E w).2.packet_buffer = w.packet_buffer ∧
      (sv_send2_command_set E w).2.packet_buffer = w.packet_buffer) ∧
    (sv_udata_user_param E.keys w.sv_auth.m_mode = none →
      (sv_udata_command_set E w).2.packet_buffer = w.packet_buffer) ∧
    (∀ pb : List Nat, decoded_spu_cmd_size pb = (pb.getD 0x12 0 * 256 + pb.getD 0x13 0) % 2 ^ 16) ∧
    (∀ (pb : List Nat) (size hi lo : Nat), size_round_trip E.big_endian pb size hi lo →
      decoded_spu_cmd_size pb = (if E.big_endian then size else size * 256) ∧
      (decoded_spu_cmd_size pb = size ↔ E.big_endian = true) ∧
      pb.getD hi 0 * 0x100 + pb.getD lo 0 = size - 0x10) := by
  have e4 := sv_getver_command_set_eq E w
  have e5 := sv_wm_command_set_eq E w
  have e6 := sv_wm2_command_set_eq E layer area lba w
  have s4 : size_round_trip E.big_endian (sv_getver_command_set E w).2.packet_buffer 0x64 0x15
      0x16 := by
    rw [e4]
    exact secure_frame_size _ _ _ _ _ _ _ (by decide) (by decide) rfl _
  have s5 : size_round_trip E.big_endian (sv_wm_command_set E w).2.packet_buffer 0x44 0x15
      0x16 := by
    rw [e5]
    exact secure_frame_size _ _ _ _ _ _ _ (by decide) (by decide) rfl _
  have s6 : size_round_trip E.big_endian (sv_wm2_command_set E layer area lba w).2.packet_buffer
      0x54 0x15 0x16 := by
    rw [e6]
    exact secure_frame_size _ _ _ _ _ _ _ (by decide) (by decide) rfl _
  have o4 : (sv_getver_command_set E w).2.packet_buffer.getD 0x14 0 = 0xE0 := by
    rw [e4]
    exact frame_opcode _ _ _ _ _ _ _ (by simp)
  have o5 : (sv_wm_command_set E w).2.packet_buffer.getD 0x14 0 = 0xE0 := by
    rw [e5]
    exact frame_opcode _ _ _ _ _ _ _ (by simp)
  have o6 : (sv_wm2_command_set E layer area lba w).2.packet_buffer.getD 0x14 0 = 0xE0 := by
    rw [e6]
    exact frame_opcode _ _ _ _ _ _ _ (by simp)
  have c4 : (sv_getver_command_set E w).2.open_calls = w.open_calls := by rw [e4]
  have c5 : (sv_wm_command_set E w).2.open_calls = w.open_calls := by rw [e5]
  have c6 : (sv_wm2_command_set E layer area lba w).2.open_calls = w.open_calls := by rw [e6]
  refine ⟨?_, ?_, s4, s5, s6, ?_, ?_, ?_, fun _ => rfl, fun _ _ _ _ hs => hs⟩
  · intro h
    have e0 := sv_send0_command_set_eq E w h
    have e1 := sv_report0_command_set_eq E w h
    have e2 := sv_send2_command_set_eq E w h
    have s0 : size_round_trip E.big_endian (sv_send0_command_set E w).2.packet_buffer 0x24 0x1C
        0x1D := by
      rw [e0]
      exact key_frame_size _ _ _ _ _ _ _ _ (by decide) (by decide) rfl _
    have s1 : size_round_trip E.big_endian (sv_report0_command_set E w).2.packet_buffer 0x34
        0x1C 0x1D := by
      rw [e1]
      exact key_frame_size _ _ _ _ _ _ _ _ (by decide) (by decide) rfl _
    have s2 : size_round_trip E.big_endian (sv_send2_command_set E w).2.packet_buffer 0x24 0x1C
        0x1D := by
      rw [e2]
      exact key_frame_size _ _ _ _ _ _ _ _ (by decide) (by decide) rfl _
    have o0 : (sv_send0_command_set E w).2.packet_buffer.getD 0x14 0 = 0xA3 := by
      rw [e0]
      exact frame_opcode _ _ _ _ _ _ _ (by simp)
    have o1 : (sv_report0_command_set E w).2.packet_buffer.getD 0x14 0 = 0xA4 := by
      rw [e1]
      exact frame_opcode _ _ _ _ _ _ _ (by simp)
    have o2 : (sv_send2_command_set E w).2.packet_buffer.getD 0x14 0 = 0xA3 := by
      rw [e2]
      exact frame_opcode _ _ _ _ _ _ _ (by simp)
    have c0 : (sv_send0_command_set E w).2.open_calls = w.open_calls := by rw [e0]
    have c1 : (sv_report0_command_set E w).2.open_calls = w.open_calls := by rw [e1]
    have c2 : (sv_send2_command_set E w).2.open_calls = w.open_calls := by rw [e2]
    exact ⟨s0, s1, s2, fun hopen =>
      ⟨frame_transfer E _ _ _ _ _ s0 (by rw [c0]; exact hopen)
          (by rw [o0]; exact key_opcodes.1) (by decide) (by decide),
        frame_transfer E _ _ _ _ _ s1 (by rw [c1]; exact hopen)
          (by rw [o1]; exact key_opcodes.2) (by decide) (by decide),
        frame_transfer E _ _ _ _ _ s2 (by rw [c2]; exact hopen)
          (by rw [o2]; exact key_opcodes.1) (by decide) (by decide)⟩⟩
  · intro hK hm
    obtain ⟨up, hup⟩ := Option.ne_none_iff_exists'.mp hm
    have hu := sv_udata_user_param_length E.keys hK _ up hup
    have e3 := sv_udata_command_set_eq E w up hup hu
    have s3 : size_round_trip E.big_endian (sv_udata_command_set E w).2.packet_buffer 0x64 0x15
        0x16 := by
      rw [e3]
      exact secure_frame_size _ _ _ _ _ _ _ (by decide) (by decide) rfl _
    have o3 : (sv_udata_command_set E w).2.packet_buffer.getD 0x14 0 = 0xE1 := by
      rw [e3]
      exact frame_opcode _ _ _ _ _ _ _ (by simp)
    have c3 : (sv_udata_command_set E w).2.open_calls = w.open_calls := by rw [e3]
    exact ⟨s3, fun hopen => frame_transfer E _ _ _ _ _ s3 (by rw [c3]; exact hopen)
      (by rw [o3]; exact secure_opcodes.2) (by decide) (by decide)⟩
  · intro hopen
    exact ⟨frame_transfer E _ _ _ _ _ s4 (by rw [c4]; exact hopen)
        (by rw [o4]; exact secure_opcodes.1) (by decide) (by decide),
      frame_transfer E _ _ _ _ _ s5 (by rw [c5]; exact hopen)
        (by rw [o5]; exact secure_opcodes.1) (by decide) (by decide),
      frame_transfer E _ _ _ _ _ s6 (by rw [c6]; exact hopen)
        (by rw [o6]; exact secure_opcodes.1) (by decide) (by decide)⟩
  · intro h0 h1
    rw [sv_send0_command_set_bad_role E w h0 h1, sv_report0_command_set_bad_role E w h0 h1,
      sv_send2_command_set_bad_role E w h0 h1]
    exact ⟨rfl, rfl, rfl⟩
  · intro hm
    rw [sv_udata_command_set_bad_mode E w hm]

/-- Witness of C39: the send0 frame of the test session on the big-endian test host, whose
device opens. -/
theorem C39_size_field_round_trip_witness :
    ((test_world_keys.sv_auth.m_auth_mode = AUTH_MODE_SUPER ∨
        test_world_keys.sv_auth.m_auth_mode = AUTH_MODE_USER) ∧
      0 ≤ test_env.open_fd test_world_keys.open_calls) ∧
    size_round_trip test_env.big_endian
      (sv_send0_command_set test_env test_world_keys).2.packet_buffer 0x24 0x1C 0x1D ∧
    sends_with_length test_env (sv_send0_command_set test_env test_world_keys).2
      (if test_env.big_endian then 0x14 else 0x24 * 256 - 0x10) :=
  have ho : 0 ≤ test_env.open_fd test_world_keys.open_calls := by decide
  have h := (C39_size_field_round_trip test_env test_world_keys 0 0 0).1 (Or.inl rfl)
  ⟨⟨Or.inl rfl, ho⟩, h.1, (h.2.2.2 ho).1⟩
end SvAuth
